import Mathlib

/-!
# ESP-IDF Ethernet MAC drivers: DM9051 (SPI) and ESP32 EMAC (DMA)

A shallow embedding of `components/esp_eth/src/esp_eth_mac_dm9051.c` and
`components/esp_eth/src/esp_eth_mac_esp.c`.

* Machine integers are `Nat` with an explicit `% 2^w` where the C code stores into a
  narrower type.
* Everything outside the driver (SPI bus, lock, timer, heap, mediator, HAL) is an
  environment: a record of transition functions over an arbitrary state `σ`.
  Every call into the environment is appended to a trace.
* `ESP_GOTO_ON_ERROR` / `ESP_GOTO_ON_FALSE` are the jump to the `err:` label: a block
  either falls through with a value or has jumped with `ret` set.
-/

set_option autoImplicit false

/-! ## Error codes and registers -/

/-- The `esp_err_t` values the two drivers return. -/
inductive esp_err_t
  | ESP_OK
  | ESP_FAIL
  | ESP_ERR_NO_MEM
  | ESP_ERR_INVALID_ARG
  | ESP_ERR_INVALID_STATE
  | ESP_ERR_INVALID_SIZE
  | ESP_ERR_TIMEOUT
  | ESP_ERR_INVALID_VERSION
  deriving DecidableEq, Repr

open esp_err_t

/-- Constants of `dm9051.h`, a header that is not among the sources: SPI opcodes, register
addresses and bit masks are parameters of the embedding. All of them are 8-bit values. -/
structure dm9051_h where
  DM9051_SPI_RD : Nat
  DM9051_SPI_WR : Nat
  DM9051_TCR : Nat
  DM9051_RCR : Nat
  DM9051_EPCR : Nat
  DM9051_EPAR : Nat
  DM9051_EPDRL : Nat
  DM9051_EPDRH : Nat
  DM9051_MPTRCR : Nat
  DM9051_MRCMDX : Nat
  DM9051_MRCMDX1 : Nat
  DM9051_MRCMD : Nat
  DM9051_MRRL : Nat
  DM9051_MRRH : Nat
  DM9051_MWCMD : Nat
  DM9051_TXPLL : Nat
  DM9051_TXPLH : Nat
  DM9051_ISR : Nat
  DM9051_IMR : Nat
  TCR_TXREQ : Nat
  RCR_RXEN : Nat
  EPCR_EPOS : Nat
  EPCR_ERPRW : Nat
  EPCR_ERRE : Nat
  MPTRCR_RST_RX : Nat
  MPTRCR_RST_TX : Nat
  ISR_PR : Nat
  ISR_CLR_STATUS : Nat
  IMR_PAR : Nat
  IMR_PRI : Nat
  DM9051_BPTR : Nat
  DM9051_FCTR : Nat
  DM9051_FCR : Nat
  FCR_FLOW_ENABLE : Nat
  DM9051_NCR : Nat
  DM9051_NSR : Nat
  DM9051_WCR : Nat
  DM9051_PAR : Nat
  DM9051_MAR : Nat
  DM9051_GPR : Nat
  DM9051_VIDL : Nat
  DM9051_VIDH : Nat
  DM9051_PIDL : Nat
  DM9051_PIDH : Nat
  DM9051_TCR2 : Nat
  DM9051_ATCR : Nat
  DM9051_TCSCR : Nat
  DM9051_RCSCSR : Nat
  DM9051_INTCR : Nat
  DM9051_INTCKCR : Nat
  DM9051_RLENCR : Nat
  DM9051_MEMSCR : Nat
  DM9051_BCASTCR : Nat
  NCR_RST : Nat
  NSR_WAKEST : Nat
  NSR_TX2END : Nat
  NSR_TX1END : Nat
  RCR_DIS_LONG : Nat
  RCR_DIS_CRC : Nat
  RCR_ALL_MCAST : Nat
  RCR_PRMSC : Nat
  TCR2_RLCP : Nat
  ATCR_AUTO_TX : Nat
  TCSCR_IPCSE : Nat
  TCSCR_TCPCSE : Nat
  TCSCR_UDPCSE : Nat
  deriving DecidableEq, Repr

/-- Modelled from the spec: `ETH_MAX_PACKET_SIZE` of `esp_eth_com.h` (not among the sources),
the maximum frame size of 1522 bytes that `dm9051_setup_default` documents for `RCR_DIS_LONG`. -/
def ETH_MAX_PACKET_SIZE : Nat := 1522

/-- Modelled from the spec: `ETH_MIN_PACKET_SIZE` of `esp_eth_com.h` (not among the sources),
the minimum frame size of 64 bytes (runt packets are those below 64 bytes). -/
def ETH_MIN_PACKET_SIZE : Nat := 64

/-- Modelled from the spec: `ETH_CRC_LEN` of `esp_eth_com.h` (not among the sources),
the 4 bytes of the trailing CRC. -/
def ETH_CRC_LEN : Nat := 4

def DM9051_SPI_LOCK_TIMEOUT_MS : Nat := 50
def DM9051_PHY_OPERATION_TIMEOUT_US : Nat := 1000
def DM9051_RX_MEM_START_ADDR : Nat := 3072
def DM9051_RX_MEM_MAX_SIZE : Nat := 16384
def DM9051_RX_HDR_SIZE : Nat := 4
def DM9051_ETH_MAC_RX_BUF_SIZE_AUTO : Nat := 0

/-- Value of `a & ~m` on machine words: the bits of `m` are cleared in `a`. -/
def andNot (a m : Nat) : Nat := a ^^^ (a &&& m)

/-! ## Data -/

/-- The header `dm9051_alloc_recv_buf` overlays on the start of a receive buffer. -/
structure dm9051_auto_buf_info_t where
  copy_len : Nat
  byte_cnt : Nat
  deriving DecidableEq, Repr

/-- A block obtained from `malloc`: the requested size, the two words the driver overlays
at offset 0 through a `dm9051_auto_buf_info_t *`, and the bytes stored by `memcpy`. -/
structure heap_block where
  size : Nat
  info : dm9051_auto_buf_info_t
  data : List Nat
  deriving DecidableEq, Repr

/-- The four bytes in front of every frame in RX memory. -/
structure dm9051_rx_header_t where
  flag : Nat
  status : Nat
  length_low : Nat
  length_high : Nat
  deriving DecidableEq, Repr

/-- One SPI transaction: opcode, register address, length in bits and the bytes sent
(`tx_data[0]` or the contents of `tx_buffer`). -/
structure spi_transaction_t where
  cmd : Nat
  addr : Nat
  length : Nat
  tx : List Nat
  deriving DecidableEq, Repr

/-- The fields of `emac_dm9051_t` the driver code reads or writes. -/
structure emac_dm9051_t where
  sw_reset_timeout_ms : Nat
  int_gpio_num : Int
  addr : List Nat
  packets_remain : Bool
  flow_ctrl_enabled : Bool
  rx_buffer : List Nat
  deriving DecidableEq, Repr

/-- The values of `gpio_mode_t` (`hal/gpio_types.h`, not among the sources) the drivers use. -/
inductive gpio_mode_t
  | GPIO_MODE_INPUT
  | GPIO_MODE_OUTPUT
  | GPIO_MODE_INPUT_OUTPUT
  deriving DecidableEq, Repr

/-- The signals of the GPIO matrix (`soc/gpio_sig_map.h`, not among the sources) the ESP32
EMAC driver connects. -/
inductive gpio_signal_t
  | EMAC_MDC_O_IDX
  | EMAC_MDO_O_IDX
  | EMAC_MDI_I_IDX
  deriving DecidableEq, Repr

/-- The states of `esp_eth_state_t` (`esp_eth_com.h`, not among the sources) the two MAC
drivers announce. -/
inductive esp_eth_state_t
  | ETH_STATE_LLINIT
  | ETH_STATE_DEINIT
  deriving DecidableEq, Repr

/-- The calls of the environment that only the constructor of the ESP32 EMAC makes. -/
inductive NewEv
  | calloc (size : Nat)
  | heap_caps_calloc (size : Nat)
  /-- The call `free(ptr)` of the constructor of the ESP32 EMAC, for the number of the block
  (`none` is `NULL`). -/
  | free_ptr (ptr : Option Nat)
  | esp_pm_lock_create
  | esp_pm_lock_delete (handle : Nat)
  | cpu_hal_get_core_id
  | xTaskCreatePinnedToCore (stack_size prio : Nat) (core : Int)
  | vTaskDelete (handle : Nat)
  | periph_module_enable
  | emac_hal_init (descriptors : Option Nat) (rx_buf tx_buf : List (Option Nat))
  /-- The call `esp_intr_alloc(ETS_ETH_MAC_INTR_SOURCE, flags, ...)`; `iram` is whether the
  flags are `ESP_INTR_FLAG_IRAM`, they are 0 otherwise. -/
  | esp_intr_alloc (iram : Bool)
  | esp_intr_free (handle : Nat)
  | emac_hal_iomux_init_mii
  | emac_ll_clock_enable_mii
  | emac_hal_iomux_init_rmii
  | emac_hal_iomux_rmii_clk_input
  | emac_ll_clock_enable_rmii_input
  | emac_hal_iomux_rmii_clk_ouput (gpio : Int)
  /-- The statement `REG_SET_FIELD(PIN_CTRL, CLK_OUT1, 6)`. -/
  | REG_SET_FIELD_PIN_CTRL_CLK_OUT1 (value : Nat)
  | emac_ll_clock_enable_rmii_output
  | rtc_clk_xtal_freq_get
  /-- The call `rtc_clk_apll_enable(true, sdm0, sdm1, sdm2, o_div)`. -/
  | rtc_clk_apll_enable (sdm0 sdm1 sdm2 o_div : Nat)
  deriving DecidableEq, Repr

/-- A call the driver makes into its environment. -/
inductive Ev
  | xSemaphoreTake (ms : Nat)
  | xSemaphoreGive
  | spi_device_polling_transmit (t : spi_transaction_t)
  | esp_timer_get_time
  | esp_rom_delay_us (us : Nat)
  | malloc (size : Nat)
  | free (buf : heap_block)
  | stack_input (buf : heap_block) (len : Nat)
  | emac_ll_is_mii_busy
  | emac_ll_set_phy_data (v : Nat)
  | emac_hal_set_phy_cmd (phy_addr phy_reg : Nat) (write : Bool)
  | emac_ll_get_phy_data
  | emac_hal_alloc_recv_buf
  | emac_hal_receive_frame (buf : heap_block) (size : Nat)
  | emac_hal_flush_recv_frame
  | emac_ll_pause_frame_enable (enable : Bool)
  | emac_hal_enable_flow_ctrl (enable : Bool)
  /-- The call `vTaskDelay(pdMS_TO_TICKS(ms))`. -/
  | vTaskDelay (ms : Nat)
  | esp_rom_gpio_pad_select_gpio (gpio_num : Int)
  | gpio_set_direction (gpio_num : Int) (mode : gpio_mode_t)
  /-- The call `gpio_set_pull_mode(gpio_num, GPIO_PULLDOWN_ONLY)`. -/
  | gpio_set_pull_mode (gpio_num : Int)
  /-- The call `gpio_set_intr_type(gpio_num, GPIO_INTR_POSEDGE)`. -/
  | gpio_set_intr_type (gpio_num : Int)
  | gpio_intr_enable (gpio_num : Int)
  | gpio_isr_handler_add (gpio_num : Int)
  | gpio_isr_handler_remove (gpio_num : Int)
  | gpio_reset_pin (gpio_num : Int)
  | esp_rom_gpio_connect_out_signal (gpio_num : Int) (signal : gpio_signal_t)
  | esp_rom_gpio_connect_in_signal (gpio_num : Int) (signal : gpio_signal_t)
  | gpio_hal_iomux_func_sel (gpio_num : Int)
  | on_state_changed (state : esp_eth_state_t)
  | emac_ll_reset
  | emac_ll_is_reset_done
  | esp_clk_apb_freq
  | emac_hal_set_csr_clock_range (freq : Nat)
  | emac_hal_init_mac_default
  | emac_hal_init_dma_default
  | esp_read_mac
  | emac_hal_set_address (addr : List Nat)
  | esp_pm_lock_acquire
  | periph_module_disable
  | emac_hal_stop
  /-- A call the constructor of the ESP32 EMAC makes. -/
  | new_esp32 (call : NewEv)
  deriving DecidableEq, Repr

/-- The environment of the DM9051 driver over a state `σ`: FreeRTOS lock, SPI master,
timer, heap and the mediator of the layer above. -/
structure Dm9051Env (σ : Type) where
  /-- Whether `xSemaphoreTake(spi_lock, 50 ms)` returned `pdTRUE`. -/
  xSemaphoreTake : σ → Bool × σ
  xSemaphoreGive : σ → σ
  /-- The bytes received, or `none` when the transfer did not return `ESP_OK`. -/
  spi_device_polling_transmit : spi_transaction_t → σ → Option (List Nat) × σ
  esp_timer_get_time : σ → Int × σ
  esp_rom_delay_us : Nat → σ → σ
  /-- Whether `malloc` returned a block. -/
  malloc : Nat → σ → Bool × σ
  free : heap_block → σ → σ
  stack_input : heap_block → Nat → σ → esp_err_t × σ
  /-- The reaction to a call whose result the driver does not use: `vTaskDelay` and the
  calls of the GPIO driver. -/
  effect : Ev → σ → σ
  /-- The callback `on_state_changed` of the mediator. -/
  on_state_changed : esp_eth_state_t → σ → esp_err_t × σ

/-- The driver object, the state of the environment, and the calls made so far. -/
structure World (ε σ : Type) where
  emac : ε
  dev : σ
  trace : List Ev

/-- A C function: runs on a world and returns its results. -/
def Fn (ε σ α : Type) : Type := World ε σ → α × World ε σ

/-- A block of a function body: it falls through with a value (`ok`) or has jumped to the
`err:` label with `ret` set (`error ret`). -/
def Blk (ε σ α : Type) : Type := World ε σ → Except esp_err_t α × World ε σ

def Blk.pure {ε σ α : Type} (a : α) : Blk ε σ α := fun w => (Except.ok a, w)

def Blk.bind {ε σ α β : Type} (m : Blk ε σ α) (f : α → Blk ε σ β) : Blk ε σ β := fun w =>
  match m w with
  | (Except.ok a, w1) => f a w1
  | (Except.error e, w1) => (Except.error e, w1)

instance (ε σ : Type) : Monad (Blk ε σ) where
  pure := Blk.pure
  bind := Blk.bind

/-- The statement `goto err` with `ret` set. -/
def goto_err {ε σ α : Type} (ret : esp_err_t) : Blk ε σ α := fun w => (Except.error ret, w)

/-- Run a function inside a block. -/
def call {ε σ α : Type} (f : Fn ε σ α) : Blk ε σ α := fun w =>
  match f w with
  | (a, w1) => (Except.ok a, w1)

/-- The macro `ESP_GOTO_ON_ERROR(x, err, ...)`: `ret = x; if (ret != ESP_OK) goto err;`. -/
def ESP_GOTO_ON_ERROR {ε σ : Type} (x : Fn ε σ esp_err_t) : Blk ε σ Unit := fun w =>
  match x w with
  | (ESP_OK, w1) => (Except.ok (), w1)
  | (ret, w1) => (Except.error ret, w1)

/-- The macro `ESP_GOTO_ON_ERROR` around a call with an output parameter: the output is
available after the call when it returned `ESP_OK`. -/
def ESP_GOTO_ON_ERROR_out {ε σ α : Type} (x : Fn ε σ (esp_err_t × α)) : Blk ε σ α := fun w =>
  match x w with
  | ((ESP_OK, a), w1) => (Except.ok a, w1)
  | ((ret, _), w1) => (Except.error ret, w1)

/-- The macro `ESP_GOTO_ON_FALSE(a, err_code, err, ...)`. -/
def ESP_GOTO_ON_FALSE {ε σ : Type} (a : Bool) (err_code : esp_err_t) : Blk ε σ Unit :=
  if a then Blk.pure () else goto_err err_code

/-- Function exit for `... return ESP_OK; err: return ret;`. -/
def Blk.ret {ε σ : Type} (b : Blk ε σ Unit) : Fn ε σ esp_err_t := fun w =>
  match b w with
  | (Except.ok _, w1) => (ESP_OK, w1)
  | (Except.error ret, w1) => (ret, w1)

/-- Record a call in the trace and let the environment react. -/
def emit {ε σ α : Type} (ev : Ev) (react : σ → α × σ) : Fn ε σ α := fun w =>
  match react w.dev with
  | (a, d) => (a, { w with dev := d, trace := w.trace ++ [ev] })

/-! ## DM9051: bus primitives -/

section dm9051
variable {σ : Type} (c : dm9051_h) (env : Dm9051Env σ)

def dm9051_lock : Fn emac_dm9051_t σ Bool :=
  emit (Ev.xSemaphoreTake DM9051_SPI_LOCK_TIMEOUT_MS) env.xSemaphoreTake

def dm9051_unlock : Fn emac_dm9051_t σ Unit :=
  emit Ev.xSemaphoreGive (fun d => ((), env.xSemaphoreGive d))

def spi_device_polling_transmit (t : spi_transaction_t) : Fn emac_dm9051_t σ (Option (List Nat)) :=
  emit (Ev.spi_device_polling_transmit t) (env.spi_device_polling_transmit t)

/-- The body shared by the five bus primitives: take the lock, run the transaction, give
the lock back. Returns `ret` and the received bytes of a successful transfer. -/
def dm9051_transfer (trans : spi_transaction_t) : Fn emac_dm9051_t σ (esp_err_t × Option (List Nat)) :=
  fun w =>
  match dm9051_lock env w with
  | (true, w1) =>
    match spi_device_polling_transmit env trans w1 with
    | (none, w2) => ((ESP_FAIL, none), (dm9051_unlock env w2).2)
    | (some rx, w2) => ((ESP_OK, some rx), (dm9051_unlock env w2).2)
  | (false, w1) => ((ESP_ERR_TIMEOUT, none), w1)

/-- Write value to dm9051 internal register. -/
def dm9051_register_write (reg_addr value : Nat) : Fn emac_dm9051_t σ esp_err_t := fun w =>
  match dm9051_transfer env
      { cmd := c.DM9051_SPI_WR, addr := reg_addr, length := 8, tx := [value] } w with
  | ((ret, _), w1) => (ret, w1)

/-- Read value from dm9051 internal register; `value` is the content of the output byte
before the call, the second result its content after the call. -/
def dm9051_register_read (reg_addr value : Nat) : Fn emac_dm9051_t σ (esp_err_t × Nat) := fun w =>
  match dm9051_transfer env
      { cmd := c.DM9051_SPI_RD, addr := reg_addr, length := 8, tx := [] } w with
  | ((ret, some rx), w1) => ((ret, rx.headD 0 % 256), w1)
  | ((ret, none), w1) => ((ret, value), w1)

/-- Write buffer to dm9051 internal memory. -/
def dm9051_memory_write (buffer : List Nat) (len : Nat) : Fn emac_dm9051_t σ esp_err_t := fun w =>
  match dm9051_transfer env
      { cmd := c.DM9051_SPI_WR, addr := c.DM9051_MWCMD, length := len * 8, tx := buffer.take len } w with
  | ((ret, _), w1) => (ret, w1)

/-- The `len` bytes a block read stores at the start of `buffer`; the rest of the buffer
keeps its content. This is the C store for `len` up to the length of `buffer`, the size of
the block behind the pointer; a longer read writes past the end of the block in C, and the
list is then not the content of that block. -/
def rx_store (buffer rx : List Nat) (len : Nat) : List Nat :=
  (List.range len).map (fun i => rx.getD i 0 % 256) ++ buffer.drop len

/-- Read buffer from dm9051 internal memory; returns `ret` and the buffer content after
the call. -/
def dm9051_memory_read (buffer : List Nat) (len : Nat) : Fn emac_dm9051_t σ (esp_err_t × List Nat) :=
  fun w =>
  match dm9051_transfer env
      { cmd := c.DM9051_SPI_RD, addr := c.DM9051_MRCMD, length := len * 8, tx := [] } w with
  | ((ret, some rx), w1) => ((ret, rx_store buffer rx len), w1)
  | ((ret, none), w1) => ((ret, buffer), w1)

/-- Peek buffer from dm9051 internal memory (without internal cursor moved). -/
def dm9051_memory_peek (buffer : List Nat) (len : Nat) : Fn emac_dm9051_t σ (esp_err_t × List Nat) :=
  fun w =>
  match dm9051_transfer env
      { cmd := c.DM9051_SPI_RD, addr := c.DM9051_MRCMDX1, length := len * 8, tx := [] } w with
  | ((ret, some rx), w1) => ((ret, rx_store buffer rx len), w1)
  | ((ret, none), w1) => ((ret, buffer), w1)

/-! ## DM9051: start, stop, receive path -/

/-- Start dm9051: enable interrupt and start receive. -/
def emac_dm9051_start : Fn emac_dm9051_t σ esp_err_t := Blk.ret do
  /- reset tx and rx memory pointer -/
  ESP_GOTO_ON_ERROR (dm9051_register_write c env c.DM9051_MPTRCR (c.MPTRCR_RST_RX ||| c.MPTRCR_RST_TX))
  /- clear interrupt status -/
  ESP_GOTO_ON_ERROR (dm9051_register_write c env c.DM9051_ISR c.ISR_CLR_STATUS)
  /- enable only Rx related interrupts -/
  ESP_GOTO_ON_ERROR (dm9051_register_write c env c.DM9051_IMR (c.IMR_PAR ||| c.IMR_PRI))
  /- enable rx -/
  let rcr ← ESP_GOTO_ON_ERROR_out (dm9051_register_read c env c.DM9051_RCR 0)
  let rcr := (rcr ||| c.RCR_RXEN) % 256
  ESP_GOTO_ON_ERROR (dm9051_register_write c env c.DM9051_RCR rcr)

/-- Stop dm9051: disable interrupt and stop receive. -/
def emac_dm9051_stop : Fn emac_dm9051_t σ esp_err_t := Blk.ret do
  /- disable interrupt -/
  ESP_GOTO_ON_ERROR (dm9051_register_write c env c.DM9051_IMR 0x00)
  /- disable rx -/
  let rcr ← ESP_GOTO_ON_ERROR_out (dm9051_register_read c env c.DM9051_RCR 0)
  let rcr := andNot rcr c.RCR_RXEN
  ESP_GOTO_ON_ERROR (dm9051_register_write c env c.DM9051_RCR rcr)

/-- The address `dm9051_skip_recv_frame` writes back for a read pointer `mrrh:mrrl` and a
frame of `rx_length` bytes, in `uint16_t` arithmetic. -/
def dm9051_skip_addr (mrrh mrrl rx_length : Nat) : Nat :=
  let addr := (mrrh <<< 8 ||| mrrl) % 65536
  /- include 4B for header -/
  let addr := (addr + rx_length + DM9051_RX_HDR_SIZE) % 65536
  if addr > DM9051_RX_MEM_MAX_SIZE then
    (addr - DM9051_RX_MEM_MAX_SIZE + DM9051_RX_MEM_START_ADDR) % 65536
  else addr

def dm9051_skip_recv_frame (rx_length : Nat) : Fn emac_dm9051_t σ esp_err_t := Blk.ret do
  let mrrh ← ESP_GOTO_ON_ERROR_out (dm9051_register_read c env c.DM9051_MRRH 0)
  let mrrl ← ESP_GOTO_ON_ERROR_out (dm9051_register_read c env c.DM9051_MRRL 0)
  let addr := dm9051_skip_addr mrrh mrrl rx_length
  ESP_GOTO_ON_ERROR (dm9051_register_write c env c.DM9051_MRRH (addr >>> 8))
  ESP_GOTO_ON_ERROR (dm9051_register_write c env c.DM9051_MRRL (addr &&& 0xFF))

def esp_rom_delay_us (us : Nat) : Fn emac_dm9051_t σ Unit :=
  emit (Ev.esp_rom_delay_us us) (fun d => ((), env.esp_rom_delay_us us d))

/-- The header struct filled from the four bytes of a peek. -/
def dm9051_rx_header_of (b : List Nat) : dm9051_rx_header_t :=
  { flag := b.getD 0 0, status := b.getD 1 0, length_low := b.getD 2 0, length_high := b.getD 3 0 }

/-- The body of `dm9051_get_recv_byte_count` after `*size = 0`: falls through with the
value of `*size`. The calls through `emac->parent.stop` and `emac->parent.start` are calls
of `emac_dm9051_stop` and `emac_dm9051_start`, to which `esp_eth_mac_new_dm9051` binds them. -/
def dm9051_get_recv_byte_count_body : Blk emac_dm9051_t σ Nat := do
  /- dummy read, get the most updated data -/
  let rxbyte ← ESP_GOTO_ON_ERROR_out (dm9051_register_read c env c.DM9051_MRCMDX 0)
  let rxbyte ← ESP_GOTO_ON_ERROR_out (dm9051_register_read c env c.DM9051_MRCMDX rxbyte)
  /- rxbyte must be 0xFF, 0 or 1 -/
  if rxbyte > 1 then
    ESP_GOTO_ON_ERROR (emac_dm9051_stop c env)
    /- reset rx fifo pointer -/
    ESP_GOTO_ON_ERROR (dm9051_register_write c env c.DM9051_MPTRCR c.MPTRCR_RST_RX)
    call (esp_rom_delay_us env 10)
    ESP_GOTO_ON_ERROR (emac_dm9051_start c env)
    goto_err ESP_FAIL
  else if rxbyte ≠ 0 then
    let header ← ESP_GOTO_ON_ERROR_out (dm9051_memory_peek c env [0, 0, 0, 0] 4)
    let header := dm9051_rx_header_of header
    let rx_len := (header.length_low + (header.length_high <<< 8)) % 65536
    if header.status &&& 0xBF ≠ 0 then
      /- erroneous frames should not be forwarded by DM9051, however, if it happens, just skip it -/
      let _ ← call (dm9051_skip_recv_frame c env rx_len)
      goto_err ESP_FAIL
    else
      pure rx_len
  else
    pure 0

/-- Returns `ret` and `*size`; `*size` is 0 on every path that jumps to `err:`. -/
def dm9051_get_recv_byte_count : Fn emac_dm9051_t σ (esp_err_t × Nat) := fun w =>
  match dm9051_get_recv_byte_count_body c env w with
  | (Except.ok size, w1) => ((ESP_OK, size), w1)
  | (Except.error ret, w1) => ((ret, 0), w1)

def dm9051_flush_recv_frame : Fn emac_dm9051_t σ esp_err_t := Blk.ret do
  let rx_len ← ESP_GOTO_ON_ERROR_out (dm9051_get_recv_byte_count c env)
  ESP_GOTO_ON_ERROR (dm9051_skip_recv_frame c env rx_len)

def malloc (size : Nat) : Fn emac_dm9051_t σ Bool :=
  emit (Ev.malloc size) (env.malloc size)

def free (buf : heap_block) : Fn emac_dm9051_t σ Unit :=
  emit (Ev.free buf) (fun d => ((), env.free buf d))

/-- Returns `ret`, `*buf` (`none` is `NULL`) and `*length`, for `*length = length` on entry. -/
def dm9051_alloc_recv_buf (length : Nat) : Fn emac_dm9051_t σ (esp_err_t × Option heap_block × Nat) :=
  fun w =>
  /- rx_len = 0; *buf = NULL -/
  match dm9051_get_recv_byte_count c env w with
  | ((ESP_OK, byte_count), w1) =>
    /- silently return when no frame is waiting -/
    if byte_count = 0 then ((ESP_OK, none, 0), w1)
    else
      /- do not include 4 bytes CRC at the end -/
      let rx_len := (byte_count + 65536 - ETH_CRC_LEN) % 65536
      /- frames larger than expected will be truncated -/
      let copy_len := (if rx_len > length then length else rx_len) % 65536
      /- runt frames are not forwarded, but check the length anyway -/
      if copy_len ≥ ETH_MIN_PACKET_SIZE - ETH_CRC_LEN then
        match malloc env copy_len w1 with
        | (true, w2) =>
          ((ESP_OK, some { size := copy_len, info := { copy_len := copy_len, byte_cnt := byte_count }, data := [] },
            rx_len), w2)
        | (false, w2) => ((ESP_ERR_NO_MEM, none, rx_len), w2)
      else ((ESP_ERR_INVALID_SIZE, none, rx_len), w1)
  | ((ret, _), w1) => ((ret, none, 0), w1)

/-- The call `memcpy(dst, src, n)` for a source that holds at least `n` bytes. -/
def memcpy (dst src : List Nat) (n : Nat) : List Nat := src.take n ++ dst.drop n

def set_packets_remain (b : Bool) : Fn emac_dm9051_t σ Unit := fun w =>
  ((), { w with emac := { w.emac with packets_remain := b } })

def set_rx_buffer (b : List Nat) : Fn emac_dm9051_t σ Unit := fun w =>
  ((), { w with emac := { w.emac with rx_buffer := b } })

/-- The block read of `emac_dm9051_receive` into `emac->rx_buffer`, a block of
`ETH_MAX_PACKET_SIZE + DM9051_RX_HDR_SIZE` = 1526 bytes (`heap_caps_malloc` in
`esp_eth_mac_new_dm9051`). The bus transfer of `len` bytes is the one of the C function for
every `len`; the content of `rx_buffer` after the call is the one of the C function for
`len` up to `rx_buffer.length`, a longer read overrunning the block in C. -/
def dm9051_memory_read_rx (len : Nat) : Fn emac_dm9051_t σ esp_err_t := fun w =>
  match dm9051_memory_read c env w.emac.rx_buffer len w with
  | ((ret, b), w1) => set_rx_buffer b w1 |>.2 |> fun w2 => (ret, w2)

/-- The part of `emac_dm9051_receive` that determines `copy_len` and `byte_count`. -/
def emac_dm9051_receive_len (buf : heap_block) (length : Nat) : Blk emac_dm9051_t σ (Option (Nat × Nat)) :=
  if length ≠ DM9051_ETH_MAC_RX_BUF_SIZE_AUTO then do
    let byte_count ← ESP_GOTO_ON_ERROR_out (dm9051_get_recv_byte_count c env)
    /- silently return when no frame is waiting -/
    if byte_count = 0 then pure none
    else
      /- do not include 4 bytes CRC at the end -/
      let rx_len := (byte_count + 65536 - ETH_CRC_LEN) % 65536
      /- frames larger than expected will be truncated -/
      let copy_len := (if rx_len > length then length else rx_len) % 65536
      pure (some (copy_len, byte_count))
  else
    pure (some (buf.info.copy_len % 65536, buf.info.byte_cnt % 65536))

/-- Returns `ret`, the buffer behind `buf` and `*length`, for `*length = length` on entry. -/
def emac_dm9051_receive (buf : heap_block) (length : Nat) :
    Fn emac_dm9051_t σ (esp_err_t × heap_block × Nat) := fun w =>
  match set_packets_remain false w with
  | (_, w0) =>
  match emac_dm9051_receive_len c env buf length w0 with
  | (Except.error ret, w1) => ((ret, buf, 0), w1)
  | (Except.ok none, w1) => ((ESP_OK, buf, 0), w1)
  | (Except.ok (some (copy_len, byte_count)), w1) =>
    let byte_count := (byte_count + DM9051_RX_HDR_SIZE) % 65536
    match dm9051_memory_read_rx c env byte_count w1 with
    | (ESP_OK, w2) =>
      let buf := { buf with data := memcpy buf.data (w2.emac.rx_buffer.drop DM9051_RX_HDR_SIZE) copy_len }
      /- *length = copy_len -/
      /- dummy read, get the most updated data -/
      match dm9051_register_read c env c.DM9051_MRCMDX 0 w2 with
      | ((ESP_OK, rxbyte), w3) =>
        /- check for remaing packets -/
        match dm9051_register_read c env c.DM9051_MRCMDX rxbyte w3 with
        | ((ESP_OK, rxbyte), w4) => ((ESP_OK, buf, copy_len), (set_packets_remain (decide (rxbyte > 0)) w4).2)
        | ((ret, _), w4) => ((ret, buf, 0), w4)
      | ((ret, _), w3) => ((ret, buf, 0), w3)
    | (ret, w2) => ((ret, buf, 0), w2)

def stack_input (buf : heap_block) (len : Nat) : Fn emac_dm9051_t σ esp_err_t :=
  emit (Ev.stack_input buf len) (env.stack_input buf len)

/-- One round of the `do { ... } while (emac->packets_remain)` loop of `emac_dm9051_task`.
The call through `emac->parent.receive` is a call of `emac_dm9051_receive`, to which
`esp_eth_mac_new_dm9051` binds it. -/
def emac_dm9051_task_round : Fn emac_dm9051_t σ Unit := fun w =>
  /- define max expected frame len -/
  match dm9051_alloc_recv_buf c env ETH_MAX_PACKET_SIZE w with
  | ((ESP_OK, some buffer, frame_len), w1) =>
    /- we have memory to receive the frame of maximal size previously defined -/
    match emac_dm9051_receive c env buffer DM9051_ETH_MAC_RX_BUF_SIZE_AUTO w1 with
    | ((ESP_OK, buffer, buf_len), w2) =>
      if buf_len = 0 then
        free env buffer (dm9051_flush_recv_frame c env w2).2
      else if frame_len > buf_len then
        free env buffer w2
      else
        /- pass the buffer to stack (e.g. TCP/IP layer) -/
        ((), (stack_input env buffer buf_len w2).2)
    | ((_, buffer, _), w2) =>
      free env buffer (dm9051_flush_recv_frame c env w2).2
  | ((ESP_OK, none, _), w1) => ((), w1)
  | ((ESP_ERR_NO_MEM, _, _), w1) => ((), (dm9051_flush_recv_frame c env w1).2)
  | (_, w1) => ((), w1)

/-- The loop `do { ... } while (emac->packets_remain)`; `none` when `fuel` rounds did not
end it. -/
def emac_dm9051_task_drain : Nat → World emac_dm9051_t σ → Option (World emac_dm9051_t σ)
  | 0, _ => none
  | fuel + 1, w =>
    match emac_dm9051_task_round c env w with
    | (_, w1) => if w1.emac.packets_remain then emac_dm9051_task_drain fuel w1 else some w1

/-! ## DM9051: transmit -/

def esp_timer_get_time : Fn emac_dm9051_t σ Int :=
  emit Ev.esp_timer_get_time env.esp_timer_get_time

/-- The loop `do { read TCR } while ((tcr & TCR_TXREQ) && (esp_timer_get_time() - wait_time) < 100)`
of `emac_dm9051_transmit`: falls through with `tcr` at loop exit, or with `none` when
`fuel` rounds did not end the loop. -/
def emac_dm9051_transmit_wait : Nat → Int → Nat → Blk emac_dm9051_t σ (Option Nat)
  | 0, _, _ => Blk.pure none
  | fuel + 1, wait_time, tcr => do
    let tcr ← ESP_GOTO_ON_ERROR_out (dm9051_register_read c env c.DM9051_TCR tcr)
    if tcr &&& c.TCR_TXREQ ≠ 0 then
      let now ← call (esp_timer_get_time env)
      if now - wait_time < 100 then emac_dm9051_transmit_wait fuel wait_time tcr
      else Blk.pure (some tcr)
    else Blk.pure (some tcr)

/-- The body of `emac_dm9051_transmit`: falls through with the value of an early `return`
or `ESP_OK`, and with `none` when the polling loop ran out of fuel. -/
def emac_dm9051_transmit_body (fuel : Nat) (buf : List Nat) (length : Nat) :
    Blk emac_dm9051_t σ (Option esp_err_t) := do
  /- Check if last transmit complete -/
  ESP_GOTO_ON_FALSE (decide (length ≤ ETH_MAX_PACKET_SIZE)) ESP_ERR_INVALID_ARG
  let wait_time ← call (esp_timer_get_time env)
  let r ← emac_dm9051_transmit_wait c env fuel wait_time 0
  match r with
  | none => Blk.pure none
  | some tcr =>
    if tcr &&& c.TCR_TXREQ ≠ 0 then
      /- last transmit still in progress, cannot send. -/
      Blk.pure (some ESP_ERR_INVALID_STATE)
    else do
      /- set tx length -/
      ESP_GOTO_ON_ERROR (dm9051_register_write c env c.DM9051_TXPLL (length &&& 0xFF))
      ESP_GOTO_ON_ERROR (dm9051_register_write c env c.DM9051_TXPLH ((length >>> 8) &&& 0xFF))
      /- copy data to tx memory -/
      ESP_GOTO_ON_ERROR (dm9051_memory_write c env buf length)
      /- issue tx polling command -/
      ESP_GOTO_ON_ERROR (dm9051_register_write c env c.DM9051_TCR c.TCR_TXREQ)
      Blk.pure (some ESP_OK)

/-- Returns `ret`, or `none` when `fuel` rounds of the polling loop did not end it. -/
def emac_dm9051_transmit (fuel : Nat) (buf : List Nat) (length : Nat) :
    Fn emac_dm9051_t σ (Option esp_err_t) := fun w =>
  match emac_dm9051_transmit_body c env fuel buf length w with
  | (Except.ok r, w1) => (r, w1)
  | (Except.error ret, w1) => (some ret, w1)

/-! ## DM9051: PHY registers -/

/-- The loop `do { esp_rom_delay_us(100); read EPCR; to += 100; } while ((epcr & EPCR_ERRE) && to < 1000)`
shared by the two PHY operations (`to_` is the local `to`): falls through with `epcr` at
loop exit. The loop ends
after at most `DM9051_PHY_OPERATION_TIMEOUT_US / 100` rounds, which the fuel exceeds. -/
def emac_dm9051_phy_poll : Nat → Nat → Nat → Blk emac_dm9051_t σ Nat
  | 0, _, epcr => Blk.pure epcr
  | fuel + 1, to_, epcr => do
    call (esp_rom_delay_us env 100)
    let epcr ← ESP_GOTO_ON_ERROR_out (dm9051_register_read c env c.DM9051_EPCR epcr)
    let to_ := (to_ + 100) % 4294967296
    if epcr &&& c.EPCR_ERRE ≠ 0 ∧ to_ < DM9051_PHY_OPERATION_TIMEOUT_US then
      emac_dm9051_phy_poll fuel to_ epcr
    else Blk.pure epcr

def emac_dm9051_write_phy_reg (phy_addr phy_reg reg_value : Nat) : Fn emac_dm9051_t σ esp_err_t :=
  Blk.ret do
  /- check if phy access is in progress -/
  let epcr ← ESP_GOTO_ON_ERROR_out (dm9051_register_read c env c.DM9051_EPCR 0)
  ESP_GOTO_ON_FALSE (decide (¬ (epcr &&& c.EPCR_ERRE ≠ 0))) ESP_ERR_INVALID_STATE
  ESP_GOTO_ON_ERROR (dm9051_register_write c env c.DM9051_EPAR ((((phy_addr <<< 6) &&& 0xFF) ||| phy_reg) % 256))
  ESP_GOTO_ON_ERROR (dm9051_register_write c env c.DM9051_EPDRL ((reg_value &&& 0xFF) % 256))
  ESP_GOTO_ON_ERROR (dm9051_register_write c env c.DM9051_EPDRH (((reg_value >>> 8) &&& 0xFF) % 256))
  /- select PHY and select write operation -/
  ESP_GOTO_ON_ERROR (dm9051_register_write c env c.DM9051_EPCR (c.EPCR_EPOS ||| c.EPCR_ERPRW))
  /- polling the busy flag -/
  let epcr ← emac_dm9051_phy_poll c env DM9051_PHY_OPERATION_TIMEOUT_US 0 epcr
  ESP_GOTO_ON_FALSE (decide (¬ (epcr &&& c.EPCR_ERRE ≠ 0))) ESP_ERR_TIMEOUT

/-- Returns `ret` and the content of `*reg_value` after the call; `reg_value` is `none` for
a null pointer and the content of the destination before the call otherwise. -/
def emac_dm9051_read_phy_reg (phy_addr phy_reg : Nat) (reg_value : Option Nat) :
    Fn emac_dm9051_t σ (esp_err_t × Option Nat) := fun w =>
  match (do
      ESP_GOTO_ON_FALSE reg_value.isSome ESP_ERR_INVALID_ARG
      /- check if phy access is in progress -/
      let epcr ← ESP_GOTO_ON_ERROR_out (dm9051_register_read c env c.DM9051_EPCR 0)
      ESP_GOTO_ON_FALSE (decide (¬ (epcr &&& 0x01 ≠ 0))) ESP_ERR_INVALID_STATE
      ESP_GOTO_ON_ERROR (dm9051_register_write c env c.DM9051_EPAR ((((phy_addr <<< 6) &&& 0xFF) ||| phy_reg) % 256))
      /- Select PHY and select read operation -/
      ESP_GOTO_ON_ERROR (dm9051_register_write c env c.DM9051_EPCR 0x0C)
      /- polling the busy flag -/
      let epcr ← emac_dm9051_phy_poll c env DM9051_PHY_OPERATION_TIMEOUT_US 0 epcr
      ESP_GOTO_ON_FALSE (decide (¬ (epcr &&& c.EPCR_ERRE ≠ 0))) ESP_ERR_TIMEOUT
      let value_h ← ESP_GOTO_ON_ERROR_out (dm9051_register_read c env c.DM9051_EPDRH 0)
      let value_l ← ESP_GOTO_ON_ERROR_out (dm9051_register_read c env c.DM9051_EPDRL 0)
      Blk.pure (((value_h <<< 8) ||| value_l) % 4294967296) : Blk emac_dm9051_t σ Nat) w with
  | (Except.ok v, w1) => ((ESP_OK, some v), w1)
  | (Except.error ret, w1) => ((ret, reg_value), w1)

/-! ### Flow control -/

def dm9051_enable_flow_ctrl (enable : Bool) : Fn emac_dm9051_t σ esp_err_t := Blk.ret do
  if enable then
    /- send jam pattern (duration time = 1.15ms) when rx free space < 3k bytes -/
    ESP_GOTO_ON_ERROR (dm9051_register_write c env c.DM9051_BPTR 0x3F)
    /- flow control: high water threshold = 3k bytes, low water threshold = 8k bytes -/
    ESP_GOTO_ON_ERROR (dm9051_register_write c env c.DM9051_FCTR 0x38)
    /- enable flow control -/
    ESP_GOTO_ON_ERROR (dm9051_register_write c env c.DM9051_FCR c.FCR_FLOW_ENABLE)
  else
    /- disable flow control -/
    ESP_GOTO_ON_ERROR (dm9051_register_write c env c.DM9051_FCR 0)

def emac_dm9051_enable_flow_ctrl (enable : Bool) : Fn emac_dm9051_t σ esp_err_t := fun w =>
  (ESP_OK, { w with emac := { w.emac with flow_ctrl_enabled := enable } })

/-- The result of `dm9051_enable_flow_ctrl` is not looked at; `ability` is a `uint32_t`. -/
def emac_dm9051_set_peer_pause_ability (ability : Nat) : Fn emac_dm9051_t σ esp_err_t := fun w =>
  /- we want to enable flow control, and peer does support pause function
     then configure the MAC layer to enable flow control feature -/
  if w.emac.flow_ctrl_enabled = true ∧ ability ≠ 0 then
    (ESP_OK, (dm9051_enable_flow_ctrl c env true w).2)
  else
    (ESP_OK, (dm9051_enable_flow_ctrl c env false w).2)

/-! ### Initialisation and the setters of the capability interface -/

/-- A call of the FreeRTOS delay or of the GPIO driver, whose result is not used. -/
def effect (ev : Ev) : Fn emac_dm9051_t σ Unit :=
  emit ev (fun d => ((), env.effect ev d))

def on_state_changed (state : esp_eth_state_t) : Fn emac_dm9051_t σ esp_err_t :=
  emit (Ev.on_state_changed state) (env.on_state_changed state)

def set_addr_byte (i value : Nat) : Fn emac_dm9051_t σ Unit := fun w =>
  ((), { w with emac := { w.emac with addr := w.emac.addr.set i value } })

/-- The loop `for (int i = 0; i < 6; i++)` of `dm9051_get_mac_addr`, from index `i` on; it
ends after at most six rounds, which the fuel exceeds. -/
def dm9051_get_mac_addr_loop : Nat → Nat → Blk emac_dm9051_t σ Unit
  | 0, _ => Blk.pure ()
  | fuel + 1, i =>
    if i < 6 then do
      let value ← ESP_GOTO_ON_ERROR_out
        (fun w => dm9051_register_read c env ((c.DM9051_PAR + i) % 256) (w.emac.addr.getD i 0) w)
      call (set_addr_byte i value)
      dm9051_get_mac_addr_loop fuel (i + 1)
    else Blk.pure ()

/-- Read mac address from internal registers. -/
def dm9051_get_mac_addr : Fn emac_dm9051_t σ esp_err_t :=
  Blk.ret (dm9051_get_mac_addr_loop c env 7 0)

/-- The loop `for (int i = 0; i < 6; i++)` of `dm9051_set_mac_addr`, from index `i` on. -/
def dm9051_set_mac_addr_loop : Nat → Nat → Blk emac_dm9051_t σ Unit
  | 0, _ => Blk.pure ()
  | fuel + 1, i =>
    if i < 6 then do
      ESP_GOTO_ON_ERROR
        (fun w => dm9051_register_write c env ((c.DM9051_PAR + i) % 256) (w.emac.addr.getD i 0 % 256) w)
      dm9051_set_mac_addr_loop fuel (i + 1)
    else Blk.pure ()

/-- Set new mac address to internal registers. -/
def dm9051_set_mac_addr : Fn emac_dm9051_t σ esp_err_t :=
  Blk.ret (dm9051_set_mac_addr_loop c env 7 0)

/-- The loop `for (int i = 0; i < 7; i++)` of `dm9051_clear_multicast_table`, from index `i` on. -/
def dm9051_clear_multicast_table_loop : Nat → Nat → Blk emac_dm9051_t σ Unit
  | 0, _ => Blk.pure ()
  | fuel + 1, i =>
    if i < 7 then do
      ESP_GOTO_ON_ERROR (dm9051_register_write c env ((c.DM9051_MAR + i) % 256) 0x00)
      dm9051_clear_multicast_table_loop fuel (i + 1)
    else Blk.pure ()

/-- Clear multicast hash table. -/
def dm9051_clear_multicast_table : Fn emac_dm9051_t σ esp_err_t := Blk.ret do
  /- rx broadcast packet control by bit7 of MAC register 1DH -/
  ESP_GOTO_ON_ERROR (dm9051_register_write c env c.DM9051_BCASTCR 0x00)
  dm9051_clear_multicast_table_loop c env 8 0
  /- enable receive broadcast paclets -/
  ESP_GOTO_ON_ERROR (dm9051_register_write c env ((c.DM9051_MAR + 7) % 256) 0x80)

/-- The loop `for (to = 0; to < emac->sw_reset_timeout_ms / 10; to++)` of `dm9051_reset`
(`to_` is the local `to`, `limit` is `emac->sw_reset_timeout_ms / 10`): falls through with
`to` at loop exit. The loop ends after at most `limit` rounds, which the fuel exceeds. -/
def dm9051_reset_wait (limit : Nat) : Nat → Nat → Nat → Blk emac_dm9051_t σ Nat
  | 0, to_, _ => Blk.pure to_
  | fuel + 1, to_, ncr =>
    if to_ < limit then do
      let ncr ← ESP_GOTO_ON_ERROR_out (dm9051_register_read c env c.DM9051_NCR ncr)
      if ¬ (ncr &&& c.NCR_RST ≠ 0) then Blk.pure to_
      else do
        call (effect env (Ev.vTaskDelay 10))
        dm9051_reset_wait limit fuel ((to_ + 1) % 4294967296) ncr
    else Blk.pure to_

/-- Software reset dm9051 internal register. -/
def dm9051_reset : Fn emac_dm9051_t σ esp_err_t := fun w => Blk.ret (do
  /- power on phy -/
  ESP_GOTO_ON_ERROR (dm9051_register_write c env c.DM9051_GPR 0x00)
  /- mac and phy register won't be accesable within at least 1ms -/
  call (effect env (Ev.vTaskDelay 10))
  /- software reset -/
  let ncr := c.NCR_RST % 256
  ESP_GOTO_ON_ERROR (dm9051_register_write c env c.DM9051_NCR ncr)
  let to_ ← dm9051_reset_wait c env (w.emac.sw_reset_timeout_ms / 10)
    (w.emac.sw_reset_timeout_ms / 10 + 1) 0 ncr
  ESP_GOTO_ON_FALSE (decide (to_ < w.emac.sw_reset_timeout_ms / 10)) ESP_ERR_TIMEOUT) w

/-- Verify dm9051 chip ID. -/
def dm9051_verify_id : Fn emac_dm9051_t σ esp_err_t := Blk.ret do
  let id0 ← ESP_GOTO_ON_ERROR_out (dm9051_register_read c env c.DM9051_VIDL 0)
  let id1 ← ESP_GOTO_ON_ERROR_out (dm9051_register_read c env c.DM9051_VIDH 0)
  ESP_GOTO_ON_FALSE (decide (0x0A = id1 ∧ 0x46 = id0)) ESP_ERR_INVALID_VERSION
  let id0 ← ESP_GOTO_ON_ERROR_out (dm9051_register_read c env c.DM9051_PIDL id0)
  let id1 ← ESP_GOTO_ON_ERROR_out (dm9051_register_read c env c.DM9051_PIDH id1)
  ESP_GOTO_ON_FALSE (decide (0x90 = id1 ∧ 0x51 = id0)) ESP_ERR_INVALID_VERSION

/-- Default setup for dm9051 internal registers. -/
def dm9051_setup_default : Fn emac_dm9051_t σ esp_err_t := Blk.ret do
  /- disable wakeup -/
  ESP_GOTO_ON_ERROR (dm9051_register_write c env c.DM9051_NCR 0x00)
  ESP_GOTO_ON_ERROR (dm9051_register_write c env c.DM9051_WCR 0x00)
  /- stop transmitting, enable appending pad, crc for packets -/
  ESP_GOTO_ON_ERROR (dm9051_register_write c env c.DM9051_TCR 0x00)
  /- stop receiving, no promiscuous mode, no runt packet(size < 64bytes), receive all multicast packets -/
  /- discard long packet(size > 1522bytes) and crc error packet, enable watchdog -/
  ESP_GOTO_ON_ERROR (dm9051_register_write c env c.DM9051_RCR
    (c.RCR_DIS_LONG ||| c.RCR_DIS_CRC ||| c.RCR_ALL_MCAST))
  /- retry late collision packet, at most two transmit command can be issued before transmit complete -/
  ESP_GOTO_ON_ERROR (dm9051_register_write c env c.DM9051_TCR2 c.TCR2_RLCP)
  /- enable auto transmit -/
  ESP_GOTO_ON_ERROR (dm9051_register_write c env c.DM9051_ATCR c.ATCR_AUTO_TX)
  /- generate checksum for UDP, TCP and IPv4 packets -/
  ESP_GOTO_ON_ERROR (dm9051_register_write c env c.DM9051_TCSCR
    (c.TCSCR_IPCSE ||| c.TCSCR_TCPCSE ||| c.TCSCR_UDPCSE))
  /- disable check sum for receive packets -/
  ESP_GOTO_ON_ERROR (dm9051_register_write c env c.DM9051_RCSCSR 0x00)
  /- interrupt pin config: push-pull output, active high -/
  ESP_GOTO_ON_ERROR (dm9051_register_write c env c.DM9051_INTCR 0x00)
  ESP_GOTO_ON_ERROR (dm9051_register_write c env c.DM9051_INTCKCR 0x00)
  /- no length limitation for rx packets -/
  ESP_GOTO_ON_ERROR (dm9051_register_write c env c.DM9051_RLENCR 0x00)
  /- 3K-byte for TX and 13K-byte for RX -/
  ESP_GOTO_ON_ERROR (dm9051_register_write c env c.DM9051_MEMSCR 0x00)
  /- clear network status: wakeup event, tx complete -/
  ESP_GOTO_ON_ERROR (dm9051_register_write c env c.DM9051_NSR
    (c.NSR_WAKEST ||| c.NSR_TX2END ||| c.NSR_TX1END))

/-- The statements of `emac_dm9051_init` in front of the first jump to `err`: the
configuration of the interrupt pin. -/
def emac_dm9051_init_gpio : Fn emac_dm9051_t σ Unit := fun w =>
  let n := w.emac.int_gpio_num
  match effect env (Ev.esp_rom_gpio_pad_select_gpio n) w with
  | (_, w) =>
  match effect env (Ev.gpio_set_direction n gpio_mode_t.GPIO_MODE_INPUT) w with
  | (_, w) =>
  match effect env (Ev.gpio_set_pull_mode n) w with
  | (_, w) =>
  match effect env (Ev.gpio_set_intr_type n) w with
  | (_, w) =>
  match effect env (Ev.gpio_intr_enable n) w with
  | (_, w) => effect env (Ev.gpio_isr_handler_add n) w

/-- The statements of `emac_dm9051_init` from `ESP_GOTO_ON_ERROR(eth->on_state_changed(...))`
to `return ESP_OK`. -/
def emac_dm9051_init_body : Blk emac_dm9051_t σ Unit := do
  ESP_GOTO_ON_ERROR (on_state_changed env esp_eth_state_t.ETH_STATE_LLINIT)
  /- reset dm9051 -/
  ESP_GOTO_ON_ERROR (dm9051_reset c env)
  /- verify chip id -/
  ESP_GOTO_ON_ERROR (dm9051_verify_id c env)
  /- default setup of internal registers -/
  ESP_GOTO_ON_ERROR (dm9051_setup_default c env)
  /- clear multicast hash table -/
  ESP_GOTO_ON_ERROR (dm9051_clear_multicast_table c env)
  /- get emac address from eeprom -/
  ESP_GOTO_ON_ERROR (dm9051_get_mac_addr c env)

/-- The statements under the label `err` of `emac_dm9051_init`, in front of `return ret`. -/
def emac_dm9051_init_err : Fn emac_dm9051_t σ Unit := fun w =>
  match effect env (Ev.gpio_isr_handler_remove w.emac.int_gpio_num) w with
  | (_, w) =>
  match effect env (Ev.gpio_reset_pin w.emac.int_gpio_num) w with
  | (_, w) => ((), (on_state_changed env esp_eth_state_t.ETH_STATE_DEINIT w).2)

def emac_dm9051_init : Fn emac_dm9051_t σ esp_err_t := fun w =>
  match emac_dm9051_init_body c env (emac_dm9051_init_gpio env w).2 with
  | (Except.ok _, w1) => (ESP_OK, w1)
  | (Except.error ret, w1) => (ret, (emac_dm9051_init_err env w1).2)

end dm9051

/-! ## ESP32 EMAC -/

def PHY_OPERATION_TIMEOUT_US : Nat := 1000
def EMAC_HAL_BUF_SIZE_AUTO : Nat := 0

/-- The fields of `emac_esp32_t` the driver code reads or writes. -/
structure emac_esp32_t where
  sw_reset_timeout_ms : Nat
  smi_mdc_gpio_num : Int
  smi_mdio_gpio_num : Int
  addr : List Nat
  frames_remain : Nat
  free_rx_descriptor : Nat
  flow_control_high_water_mark : Nat
  flow_control_low_water_mark : Nat
  flow_ctrl_enabled : Bool
  do_flow_ctrl : Bool
  deriving DecidableEq, Repr

/-- The environment of the ESP32 EMAC driver over a state `σ`: the HAL and LL functions of
`hal/emac_hal.h` and `hal/emac_ll.h` (not among the sources), the heap and the mediator. -/
structure Esp32Env (σ : Type) where
  emac_ll_is_mii_busy : σ → Bool × σ
  emac_ll_set_phy_data : Nat → σ → σ
  emac_hal_set_phy_cmd : Nat → Nat → Bool → σ → σ
  emac_ll_get_phy_data : σ → Nat × σ
  esp_rom_delay_us : Nat → σ → σ
  /-- The buffer returned (`none` is `NULL`) and the value left in `*size`. -/
  emac_hal_alloc_recv_buf : σ → (Option heap_block × Nat) × σ
  /-- For the buffer, the size and the values of `*frames_remain` and `*free_desc` before
  the call: the length returned, the buffer and the two counters after the call. -/
  emac_hal_receive_frame : heap_block → Nat → Nat → Nat → σ → (Nat × heap_block × Nat × Nat) × σ
  /-- For the values of `*frames_remain` and `*free_desc` before the call: their values
  after the call. -/
  emac_hal_flush_recv_frame : Nat → Nat → σ → (Nat × Nat) × σ
  emac_ll_pause_frame_enable : Bool → σ → σ
  emac_hal_enable_flow_ctrl : Bool → σ → σ
  free : heap_block → σ → σ
  stack_input : heap_block → Nat → σ → esp_err_t × σ

section esp32
variable {σ : Type} (hal : Esp32Env σ)

def emac_ll_is_mii_busy : Fn emac_esp32_t σ Bool :=
  emit Ev.emac_ll_is_mii_busy hal.emac_ll_is_mii_busy

def emac_ll_set_phy_data (v : Nat) : Fn emac_esp32_t σ Unit :=
  emit (Ev.emac_ll_set_phy_data v) (fun d => ((), hal.emac_ll_set_phy_data v d))

def emac_hal_set_phy_cmd (phy_addr phy_reg : Nat) (write : Bool) : Fn emac_esp32_t σ Unit :=
  emit (Ev.emac_hal_set_phy_cmd phy_addr phy_reg write)
    (fun d => ((), hal.emac_hal_set_phy_cmd phy_addr phy_reg write d))

def emac_ll_get_phy_data : Fn emac_esp32_t σ Nat :=
  emit Ev.emac_ll_get_phy_data hal.emac_ll_get_phy_data

def esp32_rom_delay_us (us : Nat) : Fn emac_esp32_t σ Unit :=
  emit (Ev.esp_rom_delay_us us) (fun d => ((), hal.esp_rom_delay_us us d))

/-- The loop `do { esp_rom_delay_us(100); busy = emac_ll_is_mii_busy(); to += 100; } while (busy && to < 1000)`
shared by the two PHY operations (`to_` is the local `to`): returns `busy` at loop exit. The loop ends after at
most `PHY_OPERATION_TIMEOUT_US / 100` rounds, which the fuel exceeds. -/
def emac_esp32_phy_poll : Nat → Nat → Bool → Fn emac_esp32_t σ Bool
  | 0, _, busy => fun w => (busy, w)
  | fuel + 1, to_, _ => fun w =>
    match esp32_rom_delay_us hal 100 w with
    | (_, w1) =>
      match emac_ll_is_mii_busy hal w1 with
      | (busy, w2) =>
        let to_ := (to_ + 100) % 4294967296
        if busy = true ∧ to_ < PHY_OPERATION_TIMEOUT_US then emac_esp32_phy_poll fuel to_ busy w2
        else (busy, w2)

def emac_esp32_write_phy_reg (phy_addr phy_reg reg_value : Nat) : Fn emac_esp32_t σ esp_err_t :=
  Blk.ret do
  let busy ← call (emac_ll_is_mii_busy hal)
  ESP_GOTO_ON_FALSE (!busy) ESP_ERR_INVALID_STATE
  call (emac_ll_set_phy_data hal reg_value)
  call (emac_hal_set_phy_cmd hal phy_addr phy_reg true)
  /- polling the busy flag -/
  let busy ← call (emac_esp32_phy_poll hal PHY_OPERATION_TIMEOUT_US 0 true)
  ESP_GOTO_ON_FALSE (!busy) ESP_ERR_TIMEOUT

/-- Returns `ret` and the content of `*reg_value` after the call; `reg_value` is `none` for
a null pointer and the content of the destination before the call otherwise. -/
def emac_esp32_read_phy_reg (phy_addr phy_reg : Nat) (reg_value : Option Nat) :
    Fn emac_esp32_t σ (esp_err_t × Option Nat) := fun w =>
  match (do
      ESP_GOTO_ON_FALSE reg_value.isSome ESP_ERR_INVALID_ARG
      let busy ← call (emac_ll_is_mii_busy hal)
      ESP_GOTO_ON_FALSE (!busy) ESP_ERR_INVALID_STATE
      call (emac_hal_set_phy_cmd hal phy_addr phy_reg false)
      /- polling the busy flag -/
      let busy ← call (emac_esp32_phy_poll hal PHY_OPERATION_TIMEOUT_US 0 true)
      ESP_GOTO_ON_FALSE (!busy) ESP_ERR_TIMEOUT
      /- Store value -/
      call (emac_ll_get_phy_data hal) : Blk emac_esp32_t σ Nat) w with
  | (Except.ok v, w1) => ((ESP_OK, some v), w1)
  | (Except.error ret, w1) => ((ret, reg_value), w1)

def emac_hal_alloc_recv_buf : Fn emac_esp32_t σ (Option heap_block × Nat) :=
  emit Ev.emac_hal_alloc_recv_buf hal.emac_hal_alloc_recv_buf

/-- The call `emac_hal_receive_frame(&emac->hal, buf, size, &emac->frames_remain, &emac->free_rx_descriptor)`:
returns the length and the buffer after the call. -/
def emac_hal_receive_frame (buf : heap_block) (size : Nat) : Fn emac_esp32_t σ (Nat × heap_block) :=
  fun w =>
  match hal.emac_hal_receive_frame buf size w.emac.frames_remain w.emac.free_rx_descriptor w.dev with
  | ((len, b, fr, fd), d) =>
    ((len, b), { emac := { w.emac with frames_remain := fr, free_rx_descriptor := fd }, dev := d,
                 trace := w.trace ++ [Ev.emac_hal_receive_frame buf size] })

/-- The call `emac_hal_flush_recv_frame(&emac->hal, &emac->frames_remain, &emac->free_rx_descriptor)`. -/
def emac_hal_flush_recv_frame : Fn emac_esp32_t σ Unit := fun w =>
  match hal.emac_hal_flush_recv_frame w.emac.frames_remain w.emac.free_rx_descriptor w.dev with
  | ((fr, fd), d) =>
    ((), { emac := { w.emac with frames_remain := fr, free_rx_descriptor := fd }, dev := d,
           trace := w.trace ++ [Ev.emac_hal_flush_recv_frame] })

def emac_ll_pause_frame_enable (enable : Bool) : Fn emac_esp32_t σ Unit :=
  emit (Ev.emac_ll_pause_frame_enable enable) (fun d => ((), hal.emac_ll_pause_frame_enable enable d))

def esp32_free (buf : heap_block) : Fn emac_esp32_t σ Unit :=
  emit (Ev.free buf) (fun d => ((), hal.free buf d))

def esp32_stack_input (buf : heap_block) (len : Nat) : Fn emac_esp32_t σ esp_err_t :=
  emit (Ev.stack_input buf len) (hal.stack_input buf len)

def emac_hal_enable_flow_ctrl (enable : Bool) : Fn emac_esp32_t σ Unit :=
  emit (Ev.emac_hal_enable_flow_ctrl enable) (fun d => ((), hal.emac_hal_enable_flow_ctrl enable d))

def emac_esp32_enable_flow_ctrl (enable : Bool) : Fn emac_esp32_t σ esp_err_t := fun w =>
  (ESP_OK, { w with emac := { w.emac with flow_ctrl_enabled := enable } })

def set_do_flow_ctrl (b : Bool) : Fn emac_esp32_t σ Unit := fun w =>
  ((), { w with emac := { w.emac with do_flow_ctrl := b } })

/-- The setter of the upper layer; `ability` is a `uint32_t`. -/
def emac_esp32_set_peer_pause_ability (ability : Nat) : Fn emac_esp32_t σ esp_err_t := fun w =>
  /- we want to enable flow control, and peer does support pause function
     then configure the MAC layer to enable flow control feature -/
  if w.emac.flow_ctrl_enabled = true ∧ ability ≠ 0 then
    (ESP_OK, (set_do_flow_ctrl true (emac_hal_enable_flow_ctrl hal true w).2).2)
  else
    (ESP_OK, (set_do_flow_ctrl false (emac_hal_enable_flow_ctrl hal false w).2).2)

/-- The part of one round of `emac_esp32_rx_task` in front of the flow-control check. -/
def emac_esp32_rx_task_frame : Fn emac_esp32_t σ Unit := fun w =>
  /- set max expected frame len -/
  match emac_hal_alloc_recv_buf hal w with
  | ((some buffer, frame_len), w1) =>
    /- we have memory to receive the frame of maximal size previously defined -/
    match emac_hal_receive_frame hal buffer EMAC_HAL_BUF_SIZE_AUTO w1 with
    | ((recv_len, buffer), w2) =>
      if recv_len = 0 then
        /- ensure that interface to EMAC does not get stuck with unprocessed frames -/
        emac_hal_flush_recv_frame hal (esp32_free hal buffer w2).2
      else if frame_len > recv_len then
        esp32_free hal buffer w2
      else
        ((), (esp32_stack_input hal buffer recv_len w2).2)
  | ((none, frame_len), w1) =>
    /- if allocation failed and there is a waiting frame -/
    if frame_len ≠ 0 then
      /- ensure that interface to EMAC does not get stuck with unprocessed frames -/
      emac_hal_flush_recv_frame hal w1
    else ((), w1)

/-- The block under `#if CONFIG_ETH_SOFT_FLOW_CONTROL` of `emac_esp32_rx_task`. -/
def emac_esp32_rx_task_flow_ctrl : Fn emac_esp32_t σ Unit := fun w =>
  if w.emac.free_rx_descriptor < w.emac.flow_control_low_water_mark ∧ w.emac.do_flow_ctrl = true ∧
      w.emac.frames_remain ≠ 0 then
    emac_ll_pause_frame_enable hal true w
  else if w.emac.free_rx_descriptor > w.emac.flow_control_high_water_mark ∨ ¬ (w.emac.frames_remain ≠ 0) then
    emac_ll_pause_frame_enable hal false w
  else ((), w)

/-- One round of the `do { ... } while (emac->frames_remain)` loop of `emac_esp32_rx_task`,
for the given value of the build option `CONFIG_ETH_SOFT_FLOW_CONTROL`. -/
def emac_esp32_rx_task_round (CONFIG_ETH_SOFT_FLOW_CONTROL : Bool) : Fn emac_esp32_t σ Unit := fun w =>
  match emac_esp32_rx_task_frame hal w with
  | (_, w1) => if CONFIG_ETH_SOFT_FLOW_CONTROL then emac_esp32_rx_task_flow_ctrl hal w1 else ((), w1)

/-- Returns `ret`, the buffer behind `buf` and `*length` after the call; `buf` and `length`
are `none` for null pointers, `length` the content of `*length` before the call otherwise.
The result is `none` when the call dereferences a null pointer: the first statement that
touches `length` is `uint32_t expected_len = *length;`, in front of the test `buf && length`. -/
def emac_esp32_receive (buf : Option heap_block) (length : Option Nat) :
    World emac_esp32_t σ → Option ((esp_err_t × Option heap_block × Nat) × World emac_esp32_t σ) :=
  fun w =>
  match length with
  | none => none
  | some expected_len =>
    match buf with
    | none =>
      /- err: *length = expected_len -/
      some ((ESP_ERR_INVALID_ARG, none, expected_len), w)
    | some buf =>
      match emac_hal_receive_frame hal buf expected_len w with
      | ((receive_len, buf), w1) =>
        /- we need to check the return value in case the buffer size is not enough -/
        if expected_len ≥ receive_len then
          some ((ESP_OK, some buf, receive_len), w1)
        else
          /- err: *length = expected_len -/
          some ((ESP_ERR_INVALID_SIZE, some buf, expected_len), w1)

/-- The loop `do { ... } while (emac->frames_remain)` of `emac_esp32_rx_task`: the world at
loop exit, `none` when the fuel does not suffice. -/
def emac_esp32_rx_task_drain (CONFIG_ETH_SOFT_FLOW_CONTROL : Bool) :
    Nat → World emac_esp32_t σ → Option (World emac_esp32_t σ)
  | 0, _ => none
  | fuel + 1, w =>
    match emac_esp32_rx_task_round hal CONFIG_ETH_SOFT_FLOW_CONTROL w with
    | (_, w1) =>
      if w1.emac.frames_remain ≠ 0 then emac_esp32_rx_task_drain CONFIG_ETH_SOFT_FLOW_CONTROL fuel w1
      else some w1

end esp32

/-! ## A scripted environment

The environment as a script: the answers the bus, the timer, the heap and the mediator
give, in the order the driver asks. Quantifying over scripts quantifies over every
behaviour of the hardware. -/

/-- The outcome of one bus primitive: the lock was not obtained within 50 ms, the SPI
transfer failed, or the transfer succeeded and clocked in `rx`. -/
inductive BusResp
  | lock_timeout
  | spi_fail
  | ok (rx : List Nat)
  deriving DecidableEq, Repr

structure Script where
  bus : List BusResp
  clock : List Int
  heap : List Bool
  stack : List esp_err_t
  deriving DecidableEq, Repr

def scriptEnv : Dm9051Env Script where
  xSemaphoreTake s :=
    match s.bus with
    | BusResp.lock_timeout :: rest => (false, { s with bus := rest })
    | _ => (true, s)
  xSemaphoreGive s := s
  spi_device_polling_transmit _ s :=
    match s.bus with
    | BusResp.ok rx :: rest => (some rx, { s with bus := rest })
    | _ :: rest => (none, { s with bus := rest })
    | [] => (none, s)
  esp_timer_get_time s :=
    match s.clock with
    | t :: rest => (t, { s with clock := rest })
    | [] => (0, s)
  esp_rom_delay_us _ s := s
  malloc _ s :=
    match s.heap with
    | b :: rest => (b, { s with heap := rest })
    | [] => (false, s)
  free _ s := s
  stack_input _ _ s :=
    match s.stack with
    | r :: rest => (r, { s with stack := rest })
    | [] => (ESP_OK, s)
  effect _ s := s
  on_state_changed _ s := (ESP_OK, s)

/-- The calls of one bus primitive that obtained the lock. -/
def ev_transfer (t : spi_transaction_t) : List Ev :=
  [Ev.xSemaphoreTake DM9051_SPI_LOCK_TIMEOUT_MS, Ev.spi_device_polling_transmit t, Ev.xSemaphoreGive]

def ev_register_read (c : dm9051_h) (reg_addr : Nat) : List Ev :=
  ev_transfer { cmd := c.DM9051_SPI_RD, addr := reg_addr, length := 8, tx := [] }

def ev_register_write (c : dm9051_h) (reg_addr value : Nat) : List Ev :=
  ev_transfer { cmd := c.DM9051_SPI_WR, addr := reg_addr, length := 8, tx := [value] }

def ev_memory_peek (c : dm9051_h) (len : Nat) : List Ev :=
  ev_transfer { cmd := c.DM9051_SPI_RD, addr := c.DM9051_MRCMDX1, length := len * 8, tx := [] }

def ev_memory_read (c : dm9051_h) (len : Nat) : List Ev :=
  ev_transfer { cmd := c.DM9051_SPI_RD, addr := c.DM9051_MRCMD, length := len * 8, tx := [] }

def ev_memory_write (c : dm9051_h) (data : List Nat) : List Ev :=
  ev_transfer { cmd := c.DM9051_SPI_WR, addr := c.DM9051_MWCMD, length := data.length * 8, tx := data }

/-- The calls of a successful `emac_dm9051_stop` that read `rcr` from RCR. -/
def ev_stop (c : dm9051_h) (rcr : Nat) : List Ev :=
  ev_register_write c c.DM9051_IMR 0 ++ ev_register_read c c.DM9051_RCR ++
    ev_register_write c c.DM9051_RCR (andNot rcr c.RCR_RXEN)

/-- The calls of a successful `emac_dm9051_start` that read `rcr` from RCR. -/
def ev_start (c : dm9051_h) (rcr : Nat) : List Ev :=
  ev_register_write c c.DM9051_MPTRCR (c.MPTRCR_RST_RX ||| c.MPTRCR_RST_TX) ++
    ev_register_write c c.DM9051_ISR c.ISR_CLR_STATUS ++
    ev_register_write c c.DM9051_IMR (c.IMR_PAR ||| c.IMR_PRI) ++
    ev_register_read c c.DM9051_RCR ++
    ev_register_write c c.DM9051_RCR ((rcr ||| c.RCR_RXEN) % 256)


/-- The HAL as a script: the answers of the MII busy flag, the PHY data register and the
receive functions, in the order the driver asks. -/
structure Esp32Script where
  mii_busy : List Bool
  phy_data : List Nat
  alloc : List (Option heap_block × Nat)
  recv : List (Nat × List Nat × Nat × Nat)
  flush : List (Nat × Nat)
  deriving DecidableEq, Repr

def scriptHal : Esp32Env Esp32Script where
  emac_ll_is_mii_busy s :=
    match s.mii_busy with
    | b :: rest => (b, { s with mii_busy := rest })
    | [] => (false, s)
  emac_ll_set_phy_data _ s := s
  emac_hal_set_phy_cmd _ _ _ s := s
  emac_ll_get_phy_data s :=
    match s.phy_data with
    | v :: rest => (v, { s with phy_data := rest })
    | [] => (0, s)
  esp_rom_delay_us _ s := s
  emac_hal_alloc_recv_buf s :=
    match s.alloc with
    | r :: rest => (r, { s with alloc := rest })
    | [] => ((none, 0), s)
  emac_hal_receive_frame buf _ frames_remain free_desc s :=
    match s.recv with
    | (len, data, fr, fd) :: rest => ((len, { buf with data := data }, fr, fd), { s with recv := rest })
    | [] => ((0, buf, frames_remain, free_desc), s)
  emac_hal_flush_recv_frame frames_remain free_desc s :=
    match s.flush with
    | r :: rest => (r, { s with flush := rest })
    | [] => ((frames_remain, free_desc), s)
  emac_ll_pause_frame_enable _ s := s
  emac_hal_enable_flow_ctrl _ s := s
  free _ s := s
  stack_input _ _ s := (ESP_OK, s)

/-- `n` repetitions of a list of calls. -/
def ev_repeat : Nat → List Ev → List Ev
  | 0, _ => []
  | n + 1, l => l ++ ev_repeat n l

/-- The microseconds of `esp_rom_delay_us` in a list of calls. -/
def delay_total : List Ev → Nat
  | [] => 0
  | Ev.esp_rom_delay_us us :: l => us + delay_total l
  | _ :: l => delay_total l

/-- Sample values for the constants of `dm9051.h`, used to evaluate the embedding on
concrete inputs. -/
def dm9051_h_sample : dm9051_h where
  DM9051_SPI_RD := 0
  DM9051_SPI_WR := 1
  DM9051_TCR := 0x02
  DM9051_RCR := 0x05
  DM9051_EPCR := 0x0B
  DM9051_EPAR := 0x0C
  DM9051_EPDRL := 0x0D
  DM9051_EPDRH := 0x0E
  DM9051_MPTRCR := 0x55
  DM9051_MRCMDX := 0x70
  DM9051_MRCMDX1 := 0x71
  DM9051_MRCMD := 0x72
  DM9051_MRRL := 0x74
  DM9051_MRRH := 0x75
  DM9051_MWCMD := 0x78
  DM9051_TXPLL := 0x7C
  DM9051_TXPLH := 0x7D
  DM9051_ISR := 0x7E
  DM9051_IMR := 0x7F
  TCR_TXREQ := 0x01
  RCR_RXEN := 0x01
  EPCR_EPOS := 0x08
  EPCR_ERPRW := 0x02
  EPCR_ERRE := 0x01
  MPTRCR_RST_RX := 0x01
  MPTRCR_RST_TX := 0x02
  ISR_PR := 0x01
  ISR_CLR_STATUS := 0x3F
  IMR_PAR := 0x80
  IMR_PRI := 0x01
  DM9051_BPTR := 0x08
  DM9051_FCTR := 0x09
  DM9051_FCR := 0x0A
  FCR_FLOW_ENABLE := 0x39
  DM9051_NCR := 0x00
  DM9051_NSR := 0x01
  DM9051_WCR := 0x0F
  DM9051_PAR := 0x10
  DM9051_MAR := 0x16
  DM9051_GPR := 0x1F
  DM9051_VIDL := 0x28
  DM9051_VIDH := 0x29
  DM9051_PIDL := 0x2A
  DM9051_PIDH := 0x2B
  DM9051_TCR2 := 0x2D
  DM9051_ATCR := 0x30
  DM9051_TCSCR := 0x31
  DM9051_RCSCSR := 0x32
  DM9051_INTCR := 0x39
  DM9051_INTCKCR := 0x54
  DM9051_RLENCR := 0x52
  DM9051_MEMSCR := 0x50
  DM9051_BCASTCR := 0x53
  NCR_RST := 0x01
  NSR_WAKEST := 0x20
  NSR_TX2END := 0x08
  NSR_TX1END := 0x04
  RCR_DIS_LONG := 0x20
  RCR_DIS_CRC := 0x10
  RCR_ALL_MCAST := 0x08
  RCR_PRMSC := 0x02
  TCR2_RLCP := 0x40
  ATCR_AUTO_TX := 0x80
  TCSCR_IPCSE := 0x01
  TCSCR_TCPCSE := 0x02
  TCSCR_UDPCSE := 0x04

/-- A driver object with an empty 1526-byte scratch buffer, for concrete inputs. -/
def emac_dm9051_sample : emac_dm9051_t where
  sw_reset_timeout_ms := 100
  int_gpio_num := 4
  addr := [0, 0, 0, 0, 0, 0]
  packets_remain := false
  flow_ctrl_enabled := false
  rx_buffer := List.replicate 1526 0

/-- A world of the scripted environment with the given bus answers and heap answers. -/
def script_world (bus : List BusResp) (heap : List Bool) : World emac_dm9051_t Script where
  emac := emac_dm9051_sample
  dev := { bus := bus, clock := [], heap := heap, stack := [] }
  trace := []

/-! ## A loopback controller -/

/-- The state of the loopback controller: the TX length registers, the TX memory written
since the last transmit request, the RX memory from the read pointer on, and the timer. -/
structure LoopDev where
  txpll : Nat
  txplh : Nat
  tx_mem : List Nat
  rx_mem : List Nat
  now : Int
  deriving DecidableEq, Repr

/-- The frame the receiver of the loopback controller stores for transmitted `data`: a
4-byte header (flag 1, status 0, length of data and CRC), the data, and the 4-byte CRC. -/
def loopback_frame (fcs : List Nat → List Nat) (data : List Nat) : List Nat :=
  [0x01, 0x00, (data.length + 4) % 256, (data.length + 4) / 256 % 256] ++ data ++ fcs data

/-- Modelled from the spec: the loopback harness of the round-trip property, which is not
among the sources. A controller whose lock is always free and whose transfers always
succeed; a write of `TCR_TXREQ` to TCR sends the first `TXPLH:TXPLL` bytes written to TX
memory, and they reappear as one pending RX frame (`loopback_frame`, `fcs` computing the
CRC bytes). MRCMDX reads the byte at the RX read pointer, MRCMDX1 peeks, MRCMD reads and
advances; every other register reads 0, so TCR shows the transmitter idle. -/
def loopbackEnv (c : dm9051_h) (fcs : List Nat → List Nat) : Dm9051Env LoopDev where
  xSemaphoreTake s := (true, s)
  xSemaphoreGive s := s
  spi_device_polling_transmit t s :=
    if t.cmd = c.DM9051_SPI_WR then
      if t.addr = c.DM9051_TXPLL then (some [], { s with txpll := t.tx.headD 0 })
      else if t.addr = c.DM9051_TXPLH then (some [], { s with txplh := t.tx.headD 0 })
      else if t.addr = c.DM9051_MWCMD then (some [], { s with tx_mem := s.tx_mem ++ t.tx })
      else if t.addr = c.DM9051_TCR ∧ t.tx.headD 0 &&& c.TCR_TXREQ ≠ 0 then
        (some [], { s with tx_mem := [],
                           rx_mem := s.rx_mem ++
                             loopback_frame fcs (s.tx_mem.take (s.txplh * 256 + s.txpll)) })
      else (some [], s)
    else
      if t.addr = c.DM9051_MRCMDX then (some [s.rx_mem.headD 0], s)
      else if t.addr = c.DM9051_MRCMDX1 then (some (s.rx_mem.take (t.length / 8)), s)
      else if t.addr = c.DM9051_MRCMD then
        (some (s.rx_mem.take (t.length / 8)), { s with rx_mem := s.rx_mem.drop (t.length / 8) })
      else (some [0], s)
  esp_timer_get_time s := (s.now, { s with now := s.now + 1 })
  esp_rom_delay_us us s := { s with now := s.now + us }
  malloc _ s := (true, s)
  free _ s := s
  stack_input _ _ s := (ESP_OK, s)
  effect _ s := s
  on_state_changed _ s := (ESP_OK, s)

/-- The registers the loopback controller tells apart have different addresses, and the
two SPI opcodes differ. -/
def dm9051_h.distinct (c : dm9051_h) : Prop :=
  c.DM9051_SPI_RD ≠ c.DM9051_SPI_WR ∧
  c.DM9051_TXPLH ≠ c.DM9051_TXPLL ∧
  c.DM9051_MWCMD ≠ c.DM9051_TXPLL ∧ c.DM9051_MWCMD ≠ c.DM9051_TXPLH ∧
  c.DM9051_TCR ≠ c.DM9051_TXPLL ∧ c.DM9051_TCR ≠ c.DM9051_TXPLH ∧ c.DM9051_TCR ≠ c.DM9051_MWCMD ∧
  c.DM9051_MRCMDX1 ≠ c.DM9051_MRCMDX ∧
  c.DM9051_MRCMD ≠ c.DM9051_MRCMDX ∧ c.DM9051_MRCMD ≠ c.DM9051_MRCMDX1 ∧
  c.DM9051_TCR ≠ c.DM9051_MRCMDX ∧ c.DM9051_TCR ≠ c.DM9051_MRCMDX1 ∧ c.DM9051_TCR ≠ c.DM9051_MRCMD

/-! ## A PHY behind the controller -/

/-- The state of the PHY model: the address and data registers of the controller, and the
registers of the PHY by address byte, each as its low and its high byte. -/
structure PhyDev where
  epar : Nat
  epdrl : Nat
  epdrh : Nat
  phy : Nat → Nat × Nat

/-- Modelled from the spec: the PHY model of the read-back property, which is not among the
sources. A controller whose lock is always free and whose transfers always succeed; writes
to EPAR, EPDRL and EPDRH set the three registers; a write of `EPCR_EPOS | EPCR_ERPRW` to
EPCR (the write command) stores the two data registers in the PHY register selected by the
address byte in EPAR, and a write of 0x0C (the read command) loads the two data registers
from it. EPDRL and EPDRH read back their content; every other register reads 0, so EPCR
never shows an operation in progress. -/
def phyEnv (c : dm9051_h) : Dm9051Env PhyDev where
  xSemaphoreTake s := (true, s)
  xSemaphoreGive s := s
  spi_device_polling_transmit t s :=
    if t.cmd = c.DM9051_SPI_WR then
      if t.addr = c.DM9051_EPAR then (some [], { s with epar := t.tx.headD 0 })
      else if t.addr = c.DM9051_EPDRL then (some [], { s with epdrl := t.tx.headD 0 })
      else if t.addr = c.DM9051_EPDRH then (some [], { s with epdrh := t.tx.headD 0 })
      else if t.addr = c.DM9051_EPCR then
        if t.tx.headD 0 = c.EPCR_EPOS ||| c.EPCR_ERPRW then
          (some [], { s with phy := fun a => if a = s.epar then (s.epdrl, s.epdrh) else s.phy a })
        else if t.tx.headD 0 = 0x0C then
          (some [], { s with epdrl := (s.phy s.epar).1, epdrh := (s.phy s.epar).2 })
        else (some [], s)
      else (some [], s)
    else
      if t.addr = c.DM9051_EPDRL then (some [s.epdrl], s)
      else if t.addr = c.DM9051_EPDRH then (some [s.epdrh], s)
      else (some [0], s)
  esp_timer_get_time s := (0, s)
  esp_rom_delay_us _ s := s
  malloc _ s := (true, s)
  free _ s := s
  stack_input _ _ s := (ESP_OK, s)
  effect _ s := s
  on_state_changed _ s := (ESP_OK, s)

/-- The registers and commands the PHY model tells apart are different, and the two SPI
opcodes differ. -/
def dm9051_h.phy_distinct (c : dm9051_h) : Prop :=
  c.DM9051_SPI_RD ≠ c.DM9051_SPI_WR ∧
  c.DM9051_EPDRL ≠ c.DM9051_EPAR ∧ c.DM9051_EPDRH ≠ c.DM9051_EPAR ∧
  c.DM9051_EPDRH ≠ c.DM9051_EPDRL ∧
  c.DM9051_EPCR ≠ c.DM9051_EPAR ∧ c.DM9051_EPCR ≠ c.DM9051_EPDRL ∧ c.DM9051_EPCR ≠ c.DM9051_EPDRH ∧
  c.EPCR_EPOS ||| c.EPCR_ERPRW ≠ 0x0C

/-- A world of the PHY model with all registers zero. -/
def phy_world : World emac_dm9051_t PhyDev where
  emac := emac_dm9051_sample
  dev := { epar := 0, epdrl := 0, epdrh := 0, phy := fun _ => (0, 0) }
  trace := []

/-! ## Pause frames -/

/-- Whether the sending of pause frames is enabled after the calls of a trace, given
whether it was enabled before them: the argument of the last `emac_ll_pause_frame_enable`. -/
def pause_asserted : List Ev → Bool → Bool
  | [], p => p
  | Ev.emac_ll_pause_frame_enable b :: l, _ => pause_asserted l b
  | _ :: l, p => pause_asserted l p

/-- The flow-control step in the words of the specification, to be compared with
`emac_esp32_rx_task_flow_ctrl`: pause becomes true if `free < low`, `do_flow_ctrl` and
`frames_remain != 0`; else false if `free > high` or `frames_remain = 0`; else it is
unchanged. -/
def spec_flow_ctrl_step (low high : Nat) (pause : Bool) (free frames_remain : Nat)
    (do_flow_ctrl : Bool) : Bool :=
  if free < low ∧ do_flow_ctrl = true ∧ frames_remain ≠ 0 then true
  else if free > high ∨ frames_remain = 0 then false
  else pause

/-- A sequence of flow-control steps of the specification, each with its free-buffer count,
its count of frames remaining and its `do_flow_ctrl`. -/
def spec_flow_ctrl_run (low high : Nat) : Bool → List (Nat × Nat × Bool) → Bool
  | pause, [] => pause
  | pause, (free, frames_remain, do_flow_ctrl) :: l =>
    spec_flow_ctrl_run low high (spec_flow_ctrl_step low high pause free frames_remain do_flow_ctrl) l

/-- The scripted HAL with a mediator whose `stack_input` fails. -/
def failHal : Esp32Env Esp32Script :=
  { scriptHal with stack_input := fun _ _ s => (ESP_FAIL, s) }

/-- A driver object of the ESP32 EMAC with low water mark 2 and high water mark 4, the
given free-descriptor and frame counts, and flow control in effect. -/
def emac_esp32_sample (free_rx_descriptor frames_remain : Nat) : emac_esp32_t where
  sw_reset_timeout_ms := 100
  smi_mdc_gpio_num := 23
  smi_mdio_gpio_num := 18
  addr := [0, 0, 0, 0, 0, 0]
  frames_remain := frames_remain
  free_rx_descriptor := free_rx_descriptor
  flow_control_high_water_mark := 4
  flow_control_low_water_mark := 2
  flow_ctrl_enabled := true
  do_flow_ctrl := true

/-- A receive buffer of 64 bytes, as `emac_hal_alloc_recv_buf` returns it in the scripts. -/
def heap_block_sample : heap_block where
  size := 64
  info := { copy_len := 0, byte_cnt := 0 }
  data := []

/-- A world of the scripted HAL with the given driver object and the given answers of
`emac_hal_alloc_recv_buf`, `emac_hal_receive_frame` and `emac_hal_flush_recv_frame`. -/
def esp32_script_world (e : emac_esp32_t) (alloc : List (Option heap_block × Nat))
    (recv : List (Nat × List Nat × Nat × Nat)) (flush : List (Nat × Nat)) :
    World emac_esp32_t Esp32Script where
  emac := e
  dev := { mii_busy := [], phy_data := [], alloc := alloc, recv := recv, flush := flush }
  trace := []

/-! ## Calls on receive buffers -/

/-- Whether a call ends the driver's ownership of a receive buffer: `free`, or the handoff
to the mediator through `stack_input`. -/
def Ev.is_handoff : Ev → Bool
  | Ev.free _ => true
  | Ev.stack_input _ _ => true
  | _ => false

/-- The receive buffer a call takes as an argument, if it takes one. -/
def Ev.buffer : Ev → Option heap_block
  | Ev.free b => some b
  | Ev.stack_input b _ => some b
  | Ev.emac_hal_receive_frame b _ => some b
  | _ => none

/-- The world `w1` is reached from the world `w` by calls that all satisfy `P`. -/
def calls_between {ε σ : Type} (P : Ev → Bool) (w w1 : World ε σ) : Prop :=
  ∃ l, w1.trace = w.trace ++ l ∧ ∀ ev ∈ l, P ev = true

/-- Every call the function makes satisfies `P`. -/
def emits {ε σ β : Type} (P : Ev → Bool) (f : World ε σ → β × World ε σ) : Prop :=
  ∀ w, calls_between P w (f w).2

/-- Whether a call is one of those the bus primitives and the settle delays make: lock,
unlock, SPI transfer, delay. -/
def Ev.is_bus : Ev → Bool
  | Ev.xSemaphoreTake _ => true
  | Ev.xSemaphoreGive => true
  | Ev.spi_device_polling_transmit _ => true
  | Ev.esp_rom_delay_us _ => true
  | _ => false

/-- The bus answers `l`, `n` times over. -/
def bus_repeat : Nat → List BusResp → List BusResp
  | 0, _ => []
  | n + 1, l => l ++ bus_repeat n l

/-! ## The OTA-select entries of the bootloader -/

/-- The fields of `esp_ota_select_entry_t` (`esp_flash_partitions.h`, not among the sources)
that `bootloader_common_loader.c` reads. -/
structure esp_ota_select_entry_t where
  ota_seq : Nat
  ota_state : Nat
  crc : Nat
  deriving DecidableEq, Repr

/-- The macro `MAX` of `sys/param.h`. -/
def MAX (a b : Nat) : Nat := if a > b then a else b

/-- The macro `MIN` of `sys/param.h`. -/
def MIN (a b : Nat) : Nat := if a < b then a else b

/-- The element `a[i]` of an array of two. -/
def elem2 {α : Type} (a : α × α) (i : Nat) : α := if i = 0 then a.1 else a.2

/-- The loop `for (int i = 0; i < 2; ++i) { if (valid_two_otadata[i]) { active_otadata = i; break; } }`
of `bootloader_common_select_otadata`: the value of `active_otadata` at loop exit. The loop
ends after at most two rounds, which the fuel exceeds. -/
def bootloader_common_select_otadata_loop (valid_two_otadata : Bool × Bool) : Nat → Nat → Int → Int
  | 0, _, active_otadata => active_otadata
  | fuel + 1, i, active_otadata =>
    if i < 2 then
      if elem2 valid_two_otadata i = true then (i : Int)
      else bootloader_common_select_otadata_loop valid_two_otadata fuel (i + 1) active_otadata
    else active_otadata

/-- The two pointers are `none` when `NULL`. -/
def bootloader_common_select_otadata
    (two_otadata : Option (esp_ota_select_entry_t × esp_ota_select_entry_t))
    (valid_two_otadata : Option (Bool × Bool)) (max : Bool) : Int :=
  match two_otadata, valid_two_otadata with
  | some two_otadata, some valid_two_otadata =>
    if valid_two_otadata.1 = true ∧ valid_two_otadata.2 = true then
      let condition :=
        if max = true then MAX two_otadata.1.ota_seq two_otadata.2.ota_seq
        else MIN two_otadata.1.ota_seq two_otadata.2.ota_seq
      if condition = two_otadata.1.ota_seq then 0 else 1
    else
      bootloader_common_select_otadata_loop valid_two_otadata 3 0 (-1)
  | _, _ => -1

/-! ## Steps run in order -/

/-- Runs the steps in order and stops at the first one that does not return `ESP_OK`: the
result is that step's error, and `ESP_OK` when every step succeeded. -/
def run_until_error {ε σ : Type} : List (Fn ε σ esp_err_t) → Fn ε σ esp_err_t
  | [] => fun w => (ESP_OK, w)
  | x :: xs => fun w =>
    if (x w).1 = ESP_OK then run_until_error xs (x w).2 else x w

/-- The steps of `emac_dm9051_init` that touch the chip, in the order of the source. -/
def emac_dm9051_init_chip_steps {σ : Type} (c : dm9051_h) (env : Dm9051Env σ) :
    List (Fn emac_dm9051_t σ esp_err_t) :=
  [dm9051_reset c env, dm9051_verify_id c env, dm9051_setup_default c env,
   dm9051_clear_multicast_table c env, dm9051_get_mac_addr c env]

/-- The steps of `emac_dm9051_init` after the registration of the interrupt GPIO, in the order
of the source. -/
def emac_dm9051_init_steps {σ : Type} (c : dm9051_h) (env : Dm9051Env σ) :
    List (Fn emac_dm9051_t σ esp_err_t) :=
  on_state_changed env esp_eth_state_t.ETH_STATE_LLINIT :: emac_dm9051_init_chip_steps c env

/-- Whether a call is one the bus primitives make or a wait of the task. -/
def Ev.is_bus_or_delay : Ev → Bool
  | Ev.vTaskDelay _ => true
  | ev => Ev.is_bus ev

/-- The calls `dm9051_reset` makes for `k` polls that find the reset still running: a read
of NCR and a wait of 10 ms each. -/
def dm9051_reset_poll_trace (c : dm9051_h) : Nat → List Ev
  | 0 => []
  | k + 1 => ev_register_read c c.DM9051_NCR ++ [Ev.vTaskDelay 10] ++ dm9051_reset_poll_trace c k

/-! ## ESP32 EMAC: initialisation -/

/-- The environment of `emac_esp32_init` over a state `σ`: the GPIO driver, the FreeRTOS
delay, the HAL and LL functions, the clock and the eFuse of the chip, and the mediator; none
of them is among the sources. `effect` is the change a call makes whose result is not used. -/
structure Esp32InitEnv (σ : Type) where
  effect : Ev → σ → σ
  on_state_changed : esp_eth_state_t → σ → esp_err_t × σ
  emac_ll_is_reset_done : σ → Bool × σ
  esp_clk_apb_freq : σ → Nat × σ
  /-- For the six bytes of the destination before the call: the result and the six bytes
  after the call. -/
  esp_read_mac : List Nat → σ → (esp_err_t × List Nat) × σ

section esp32_init
variable {σ : Type} (sys : Esp32InitEnv σ) (CONFIG_PM_ENABLE : Bool)

def esp32_effect (ev : Ev) : Fn emac_esp32_t σ Unit :=
  emit ev (fun d => ((), sys.effect ev d))

def esp32_on_state_changed (state : esp_eth_state_t) : Fn emac_esp32_t σ esp_err_t :=
  emit (Ev.on_state_changed state) (sys.on_state_changed state)

def emac_ll_is_reset_done : Fn emac_esp32_t σ Bool :=
  emit Ev.emac_ll_is_reset_done sys.emac_ll_is_reset_done

def esp_clk_apb_freq : Fn emac_esp32_t σ Nat :=
  emit Ev.esp_clk_apb_freq sys.esp_clk_apb_freq

/-- The call `esp_read_mac(emac->addr, ESP_MAC_ETH)`. -/
def esp_read_mac : Fn emac_esp32_t σ esp_err_t := fun w =>
  match emit Ev.esp_read_mac (sys.esp_read_mac w.emac.addr) w with
  | ((r, addr), w1) => (r, { w1 with emac := { w1.emac with addr := addr } })

def emac_esp32_init_smi_gpio : Fn emac_esp32_t σ Unit := fun w =>
  match (if w.emac.smi_mdc_gpio_num ≥ 0 then
      /- Setup SMI MDC GPIO -/
      match esp32_effect sys (Ev.gpio_set_direction w.emac.smi_mdc_gpio_num gpio_mode_t.GPIO_MODE_OUTPUT) w with
      | (_, w) =>
      match esp32_effect sys
        (Ev.esp_rom_gpio_connect_out_signal w.emac.smi_mdc_gpio_num gpio_signal_t.EMAC_MDC_O_IDX) w with
      | (_, w) => esp32_effect sys (Ev.gpio_hal_iomux_func_sel w.emac.smi_mdc_gpio_num) w
    else ((), w)) with
  | (_, w) =>
    if w.emac.smi_mdio_gpio_num ≥ 0 then
      /- Setup SMI MDIO GPIO -/
      match esp32_effect sys
        (Ev.gpio_set_direction w.emac.smi_mdio_gpio_num gpio_mode_t.GPIO_MODE_INPUT_OUTPUT) w with
      | (_, w) =>
      match esp32_effect sys
        (Ev.esp_rom_gpio_connect_out_signal w.emac.smi_mdio_gpio_num gpio_signal_t.EMAC_MDO_O_IDX) w with
      | (_, w) =>
      match esp32_effect sys
        (Ev.esp_rom_gpio_connect_in_signal w.emac.smi_mdio_gpio_num gpio_signal_t.EMAC_MDI_I_IDX) w with
      | (_, w) => esp32_effect sys (Ev.gpio_hal_iomux_func_sel w.emac.smi_mdio_gpio_num) w
    else ((), w)

/-- The loop `for (to = 0; to < emac->sw_reset_timeout_ms / 10; to++)` of `emac_esp32_init`
(`to_` is the local `to`, `limit` is `emac->sw_reset_timeout_ms / 10`): returns `to` at loop
exit. The loop ends after at most `limit` rounds, which the fuel exceeds. -/
def emac_esp32_reset_wait (limit : Nat) : Nat → Nat → Fn emac_esp32_t σ Nat
  | 0, to_ => fun w => (to_, w)
  | fuel + 1, to_ => fun w =>
    if to_ < limit then
      match emac_ll_is_reset_done sys w with
      | (true, w1) => (to_, w1)
      | (false, w1) =>
        match esp32_effect sys (Ev.vTaskDelay 10) w1 with
        | (_, w2) => emac_esp32_reset_wait limit fuel ((to_ + 1) % 4294967296) w2
    else (to_, w)

/-- The statements of `emac_esp32_init` from `ESP_GOTO_ON_ERROR(eth->on_state_changed(...))`
to `return ESP_OK`. -/
def emac_esp32_init_body : Blk emac_esp32_t σ Unit := fun w => (do
  ESP_GOTO_ON_ERROR (esp32_on_state_changed sys esp_eth_state_t.ETH_STATE_LLINIT)
  /- software reset -/
  call (esp32_effect sys Ev.emac_ll_reset)
  let to_ ← call (emac_esp32_reset_wait sys (w.emac.sw_reset_timeout_ms / 10)
    (w.emac.sw_reset_timeout_ms / 10 + 1) 0)
  ESP_GOTO_ON_FALSE (decide (to_ < w.emac.sw_reset_timeout_ms / 10)) ESP_ERR_TIMEOUT
  /- set smi clock -/
  let freq ← call (esp_clk_apb_freq sys)
  call (esp32_effect sys (Ev.emac_hal_set_csr_clock_range freq))
  /- init mac registers by default -/
  call (esp32_effect sys Ev.emac_hal_init_mac_default)
  /- init dma registers by default -/
  call (esp32_effect sys Ev.emac_hal_init_dma_default)
  /- get emac address from efuse -/
  ESP_GOTO_ON_ERROR (esp_read_mac sys)
  /- set MAC address to emac register -/
  call (fun w => esp32_effect sys (Ev.emac_hal_set_address w.emac.addr) w)
  if CONFIG_PM_ENABLE then call (esp32_effect sys Ev.esp_pm_lock_acquire) else Blk.pure ()) w

def emac_esp32_init : Fn emac_esp32_t σ esp_err_t := fun w =>
  match emac_esp32_init_body sys CONFIG_PM_ENABLE (emac_esp32_init_smi_gpio sys w).2 with
  | (Except.ok _, w1) => (ESP_OK, w1)
  | (Except.error ret, w1) =>
    match esp32_on_state_changed sys esp_eth_state_t.ETH_STATE_DEINIT w1 with
    | (_, w2) => (ret, (esp32_effect sys Ev.periph_module_disable w2).2)

end esp32_init

/-- A script for the environment of `emac_esp32_init`: the answers of
`emac_ll_is_reset_done` in order (reset done once the script is used up), the answers of the
mediator in order (`ESP_OK` once the script is used up), the APB frequency and the answer of
`esp_read_mac`. -/
structure Esp32InitScript where
  reset_done : List Bool
  notify : List esp_err_t
  apb_freq : Nat
  mac : esp_err_t × List Nat
  deriving DecidableEq, Repr

def scriptSys : Esp32InitEnv Esp32InitScript where
  effect _ s := s
  on_state_changed _ s :=
    match s.notify with
    | r :: rest => (r, { s with notify := rest })
    | [] => (ESP_OK, s)
  emac_ll_is_reset_done s :=
    match s.reset_done with
    | b :: rest => (b, { s with reset_done := rest })
    | [] => (true, s)
  esp_clk_apb_freq s := (s.apb_freq, s)
  esp_read_mac _ s := (s.mac, s)

/-- The calls `emac_esp32_init` makes for `k` polls that find the reset still running: a
poll and a wait of 10 ms each. -/
def emac_esp32_reset_poll_trace : Nat → List Ev
  | 0 => []
  | k + 1 => Ev.emac_ll_is_reset_done :: Ev.vTaskDelay 10 :: emac_esp32_reset_poll_trace k

/-! ## ESP32 EMAC: construction -/

inductive eth_data_interface_t
  | EMAC_DATA_INTERFACE_RMII
  | EMAC_DATA_INTERFACE_MII
  /-- Any other value of the C enumeration type. -/
  | unknown (value : Nat)
  deriving DecidableEq, Repr

inductive emac_rmii_clock_mode_t
  | EMAC_CLK_DEFAULT
  | EMAC_CLK_EXT_IN
  | EMAC_CLK_OUT
  /-- Any other value of the C enumeration type. -/
  | unknown (value : Nat)
  deriving DecidableEq, Repr

inductive rtc_xtal_freq_t
  | RTC_XTAL_FREQ_40M
  | RTC_XTAL_FREQ_26M
  | RTC_XTAL_FREQ_24M
  /-- Any other value of the C enumeration type. -/
  | unknown (value : Nat)
  deriving DecidableEq, Repr

/-- The member `rmii` of the union `eth_mac_clock_config_t`. -/
structure eth_mac_clock_config_t where
  clock_mode : emac_rmii_clock_mode_t
  clock_gpio : Int
  deriving DecidableEq, Repr

structure eth_mac_config_t where
  sw_reset_timeout_ms : Nat
  rx_task_stack_size : Nat
  rx_task_prio : Nat
  smi_mdc_gpio_num : Int
  smi_mdio_gpio_num : Int
  flags : Nat
  interface : eth_data_interface_t
  clock_config : eth_mac_clock_config_t
  deriving DecidableEq, Repr

/-- The constants the constructor of the ESP32 EMAC takes from `esp_eth_mac.h`, from
FreeRTOS and from the build configuration, none of which is among the sources, and the sizes
of the C types it allocates. A configuration has `CONFIG_ETH_RMII_CLK_INPUT` with
`CONFIG_ETH_RMII_CLK_IN_GPIO = 0`, or `CONFIG_ETH_RMII_CLK_OUTPUT`: the source does not
compile otherwise. `CONFIG_ETH_RMII_CLK_OUT_GPIO` is 0 when the option is not defined. -/
structure emac_esp32_h where
  ETH_MAC_FLAG_WORK_WITH_CACHE_DISABLE : Nat
  ETH_MAC_FLAG_PIN_TO_CORE : Nat
  EMAC_CLK_IN_GPIO : Int
  EMAC_APPL_CLK_OUT_GPIO : Int
  EMAC_CLK_OUT_GPIO : Int
  EMAC_CLK_OUT_180_GPIO : Int
  tskNO_AFFINITY : Int
  CONFIG_ETH_DMA_RX_BUFFER_NUM : Nat
  CONFIG_ETH_DMA_TX_BUFFER_NUM : Nat
  CONFIG_ETH_DMA_BUFFER_SIZE : Nat
  CONFIG_PM_ENABLE : Bool
  CONFIG_ETH_RMII_CLK_INPUT : Bool
  CONFIG_ETH_RMII_CLK_IN_GPIO : Int
  CONFIG_ETH_RMII_CLK_OUTPUT_GPIO0 : Bool
  CONFIG_ETH_RMII_CLK_OUT_GPIO : Int
  sizeof_emac_esp32_t : Nat
  sizeof_eth_dma_rx_descriptor_t : Nat
  sizeof_eth_dma_tx_descriptor_t : Nat
  deriving DecidableEq, Repr

/-- The driver object while it is constructed: the number of the block `calloc` returned for
it, and the members of `emac_esp32_t` the constructor reads or assigns (the function
pointers of `parent` apart). A handle or a buffer is `none` when the pointer is `NULL`. -/
structure emac_esp32_obj where
  ptr : Nat
  rx_task_hdl : Option Nat
  intr_hdl : Option Nat
  rx_buf : List (Option Nat)
  tx_buf : List (Option Nat)
  pm_lock : Option Nat
  clock_config : eth_mac_clock_config_t
  sw_reset_timeout_ms : Nat
  smi_mdc_gpio_num : Int
  smi_mdio_gpio_num : Int
  flow_control_high_water_mark : Nat
  flow_control_low_water_mark : Nat
  deriving DecidableEq, Repr

/-- The locals `emac` and `descriptors` of `esp_emac_alloc_driver_obj` and of
`esp_eth_mac_new_esp32` (`none` is `NULL`). -/
structure esp_emac_locals where
  emac : Option emac_esp32_obj
  descriptors : Option Nat
  deriving DecidableEq, Repr

/-- The environment of the constructor over a state `σ`: heap, FreeRTOS tasks, interrupt
allocator, power management, clocks and the HAL; none of them is among the sources. An
allocation returns the number of the block (`none` is `NULL`); a function that stores a
handle through a pointer takes the handle stored there before the call and returns the one
stored there after it. `effect` is the change a call makes whose result is not used. -/
structure Esp32NewEnv (σ : Type) where
  calloc : Nat → σ → Option Nat × σ
  heap_caps_calloc : Nat → σ → Option Nat × σ
  free : Option Nat → σ → σ
  esp_pm_lock_create : Option Nat → σ → (esp_err_t × Option Nat) × σ
  esp_pm_lock_delete : Nat → σ → σ
  cpu_hal_get_core_id : σ → Int × σ
  /-- Whether the result is `pdPASS`, and the handle. -/
  xTaskCreatePinnedToCore : Nat → Nat → Int → Option Nat → σ → (Bool × Option Nat) × σ
  vTaskDelete : Nat → σ → σ
  esp_intr_alloc : Bool → Option Nat → σ → (esp_err_t × Option Nat) × σ
  esp_intr_free : Nat → σ → σ
  rtc_clk_xtal_freq_get : σ → rtc_xtal_freq_t × σ
  effect : Ev → σ → σ

section esp32_new
variable {σ : Type} (h : emac_esp32_h) (env : Esp32NewEnv σ)

def new_effect (ev : Ev) : Fn esp_emac_locals σ Unit :=
  emit ev (fun d => ((), env.effect ev d))

def calloc (size : Nat) : Fn esp_emac_locals σ (Option Nat) :=
  emit (Ev.new_esp32 (NewEv.calloc size)) (env.calloc size)

def heap_caps_calloc (size : Nat) : Fn esp_emac_locals σ (Option Nat) :=
  emit (Ev.new_esp32 (NewEv.heap_caps_calloc size)) (env.heap_caps_calloc size)

def free_ptr (ptr : Option Nat) : Fn esp_emac_locals σ Unit :=
  emit (Ev.new_esp32 (NewEv.free_ptr ptr)) (fun d => ((), env.free ptr d))

def vTaskDelete (handle : Nat) : Fn esp_emac_locals σ Unit :=
  emit (Ev.new_esp32 (NewEv.vTaskDelete handle)) (fun d => ((), env.vTaskDelete handle d))

def esp_intr_free (handle : Nat) : Fn esp_emac_locals σ Unit :=
  emit (Ev.new_esp32 (NewEv.esp_intr_free handle)) (fun d => ((), env.esp_intr_free handle d))

def esp_pm_lock_delete (handle : Nat) : Fn esp_emac_locals σ Unit :=
  emit (Ev.new_esp32 (NewEv.esp_pm_lock_delete handle)) (fun d => ((), env.esp_pm_lock_delete handle d))

def cpu_hal_get_core_id : Fn esp_emac_locals σ Int :=
  emit (Ev.new_esp32 NewEv.cpu_hal_get_core_id) env.cpu_hal_get_core_id

def rtc_clk_xtal_freq_get : Fn esp_emac_locals σ rtc_xtal_freq_t :=
  emit (Ev.new_esp32 NewEv.rtc_clk_xtal_freq_get) env.rtc_clk_xtal_freq_get

/-- An assignment to members of `*emac`. -/
def set_emac (f : emac_esp32_obj → emac_esp32_obj) : Fn esp_emac_locals σ Unit := fun w =>
  ((), { w with emac := { w.emac with emac := w.emac.emac.map f } })

/-- The object in the block `ptr` that `calloc` has filled with zeros; `EMAC_CLK_DEFAULT`
stands for the zero of the clock mode, which the constructor assigns before it reads it. -/
def emac_esp32_obj_zero (ptr : Nat) : emac_esp32_obj where
  ptr := ptr
  rx_task_hdl := none
  intr_hdl := none
  rx_buf := List.replicate h.CONFIG_ETH_DMA_RX_BUFFER_NUM none
  tx_buf := List.replicate h.CONFIG_ETH_DMA_TX_BUFFER_NUM none
  pm_lock := none
  clock_config := { clock_mode := emac_rmii_clock_mode_t.EMAC_CLK_DEFAULT, clock_gpio := 0 }
  sw_reset_timeout_ms := 0
  smi_mdc_gpio_num := 0
  smi_mdio_gpio_num := 0
  flow_control_high_water_mark := 0
  flow_control_low_water_mark := 0

/-- The loop `for (int i = 0; i < n; i++) { free(buf[i]); }` of `esp_emac_free_driver_obj`,
from index `i` on; it ends after at most `n` rounds, which the fuel exceeds. -/
def esp_emac_free_bufs (n : Nat) (buf : List (Option Nat)) : Nat → Nat → Fn esp_emac_locals σ Unit
  | 0, _ => fun w => ((), w)
  | fuel + 1, i => fun w =>
    if i < n then
      match free_ptr env (buf.getD i none) w with
      | (_, w1) => esp_emac_free_bufs n buf fuel (i + 1) w1
    else ((), w)

def esp_emac_free_driver_obj (emac : Option emac_esp32_obj) (descriptors : Option Nat) :
    Fn esp_emac_locals σ Unit := fun w =>
  match (match emac with
    | some em =>
      match (match em.rx_task_hdl with
        | some hdl => vTaskDelete env hdl w
        | none => ((), w)) with
      | (_, w) =>
      match (match em.intr_hdl with
        | some hdl => esp_intr_free env hdl w
        | none => ((), w)) with
      | (_, w) =>
      match esp_emac_free_bufs env h.CONFIG_ETH_DMA_TX_BUFFER_NUM em.tx_buf
        (h.CONFIG_ETH_DMA_TX_BUFFER_NUM + 1) 0 w with
      | (_, w) =>
      match esp_emac_free_bufs env h.CONFIG_ETH_DMA_RX_BUFFER_NUM em.rx_buf
        (h.CONFIG_ETH_DMA_RX_BUFFER_NUM + 1) 0 w with
      | (_, w) =>
      match (if h.CONFIG_PM_ENABLE then
          match em.pm_lock with
          | some lock => esp_pm_lock_delete env lock w
          | none => ((), w)
        else ((), w)) with
      | (_, w) => free_ptr env (some em.ptr) w
    | none => ((), w)) with
  | (_, w) =>
    match descriptors with
    | some d => free_ptr env (some d) w
    | none => ((), w)

/-- The loop `for (int i = 0; i < CONFIG_ETH_DMA_RX_BUFFER_NUM; i++)` of
`esp_emac_alloc_driver_obj`, from index `i` on. -/
def esp_emac_alloc_rx_bufs : Nat → Nat → Blk esp_emac_locals σ Unit
  | 0, _ => Blk.pure ()
  | fuel + 1, i =>
    if i < h.CONFIG_ETH_DMA_RX_BUFFER_NUM then do
      let p ← call (heap_caps_calloc env h.CONFIG_ETH_DMA_BUFFER_SIZE)
      call (set_emac (fun em => { em with rx_buf := em.rx_buf.set i p }))
      ESP_GOTO_ON_FALSE p.isSome ESP_ERR_NO_MEM
      esp_emac_alloc_rx_bufs fuel (i + 1)
    else Blk.pure ()

/-- The loop `for (int i = 0; i < CONFIG_ETH_DMA_TX_BUFFER_NUM; i++)` of
`esp_emac_alloc_driver_obj`, from index `i` on. -/
def esp_emac_alloc_tx_bufs : Nat → Nat → Blk esp_emac_locals σ Unit
  | 0, _ => Blk.pure ()
  | fuel + 1, i =>
    if i < h.CONFIG_ETH_DMA_TX_BUFFER_NUM then do
      let p ← call (heap_caps_calloc env h.CONFIG_ETH_DMA_BUFFER_SIZE)
      call (set_emac (fun em => { em with tx_buf := em.tx_buf.set i p }))
      ESP_GOTO_ON_FALSE p.isSome ESP_ERR_NO_MEM
      esp_emac_alloc_tx_bufs fuel (i + 1)
    else Blk.pure ()

/-- The call `esp_pm_lock_create(ESP_PM_APB_FREQ_MAX, 0, "emac_esp32", &emac->pm_lock)`. -/
def esp_pm_lock_create : Fn esp_emac_locals σ esp_err_t := fun w =>
  match emit (Ev.new_esp32 NewEv.esp_pm_lock_create)
    (env.esp_pm_lock_create (w.emac.emac.bind (fun em => em.pm_lock))) w with
  | ((r, lock), w1) => (r, (set_emac (fun em => { em with pm_lock := lock }) w1).2)

/-- The call `xTaskCreatePinnedToCore(emac_esp32_rx_task, "emac_rx", stack_size, emac, prio,
&emac->rx_task_hdl, core_num)`: whether the result is `pdPASS`. -/
def xTaskCreatePinnedToCore (stack_size prio : Nat) (core_num : Int) :
    Fn esp_emac_locals σ Bool := fun w =>
  match emit (Ev.new_esp32 (NewEv.xTaskCreatePinnedToCore stack_size prio core_num))
    (env.xTaskCreatePinnedToCore stack_size prio core_num
      (w.emac.emac.bind (fun em => em.rx_task_hdl))) w with
  | ((r, hdl), w1) => (r, (set_emac (fun em => { em with rx_task_hdl := hdl }) w1).2)

/-- The statements of `esp_emac_alloc_driver_obj` in front of `*out_descriptors = descriptors`,
on the locals `emac` and `descriptors` of the function. -/
def esp_emac_alloc_driver_obj_body (config : eth_mac_config_t) : Blk esp_emac_locals σ Unit := do
  let p ← call (if config.flags &&& h.ETH_MAC_FLAG_WORK_WITH_CACHE_DISABLE ≠ 0
    then heap_caps_calloc env h.sizeof_emac_esp32_t
    else calloc env h.sizeof_emac_esp32_t)
  call (fun w => ((), { w with emac := { w.emac with emac := p.map (emac_esp32_obj_zero h) } }))
  ESP_GOTO_ON_FALSE p.isSome ESP_ERR_NO_MEM
  /- alloc memory for ethernet dma descriptor -/
  let desc_size := (h.CONFIG_ETH_DMA_RX_BUFFER_NUM * h.sizeof_eth_dma_rx_descriptor_t +
    h.CONFIG_ETH_DMA_TX_BUFFER_NUM * h.sizeof_eth_dma_tx_descriptor_t) % 4294967296
  let d ← call (heap_caps_calloc env desc_size)
  call (fun w => ((), { w with emac := { w.emac with descriptors := d } }))
  ESP_GOTO_ON_FALSE d.isSome ESP_ERR_NO_MEM
  /- alloc memory for ethernet dma buffer -/
  esp_emac_alloc_rx_bufs h env (h.CONFIG_ETH_DMA_RX_BUFFER_NUM + 1) 0
  esp_emac_alloc_tx_bufs h env (h.CONFIG_ETH_DMA_TX_BUFFER_NUM + 1) 0
  /- alloc PM lock -/
  if h.CONFIG_PM_ENABLE then ESP_GOTO_ON_ERROR (esp_pm_lock_create env) else Blk.pure ()
  /- create rx task -/
  let core_num ← if config.flags &&& h.ETH_MAC_FLAG_PIN_TO_CORE ≠ 0
    then call (cpu_hal_get_core_id env)
    else Blk.pure h.tskNO_AFFINITY
  let xReturned ← call (xTaskCreatePinnedToCore env config.rx_task_stack_size config.rx_task_prio
    core_num)
  ESP_GOTO_ON_FALSE xReturned ESP_FAIL

/-- Returns `ret` and the contents of `*emac_out_hdl` and `*out_descriptors` after the call,
for their contents before the call. The locals of the caller are left as they are. -/
def esp_emac_alloc_driver_obj (config : eth_mac_config_t) (emac_out_hdl : Option emac_esp32_obj)
    (out_descriptors : Option Nat) :
    Fn esp_emac_locals σ (esp_err_t × Option emac_esp32_obj × Option Nat) := fun w =>
  match esp_emac_alloc_driver_obj_body h env config
    { w with emac := { emac := none, descriptors := none } } with
  | (Except.ok _, w1) =>
    ((ESP_OK, w1.emac.emac, w1.emac.descriptors), { w1 with emac := w.emac })
  | (Except.error ret, w1) =>
    match esp_emac_free_driver_obj h env w1.emac.emac w1.emac.descriptors w1 with
    | (_, w2) => ((ret, emac_out_hdl, out_descriptors), { w2 with emac := w.emac })

def emac_config_apll_clock : Fn esp_emac_locals σ Unit := fun w =>
  /- apll_freq = xtal_freq * (4 + sdm2 + sdm1/256 + sdm0/65536)/((o_div + 2) * 2) -/
  match rtc_clk_xtal_freq_get env w with
  | (rtc_xtal_freq, w) =>
    match rtc_xtal_freq with
    | rtc_xtal_freq_t.RTC_XTAL_FREQ_40M =>
      new_effect env (Ev.new_esp32 (NewEv.rtc_clk_apll_enable 0 0 6 2)) w
    | rtc_xtal_freq_t.RTC_XTAL_FREQ_26M =>
      new_effect env (Ev.new_esp32 (NewEv.rtc_clk_apll_enable 39 118 15 3)) w
    | rtc_xtal_freq_t.RTC_XTAL_FREQ_24M =>
      new_effect env (Ev.new_esp32 (NewEv.rtc_clk_apll_enable 255 255 12 2)) w
    | _ => new_effect env (Ev.new_esp32 (NewEv.rtc_clk_apll_enable 0 0 6 2)) w

/-- The contents of `emac->clock_config`; `emac` is not null where the function reads it. -/
def get_clock_config : Fn esp_emac_locals σ eth_mac_clock_config_t := fun w =>
  ((w.emac.emac.map (fun em => em.clock_config)).getD
    { clock_mode := emac_rmii_clock_mode_t.EMAC_CLK_DEFAULT, clock_gpio := 0 }, w)

/-- The function works on the object of the local `emac` of its caller. -/
def esp_emac_config_data_interface (config : eth_mac_config_t) : Fn esp_emac_locals σ esp_err_t :=
  Blk.ret (
  match config.interface with
  | eth_data_interface_t.EMAC_DATA_INTERFACE_MII => do
    call (set_emac (fun em => { em with clock_config := config.clock_config }))
    /- MII interface GPIO initialization -/
    call (new_effect env (Ev.new_esp32 NewEv.emac_hal_iomux_init_mii))
    /- Enable MII clock -/
    call (new_effect env (Ev.new_esp32 NewEv.emac_ll_clock_enable_mii))
  | eth_data_interface_t.EMAC_DATA_INTERFACE_RMII => do
    /- by default, the clock mode is selected at compile time (by Kconfig) -/
    if config.clock_config.clock_mode = emac_rmii_clock_mode_t.EMAC_CLK_DEFAULT then
      if h.CONFIG_ETH_RMII_CLK_INPUT then
        call (set_emac (fun em => { em with clock_config :=
          { clock_mode := emac_rmii_clock_mode_t.EMAC_CLK_EXT_IN,
            clock_gpio := h.CONFIG_ETH_RMII_CLK_IN_GPIO } }))
      else
        call (set_emac (fun em => { em with clock_config :=
          { clock_mode := emac_rmii_clock_mode_t.EMAC_CLK_OUT,
            clock_gpio :=
              if h.CONFIG_ETH_RMII_CLK_OUTPUT_GPIO0 then 0
              else if h.CONFIG_ETH_RMII_CLK_OUT_GPIO ≠ 0 then h.CONFIG_ETH_RMII_CLK_OUT_GPIO
              else em.clock_config.clock_gpio } }))
    else
      call (set_emac (fun em => { em with clock_config := config.clock_config }))
    /- RMII interface GPIO initialization -/
    call (new_effect env (Ev.new_esp32 NewEv.emac_hal_iomux_init_rmii))
    let cc ← call get_clock_config
    /- If ref_clk is configured as input -/
    if cc.clock_mode = emac_rmii_clock_mode_t.EMAC_CLK_EXT_IN then do
      ESP_GOTO_ON_FALSE (decide (cc.clock_gpio = h.EMAC_CLK_IN_GPIO)) ESP_ERR_INVALID_ARG
      call (new_effect env (Ev.new_esp32 NewEv.emac_hal_iomux_rmii_clk_input))
      call (new_effect env (Ev.new_esp32 NewEv.emac_ll_clock_enable_rmii_input))
    else if cc.clock_mode = emac_rmii_clock_mode_t.EMAC_CLK_OUT then do
      ESP_GOTO_ON_FALSE (decide (cc.clock_gpio = h.EMAC_APPL_CLK_OUT_GPIO ∨
        cc.clock_gpio = h.EMAC_CLK_OUT_GPIO ∨ cc.clock_gpio = h.EMAC_CLK_OUT_180_GPIO))
        ESP_ERR_INVALID_ARG
      call (new_effect env (Ev.new_esp32 (NewEv.emac_hal_iomux_rmii_clk_ouput cc.clock_gpio)))
      if cc.clock_gpio = h.EMAC_APPL_CLK_OUT_GPIO then
        call (new_effect env (Ev.new_esp32 (NewEv.REG_SET_FIELD_PIN_CTRL_CLK_OUT1 6)))
      else Blk.pure ()
      /- Enable RMII clock -/
      call (new_effect env (Ev.new_esp32 NewEv.emac_ll_clock_enable_rmii_output))
      call (emac_config_apll_clock env)
    else
      ESP_GOTO_ON_FALSE false ESP_ERR_INVALID_ARG
  | _ => ESP_GOTO_ON_FALSE false ESP_ERR_INVALID_ARG)

/-- The statements under the label `err` of `esp_eth_mac_new_esp32`: the result is `NULL`. -/
def esp_eth_mac_new_esp32_err : Fn esp_emac_locals σ (Option emac_esp32_obj) := fun w =>
  (none, (esp_emac_free_driver_obj h env w.emac.emac w.emac.descriptors w).2)

/-- The statements from the label `err_interf` of `esp_eth_mac_new_esp32` on. -/
def esp_eth_mac_new_esp32_err_interf : Fn esp_emac_locals σ (Option emac_esp32_obj) := fun w =>
  esp_eth_mac_new_esp32_err h env (new_effect env Ev.periph_module_disable w).2

/-- The call `esp_intr_alloc(ETS_ETH_MAC_INTR_SOURCE, flags, emac_isr_default_handler,
&emac->hal, &(emac->intr_hdl))`. -/
def esp_intr_alloc (iram : Bool) : Fn esp_emac_locals σ esp_err_t := fun w =>
  match emit (Ev.new_esp32 (NewEv.esp_intr_alloc iram))
    (env.esp_intr_alloc iram (w.emac.emac.bind (fun em => em.intr_hdl))) w with
  | ((r, hdl), w1) => (r, (set_emac (fun em => { em with intr_hdl := hdl }) w1).2)

/-- The argument is `none` for a null pointer; the result is the object whose member
`parent` the function returns, `none` for `NULL`. The locals `emac` and `descriptors` are
those of the world, which the function sets to `NULL` first. -/
def esp_eth_mac_new_esp32 (config : Option eth_mac_config_t) :
    Fn esp_emac_locals σ (Option emac_esp32_obj) := fun w =>
  match ({ w with emac := { emac := none, descriptors := none } } : World esp_emac_locals σ) with
  | w =>
  match config with
  | none => esp_eth_mac_new_esp32_err h env w
  | some config =>
    match esp_emac_alloc_driver_obj h env config w.emac.emac w.emac.descriptors w with
    | ((ret_code, emac, descriptors), w) =>
      match ({ w with emac := { emac := emac, descriptors := descriptors } } :
          World esp_emac_locals σ) with
      | w =>
      if ret_code ≠ ESP_OK then esp_eth_mac_new_esp32_err h env w
      else
        /- enable APB to access Ethernet peripheral registers -/
        match new_effect env (Ev.new_esp32 NewEv.periph_module_enable) w with
        | (_, w) =>
        /- initialize hal layer driver -/
        match new_effect env (Ev.new_esp32 (NewEv.emac_hal_init w.emac.descriptors
            ((w.emac.emac.map (fun em => em.rx_buf)).getD [])
            ((w.emac.emac.map (fun em => em.tx_buf)).getD []))) w with
        | (_, w) =>
        /- alloc interrupt -/
        match esp_intr_alloc env
          (decide (config.flags &&& h.ETH_MAC_FLAG_WORK_WITH_CACHE_DISABLE ≠ 0)) w with
        | (ret_code, w) =>
          if ret_code ≠ ESP_OK then esp_eth_mac_new_esp32_err h env w
          else
            match esp_emac_config_data_interface h env config w with
            | (ret_code, w) =>
              if ret_code ≠ ESP_OK then esp_eth_mac_new_esp32_err_interf h env w
              else
                match set_emac (fun em =>
                  { em with
                    sw_reset_timeout_ms := config.sw_reset_timeout_ms
                    smi_mdc_gpio_num := config.smi_mdc_gpio_num
                    smi_mdio_gpio_num := config.smi_mdio_gpio_num
                    flow_control_high_water_mark := h.CONFIG_ETH_DMA_RX_BUFFER_NUM / 3 * 2
                    flow_control_low_water_mark := h.CONFIG_ETH_DMA_RX_BUFFER_NUM / 3 }) w with
                | (_, w) => (w.emac.emac, w)

end esp32_new

/-! ## Resources of the constructor as a set of acquired items -/

/-- The resources the constructor has taken and given back. `script` holds the outcome of
each attempt to take a resource (memory block, lock, task, interrupt), in order, and every
attempt succeeds once it is used up; `next` is the number of the next resource; `acquired`
and `released` list the resources taken and given back, in order; `enabled` and `disabled`
count the calls of `periph_module_enable` and `periph_module_disable`; `xtal` is the
crystal. -/
structure Res where
  script : List Bool
  next : Nat
  acquired : List Nat
  released : List Nat
  enabled : Nat
  disabled : Nat
  xtal : rtc_xtal_freq_t
  deriving DecidableEq, Repr

/-- An attempt to take a resource. -/
def Res.acquire (s : Res) : Option Nat × Res :=
  match s.script with
  | false :: rest => (none, { s with script := rest })
  | _ => (some s.next, { s with script := s.script.tail, next := s.next + 1,
                                acquired := s.acquired ++ [s.next] })

def Res.release (p : Nat) (s : Res) : Res :=
  { s with released := s.released ++ [p] }

/-- The environment that records the resources; a failed `esp_pm_lock_create` and a failed
`esp_intr_alloc` return `ESP_ERR_NO_MEM` and leave the handle as it was. -/
def resEnv : Esp32NewEnv Res where
  calloc _ s := s.acquire
  heap_caps_calloc _ s := s.acquire
  free ptr s :=
    match ptr with
    | some p => s.release p
    | none => s
  esp_pm_lock_create lock s :=
    match s.acquire with
    | (some p, s1) => ((ESP_OK, some p), s1)
    | (none, s1) => ((ESP_ERR_NO_MEM, lock), s1)
  esp_pm_lock_delete lock s := s.release lock
  cpu_hal_get_core_id s := (0, s)
  xTaskCreatePinnedToCore _ _ _ hdl s :=
    match s.acquire with
    | (some p, s1) => ((true, some p), s1)
    | (none, s1) => ((false, hdl), s1)
  vTaskDelete hdl s := s.release hdl
  esp_intr_alloc _ hdl s :=
    match s.acquire with
    | (some p, s1) => ((ESP_OK, some p), s1)
    | (none, s1) => ((ESP_ERR_NO_MEM, hdl), s1)
  esp_intr_free hdl s := s.release hdl
  rtc_clk_xtal_freq_get s := (s.xtal, s)
  effect ev s :=
    match ev with
    | Ev.new_esp32 NewEv.periph_module_enable => { s with enabled := s.enabled + 1 }
    | Ev.periph_module_disable => { s with disabled := s.disabled + 1 }
    | _ => s

/-- The number of resources `esp_emac_alloc_driver_obj` takes: the driver object, the
descriptors, the RX and TX buffers, the PM lock when `CONFIG_PM_ENABLE` is set, and the
worker task. -/
def esp_emac_alloc_count (h : emac_esp32_h) : Nat :=
  2 + h.CONFIG_ETH_DMA_RX_BUFFER_NUM + h.CONFIG_ETH_DMA_TX_BUFFER_NUM +
    (if h.CONFIG_PM_ENABLE then 1 else 0) + 1

/-- The RX buffers, when the driver object is the resource `n` and every attempt succeeds. -/
def esp_emac_rx_ids (h : emac_esp32_h) (n : Nat) : List Nat :=
  List.range' (n + 2) h.CONFIG_ETH_DMA_RX_BUFFER_NUM

/-- The TX buffers, when the driver object is the resource `n` and every attempt succeeds. -/
def esp_emac_tx_ids (h : emac_esp32_h) (n : Nat) : List Nat :=
  List.range' (n + 2 + h.CONFIG_ETH_DMA_RX_BUFFER_NUM) h.CONFIG_ETH_DMA_TX_BUFFER_NUM

/-- The PM lock, when the driver object is the resource `n` and every attempt succeeds. -/
def esp_emac_pm_ids (h : emac_esp32_h) (n : Nat) : List Nat :=
  if h.CONFIG_PM_ENABLE then [n + 2 + h.CONFIG_ETH_DMA_RX_BUFFER_NUM + h.CONFIG_ETH_DMA_TX_BUFFER_NUM]
  else []

/-- The worker task, when the driver object is the resource `n` and every attempt succeeds. -/
def esp_emac_task_id (h : emac_esp32_h) (n : Nat) : Nat :=
  n + 2 + h.CONFIG_ETH_DMA_RX_BUFFER_NUM + h.CONFIG_ETH_DMA_TX_BUFFER_NUM +
    (if h.CONFIG_PM_ENABLE then 1 else 0)

/-- The driver object `esp_emac_alloc_driver_obj` hands over, when the driver object is the
resource `n` and every attempt succeeds. -/
def esp_emac_allocated_obj (h : emac_esp32_h) (n : Nat) : emac_esp32_obj :=
  { emac_esp32_obj_zero h n with
    rx_buf := (esp_emac_rx_ids h n).map some
    tx_buf := (esp_emac_tx_ids h n).map some
    pm_lock := (esp_emac_pm_ids h n).head?
    rx_task_hdl := some (esp_emac_task_id h n) }

/-- The constants of ESP-IDF 4.4 with the default build configuration; the sizes are those of
a 32-bit target. -/
def emac_esp32_h_sample : emac_esp32_h where
  ETH_MAC_FLAG_WORK_WITH_CACHE_DISABLE := 1
  ETH_MAC_FLAG_PIN_TO_CORE := 2
  EMAC_CLK_IN_GPIO := 0
  EMAC_APPL_CLK_OUT_GPIO := 0
  EMAC_CLK_OUT_GPIO := 16
  EMAC_CLK_OUT_180_GPIO := 17
  tskNO_AFFINITY := 2147483647
  CONFIG_ETH_DMA_RX_BUFFER_NUM := 10
  CONFIG_ETH_DMA_TX_BUFFER_NUM := 10
  CONFIG_ETH_DMA_BUFFER_SIZE := 512
  CONFIG_PM_ENABLE := false
  CONFIG_ETH_RMII_CLK_INPUT := true
  CONFIG_ETH_RMII_CLK_IN_GPIO := 0
  CONFIG_ETH_RMII_CLK_OUTPUT_GPIO0 := false
  CONFIG_ETH_RMII_CLK_OUT_GPIO := 0
  sizeof_emac_esp32_t := 256
  sizeof_eth_dma_rx_descriptor_t := 32
  sizeof_eth_dma_tx_descriptor_t := 32

/-- The configuration `ETH_MAC_DEFAULT_CONFIG()` with the RMII interface. -/
def eth_mac_config_sample : eth_mac_config_t where
  sw_reset_timeout_ms := 100
  rx_task_stack_size := 2048
  rx_task_prio := 15
  smi_mdc_gpio_num := 23
  smi_mdio_gpio_num := 18
  flags := 0
  interface := eth_data_interface_t.EMAC_DATA_INTERFACE_RMII
  clock_config := { clock_mode := emac_rmii_clock_mode_t.EMAC_CLK_DEFAULT, clock_gpio := 0 }

/-- A world in which nothing has been taken yet, with the given outcomes of the attempts. -/
def res_world (script : List Bool) : World esp_emac_locals Res where
  emac := { emac := none, descriptors := none }
  dev := { script := script, next := 1, acquired := [], released := [], enabled := 0,
           disabled := 0, xtal := rtc_xtal_freq_t.RTC_XTAL_FREQ_40M }
  trace := []

/-! ## The results of the bus accesses -/

/-- The results `l` of the accesses of an operation that returned `status`: every access
succeeded, or the last one failed with an error `e`, every access before it succeeded, and
`status` is related to `e` by `R`. -/
def access_log_ok (R : esp_err_t → esp_err_t → Prop) (l : List esp_err_t) (status : esp_err_t) :
    Prop :=
  (∀ x ∈ l, x = ESP_OK) ∨
    ∃ l0 e, l = l0 ++ [e] ∧ (∀ x ∈ l0, x = ESP_OK) ∧ e ≠ ESP_OK ∧ R e status

/-- The world `w1` is reached from the world `w` by bus accesses that stop at the first one
that fails, with a result `status` that `R` relates to the error of that access. -/
def accesses_between {ε σ : Type} (R : esp_err_t → esp_err_t → Prop)
    (w w1 : World ε (σ × List esp_err_t)) (status : esp_err_t) : Prop :=
  ∃ l, w1.dev.2 = w.dev.2 ++ l ∧ access_log_ok R l status

/-- The function makes no bus access after one that failed, and its result, read through
`status`, is related by `R` to the error of the access that failed. -/
def stops_at_failure {ε σ β : Type} (R : esp_err_t → esp_err_t → Prop) (status : β → esp_err_t)
    (f : World ε (σ × List esp_err_t) → β × World ε (σ × List esp_err_t)) : Prop :=
  ∀ w, accesses_between R w (f w).2 (status (f w).1)

/-- A world of the scripted environment for an initialisation on which every step succeeds:
the answers to the two writes of the reset, to the polls of NCR (`busy` for the polls that
find the reset running, then `d`), to the four reads of the chip ID, to the 13 writes of the
default setup and the 9 writes of the multicast table, and the bytes `par` of the six PAR
registers. -/
def init_script_world (e : emac_dm9051_t) (cl : List Int) (hp : List Bool) (stk : List esp_err_t)
    (tr : List Ev) (busy : List Nat) (d : Nat) (par : List Nat) (rest : List BusResp) :
    World emac_dm9051_t Script where
  emac := e
  dev := { bus := BusResp.ok [] :: BusResp.ok [] ::
             (busy.map (fun b => BusResp.ok [b]) ++ BusResp.ok [d] ::
               (BusResp.ok [0x46] :: BusResp.ok [0x0A] :: BusResp.ok [0x51] :: BusResp.ok [0x90] ::
                 (List.replicate 13 (BusResp.ok []) ++ (List.replicate 9 (BusResp.ok []) ++
                   (par.map (fun b => BusResp.ok [b]) ++ rest))))),
           clock := cl, heap := hp, stack := stk }
  trace := tr

/-! # Theorems -/

/-! ## The block monad and the bus primitives on a script -/

theorem Blk.bind_def {ε σ α β : Type} (m : Blk ε σ α) (f : α → Blk ε σ β) :
    (m >>= f) = Blk.bind m f := rfl

theorem Blk.pure_def {ε σ α : Type} (a : α) : (Pure.pure a : Blk ε σ α) = Blk.pure a := rfl

section script_lemmas
variable (c : dm9051_h) (e : emac_dm9051_t) (rest : List BusResp) (cl : List Int)
  (hp : List Bool) (st : List esp_err_t) (tr : List Ev)

theorem register_read_ok (reg_addr value : Nat) (rx : List Nat) :
    dm9051_register_read c scriptEnv reg_addr value
        { emac := e, dev := { bus := BusResp.ok rx :: rest, clock := cl, heap := hp, stack := st }, trace := tr } =
      ((ESP_OK, rx.headD 0 % 256),
        { emac := e, dev := { bus := rest, clock := cl, heap := hp, stack := st },
          trace := tr ++ ev_register_read c reg_addr }) := by
  simp [dm9051_register_read, dm9051_transfer, dm9051_lock, dm9051_unlock,
    spi_device_polling_transmit, emit, scriptEnv, ev_register_read, ev_transfer]

theorem register_read_lock_timeout (reg_addr value : Nat) :
    dm9051_register_read c scriptEnv reg_addr value
        { emac := e, dev := { bus := BusResp.lock_timeout :: rest, clock := cl, heap := hp, stack := st }, trace := tr } =
      ((ESP_ERR_TIMEOUT, value),
        { emac := e, dev := { bus := rest, clock := cl, heap := hp, stack := st },
          trace := tr ++ [Ev.xSemaphoreTake DM9051_SPI_LOCK_TIMEOUT_MS] }) := by
  simp [dm9051_register_read, dm9051_transfer, dm9051_lock, emit, scriptEnv]

theorem register_write_ok (reg_addr value : Nat) (rx : List Nat) :
    dm9051_register_write c scriptEnv reg_addr value
        { emac := e, dev := { bus := BusResp.ok rx :: rest, clock := cl, heap := hp, stack := st }, trace := tr } =
      (ESP_OK,
        { emac := e, dev := { bus := rest, clock := cl, heap := hp, stack := st },
          trace := tr ++ ev_register_write c reg_addr value }) := by
  simp [dm9051_register_write, dm9051_transfer, dm9051_lock, dm9051_unlock,
    spi_device_polling_transmit, emit, scriptEnv, ev_register_write, ev_transfer]

theorem memory_peek_ok (buffer : List Nat) (len : Nat) (rx : List Nat) :
    dm9051_memory_peek c scriptEnv buffer len
        { emac := e, dev := { bus := BusResp.ok rx :: rest, clock := cl, heap := hp, stack := st }, trace := tr } =
      ((ESP_OK, rx_store buffer rx len),
        { emac := e, dev := { bus := rest, clock := cl, heap := hp, stack := st },
          trace := tr ++ ev_memory_peek c len }) := by
  simp [dm9051_memory_peek, dm9051_transfer, dm9051_lock, dm9051_unlock,
    spi_device_polling_transmit, emit, scriptEnv, ev_memory_peek, ev_transfer]

theorem memory_read_ok (buffer : List Nat) (len : Nat) (rx : List Nat) :
    dm9051_memory_read c scriptEnv buffer len
        { emac := e, dev := { bus := BusResp.ok rx :: rest, clock := cl, heap := hp, stack := st }, trace := tr } =
      ((ESP_OK, rx_store buffer rx len),
        { emac := e, dev := { bus := rest, clock := cl, heap := hp, stack := st },
          trace := tr ++ ev_memory_read c len }) := by
  simp [dm9051_memory_read, dm9051_transfer, dm9051_lock, dm9051_unlock,
    spi_device_polling_transmit, emit, scriptEnv, ev_memory_read, ev_transfer]

theorem memory_write_ok (buffer : List Nat) (len : Nat) (rx : List Nat) :
    dm9051_memory_write c scriptEnv buffer len
        { emac := e, dev := { bus := BusResp.ok rx :: rest, clock := cl, heap := hp, stack := st }, trace := tr } =
      (ESP_OK,
        { emac := e, dev := { bus := rest, clock := cl, heap := hp, stack := st },
          trace := tr ++ ev_transfer { cmd := c.DM9051_SPI_WR, addr := c.DM9051_MWCMD, length := len * 8,
                                       tx := buffer.take len } }) := by
  simp [dm9051_memory_write, dm9051_transfer, dm9051_lock, dm9051_unlock,
    spi_device_polling_transmit, emit, scriptEnv, ev_transfer]

theorem delay_us_script (us : Nat) (bus : List BusResp) :
    esp_rom_delay_us scriptEnv us
        { emac := e, dev := { bus := bus, clock := cl, heap := hp, stack := st }, trace := tr } =
      ((), { emac := e, dev := { bus := bus, clock := cl, heap := hp, stack := st },
             trace := tr ++ [Ev.esp_rom_delay_us us] }) := by
  simp [esp_rom_delay_us, emit, scriptEnv]

theorem get_time_script (t : Int) (bus : List BusResp) :
    esp_timer_get_time scriptEnv
        { emac := e, dev := { bus := bus, clock := t :: cl, heap := hp, stack := st }, trace := tr } =
      (t, { emac := e, dev := { bus := bus, clock := cl, heap := hp, stack := st },
            trace := tr ++ [Ev.esp_timer_get_time] }) := by
  simp [esp_timer_get_time, emit, scriptEnv]

theorem malloc_script (size : Nat) (b : Bool) (bus : List BusResp) :
    malloc scriptEnv size
        { emac := e, dev := { bus := bus, clock := cl, heap := b :: hp, stack := st }, trace := tr } =
      (b, { emac := e, dev := { bus := bus, clock := cl, heap := hp, stack := st },
            trace := tr ++ [Ev.malloc size] }) := by
  simp [malloc, emit, scriptEnv]

theorem free_script (buf : heap_block) (bus : List BusResp) :
    free scriptEnv buf
        { emac := e, dev := { bus := bus, clock := cl, heap := hp, stack := st }, trace := tr } =
      ((), { emac := e, dev := { bus := bus, clock := cl, heap := hp, stack := st },
             trace := tr ++ [Ev.free buf] }) := by
  simp [free, emit, scriptEnv]

theorem stack_input_script_snd (buf : heap_block) (len : Nat) (bus : List BusResp) :
    (stack_input scriptEnv buf len
        { emac := e, dev := { bus := bus, clock := cl, heap := hp, stack := [] }, trace := tr }).2 =
      { emac := e, dev := { bus := bus, clock := cl, heap := hp, stack := [] },
        trace := tr ++ [Ev.stack_input buf len] } := by
  simp [stack_input, emit, scriptEnv]

theorem rx_store_four (b0 b1 b2 b3 : Nat) (h0 : b0 < 256) (h1 : b1 < 256) (h2 : b2 < 256)
    (h3 : b3 < 256) : rx_store [0, 0, 0, 0] [b0, b1, b2, b3] 4 = [b0, b1, b2, b3] := by
  simp [rx_store, List.range_succ, Nat.mod_eq_of_lt, h0, h1, h2, h3]

end script_lemmas

/-! ## C1: frames below the minimum size -/

/-- C1 (as amended): for a pending frame (byte flag 1, no status error) whose header length
`L = lo + 256 * hi` is below 64 and is not 1, 2 or 3, `dm9051_alloc_recv_buf` called with a
maximum length of `ETH_MAX_PACKET_SIZE` returns no buffer and never calls `malloc`: for
`4 ≤ L` it returns `ESP_ERR_INVALID_SIZE` with `*length = L - 4`, for `L = 0` it returns
`ESP_OK` with `*length = 0` (no frame is waiting). -/
theorem dm9051_alloc_recv_buf_runt (c : dm9051_h) (w : World emac_dm9051_t Script)
    (ra : List Nat) (fl st lo hi : Nat) (rest : List BusResp)
    (hfl : fl < 256) (hst : st < 256) (hlo : lo < 256) (hhi : hi < 256)
    (hstatus : st &&& 0xBF = 0)
    (hrunt : lo + 256 * hi < 64) (hL : lo + 256 * hi = 0 ∨ 4 ≤ lo + 256 * hi)
    (hbus : w.dev.bus = BusResp.ok ra :: BusResp.ok [1] :: BusResp.ok [fl, st, lo, hi] :: rest) :
    dm9051_alloc_recv_buf c scriptEnv ETH_MAX_PACKET_SIZE w =
      ((if lo + 256 * hi = 0 then ESP_OK else ESP_ERR_INVALID_SIZE, none, lo + 256 * hi - 4),
        { w with dev := { w.dev with bus := rest },
                 trace := w.trace ++ ev_register_read c c.DM9051_MRCMDX ++
                   ev_register_read c c.DM9051_MRCMDX ++ ev_memory_peek c 4 }) := by
  obtain ⟨e, ⟨bus, clock, heap, stack⟩, tr⟩ := w
  simp only at hbus
  subst hbus
  have hhi0 : hi = 0 := by omega
  subst hhi0
  have hlo64 : lo < 64 := by omega
  simp [dm9051_alloc_recv_buf, dm9051_get_recv_byte_count, dm9051_get_recv_byte_count_body,
    Blk.bind_def, Blk.bind, Blk.pure_def, Blk.pure, ESP_GOTO_ON_ERROR_out, register_read_ok,
    memory_peek_ok, rx_store_four, hfl, hst, hlo, dm9051_rx_header_of, hstatus,
    ETH_MAX_PACKET_SIZE, ETH_MIN_PACKET_SIZE, ETH_CRC_LEN]
  rcases hL with h0 | h4
  · have : lo = 0 := by omega
    subst this
    simp
  · have hne : ¬ lo = 0 := by omega
    have hmod : lo % 65536 = lo := by omega
    have h2 : (lo + 65532) % 65536 = lo - 4 := by omega
    have h3 : ¬ 1522 < lo - 4 := by omega
    have h4 : (lo - 4) % 65536 = lo - 4 := by omega
    have h5 : ¬ 60 ≤ lo - 4 := by omega
    simp [hne, hmod, h2, h3, h4, h5]

/-- C1, witness: a frame of header length 40 is rejected with `ESP_ERR_INVALID_SIZE`. -/
theorem dm9051_alloc_recv_buf_runt_witness :
    dm9051_alloc_recv_buf dm9051_h_sample scriptEnv ETH_MAX_PACKET_SIZE
        (script_world [BusResp.ok [1], BusResp.ok [1], BusResp.ok [1, 0, 40, 0]] [true]) =
      ((ESP_ERR_INVALID_SIZE, none, 36),
        { script_world [] [true] with
          trace := [] ++ ev_register_read dm9051_h_sample dm9051_h_sample.DM9051_MRCMDX ++
            ev_register_read dm9051_h_sample dm9051_h_sample.DM9051_MRCMDX ++
            ev_memory_peek dm9051_h_sample 4 }) :=
  dm9051_alloc_recv_buf_runt dm9051_h_sample
    (script_world [BusResp.ok [1], BusResp.ok [1], BusResp.ok [1, 0, 40, 0]] [true])
    [1] 1 0 40 0 [] (by decide) (by decide) (by decide) (by decide) (by decide) (by decide)
    (by decide) rfl

/-- C1, counterexample: with byte flag 1 and no status error, a header length of 0 makes
`dm9051_alloc_recv_buf` return `ESP_OK` (not `ESP_ERR_INVALID_SIZE`), and a header length
of 3 makes it allocate a buffer of 1522 bytes and return `ESP_OK` with `*length = 65535`. -/
theorem dm9051_alloc_recv_buf_runt_counterexample :
    (dm9051_alloc_recv_buf dm9051_h_sample scriptEnv ETH_MAX_PACKET_SIZE
        (script_world [BusResp.ok [1], BusResp.ok [1], BusResp.ok [1, 0, 0, 0]] [true])).1 =
      (ESP_OK, none, 0) ∧
    (dm9051_alloc_recv_buf dm9051_h_sample scriptEnv ETH_MAX_PACKET_SIZE
        (script_world [BusResp.ok [1], BusResp.ok [1], BusResp.ok [1, 0, 3, 0]] [true])).1 =
      (ESP_OK, some { size := 1522, info := { copy_len := 1522, byte_cnt := 3 }, data := [] }, 65535) := by
  constructor <;> decide

/-! ## Machine arithmetic -/

theorem shl8_eq (a : Nat) : a <<< 8 = 256 * a := by
  rw [Nat.shiftLeft_eq]; omega

theorem shl8_or_eq (a b : Nat) (hb : b < 256) : a <<< 8 ||| b = 256 * a + b := by
  rw [shl8_eq]
  exact (Nat.mul_add_lt_is_or (i := 8) (by simpa using hb) a).symm

theorem and_255_eq (x : Nat) : x &&& 255 = x % 256 := by
  simpa using Nat.and_pow_two_sub_one_eq_mod x 8

theorem shr8_eq (x : Nat) : x >>> 8 = x / 256 := by
  simpa using Nat.shiftRight_eq_div_pow x 8

/-! ## C2: byte flag outside {0, 1} -/

/-- C2: when the second of the two MRCMDX dummy reads returns a flag `f` other than 0 and 1
and every bus access succeeds, `dm9051_get_recv_byte_count` performs one
`emac_dm9051_stop`, then one write of `MPTRCR_RST_RX` to MPTRCR, the 10 µs delay, then one
`emac_dm9051_start`, in that order, reports size 0 and returns `ESP_FAIL`; for `f = 0` its
only calls are the two MRCMDX reads, and it returns `ESP_OK` with size 0. -/
theorem dm9051_get_recv_byte_count_flag (c : dm9051_h) (w : World emac_dm9051_t Script)
    (ra : List Nat) (f : Nat) (tail : List BusResp) (hf : f < 256)
    (hbus : w.dev.bus = BusResp.ok ra :: BusResp.ok [f] :: tail) :
    (f = 0 →
      dm9051_get_recv_byte_count c scriptEnv w =
        ((ESP_OK, 0),
          { w with dev := { w.dev with bus := tail },
                   trace := w.trace ++ ev_register_read c c.DM9051_MRCMDX ++
                     ev_register_read c c.DM9051_MRCMDX })) ∧
    (∀ (rcr1 rcr2 : Nat) (x1 x2 x3 x4 x5 x6 x7 : List Nat) (rest : List BusResp),
      1 < f → rcr1 < 256 → rcr2 < 256 →
      tail = BusResp.ok x1 :: BusResp.ok [rcr1] :: BusResp.ok x2 :: BusResp.ok x3 ::
        BusResp.ok x4 :: BusResp.ok x5 :: BusResp.ok x6 :: BusResp.ok [rcr2] :: BusResp.ok x7 :: rest →
      dm9051_get_recv_byte_count c scriptEnv w =
        ((ESP_FAIL, 0),
          { w with dev := { w.dev with bus := rest },
                   trace := w.trace ++ ev_register_read c c.DM9051_MRCMDX ++
                     ev_register_read c c.DM9051_MRCMDX ++ ev_stop c rcr1 ++
                     ev_register_write c c.DM9051_MPTRCR c.MPTRCR_RST_RX ++
                     [Ev.esp_rom_delay_us 10] ++ ev_start c rcr2 })) := by
  obtain ⟨e, ⟨bus, clock, heap, stack⟩, tr⟩ := w
  simp only at hbus
  subst hbus
  constructor
  · intro h0
    subst h0
    simp [dm9051_get_recv_byte_count, dm9051_get_recv_byte_count_body, Blk.bind_def, Blk.bind,
      Blk.pure_def, Blk.pure, ESP_GOTO_ON_ERROR_out, register_read_ok]
  · intro rcr1 rcr2 x1 x2 x3 x4 x5 x6 x7 rest h1 hr1 hr2 htail
    subst htail
    simp [dm9051_get_recv_byte_count, dm9051_get_recv_byte_count_body, Blk.bind_def, Blk.bind,
      Blk.pure_def, Blk.pure, ESP_GOTO_ON_ERROR_out, ESP_GOTO_ON_ERROR, register_read_ok,
      register_write_ok, delay_us_script, emac_dm9051_stop, emac_dm9051_start, Blk.ret, call,
      goto_err, ev_stop, ev_start, Nat.mod_eq_of_lt, hf, h1, hr1, hr2]

/-- C2, witness: a flag of 2 triggers the stop, pointer reset, start cycle. -/
theorem dm9051_get_recv_byte_count_flag_witness :
    dm9051_get_recv_byte_count dm9051_h_sample scriptEnv
        (script_world [BusResp.ok [0], BusResp.ok [2], BusResp.ok [], BusResp.ok [0x31], BusResp.ok [],
          BusResp.ok [], BusResp.ok [], BusResp.ok [], BusResp.ok [], BusResp.ok [0x30], BusResp.ok []] []) =
      ((ESP_FAIL, 0),
        { script_world [] [] with
          trace := [] ++ ev_register_read dm9051_h_sample dm9051_h_sample.DM9051_MRCMDX ++
            ev_register_read dm9051_h_sample dm9051_h_sample.DM9051_MRCMDX ++
            ev_stop dm9051_h_sample 0x31 ++
            ev_register_write dm9051_h_sample dm9051_h_sample.DM9051_MPTRCR dm9051_h_sample.MPTRCR_RST_RX ++
            [Ev.esp_rom_delay_us 10] ++ ev_start dm9051_h_sample 0x30 }) :=
  (dm9051_get_recv_byte_count_flag dm9051_h_sample
    (script_world [BusResp.ok [0], BusResp.ok [2], BusResp.ok [], BusResp.ok [0x31], BusResp.ok [],
      BusResp.ok [], BusResp.ok [], BusResp.ok [], BusResp.ok [], BusResp.ok [0x30], BusResp.ok []] [])
    [0] 2 _ (by decide) rfl).2 0x31 0x30 [] [] [] [] [] [] [] [] (by decide) (by decide) (by decide) rfl

/-! ## C3: frames with a status error -/

theorem skip_recv_frame_ok (c : dm9051_h) (e : emac_dm9051_t) (rest : List BusResp) (cl : List Int)
    (hp : List Bool) (st : List esp_err_t) (tr : List Ev) (rx_length mh ml : Nat) (rx1 rx2 : List Nat)
    (hmh : mh < 256) (hml : ml < 256) :
    dm9051_skip_recv_frame c scriptEnv rx_length
        { emac := e,
          dev := { bus := BusResp.ok [mh] :: BusResp.ok [ml] :: BusResp.ok rx1 :: BusResp.ok rx2 :: rest,
                   clock := cl, heap := hp, stack := st },
          trace := tr } =
      (ESP_OK,
        { emac := e, dev := { bus := rest, clock := cl, heap := hp, stack := st },
          trace := tr ++ ev_register_read c c.DM9051_MRRH ++ ev_register_read c c.DM9051_MRRL ++
            ev_register_write c c.DM9051_MRRH (dm9051_skip_addr mh ml rx_length >>> 8) ++
            ev_register_write c c.DM9051_MRRL (dm9051_skip_addr mh ml rx_length &&& 0xFF) }) := by
  simp [dm9051_skip_recv_frame, Blk.ret, Blk.bind_def, Blk.bind, ESP_GOTO_ON_ERROR_out,
    ESP_GOTO_ON_ERROR, register_read_ok, register_write_ok, Nat.mod_eq_of_lt, hmh, hml]

/-- The address written back by `dm9051_skip_recv_frame`, for a read pointer
`p = 256 * mrrh + mrrl` and a frame of `n` bytes with `p + n + 4` below `2^16`: the pointer
plus `n + 4`, less the 13312 bytes of the RX ring when that is beyond 16384. -/
theorem skip_addr_eq (mh ml n : Nat) (hmh : mh < 256) (hml : ml < 256)
    (h16 : 256 * mh + ml + n + 4 < 65536) :
    dm9051_skip_addr mh ml n =
      if 16384 < 256 * mh + ml + n + 4 then 256 * mh + ml + n + 4 - 13312 else 256 * mh + ml + n + 4 := by
  simp only [dm9051_skip_addr, shl8_or_eq mh ml hml, DM9051_RX_HDR_SIZE, DM9051_RX_MEM_MAX_SIZE,
    DM9051_RX_MEM_START_ADDR]
  have h1 : (256 * mh + ml) % 65536 = 256 * mh + ml := by omega
  have h2 : (256 * mh + ml + n + 4) % 65536 = 256 * mh + ml + n + 4 := by omega
  rw [h1, h2]
  split <;> omega

/-- The address written back by `dm9051_skip_recv_frame` against the RX ring 3072..16383 of
13312 bytes, for a read pointer `p = 256 * mrrh + mrrl` inside the ring and a skip of `n + 4`
bytes of at most the ring: unless `p + n + 4` is exactly 16384 it is the pointer advanced by
`n + 4` modulo the ring, an address of the ring; at `p + n + 4 = 16384` it is 16384, the
first address beyond the ring, where the ring arithmetic gives 3072. -/
theorem skip_addr_ring (mh ml n : Nat) (hmh : mh < 256) (hml : ml < 256)
    (hlo : 3072 ≤ 256 * mh + ml) (hhi : 256 * mh + ml ≤ 16383) (hn : n + 4 ≤ 13312) :
    (256 * mh + ml + n + 4 ≠ 16384 →
      dm9051_skip_addr mh ml n = 3072 + (256 * mh + ml - 3072 + n + 4) % 13312 ∧
      3072 ≤ dm9051_skip_addr mh ml n ∧ dm9051_skip_addr mh ml n ≤ 16383) ∧
    (256 * mh + ml + n + 4 = 16384 →
      dm9051_skip_addr mh ml n = 16384 ∧
      3072 + (256 * mh + ml - 3072 + n + 4) % 13312 = 3072) := by
  rw [skip_addr_eq mh ml n hmh hml (by omega)]
  constructor
  · intro h
    split_ifs <;> omega
  · intro h
    split_ifs <;> omega

/-- A round of the receive worker whose byte-count read does not return `ESP_OK` or
`ESP_ERR_NO_MEM` makes no call beyond those of the byte-count read. -/
theorem task_round_of_byte_count_error {σ : Type} (c : dm9051_h) (env : Dm9051Env σ)
    (w : World emac_dm9051_t σ)
    (h1 : (dm9051_get_recv_byte_count c env w).1.1 ≠ ESP_OK)
    (h2 : (dm9051_get_recv_byte_count c env w).1.1 ≠ ESP_ERR_NO_MEM) :
    (emac_dm9051_task_round c env w).2 = (dm9051_get_recv_byte_count c env w).2 := by
  rcases h : dm9051_get_recv_byte_count c env w with ⟨⟨r, n⟩, w1⟩
  rw [h] at h1 h2
  cases r <;> simp_all [emac_dm9051_task_round, dm9051_alloc_recv_buf]

/-- With byte flag 1 and a status error in the peeked header, the byte-count read returns
`ESP_FAIL` with size 0 whatever `dm9051_skip_recv_frame` returns, and its world is the one
that call leaves. -/
theorem get_recv_byte_count_status_error (c : dm9051_h) (e : emac_dm9051_t) (tail : List BusResp)
    (cl : List Int) (hp : List Bool) (stk : List esp_err_t) (tr : List Ev)
    (ra : List Nat) (fl st lo hi : Nat)
    (hfl : fl < 256) (hst : st < 256) (hlo : lo < 256) (hhi : hi < 256)
    (hstatus : st &&& 0xBF ≠ 0) :
    dm9051_get_recv_byte_count c scriptEnv
        { emac := e,
          dev := { bus := BusResp.ok ra :: BusResp.ok [1] :: BusResp.ok [fl, st, lo, hi] :: tail,
                   clock := cl, heap := hp, stack := stk },
          trace := tr } =
      ((ESP_FAIL, 0),
        (dm9051_skip_recv_frame c scriptEnv (lo + 256 * hi)
          { emac := e, dev := { bus := tail, clock := cl, heap := hp, stack := stk },
            trace := tr ++ ev_register_read c c.DM9051_MRCMDX ++ ev_register_read c c.DM9051_MRCMDX ++
              ev_memory_peek c 4 }).2) := by
  have hlen : (lo + 256 * hi) % 65536 = lo + 256 * hi := by omega
  have hstatus2 : ¬ st &&& 191 = 0 := hstatus
  simp [dm9051_get_recv_byte_count, dm9051_get_recv_byte_count_body, Blk.bind_def, Blk.bind,
    Blk.pure_def, Blk.pure, ESP_GOTO_ON_ERROR_out, register_read_ok, memory_peek_ok,
    rx_store_four, hfl, hst, hlo, hhi, dm9051_rx_header_of, shl8_eq, hlen, hstatus2, call, goto_err]

/-- C3: with byte flag 1 and a peeked header `[fl, st, lo, hi]`: when a status bit other
than bit 6 is set (`st & 0xBF ≠ 0`), `dm9051_get_recv_byte_count` returns `ESP_FAIL` with
size 0, the round of the receive worker makes no call beyond those of the byte-count read
(so nothing reaches `stack_input`), and, the four bus accesses of the skip succeeding on a
read pointer `p = 256 * mh + ml`, MRRH and MRRL are rewritten with the high and low byte of
`dm9051_skip_addr`, which for `p` in the RX ring 3072..16383, a header length `L` with
`L + 4` at most the 13312 bytes of the ring and `p + L + 4 ≠ 16384` is
`3072 + (p - 3072 + L + 4) % 13312`, the pointer advanced past the frame with ring wrap, an
address of the ring. When no such bit is set it returns `ESP_OK` with size `lo + 256 * hi`,
its only calls being the two MRCMDX reads and the peek. -/
theorem dm9051_get_recv_byte_count_status (c : dm9051_h) (w : World emac_dm9051_t Script)
    (ra : List Nat) (fl st lo hi : Nat) (tail : List BusResp)
    (hfl : fl < 256) (hst : st < 256) (hlo : lo < 256) (hhi : hi < 256)
    (hbus : w.dev.bus = BusResp.ok ra :: BusResp.ok [1] :: BusResp.ok [fl, st, lo, hi] :: tail) :
    (st &&& 0xBF ≠ 0 →
      (dm9051_get_recv_byte_count c scriptEnv w).1 = (ESP_FAIL, 0) ∧
      (emac_dm9051_task_round c scriptEnv w).2 = (dm9051_get_recv_byte_count c scriptEnv w).2 ∧
      ∀ (mh ml : Nat) (rx1 rx2 : List Nat) (rest : List BusResp), mh < 256 → ml < 256 →
        tail = BusResp.ok [mh] :: BusResp.ok [ml] :: BusResp.ok rx1 :: BusResp.ok rx2 :: rest →
        (dm9051_get_recv_byte_count c scriptEnv w).2 =
          { w with dev := { w.dev with bus := rest },
                   trace := w.trace ++ ev_register_read c c.DM9051_MRCMDX ++
                     ev_register_read c c.DM9051_MRCMDX ++ ev_memory_peek c 4 ++
                     ev_register_read c c.DM9051_MRRH ++ ev_register_read c c.DM9051_MRRL ++
                     ev_register_write c c.DM9051_MRRH (dm9051_skip_addr mh ml (lo + 256 * hi) >>> 8) ++
                     ev_register_write c c.DM9051_MRRL (dm9051_skip_addr mh ml (lo + 256 * hi) &&& 0xFF) } ∧
        (3072 ≤ 256 * mh + ml → 256 * mh + ml ≤ 16383 → lo + 256 * hi + 4 ≤ 13312 →
          256 * mh + ml + (lo + 256 * hi) + 4 ≠ 16384 →
          dm9051_skip_addr mh ml (lo + 256 * hi) =
            3072 + (256 * mh + ml - 3072 + (lo + 256 * hi) + 4) % 13312 ∧
          3072 ≤ dm9051_skip_addr mh ml (lo + 256 * hi) ∧
          dm9051_skip_addr mh ml (lo + 256 * hi) ≤ 16383)) ∧
    (st &&& 0xBF = 0 →
      dm9051_get_recv_byte_count c scriptEnv w =
        ((ESP_OK, lo + 256 * hi),
          { w with dev := { w.dev with bus := tail },
                   trace := w.trace ++ ev_register_read c c.DM9051_MRCMDX ++
                     ev_register_read c c.DM9051_MRCMDX ++ ev_memory_peek c 4 })) := by
  obtain ⟨e, ⟨bus, clock, heap, stack⟩, tr⟩ := w
  simp only at hbus
  subst hbus
  constructor
  · intro hstatus
    have key := get_recv_byte_count_status_error c e tail clock heap stack tr ra fl st lo hi
      hfl hst hlo hhi hstatus
    refine ⟨by rw [key], ?_, ?_⟩
    · apply task_round_of_byte_count_error <;> rw [key] <;> simp
    · intro mh ml rx1 rx2 rest hmh hml htail
      subst htail
      refine ⟨?_, fun h1 h2 h3 h4 => (skip_addr_ring mh ml _ hmh hml h1 h2 h3).1 h4⟩
      rw [key, skip_recv_frame_ok c e rest clock heap stack _ _ mh ml rx1 rx2 hmh hml]
  · intro hstatus
    have hlen : (lo + 256 * hi) % 65536 = lo + 256 * hi := by omega
    have hstatus2 : st &&& 191 = 0 := hstatus
    simp [dm9051_get_recv_byte_count, dm9051_get_recv_byte_count_body, Blk.bind_def, Blk.bind,
      Blk.pure_def, Blk.pure, ESP_GOTO_ON_ERROR_out, register_read_ok, memory_peek_ok,
      rx_store_four, hfl, hst, hlo, hhi, dm9051_rx_header_of, shl8_eq, hlen, hstatus2]

/-- C3, witness: a frame of 100 bytes with status 0x02 at read pointer 0x3FF0, 16 bytes
before the end of the ring, is skipped with ring wrap: MRRH and MRRL are rewritten with
0x0C58 = 0x3FF0 + 100 + 4 - 13312 = 3072 + (0x3FF0 - 3072 + 100 + 4) % 13312. -/
theorem dm9051_get_recv_byte_count_status_witness :
    (dm9051_get_recv_byte_count dm9051_h_sample scriptEnv
        (script_world [BusResp.ok [0], BusResp.ok [1], BusResp.ok [1, 2, 100, 0], BusResp.ok [0x3F],
          BusResp.ok [0xF0], BusResp.ok [], BusResp.ok []] [])).2 =
      { script_world [] [] with
        trace := [] ++ ev_register_read dm9051_h_sample dm9051_h_sample.DM9051_MRCMDX ++
          ev_register_read dm9051_h_sample dm9051_h_sample.DM9051_MRCMDX ++
          ev_memory_peek dm9051_h_sample 4 ++
          ev_register_read dm9051_h_sample dm9051_h_sample.DM9051_MRRH ++
          ev_register_read dm9051_h_sample dm9051_h_sample.DM9051_MRRL ++
          ev_register_write dm9051_h_sample dm9051_h_sample.DM9051_MRRH 0x0C ++
          ev_register_write dm9051_h_sample dm9051_h_sample.DM9051_MRRL 0x58 } ∧
    dm9051_skip_addr 0x3F 0xF0 (100 + 256 * 0) = 3072 + (256 * 0x3F + 0xF0 - 3072 + (100 + 256 * 0) + 4) % 13312 ∧
    3072 ≤ dm9051_skip_addr 0x3F 0xF0 (100 + 256 * 0) ∧
    dm9051_skip_addr 0x3F 0xF0 (100 + 256 * 0) ≤ 16383 :=
  ⟨(((dm9051_get_recv_byte_count_status dm9051_h_sample
    (script_world [BusResp.ok [0], BusResp.ok [1], BusResp.ok [1, 2, 100, 0], BusResp.ok [0x3F],
      BusResp.ok [0xF0], BusResp.ok [], BusResp.ok []] [])
    [0] 1 2 100 0 _ (by decide) (by decide) (by decide) (by decide) rfl).1 (by decide)).2.2
    0x3F 0xF0 [] [] [] (by decide) (by decide) rfl).1,
   (((dm9051_get_recv_byte_count_status dm9051_h_sample
    (script_world [BusResp.ok [0], BusResp.ok [1], BusResp.ok [1, 2, 100, 0], BusResp.ok [0x3F],
      BusResp.ok [0xF0], BusResp.ok [], BusResp.ok []] [])
    [0] 1 2 100 0 _ (by decide) (by decide) (by decide) (by decide) rfl).1 (by decide)).2.2
    0x3F 0xF0 [] [] [] (by decide) (by decide) rfl).2 (by decide) (by decide) (by decide) (by decide)⟩

/-- C3, counterexample: the same frame with status 0x02 when the bus lock cannot be taken
for the first access of the skip: the byte-count read returns `ESP_FAIL` with size 0 and has
made no write to MRRH or MRRL, its calls after the peek being the one failed take of the
lock, so the read pointer is not advanced past the frame. -/
theorem dm9051_get_recv_byte_count_status_counterexample :
    (dm9051_get_recv_byte_count dm9051_h_sample scriptEnv
        (script_world [BusResp.ok [0], BusResp.ok [1], BusResp.ok [1, 2, 100, 0],
          BusResp.lock_timeout] [])).1 = (ESP_FAIL, 0) ∧
    (dm9051_get_recv_byte_count dm9051_h_sample scriptEnv
        (script_world [BusResp.ok [0], BusResp.ok [1], BusResp.ok [1, 2, 100, 0],
          BusResp.lock_timeout] [])).2.trace =
      ev_register_read dm9051_h_sample dm9051_h_sample.DM9051_MRCMDX ++
        ev_register_read dm9051_h_sample dm9051_h_sample.DM9051_MRCMDX ++
        ev_memory_peek dm9051_h_sample 4 ++
        [Ev.xSemaphoreTake DM9051_SPI_LOCK_TIMEOUT_MS] := by
  constructor <;> decide

/-! ## C4: the header embedded in the receive buffer -/

/-- A block read of `len` bytes that clocks in exactly `len` bytes replaces the first
`len` bytes of the buffer by them. -/
theorem rx_store_eq (buffer : List Nat) : ∀ (rx : List Nat) (len : Nat), rx.length = len →
    (∀ b ∈ rx, b < 256) → rx_store buffer rx len = rx ++ buffer.drop len := by
  intro rx len hlen hb
  subst hlen
  have key : ∀ (l : List Nat), (∀ b ∈ l, b < 256) →
      (List.range l.length).map (fun i => l.getD i 0 % 256) = l := by
    intro l
    induction l with
    | nil => intro _; rfl
    | cons a t ih =>
      intro h
      have ha : a < 256 := h a (List.mem_cons_self a t)
      have ht : ∀ b ∈ t, b < 256 := fun b hb => h b (List.mem_cons_of_mem a hb)
      rw [List.length_cons, List.range_succ_eq_map, List.map_cons, List.map_map]
      simp only [List.getD_cons_zero, Nat.mod_eq_of_lt ha]
      congr 1
      exact ih ht
  simp only [rx_store, key rx hb]

theorem memory_read_rx_ok (c : dm9051_h) (e : emac_dm9051_t) (rest : List BusResp) (cl : List Int)
    (hp : List Bool) (st : List esp_err_t) (tr : List Ev) (len : Nat) (rx : List Nat) :
    dm9051_memory_read_rx c scriptEnv len
        { emac := e, dev := { bus := BusResp.ok rx :: rest, clock := cl, heap := hp, stack := st }, trace := tr } =
      (ESP_OK,
        { emac := { e with rx_buffer := rx_store e.rx_buffer rx len },
          dev := { bus := rest, clock := cl, heap := hp, stack := st },
          trace := tr ++ ev_memory_read c len }) := by
  simp [dm9051_memory_read_rx, memory_read_ok, set_rx_buffer]

/-- On a pending valid frame of `B ≥ 4` bytes with status clear, the byte-count read
returns `B`. -/
theorem get_recv_byte_count_valid (c : dm9051_h) (e : emac_dm9051_t) (tail : List BusResp)
    (cl : List Int) (hp : List Bool) (stk : List esp_err_t) (tr : List Ev)
    (ra : List Nat) (fl st lo hi : Nat)
    (hfl : fl < 256) (hst : st < 256) (hlo : lo < 256) (hhi : hi < 256)
    (hstatus : st &&& 0xBF = 0) :
    dm9051_get_recv_byte_count c scriptEnv
        { emac := e,
          dev := { bus := BusResp.ok ra :: BusResp.ok [1] :: BusResp.ok [fl, st, lo, hi] :: tail,
                   clock := cl, heap := hp, stack := stk },
          trace := tr } =
      ((ESP_OK, lo + 256 * hi),
        { emac := e, dev := { bus := tail, clock := cl, heap := hp, stack := stk },
          trace := tr ++ ev_register_read c c.DM9051_MRCMDX ++ ev_register_read c c.DM9051_MRCMDX ++
            ev_memory_peek c 4 }) := by
  have hlen : (lo + 256 * hi) % 65536 = lo + 256 * hi := by omega
  have hstatus2 : st &&& 191 = 0 := hstatus
  simp [dm9051_get_recv_byte_count, dm9051_get_recv_byte_count_body, Blk.bind_def, Blk.bind,
    Blk.pure_def, Blk.pure, ESP_GOTO_ON_ERROR_out, register_read_ok, memory_peek_ok,
    rx_store_four, hfl, hst, hlo, hhi, dm9051_rx_header_of, shl8_eq, hlen, hstatus2]

/-- Allocation for a pending valid frame of `B ≥ 64` bytes, `malloc` answering `b`. -/
theorem alloc_recv_buf_valid (c : dm9051_h) (e : emac_dm9051_t) (tail : List BusResp)
    (cl : List Int) (hp : List Bool) (stk : List esp_err_t) (tr : List Ev)
    (ra : List Nat) (fl st lo hi : Nat) (b : Bool)
    (hfl : fl < 256) (hst : st < 256) (hlo : lo < 256) (hhi : hi < 256)
    (hstatus : st &&& 0xBF = 0) (hB : 64 ≤ lo + 256 * hi) :
    dm9051_alloc_recv_buf c scriptEnv ETH_MAX_PACKET_SIZE
        { emac := e,
          dev := { bus := BusResp.ok ra :: BusResp.ok [1] :: BusResp.ok [fl, st, lo, hi] :: tail,
                   clock := cl, heap := b :: hp, stack := stk },
          trace := tr } =
      ((if b then ESP_OK else ESP_ERR_NO_MEM,
         if b then some { size := min (lo + 256 * hi - 4) 1522,
                          info := { copy_len := min (lo + 256 * hi - 4) 1522, byte_cnt := lo + 256 * hi },
                          data := [] }
         else none,
         lo + 256 * hi - 4),
        { emac := e, dev := { bus := tail, clock := cl, heap := hp, stack := stk },
          trace := tr ++ ev_register_read c c.DM9051_MRCMDX ++ ev_register_read c c.DM9051_MRCMDX ++
            ev_memory_peek c 4 ++ [Ev.malloc (min (lo + 256 * hi - 4) 1522)] }) := by
  have h0 : ¬ lo + 256 * hi = 0 := by omega
  have h1 : (lo + 256 * hi + 65532) % 65536 = lo + 256 * hi - 4 := by omega
  have h2 : (if 1522 < lo + 256 * hi - 4 then 1522 else lo + 256 * hi - 4) % 65536 =
      min (lo + 256 * hi - 4) 1522 := by
    split <;> omega
  have h3 : 60 ≤ min (lo + 256 * hi - 4) 1522 := by omega
  simp only [dm9051_alloc_recv_buf, get_recv_byte_count_valid c e tail cl (b :: hp) stk tr ra fl st lo hi
    hfl hst hlo hhi hstatus, ETH_MAX_PACKET_SIZE, ETH_MIN_PACKET_SIZE, ETH_CRC_LEN]
  simp only [h0, if_false, show lo + 256 * hi + 65536 - 4 = lo + 256 * hi + 65532 by omega, h1, gt_iff_lt,
    h2, ge_iff_le, show 64 - 4 = 60 by rfl, h3, if_true, malloc_script]
  cases b <;> simp

/-- C4 (as amended): for a pending valid frame of raw byte count `B = lo + 256 * hi` with
`64 ≤ B ≤ 1522` and the 1526 bytes of `rx_buffer` that `esp_eth_mac_new_dm9051` allocates,
`malloc` succeeding, `dm9051_alloc_recv_buf(1522)` returns a buffer whose header is
`(copy_len = min(B - 4, 1522), byte_cnt = B)` with `*length = B - 4`, and
`emac_dm9051_receive` on that buffer with `*length = 0` makes a block read of `B + 4`
bytes as its first call, which fits `rx_buffer` and leaves it 1526 bytes long, stores the
`copy_len` bytes after the 4-byte hardware header in the buffer and, the two MRCMDX reads
succeeding, returns `ESP_OK` with `*length = copy_len`. -/
theorem dm9051_alloc_then_receive_auto (c : dm9051_h) (w : World emac_dm9051_t Script)
    (ra rb1 rx : List Nat) (fl st lo hi rb : Nat) (rest : List BusResp) (hrest : List Bool)
    (hfl : fl < 256) (hst : st < 256) (hlo : lo < 256) (hhi : hi < 256) (hrb : rb < 256)
    (hstatus : st &&& 0xBF = 0) (hB : 64 ≤ lo + 256 * hi) (hB16 : lo + 256 * hi ≤ ETH_MAX_PACKET_SIZE)
    (hcap : w.emac.rx_buffer.length = ETH_MAX_PACKET_SIZE + DM9051_RX_HDR_SIZE)
    (hrx : rx.length = lo + 256 * hi + 4) (hbytes : ∀ b ∈ rx, b < 256)
    (hbus : w.dev.bus = BusResp.ok ra :: BusResp.ok [1] :: BusResp.ok [fl, st, lo, hi] ::
      BusResp.ok rx :: BusResp.ok rb1 :: BusResp.ok [rb] :: rest)
    (hheap : w.dev.heap = true :: hrest) :
    dm9051_alloc_recv_buf c scriptEnv ETH_MAX_PACKET_SIZE w =
      ((ESP_OK,
         some { size := min (lo + 256 * hi - 4) 1522,
                info := { copy_len := min (lo + 256 * hi - 4) 1522, byte_cnt := lo + 256 * hi },
                data := [] },
         lo + 256 * hi - 4),
        { w with dev := { w.dev with bus := BusResp.ok rx :: BusResp.ok rb1 :: BusResp.ok [rb] :: rest,
                                      heap := hrest },
                 trace := w.trace ++ ev_register_read c c.DM9051_MRCMDX ++
                   ev_register_read c c.DM9051_MRCMDX ++ ev_memory_peek c 4 ++
                   [Ev.malloc (min (lo + 256 * hi - 4) 1522)] }) ∧
    emac_dm9051_receive c scriptEnv
        { size := min (lo + 256 * hi - 4) 1522,
          info := { copy_len := min (lo + 256 * hi - 4) 1522, byte_cnt := lo + 256 * hi },
          data := [] }
        DM9051_ETH_MAC_RX_BUF_SIZE_AUTO
        (dm9051_alloc_recv_buf c scriptEnv ETH_MAX_PACKET_SIZE w).2 =
      ((ESP_OK,
         { size := min (lo + 256 * hi - 4) 1522,
           info := { copy_len := min (lo + 256 * hi - 4) 1522, byte_cnt := lo + 256 * hi },
           data := (rx.drop 4).take (min (lo + 256 * hi - 4) 1522) },
         min (lo + 256 * hi - 4) 1522),
        { emac := { w.emac with packets_remain := decide (rb > 0),
                                rx_buffer := rx ++ w.emac.rx_buffer.drop (lo + 256 * hi + 4) },
          dev := { w.dev with bus := rest, heap := hrest },
          trace := w.trace ++ ev_register_read c c.DM9051_MRCMDX ++
            ev_register_read c c.DM9051_MRCMDX ++ ev_memory_peek c 4 ++
            [Ev.malloc (min (lo + 256 * hi - 4) 1522)] ++
            ev_memory_read c (lo + 256 * hi + 4) ++ ev_register_read c c.DM9051_MRCMDX ++
            ev_register_read c c.DM9051_MRCMDX }) ∧
    lo + 256 * hi + 4 ≤ w.emac.rx_buffer.length ∧
    (rx ++ w.emac.rx_buffer.drop (lo + 256 * hi + 4)).length = w.emac.rx_buffer.length := by
  obtain ⟨e, ⟨bus, clock, heap, stack⟩, tr⟩ := w
  simp only at hbus hheap hcap
  subst hbus hheap
  simp only [ETH_MAX_PACKET_SIZE, DM9051_RX_HDR_SIZE] at hB16 hcap
  refine ⟨?_, ?_, by simp only []; omega, by simp only [List.length_append, List.length_drop]; omega⟩
  · exact alloc_recv_buf_valid c e (BusResp.ok rx :: BusResp.ok rb1 :: BusResp.ok [rb] :: rest)
      clock hrest stack tr ra fl st lo hi true hfl hst hlo hhi hstatus hB
  have halloc := alloc_recv_buf_valid c e (BusResp.ok rx :: BusResp.ok rb1 :: BusResp.ok [rb] :: rest)
    clock hrest stack tr ra fl st lo hi true hfl hst hlo hhi hstatus hB
  simp only [if_true] at halloc
  rw [halloc]
  have h1 : min (lo + 256 * hi - 4) 1522 % 65536 = min (lo + 256 * hi - 4) 1522 := by omega
  have h2 : (lo + 256 * hi) % 65536 = lo + 256 * hi := by omega
  have h3 : (lo + 256 * hi + 4) % 65536 = lo + 256 * hi + 4 := by omega
  have h4 : 4 ≤ rx.length := by omega
  have h5 : min (lo + 256 * hi - 4) 1522 ≤ (rx.drop 4).length := by
    rw [List.length_drop]; omega
  simp [emac_dm9051_receive, emac_dm9051_receive_len, set_packets_remain,
    DM9051_ETH_MAC_RX_BUF_SIZE_AUTO, DM9051_RX_HDR_SIZE, Blk.pure_def, Blk.pure, h1, h2, h3,
    memory_read_rx_ok, register_read_ok, rx_store_eq _ rx _ hrx hbytes, memcpy,
    List.drop_append_of_le_length h4, List.take_append_of_le_length h5, Nat.mod_eq_of_lt hrb]

/-- C4, witness: a frame of 64 bytes is received into a buffer of 60 bytes. -/
theorem dm9051_alloc_then_receive_auto_witness :
    (emac_dm9051_receive dm9051_h_sample scriptEnv
        { size := 60, info := { copy_len := 60, byte_cnt := 64 }, data := [] }
        DM9051_ETH_MAC_RX_BUF_SIZE_AUTO
        (dm9051_alloc_recv_buf dm9051_h_sample scriptEnv ETH_MAX_PACKET_SIZE
          (script_world [BusResp.ok [0], BusResp.ok [1], BusResp.ok [1, 0, 64, 0],
            BusResp.ok (List.replicate 68 7), BusResp.ok [0], BusResp.ok [0]] [true])).2).1 =
      (ESP_OK, { size := 60, info := { copy_len := 60, byte_cnt := 64 }, data := List.replicate 60 7 }, 60) :=
  congrArg Prod.fst
    (dm9051_alloc_then_receive_auto dm9051_h_sample
      (script_world [BusResp.ok [0], BusResp.ok [1], BusResp.ok [1, 0, 64, 0],
        BusResp.ok (List.replicate 68 7), BusResp.ok [0], BusResp.ok [0]] [true])
      [0] [0] (List.replicate 68 7) 1 0 64 0 0 [] [] (by decide) (by decide) (by decide) (by decide)
      (by decide) (by decide) (by decide) (by decide)
      (List.length_replicate _ _) (by decide) (by decide) rfl rfl).2.1

/-- C4, counterexample: for a pending valid frame of raw byte count 65535 the buffer header
is `(1522, 65535)` and the block read of the following automatic-length receive asks for 3
bytes, not for 65539: `byte_count + 4` is computed in `uint16_t`. -/
theorem dm9051_alloc_then_receive_auto_counterexample :
    (dm9051_alloc_recv_buf dm9051_h_sample scriptEnv ETH_MAX_PACKET_SIZE
        (script_world [BusResp.ok [0], BusResp.ok [1], BusResp.ok [1, 0, 255, 255],
          BusResp.ok [1, 0, 255], BusResp.ok [0], BusResp.ok [0]] [true])).1 =
      (ESP_OK, some { size := 1522, info := { copy_len := 1522, byte_cnt := 65535 }, data := [] }, 65531) ∧
    (emac_dm9051_receive dm9051_h_sample scriptEnv
        { size := 1522, info := { copy_len := 1522, byte_cnt := 65535 }, data := [] }
        DM9051_ETH_MAC_RX_BUF_SIZE_AUTO
        (dm9051_alloc_recv_buf dm9051_h_sample scriptEnv ETH_MAX_PACKET_SIZE
          (script_world [BusResp.ok [0], BusResp.ok [1], BusResp.ok [1, 0, 255, 255],
            BusResp.ok [1, 0, 255], BusResp.ok [0], BusResp.ok [0]] [true])).2).2.trace =
      (dm9051_alloc_recv_buf dm9051_h_sample scriptEnv ETH_MAX_PACKET_SIZE
          (script_world [BusResp.ok [0], BusResp.ok [1], BusResp.ok [1, 0, 255, 255],
            BusResp.ok [1, 0, 255], BusResp.ok [0], BusResp.ok [0]] [true])).2.trace ++
        ev_memory_read dm9051_h_sample 3 ++
        ev_register_read dm9051_h_sample dm9051_h_sample.DM9051_MRCMDX ++
        ev_register_read dm9051_h_sample dm9051_h_sample.DM9051_MRCMDX := by
  constructor <;> decide

/-! ## C5: allocation failure flushes the pending frame -/

theorem malloc_script_nil (e : emac_dm9051_t) (cl : List Int) (st : List esp_err_t) (tr : List Ev)
    (size : Nat) (bus : List BusResp) :
    malloc scriptEnv size
        { emac := e, dev := { bus := bus, clock := cl, heap := [], stack := st }, trace := tr } =
      (false, { emac := e, dev := { bus := bus, clock := cl, heap := [], stack := st },
                trace := tr ++ [Ev.malloc size] }) := by
  simp [malloc, emit, scriptEnv]

/-- C5: in the receive worker of the DM9051, whenever `dm9051_alloc_recv_buf` fails with
`ESP_ERR_NO_MEM` for a pending frame of raw byte count `B = lo + 256 * hi`, the round calls
`dm9051_flush_recv_frame`: with the bus accesses succeeding on the same pending frame and
a read pointer `p = 256 * mh + ml`, MRRH and MRRL are rewritten with the high and low byte
of `dm9051_skip_addr`. For `p` in the RX ring 3072..16383 and `B + 4` at most the 13312
bytes of the ring, that address is `3072 + (p - 3072 + B + 4) % 13312`, the pointer advanced
by the `B + 4` bytes a receive of the frame reads, with ring wrap, unless `p + B + 4` is
exactly 16384: there the address written is 16384, the first address beyond the ring, where
the ring arithmetic gives 3072. In the worker of the ESP32 EMAC, a null buffer with a
non-zero `frame_len` is followed by `emac_hal_flush_recv_frame` in the same round. -/
theorem rx_task_flush_on_no_mem (c : dm9051_h) (w : World emac_dm9051_t Script)
    (ra ra2 rx1 rx2 : List Nat) (fl st lo hi mh ml : Nat) (rest : List BusResp)
    (hfl : fl < 256) (hst : st < 256) (hlo : lo < 256) (hhi : hi < 256)
    (hmh : mh < 256) (hml : ml < 256) (hstatus : st &&& 0xBF = 0)
    (hbus : w.dev.bus = BusResp.ok ra :: BusResp.ok [1] :: BusResp.ok [fl, st, lo, hi] ::
      BusResp.ok ra2 :: BusResp.ok [1] :: BusResp.ok [fl, st, lo, hi] ::
      BusResp.ok [mh] :: BusResp.ok [ml] :: BusResp.ok rx1 :: BusResp.ok rx2 :: rest)
    (hnomem : (dm9051_alloc_recv_buf c scriptEnv ETH_MAX_PACKET_SIZE w).1.1 = ESP_ERR_NO_MEM) :
    ((emac_dm9051_task_round c scriptEnv w).2 =
        { w with dev := { w.dev with bus := rest, heap := w.dev.heap.tail },
                 trace := w.trace ++ ev_register_read c c.DM9051_MRCMDX ++
                   ev_register_read c c.DM9051_MRCMDX ++ ev_memory_peek c 4 ++
                   [Ev.malloc (min ((lo + 256 * hi + 65532) % 65536) 1522)] ++
                   ev_register_read c c.DM9051_MRCMDX ++ ev_register_read c c.DM9051_MRCMDX ++
                   ev_memory_peek c 4 ++
                   ev_register_read c c.DM9051_MRRH ++ ev_register_read c c.DM9051_MRRL ++
                   ev_register_write c c.DM9051_MRRH (dm9051_skip_addr mh ml (lo + 256 * hi) >>> 8) ++
                   ev_register_write c c.DM9051_MRRL (dm9051_skip_addr mh ml (lo + 256 * hi) &&& 0xFF) } ∧
      (3072 ≤ 256 * mh + ml → 256 * mh + ml ≤ 16383 → lo + 256 * hi + 4 ≤ 13312 →
        (256 * mh + ml + (lo + 256 * hi) + 4 ≠ 16384 →
          dm9051_skip_addr mh ml (lo + 256 * hi) =
            3072 + (256 * mh + ml - 3072 + (lo + 256 * hi) + 4) % 13312 ∧
          3072 ≤ dm9051_skip_addr mh ml (lo + 256 * hi) ∧
          dm9051_skip_addr mh ml (lo + 256 * hi) ≤ 16383) ∧
        (256 * mh + ml + (lo + 256 * hi) + 4 = 16384 →
          dm9051_skip_addr mh ml (lo + 256 * hi) = 16384 ∧
          3072 + (256 * mh + ml - 3072 + (lo + 256 * hi) + 4) % 13312 = 3072))) ∧
    (∀ (σ : Type) (hal : Esp32Env σ) (flow : Bool) (v : World emac_esp32_t σ) (frame_len : Nat),
      (hal.emac_hal_alloc_recv_buf v.dev).1 = (none, frame_len) → frame_len ≠ 0 →
      ∃ tl, (emac_esp32_rx_task_round hal flow v).2.trace =
        v.trace ++ [Ev.emac_hal_alloc_recv_buf, Ev.emac_hal_flush_recv_frame] ++ tl) := by
  refine ⟨⟨?_, fun h1 h2 h3 => skip_addr_ring mh ml _ hmh hml h1 h2 h3⟩, ?_⟩
  · obtain ⟨e, ⟨bus, clock, heap, stack⟩, tr⟩ := w
    simp only at hbus
    subst hbus
    have hget := get_recv_byte_count_valid c e
      (BusResp.ok ra2 :: BusResp.ok [1] :: BusResp.ok [fl, st, lo, hi] ::
        BusResp.ok [mh] :: BusResp.ok [ml] :: BusResp.ok rx1 :: BusResp.ok rx2 :: rest)
      clock heap stack tr ra fl st lo hi hfl hst hlo hhi hstatus
    have hcopy : (if 1522 < (lo + 256 * hi + 65532) % 65536 then 1522
        else (lo + 256 * hi + 65532) % 65536) % 65536 = min ((lo + 256 * hi + 65532) % 65536) 1522 := by
      split <;> omega
    simp only [dm9051_alloc_recv_buf, hget, ETH_MAX_PACKET_SIZE, ETH_MIN_PACKET_SIZE, ETH_CRC_LEN,
      show lo + 256 * hi + 65536 - 4 = lo + 256 * hi + 65532 by omega, gt_iff_lt, hcopy, ge_iff_le,
      show 64 - 4 = 60 by rfl] at hnomem
    by_cases h0 : lo + 256 * hi = 0
    · simp [h0] at hnomem
    · by_cases h60 : 60 ≤ min ((lo + 256 * hi + 65532) % 65536) 1522
      · have hflush : ∀ (hp : List Bool) (t : List Ev),
            (dm9051_flush_recv_frame c scriptEnv
              { emac := e,
                dev := { bus := BusResp.ok ra2 :: BusResp.ok [1] :: BusResp.ok [fl, st, lo, hi] ::
                           BusResp.ok [mh] :: BusResp.ok [ml] :: BusResp.ok rx1 :: BusResp.ok rx2 :: rest,
                         clock := clock, heap := hp, stack := stack },
                trace := t }).2 =
              { emac := e, dev := { bus := rest, clock := clock, heap := hp, stack := stack },
                trace := t ++ ev_register_read c c.DM9051_MRCMDX ++ ev_register_read c c.DM9051_MRCMDX ++
                  ev_memory_peek c 4 ++
                  ev_register_read c c.DM9051_MRRH ++ ev_register_read c c.DM9051_MRRL ++
                  ev_register_write c c.DM9051_MRRH (dm9051_skip_addr mh ml (lo + 256 * hi) >>> 8) ++
                  ev_register_write c c.DM9051_MRRL (dm9051_skip_addr mh ml (lo + 256 * hi) &&& 0xFF) } := by
          intro hp t
          simp [dm9051_flush_recv_frame, Blk.ret, Blk.bind_def, Blk.bind, ESP_GOTO_ON_ERROR_out,
            ESP_GOTO_ON_ERROR, get_recv_byte_count_valid, hfl, hst, hlo, hhi, hstatus,
            skip_recv_frame_ok, hmh, hml]
        cases heap with
        | nil =>
          simp [emac_dm9051_task_round, dm9051_alloc_recv_buf, hget, ETH_MAX_PACKET_SIZE,
            ETH_MIN_PACKET_SIZE, ETH_CRC_LEN, h0, hcopy, h60, malloc_script_nil, hflush]
        | cons b hp =>
          cases b with
          | true => simp [h0, h60, malloc_script] at hnomem
          | false =>
            simp [emac_dm9051_task_round, dm9051_alloc_recv_buf, hget, ETH_MAX_PACKET_SIZE,
              ETH_MIN_PACKET_SIZE, ETH_CRC_LEN, h0, hcopy, h60, malloc_script, hflush]
      · simp [h0, h60] at hnomem
  · intro σ hal flow v frame_len halloc hlen
    rcases hd : hal.emac_hal_alloc_recv_buf v.dev with ⟨r, d1⟩
    rw [hd] at halloc
    simp only at halloc
    subst halloc
    rcases hf : hal.emac_hal_flush_recv_frame v.emac.frames_remain v.emac.free_rx_descriptor d1 with
      ⟨⟨fr, fd⟩, d2⟩
    cases flow with
    | false =>
      refine ⟨[], ?_⟩
      simp [emac_esp32_rx_task_round, emac_esp32_rx_task_frame, emac_hal_alloc_recv_buf, emit, hd, hlen,
        emac_hal_flush_recv_frame, hf]
    | true =>
      simp only [emac_esp32_rx_task_round, emac_esp32_rx_task_frame, emac_hal_alloc_recv_buf, emit, hd,
        hlen, emac_hal_flush_recv_frame, hf, emac_esp32_rx_task_flow_ctrl, emac_ll_pause_frame_enable,
        ne_eq, not_false_eq_true, if_true]
      split
      · exact ⟨[Ev.emac_ll_pause_frame_enable true], by simp⟩
      · split
        · exact ⟨[Ev.emac_ll_pause_frame_enable false], by simp⟩
        · exact ⟨[], by simp⟩

/-- C5, witness: `malloc` fails for a pending frame of 252 bytes at read pointer 0x3F00,
where 0x3F00 + 252 + 4 = 16384: the round rewrites MRRH and MRRL with 0x40 and 0x00, the
address 16384 beyond the ring 3072..16383, where the ring arithmetic gives 3072. -/
theorem rx_task_flush_on_no_mem_witness :
    (emac_dm9051_task_round dm9051_h_sample scriptEnv
        (script_world [BusResp.ok [0], BusResp.ok [1], BusResp.ok [1, 0, 252, 0],
          BusResp.ok [0], BusResp.ok [1], BusResp.ok [1, 0, 252, 0],
          BusResp.ok [0x3F], BusResp.ok [0x00], BusResp.ok [], BusResp.ok []] [false])).2 =
      { script_world [] [] with
        trace := [] ++ ev_register_read dm9051_h_sample dm9051_h_sample.DM9051_MRCMDX ++
          ev_register_read dm9051_h_sample dm9051_h_sample.DM9051_MRCMDX ++
          ev_memory_peek dm9051_h_sample 4 ++ [Ev.malloc 248] ++
          ev_register_read dm9051_h_sample dm9051_h_sample.DM9051_MRCMDX ++
          ev_register_read dm9051_h_sample dm9051_h_sample.DM9051_MRCMDX ++
          ev_memory_peek dm9051_h_sample 4 ++
          ev_register_read dm9051_h_sample dm9051_h_sample.DM9051_MRRH ++
          ev_register_read dm9051_h_sample dm9051_h_sample.DM9051_MRRL ++
          ev_register_write dm9051_h_sample dm9051_h_sample.DM9051_MRRH 0x40 ++
          ev_register_write dm9051_h_sample dm9051_h_sample.DM9051_MRRL 0x00 } ∧
    dm9051_skip_addr 0x3F 0x00 (252 + 256 * 0) = 16384 ∧
    3072 + (256 * 0x3F + 0x00 - 3072 + (252 + 256 * 0) + 4) % 13312 = 3072 :=
  ⟨(rx_task_flush_on_no_mem dm9051_h_sample
    (script_world [BusResp.ok [0], BusResp.ok [1], BusResp.ok [1, 0, 252, 0],
      BusResp.ok [0], BusResp.ok [1], BusResp.ok [1, 0, 252, 0],
      BusResp.ok [0x3F], BusResp.ok [0x00], BusResp.ok [], BusResp.ok []] [false])
    [0] [0] [] [] 1 0 252 0 0x3F 0x00 [] (by decide) (by decide) (by decide) (by decide)
    (by decide) (by decide) (by decide) rfl (by decide)).1.1,
   ((rx_task_flush_on_no_mem dm9051_h_sample
    (script_world [BusResp.ok [0], BusResp.ok [1], BusResp.ok [1, 0, 252, 0],
      BusResp.ok [0], BusResp.ok [1], BusResp.ok [1, 0, 252, 0],
      BusResp.ok [0x3F], BusResp.ok [0x00], BusResp.ok [], BusResp.ok []] [false])
    [0] [0] [] [] 1 0 252 0 0x3F 0x00 [] (by decide) (by decide) (by decide) (by decide)
    (by decide) (by decide) (by decide) rfl (by decide)).1.2
    (by decide) (by decide) (by decide)).2 (by decide)⟩

/-! ## C6: round trip through a loopback controller -/

section loopback
variable (c : dm9051_h) (fcs : List Nat → List Nat) (e : emac_dm9051_t) (s : LoopDev) (tr : List Ev)

theorem loop_register_read_tcr (hc : c.distinct) (value : Nat) :
    dm9051_register_read c (loopbackEnv c fcs) c.DM9051_TCR value { emac := e, dev := s, trace := tr } =
      ((ESP_OK, 0), { emac := e, dev := s, trace := tr ++ ev_register_read c c.DM9051_TCR }) := by
  obtain ⟨h0, h1, h2, h3, h4, h5, h6, h7, h8, h9, h10, h11, h12⟩ := hc
  simp [dm9051_register_read, dm9051_transfer, dm9051_lock, dm9051_unlock,
    spi_device_polling_transmit, emit, loopbackEnv, ev_register_read, ev_transfer,
    h0, h10, h11, h12]

theorem loop_register_read_mrcmdx (hc : c.distinct) (value : Nat) :
    dm9051_register_read c (loopbackEnv c fcs) c.DM9051_MRCMDX value { emac := e, dev := s, trace := tr } =
      ((ESP_OK, s.rx_mem.headD 0 % 256),
        { emac := e, dev := s, trace := tr ++ ev_register_read c c.DM9051_MRCMDX }) := by
  obtain ⟨h0, h1, h2, h3, h4, h5, h6, h7, h8, h9, h10, h11, h12⟩ := hc
  simp [dm9051_register_read, dm9051_transfer, dm9051_lock, dm9051_unlock,
    spi_device_polling_transmit, emit, loopbackEnv, ev_register_read, ev_transfer, h0]

theorem loop_register_write_txpll (value : Nat) :
    dm9051_register_write c (loopbackEnv c fcs) c.DM9051_TXPLL value { emac := e, dev := s, trace := tr } =
      (ESP_OK, { emac := e, dev := { s with txpll := value },
                 trace := tr ++ ev_register_write c c.DM9051_TXPLL value }) := by
  simp [dm9051_register_write, dm9051_transfer, dm9051_lock, dm9051_unlock,
    spi_device_polling_transmit, emit, loopbackEnv, ev_register_write, ev_transfer]

theorem loop_register_write_txplh (hc : c.distinct) (value : Nat) :
    dm9051_register_write c (loopbackEnv c fcs) c.DM9051_TXPLH value { emac := e, dev := s, trace := tr } =
      (ESP_OK, { emac := e, dev := { s with txplh := value },
                 trace := tr ++ ev_register_write c c.DM9051_TXPLH value }) := by
  obtain ⟨h0, h1, h2, h3, h4, h5, h6, h7, h8, h9, h10, h11, h12⟩ := hc
  simp [dm9051_register_write, dm9051_transfer, dm9051_lock, dm9051_unlock,
    spi_device_polling_transmit, emit, loopbackEnv, ev_register_write, ev_transfer, h1]

theorem loop_memory_write (hc : c.distinct) (buffer : List Nat) (len : Nat) :
    dm9051_memory_write c (loopbackEnv c fcs) buffer len { emac := e, dev := s, trace := tr } =
      (ESP_OK, { emac := e, dev := { s with tx_mem := s.tx_mem ++ buffer.take len },
                 trace := tr ++ ev_transfer { cmd := c.DM9051_SPI_WR, addr := c.DM9051_MWCMD,
                                              length := len * 8, tx := buffer.take len } }) := by
  obtain ⟨h0, h1, h2, h3, h4, h5, h6, h7, h8, h9, h10, h11, h12⟩ := hc
  simp [dm9051_memory_write, dm9051_transfer, dm9051_lock, dm9051_unlock,
    spi_device_polling_transmit, emit, loopbackEnv, ev_transfer, h2, h3]

theorem loop_register_write_txreq (hc : c.distinct) (htxreq : c.TCR_TXREQ ≠ 0) :
    dm9051_register_write c (loopbackEnv c fcs) c.DM9051_TCR c.TCR_TXREQ { emac := e, dev := s, trace := tr } =
      (ESP_OK,
        { emac := e,
          dev := { s with tx_mem := [],
                          rx_mem := s.rx_mem ++ loopback_frame fcs (s.tx_mem.take (s.txplh * 256 + s.txpll)) },
          trace := tr ++ ev_register_write c c.DM9051_TCR c.TCR_TXREQ }) := by
  obtain ⟨h0, h1, h2, h3, h4, h5, h6, h7, h8, h9, h10, h11, h12⟩ := hc
  simp [dm9051_register_write, dm9051_transfer, dm9051_lock, dm9051_unlock,
    spi_device_polling_transmit, emit, loopbackEnv, ev_register_write, ev_transfer, h4, h5, h6, htxreq]

theorem loop_memory_peek (hc : c.distinct) (buffer : List Nat) (len : Nat) :
    dm9051_memory_peek c (loopbackEnv c fcs) buffer len { emac := e, dev := s, trace := tr } =
      ((ESP_OK, rx_store buffer (s.rx_mem.take len) len),
        { emac := e, dev := s, trace := tr ++ ev_memory_peek c len }) := by
  obtain ⟨h0, h1, h2, h3, h4, h5, h6, h7, h8, h9, h10, h11, h12⟩ := hc
  simp [dm9051_memory_peek, dm9051_transfer, dm9051_lock, dm9051_unlock,
    spi_device_polling_transmit, emit, loopbackEnv, ev_memory_peek, ev_transfer, h0, h7]

theorem loop_memory_read_rx (hc : c.distinct) (len : Nat) :
    dm9051_memory_read_rx c (loopbackEnv c fcs) len { emac := e, dev := s, trace := tr } =
      (ESP_OK,
        { emac := { e with rx_buffer := rx_store e.rx_buffer (s.rx_mem.take len) len },
          dev := { s with rx_mem := s.rx_mem.drop len },
          trace := tr ++ ev_memory_read c len }) := by
  obtain ⟨h0, h1, h2, h3, h4, h5, h6, h7, h8, h9, h10, h11, h12⟩ := hc
  simp [dm9051_memory_read_rx, dm9051_memory_read, dm9051_transfer, dm9051_lock, dm9051_unlock,
    spi_device_polling_transmit, emit, loopbackEnv, ev_memory_read, ev_transfer, h0, h8, h9,
    set_rx_buffer]

theorem loop_malloc (size : Nat) :
    malloc (loopbackEnv c fcs) size { emac := e, dev := s, trace := tr } =
      (true, { emac := e, dev := s, trace := tr ++ [Ev.malloc size] }) := by
  simp [malloc, emit, loopbackEnv]

theorem loop_stack_input (buf : heap_block) (len : Nat) :
    stack_input (loopbackEnv c fcs) buf len { emac := e, dev := s, trace := tr } =
      (ESP_OK, { emac := e, dev := s, trace := tr ++ [Ev.stack_input buf len] }) := by
  simp [stack_input, emit, loopbackEnv]

end loopback

theorem loopback_frame_length (fcs : List Nat → List Nat) (buf : List Nat)
    (hfcs : (fcs buf).length = 4) : (loopback_frame fcs buf).length = buf.length + 8 := by
  simp [loopback_frame, hfcs]

theorem loopback_frame_bytes (fcs : List Nat → List Nat) (buf : List Nat)
    (hfcs : ∀ b ∈ fcs buf, b < 256) (hbytes : ∀ b ∈ buf, b < 256) :
    ∀ b ∈ loopback_frame fcs buf, b < 256 := by
  intro b hb
  simp only [loopback_frame, List.mem_append, List.mem_cons, List.mem_singleton,
    List.not_mem_nil, or_false] at hb
  rcases hb with ((h | h | h | h) | h) | h
  · omega
  · omega
  · omega
  · omega
  · exact hbytes b h
  · exact hfcs b h

/-- Transmit on an idle loopback controller: the frame becomes the pending RX frame. -/
theorem loop_transmit (c : dm9051_h) (fcs : List Nat → List Nat) (e : emac_dm9051_t) (tr : List Ev)
    (buf : List Nat) (txpll txplh : Nat) (rx_mem : List Nat) (t0 : Int) (fuel : Nat)
    (hc : c.distinct) (htxreq : c.TCR_TXREQ ≠ 0) (hmax : buf.length ≤ ETH_MAX_PACKET_SIZE)
    (hfuel : 0 < fuel) :
    emac_dm9051_transmit c (loopbackEnv c fcs) fuel buf buf.length
        { emac := e, dev := { txpll := txpll, txplh := txplh, tx_mem := [], rx_mem := rx_mem, now := t0 },
          trace := tr } =
      (some ESP_OK,
        { emac := e,
          dev := { txpll := buf.length % 256, txplh := buf.length / 256, tx_mem := [],
                   rx_mem := rx_mem ++ loopback_frame fcs buf, now := t0 + 1 },
          trace := tr ++ [Ev.esp_timer_get_time] ++ ev_register_read c c.DM9051_TCR ++
            ev_register_write c c.DM9051_TXPLL (buf.length % 256) ++
            ev_register_write c c.DM9051_TXPLH (buf.length / 256) ++
            ev_memory_write c buf ++ ev_register_write c c.DM9051_TCR c.TCR_TXREQ }) := by
  obtain ⟨n, rfl⟩ : ∃ n, fuel = n + 1 := ⟨fuel - 1, by omega⟩
  have hmax2 : buf.length ≤ 1522 := hmax
  have h1 : buf.length / 256 % 256 = buf.length / 256 := by omega
  have h2 : buf.length / 256 * 256 + buf.length % 256 = buf.length := by omega
  simp [emac_dm9051_transmit, emac_dm9051_transmit_body, emac_dm9051_transmit_wait, Blk.bind_def,
    Blk.bind, Blk.pure_def, Blk.pure, ESP_GOTO_ON_FALSE, ESP_GOTO_ON_ERROR, ESP_GOTO_ON_ERROR_out,
    call, esp_timer_get_time, emit, hmax, loop_register_read_tcr c fcs _ _ _ hc,
    loop_register_write_txpll, loop_register_write_txplh c fcs _ _ _ hc,
    loop_memory_write c fcs _ _ _ hc, loop_register_write_txreq c fcs _ _ _ hc htxreq,
    and_255_eq, shr8_eq, h1, h2, ev_memory_write]
  simp [loopbackEnv]

/-- The byte-count read on a loopback controller whose RX memory holds the frame of `buf`. -/
theorem loop_get_recv_byte_count (c : dm9051_h) (fcs : List Nat → List Nat) (e : emac_dm9051_t)
    (tr : List Ev) (buf : List Nat) (s : LoopDev)
    (hc : c.distinct) (hrx : s.rx_mem = loopback_frame fcs buf) (hmax : buf.length ≤ ETH_MAX_PACKET_SIZE) :
    dm9051_get_recv_byte_count c (loopbackEnv c fcs) { emac := e, dev := s, trace := tr } =
      ((ESP_OK, buf.length + 4),
        { emac := e, dev := s,
          trace := tr ++ ev_register_read c c.DM9051_MRCMDX ++ ev_register_read c c.DM9051_MRCMDX ++
            ev_memory_peek c 4 }) := by
  have hmax2 : buf.length ≤ 1522 := hmax
  have hhead : (loopback_frame fcs buf).head?.getD 0 = 1 := by simp [loopback_frame]
  have htake4 : (loopback_frame fcs buf).take 4 =
      [1, 0, (buf.length + 4) % 256, (buf.length + 4) / 256 % 256] := by
    simp [loopback_frame]
  have hpeek : rx_store [0, 0, 0, 0] [1, 0, (buf.length + 4) % 256, (buf.length + 4) / 256 % 256] 4 =
      [1, 0, (buf.length + 4) % 256, (buf.length + 4) / 256 % 256] :=
    rx_store_four _ _ _ _ (by omega) (by omega) (by omega) (by omega)
  have hB : ((buf.length + 4) % 256 + 256 * ((buf.length + 4) / 256 % 256)) % 65536 = buf.length + 4 := by
    omega
  simp [dm9051_get_recv_byte_count, dm9051_get_recv_byte_count_body, Blk.bind_def, Blk.bind,
    Blk.pure_def, Blk.pure, ESP_GOTO_ON_ERROR_out, loop_register_read_mrcmdx c fcs _ _ _ hc,
    loop_memory_peek c fcs _ _ _ hc, hrx, hhead, htake4, hpeek, dm9051_rx_header_of, shl8_eq, hB]

/-- Allocation on a loopback controller whose RX memory holds the frame of `buf`. -/
theorem loop_alloc_recv_buf (c : dm9051_h) (fcs : List Nat → List Nat) (e : emac_dm9051_t)
    (tr : List Ev) (buf : List Nat) (s : LoopDev)
    (hc : c.distinct) (hrx : s.rx_mem = loopback_frame fcs buf)
    (hmin : 60 ≤ buf.length) (hmax : buf.length ≤ ETH_MAX_PACKET_SIZE) :
    dm9051_alloc_recv_buf c (loopbackEnv c fcs) ETH_MAX_PACKET_SIZE { emac := e, dev := s, trace := tr } =
      ((ESP_OK,
         some { size := buf.length, info := { copy_len := buf.length, byte_cnt := buf.length + 4 },
                data := [] },
         buf.length),
        { emac := e, dev := s,
          trace := tr ++ ev_register_read c c.DM9051_MRCMDX ++ ev_register_read c c.DM9051_MRCMDX ++
            ev_memory_peek c 4 ++ [Ev.malloc buf.length] }) := by
  have hmax2 : buf.length ≤ 1522 := hmax
  have hne : ¬ buf.length + 4 = 0 := by omega
  have hrxlen : (buf.length + 4 + 65536 - 4) % 65536 = buf.length := by omega
  have hnot : ¬ 1522 < buf.length := by omega
  have hmod : buf.length % 65536 = buf.length := by omega
  have h60 : 64 - 4 ≤ buf.length := by omega
  simp only [dm9051_alloc_recv_buf, loop_get_recv_byte_count c fcs e tr buf s hc hrx hmax,
    ETH_MAX_PACKET_SIZE, ETH_MIN_PACKET_SIZE, ETH_CRC_LEN, hne, if_false, hrxlen, gt_iff_lt, hnot,
    hmod, ge_iff_le, h60, if_true, loop_malloc]

/-- The automatic-length receive on a loopback controller whose RX memory holds exactly
the frame of `buf`. -/
theorem loop_receive (c : dm9051_h) (fcs : List Nat → List Nat) (e : emac_dm9051_t)
    (tr : List Ev) (buf : List Nat) (txpll txplh : Nat) (tx_mem : List Nat) (t : Int)
    (hc : c.distinct) (hfcs : ∀ d, (fcs d).length = 4 ∧ ∀ b ∈ fcs d, b < 256)
    (hbytes : ∀ b ∈ buf, b < 256) (hmax : buf.length ≤ ETH_MAX_PACKET_SIZE) :
    emac_dm9051_receive c (loopbackEnv c fcs)
        { size := buf.length, info := { copy_len := buf.length, byte_cnt := buf.length + 4 }, data := [] }
        DM9051_ETH_MAC_RX_BUF_SIZE_AUTO
        { emac := e,
          dev := { txpll := txpll, txplh := txplh, tx_mem := tx_mem, rx_mem := loopback_frame fcs buf,
                   now := t },
          trace := tr } =
      ((ESP_OK,
         { size := buf.length, info := { copy_len := buf.length, byte_cnt := buf.length + 4 },
           data := buf },
         buf.length),
        { emac := { e with packets_remain := false,
                           rx_buffer := loopback_frame fcs buf ++ e.rx_buffer.drop (buf.length + 8) },
          dev := { txpll := txpll, txplh := txplh, tx_mem := tx_mem, rx_mem := [], now := t },
          trace := tr ++ ev_memory_read c (buf.length + 8) ++
            ev_register_read c c.DM9051_MRCMDX ++ ev_register_read c c.DM9051_MRCMDX }) := by
  have hmax2 : buf.length ≤ 1522 := hmax
  have hlen := loopback_frame_length fcs buf (hfcs buf).1
  have hfb := loopback_frame_bytes fcs buf (hfcs buf).2 hbytes
  have hmod : buf.length % 65536 = buf.length := by omega
  have hmod4 : (buf.length + 4) % 65536 = buf.length + 4 := by omega
  have hmod8 : (buf.length + 4 + 4) % 65536 = buf.length + 8 := by omega
  have htakeall : (loopback_frame fcs buf).take (buf.length + 8) = loopback_frame fcs buf :=
    List.take_of_length_le (by omega)
  have hdropall : (loopback_frame fcs buf).drop (buf.length + 8) = [] :=
    List.drop_eq_nil_of_le (by omega)
  have hstore : rx_store e.rx_buffer (loopback_frame fcs buf) (buf.length + 8) =
      loopback_frame fcs buf ++ e.rx_buffer.drop (buf.length + 8) :=
    rx_store_eq _ _ _ hlen hfb
  have hdata : ((loopback_frame fcs buf ++ e.rx_buffer.drop (buf.length + 8)).drop 4).take buf.length =
      buf := by
    simp [loopback_frame]
  simp [emac_dm9051_receive, emac_dm9051_receive_len, Blk.pure_def, Blk.pure,
    DM9051_ETH_MAC_RX_BUF_SIZE_AUTO, DM9051_RX_HDR_SIZE, set_packets_remain, hmod, hmod4, hmod8,
    loop_memory_read_rx c fcs _ _ _ hc, loop_register_read_mrcmdx c fcs _ _ _ hc,
    htakeall, hdropall, hstore, memcpy, hdata]

/-- A round of the receive worker on a loopback controller whose RX memory holds exactly
the frame of `buf`: the frame is handed to `stack_input`. -/
theorem loop_task_round (c : dm9051_h) (fcs : List Nat → List Nat) (e : emac_dm9051_t) (tr : List Ev)
    (buf : List Nat) (txpll txplh : Nat) (tx_mem : List Nat) (t : Int)
    (hc : c.distinct) (hfcs : ∀ d, (fcs d).length = 4 ∧ ∀ b ∈ fcs d, b < 256)
    (hbytes : ∀ b ∈ buf, b < 256) (hmin : 60 ≤ buf.length) (hmax : buf.length ≤ ETH_MAX_PACKET_SIZE) :
    emac_dm9051_task_round c (loopbackEnv c fcs)
        { emac := e,
          dev := { txpll := txpll, txplh := txplh, tx_mem := tx_mem, rx_mem := loopback_frame fcs buf,
                   now := t },
          trace := tr } =
      ((),
        { emac := { e with packets_remain := false,
                           rx_buffer := loopback_frame fcs buf ++ e.rx_buffer.drop (buf.length + 8) },
          dev := { txpll := txpll, txplh := txplh, tx_mem := tx_mem, rx_mem := [], now := t },
          trace := tr ++ ev_register_read c c.DM9051_MRCMDX ++ ev_register_read c c.DM9051_MRCMDX ++
            ev_memory_peek c 4 ++ [Ev.malloc buf.length] ++ ev_memory_read c (buf.length + 8) ++
            ev_register_read c c.DM9051_MRCMDX ++ ev_register_read c c.DM9051_MRCMDX ++
            [Ev.stack_input { size := buf.length,
                              info := { copy_len := buf.length, byte_cnt := buf.length + 4 },
                              data := buf } buf.length] }) := by
  have hbne : ¬ buf.length = 0 := by omega
  have ha := loop_alloc_recv_buf c fcs e tr buf
    { txpll := txpll, txplh := txplh, tx_mem := tx_mem, rx_mem := loopback_frame fcs buf, now := t }
    hc rfl hmin hmax
  simp only [emac_dm9051_task_round, ha,
    loop_receive c fcs e _ buf txpll txplh tx_mem t hc hfcs hbytes hmax, hbne, if_false,
    gt_iff_lt, Nat.lt_irrefl, loop_stack_input, List.append_assoc]

/-- C6: on a loopback controller (`loopbackEnv`) that is idle with empty RX memory, with the
1526 bytes of `rx_buffer` that `esp_eth_mac_new_dm9051` allocates, for every frame `buf` of
bytes with `60 ≤ buf.length ≤ ETH_MAX_PACKET_SIZE` (so for every length between the minimum
and the maximum frame size), `emac_dm9051_transmit` returns `ESP_OK` and the following round
of the receive worker allocates `buf.length` bytes and asks for a block read of
`buf.length + 8` bytes into `rx_buffer`. Up to 1518 bytes that read fits `rx_buffer` and the
round, after the automatic-length receive, hands to `stack_input` a buffer of `buf.length`
bytes whose bytes are `buf`, with length `buf.length`, no frame remaining pending. From 1519
bytes on the read asks for more than the 1526 bytes of `rx_buffer`. -/
theorem dm9051_loopback_round_trip (c : dm9051_h) (fcs : List Nat → List Nat) (e : emac_dm9051_t)
    (tr : List Ev) (buf : List Nat) (txpll txplh : Nat) (t0 : Int) (fuel : Nat)
    (hc : c.distinct) (htxreq : c.TCR_TXREQ ≠ 0)
    (hfcs : ∀ d, (fcs d).length = 4 ∧ ∀ b ∈ fcs d, b < 256)
    (hbytes : ∀ b ∈ buf, b < 256) (hmin : 60 ≤ buf.length) (hmax : buf.length ≤ ETH_MAX_PACKET_SIZE)
    (hcap : e.rx_buffer.length = ETH_MAX_PACKET_SIZE + DM9051_RX_HDR_SIZE)
    (hfuel : 0 < fuel) :
    (emac_dm9051_transmit c (loopbackEnv c fcs) fuel buf buf.length
        { emac := e, dev := { txpll := txpll, txplh := txplh, tx_mem := [], rx_mem := [], now := t0 },
          trace := tr }).1 = some ESP_OK ∧
    (∃ tl, (emac_dm9051_task_round c (loopbackEnv c fcs)
        (emac_dm9051_transmit c (loopbackEnv c fcs) fuel buf buf.length
          { emac := e, dev := { txpll := txpll, txplh := txplh, tx_mem := [], rx_mem := [], now := t0 },
            trace := tr }).2).2.trace =
      (emac_dm9051_transmit c (loopbackEnv c fcs) fuel buf buf.length
          { emac := e, dev := { txpll := txpll, txplh := txplh, tx_mem := [], rx_mem := [], now := t0 },
            trace := tr }).2.trace ++
        ev_register_read c c.DM9051_MRCMDX ++ ev_register_read c c.DM9051_MRCMDX ++
        ev_memory_peek c 4 ++ [Ev.malloc buf.length] ++ ev_memory_read c (buf.length + 8) ++ tl) ∧
    (buf.length ≤ 1518 →
      buf.length + 8 ≤ (emac_dm9051_transmit c (loopbackEnv c fcs) fuel buf buf.length
          { emac := e, dev := { txpll := txpll, txplh := txplh, tx_mem := [], rx_mem := [], now := t0 },
            trace := tr }).2.emac.rx_buffer.length ∧
      (emac_dm9051_task_round c (loopbackEnv c fcs)
          (emac_dm9051_transmit c (loopbackEnv c fcs) fuel buf buf.length
            { emac := e, dev := { txpll := txpll, txplh := txplh, tx_mem := [], rx_mem := [], now := t0 },
              trace := tr }).2).2.trace =
        (emac_dm9051_transmit c (loopbackEnv c fcs) fuel buf buf.length
            { emac := e, dev := { txpll := txpll, txplh := txplh, tx_mem := [], rx_mem := [], now := t0 },
              trace := tr }).2.trace ++
          ev_register_read c c.DM9051_MRCMDX ++ ev_register_read c c.DM9051_MRCMDX ++
          ev_memory_peek c 4 ++ [Ev.malloc buf.length] ++ ev_memory_read c (buf.length + 8) ++
          ev_register_read c c.DM9051_MRCMDX ++ ev_register_read c c.DM9051_MRCMDX ++
          [Ev.stack_input { size := buf.length,
                            info := { copy_len := buf.length, byte_cnt := buf.length + 4 },
                            data := buf } buf.length] ∧
      (emac_dm9051_task_round c (loopbackEnv c fcs)
          (emac_dm9051_transmit c (loopbackEnv c fcs) fuel buf buf.length
            { emac := e, dev := { txpll := txpll, txplh := txplh, tx_mem := [], rx_mem := [], now := t0 },
              trace := tr }).2).2.emac.packets_remain = false) ∧
    (1518 < buf.length →
      (emac_dm9051_transmit c (loopbackEnv c fcs) fuel buf buf.length
          { emac := e, dev := { txpll := txpll, txplh := txplh, tx_mem := [], rx_mem := [], now := t0 },
            trace := tr }).2.emac.rx_buffer.length < buf.length + 8) := by
  have htx := loop_transmit c fcs e tr buf txpll txplh [] t0 fuel hc htxreq hmax hfuel
  rw [htx]
  simp only [List.nil_append]
  rw [loop_task_round c fcs e _ buf _ _ [] _ hc hfcs hbytes hmin hmax]
  simp only [ETH_MAX_PACKET_SIZE, DM9051_RX_HDR_SIZE] at hcap
  refine ⟨trivial,
    ⟨ev_register_read c c.DM9051_MRCMDX ++ ev_register_read c c.DM9051_MRCMDX ++
      [Ev.stack_input { size := buf.length,
                        info := { copy_len := buf.length, byte_cnt := buf.length + 4 },
                        data := buf } buf.length], ?_⟩,
    fun h => ⟨?_, ?_, ?_⟩, fun h => ?_⟩
  · simp only [List.append_assoc]
  · show buf.length + 8 ≤ e.rx_buffer.length
    omega
  · simp only [List.append_assoc]
  · rfl
  · show e.rx_buffer.length < buf.length + 8
    omega

/-- C6, witness: a frame of 1522 bytes, the maximum frame size, sent on the loopback
controller with a zero CRC: the transmit returns `ESP_OK` and the round of the receive
worker asks for a block read of 1522 + 8 = 1530 bytes into the 1526 bytes of `rx_buffer`.
A frame of 60 bytes comes back through `stack_input`, no frame remaining pending. -/
theorem dm9051_loopback_round_trip_witness :
    (emac_dm9051_transmit dm9051_h_sample (loopbackEnv dm9051_h_sample (fun _ => [0, 0, 0, 0])) 1
        (List.replicate 1522 0xAB) (List.replicate 1522 0xAB).length
        { emac := emac_dm9051_sample,
          dev := { txpll := 0, txplh := 0, tx_mem := [], rx_mem := [], now := 0 },
          trace := [] }).1 = some ESP_OK ∧
    (∃ tl, (emac_dm9051_task_round dm9051_h_sample (loopbackEnv dm9051_h_sample (fun _ => [0, 0, 0, 0]))
        (emac_dm9051_transmit dm9051_h_sample (loopbackEnv dm9051_h_sample (fun _ => [0, 0, 0, 0])) 1
          (List.replicate 1522 0xAB) (List.replicate 1522 0xAB).length
          { emac := emac_dm9051_sample,
            dev := { txpll := 0, txplh := 0, tx_mem := [], rx_mem := [], now := 0 },
            trace := [] }).2).2.trace =
      (emac_dm9051_transmit dm9051_h_sample (loopbackEnv dm9051_h_sample (fun _ => [0, 0, 0, 0])) 1
          (List.replicate 1522 0xAB) (List.replicate 1522 0xAB).length
          { emac := emac_dm9051_sample,
            dev := { txpll := 0, txplh := 0, tx_mem := [], rx_mem := [], now := 0 },
            trace := [] }).2.trace ++
        ev_register_read dm9051_h_sample dm9051_h_sample.DM9051_MRCMDX ++
        ev_register_read dm9051_h_sample dm9051_h_sample.DM9051_MRCMDX ++
        ev_memory_peek dm9051_h_sample 4 ++ [Ev.malloc (List.replicate 1522 0xAB).length] ++
        ev_memory_read dm9051_h_sample ((List.replicate 1522 0xAB).length + 8) ++ tl) ∧
    (emac_dm9051_transmit dm9051_h_sample (loopbackEnv dm9051_h_sample (fun _ => [0, 0, 0, 0])) 1
        (List.replicate 1522 0xAB) (List.replicate 1522 0xAB).length
        { emac := emac_dm9051_sample,
          dev := { txpll := 0, txplh := 0, tx_mem := [], rx_mem := [], now := 0 },
          trace := [] }).2.emac.rx_buffer.length < (List.replicate 1522 0xAB).length + 8 ∧
    (emac_dm9051_task_round dm9051_h_sample (loopbackEnv dm9051_h_sample (fun _ => [0, 0, 0, 0]))
        (emac_dm9051_transmit dm9051_h_sample (loopbackEnv dm9051_h_sample (fun _ => [0, 0, 0, 0])) 1
          (List.replicate 60 0xAB) (List.replicate 60 0xAB).length
          { emac := emac_dm9051_sample,
            dev := { txpll := 0, txplh := 0, tx_mem := [], rx_mem := [], now := 0 },
            trace := [] }).2).2.emac.packets_remain = false :=
  have h := dm9051_loopback_round_trip dm9051_h_sample (fun _ => [0, 0, 0, 0]) emac_dm9051_sample []
    (List.replicate 1522 0xAB) 0 0 0 1 (by simp [dm9051_h.distinct, dm9051_h_sample]) (by decide)
    (fun _ => ⟨rfl, fun b hb => by simp at hb; omega⟩)
    (fun b hb => by rw [List.eq_of_mem_replicate hb]; decide)
    (by simp only [List.length_replicate]; decide)
    (by simp only [List.length_replicate, ETH_MAX_PACKET_SIZE]; decide)
    (List.length_replicate _ _) (by decide)
  ⟨h.1, h.2.1, h.2.2.2 (by simp only [List.length_replicate]; decide),
    ((dm9051_loopback_round_trip dm9051_h_sample (fun _ => [0, 0, 0, 0]) emac_dm9051_sample []
      (List.replicate 60 0xAB) 0 0 0 1 (by simp [dm9051_h.distinct, dm9051_h_sample]) (by decide)
      (fun _ => ⟨rfl, fun b hb => by simp at hb; omega⟩) (fun b hb => by simp at hb; omega)
      (by decide) (by decide) (List.length_replicate _ _) (by decide)).2.2.1 (by decide)).2.2⟩

/-! ## C7: transmit while the previous transmission is pending -/

theorem ev_repeat_succ (n : Nat) (l : List Ev) : ev_repeat (n + 1) l = l ++ ev_repeat n l := rfl

theorem mem_ev_repeat (l : List Ev) (ev : Ev) : ∀ n, ev ∈ ev_repeat n l → ev ∈ l := by
  intro n
  induction n with
  | zero => intro h; simp [ev_repeat] at h
  | succ n ih =>
    intro h
    rw [ev_repeat_succ, List.mem_append] at h
    rcases h with h | h
    · exact h
    · exact ih h

/-- The polling loop of `emac_dm9051_transmit` on a script where TCR reads with TXREQ set at
every poll, the timer shows less than 100 µs elapsed after each poll of `polls`, and 100 µs
or more after the poll `last`. -/
theorem transmit_wait_busy (c : dm9051_h) (e : emac_dm9051_t) (hp : List Bool) (st : List esp_err_t)
    (t0 : Int) (last : Nat × Int) (rest : List BusResp) (crest : List Int)
    (hlast : last.1 < 256 ∧ last.1 &&& c.TCR_TXREQ ≠ 0 ∧ ¬ (last.2 - t0 < 100)) :
    ∀ (polls : List (Nat × Int)) (fuel tcr : Nat) (tr : List Ev),
      (∀ p ∈ polls, p.1 < 256 ∧ p.1 &&& c.TCR_TXREQ ≠ 0 ∧ p.2 - t0 < 100) →
      polls.length < fuel →
      emac_dm9051_transmit_wait c scriptEnv fuel t0 tcr
          { emac := e,
            dev := { bus := (polls ++ [last]).map (fun p => BusResp.ok [p.1]) ++ rest,
                     clock := (polls ++ [last]).map (fun p => p.2) ++ crest, heap := hp, stack := st },
            trace := tr } =
        (Except.ok (some last.1),
          { emac := e, dev := { bus := rest, clock := crest, heap := hp, stack := st },
            trace := tr ++ ev_repeat (polls.length + 1)
              (ev_register_read c c.DM9051_TCR ++ [Ev.esp_timer_get_time]) }) := by
  intro polls
  induction polls with
  | nil =>
    intro fuel tcr tr _ hfuel
    obtain ⟨n, rfl⟩ : ∃ n, fuel = n + 1 := ⟨fuel - 1, by simp at hfuel; omega⟩
    obtain ⟨h1, h2, h3⟩ := hlast
    simp [emac_dm9051_transmit_wait, Blk.bind_def, Blk.bind, Blk.pure, ESP_GOTO_ON_ERROR_out,
      register_read_ok, Nat.mod_eq_of_lt h1, h2, call, get_time_script, h3, ev_repeat]
  | cons p polls ih =>
    intro fuel tcr tr hpolls hfuel
    obtain ⟨n, rfl⟩ : ∃ n, fuel = n + 1 := ⟨fuel - 1, by simp at hfuel; omega⟩
    obtain ⟨h1, h2, h3⟩ := hpolls p (List.mem_cons_self p polls)
    have hrec := ih n p.1 (tr ++ (ev_register_read c c.DM9051_TCR ++ [Ev.esp_timer_get_time]))
      (fun q hq => hpolls q (List.mem_cons_of_mem p hq)) (by simp at hfuel; omega)
    simp only [List.cons_append, List.map_cons, emac_dm9051_transmit_wait, Blk.bind_def, Blk.bind,
      ESP_GOTO_ON_ERROR_out, register_read_ok, List.headD_cons, Nat.mod_eq_of_lt h1, ne_eq, h2,
      not_false_eq_true, if_true, call, get_time_script, h3, List.append_assoc] at hrec ⊢
    rw [hrec]
    simp [ev_repeat_succ]

/-- C7: for every buffer and every `length ≤ ETH_MAX_PACKET_SIZE`, if every read of TCR
during the polling of `emac_dm9051_transmit` shows TXREQ set until the timer shows that
100 µs have elapsed, transmit returns `ESP_ERR_INVALID_STATE`, and every SPI transaction it
issued is a register read of TCR: nothing is written to TXPLL, TXPLH, the TX memory or
TCR. -/
theorem dm9051_transmit_busy (c : dm9051_h) (w : World emac_dm9051_t Script) (buf : List Nat)
    (length fuel : Nat) (t0 : Int) (polls : List (Nat × Int)) (last : Nat × Int)
    (rest : List BusResp) (crest : List Int)
    (hlen : length ≤ ETH_MAX_PACKET_SIZE)
    (hpolls : ∀ p ∈ polls, p.1 < 256 ∧ p.1 &&& c.TCR_TXREQ ≠ 0 ∧ p.2 - t0 < 100)
    (hlast : last.1 < 256 ∧ last.1 &&& c.TCR_TXREQ ≠ 0 ∧ ¬ (last.2 - t0 < 100))
    (hfuel : polls.length < fuel)
    (hbus : w.dev.bus = (polls ++ [last]).map (fun p => BusResp.ok [p.1]) ++ rest)
    (hclock : w.dev.clock = t0 :: ((polls ++ [last]).map (fun p => p.2) ++ crest)) :
    emac_dm9051_transmit c scriptEnv fuel buf length w =
      (some ESP_ERR_INVALID_STATE,
        { w with dev := { w.dev with bus := rest, clock := crest },
                 trace := w.trace ++ [Ev.esp_timer_get_time] ++
                   ev_repeat (polls.length + 1) (ev_register_read c c.DM9051_TCR ++ [Ev.esp_timer_get_time]) }) ∧
    ∀ t, Ev.spi_device_polling_transmit t ∈
        [Ev.esp_timer_get_time] ++
          ev_repeat (polls.length + 1) (ev_register_read c c.DM9051_TCR ++ [Ev.esp_timer_get_time]) →
      t = { cmd := c.DM9051_SPI_RD, addr := c.DM9051_TCR, length := 8, tx := [] } := by
  constructor
  · obtain ⟨e, ⟨bus, clock, heap, stack⟩, tr⟩ := w
    simp only at hbus hclock
    subst hbus hclock
    have hw := transmit_wait_busy c e heap stack t0 last rest crest hlast polls fuel 0
      (tr ++ [Ev.esp_timer_get_time]) hpolls hfuel
    simp only [emac_dm9051_transmit, emac_dm9051_transmit_body, Blk.bind_def, Blk.bind,
      ESP_GOTO_ON_FALSE, hlen, decide_True, if_true, Blk.pure, call, get_time_script, hw, ne_eq,
      hlast.2.1, not_false_eq_true]
  · intro t ht
    simp only [List.singleton_append, List.mem_cons] at ht
    rcases ht with ht | ht
    · cases ht
    · have := mem_ev_repeat _ _ _ ht
      simpa [ev_register_read, ev_transfer, eq_comm] using this

/-- C7, witness: TCR reads 0x01 twice, the timer shows 1000, 1040 and 1100 µs. -/
theorem dm9051_transmit_busy_witness :
    emac_dm9051_transmit dm9051_h_sample scriptEnv 5 [1, 2, 3] 3
        { emac := emac_dm9051_sample,
          dev := { bus := [BusResp.ok [1], BusResp.ok [1]], clock := [1000, 1040, 1100], heap := [],
                   stack := [] },
          trace := [] } =
      (some ESP_ERR_INVALID_STATE,
        { emac := emac_dm9051_sample, dev := { bus := [], clock := [], heap := [], stack := [] },
          trace := [] ++ [Ev.esp_timer_get_time] ++
            ev_repeat 2 (ev_register_read dm9051_h_sample dm9051_h_sample.DM9051_TCR ++
              [Ev.esp_timer_get_time]) }) :=
  (dm9051_transmit_busy dm9051_h_sample
    { emac := emac_dm9051_sample,
      dev := { bus := [BusResp.ok [1], BusResp.ok [1]], clock := [1000, 1040, 1100], heap := [],
               stack := [] },
      trace := [] }
    [1, 2, 3] 3 5 1000 [(1, 1040)] (1, 1100) [] [] (by decide) (by decide) (by decide) (by decide)
    rfl rfl).1

/-! ## C8: transmit, argument check and register programming -/

section no_invalid_arg
variable {σ : Type} (c : dm9051_h) (env : Dm9051Env σ)

/-- A bus primitive returns `ESP_OK`, `ESP_FAIL` or `ESP_ERR_TIMEOUT`. -/
theorem transfer_ret (t : spi_transaction_t) (w : World emac_dm9051_t σ) :
    (dm9051_transfer env t w).1.1 = ESP_OK ∨ (dm9051_transfer env t w).1.1 = ESP_FAIL ∨
      (dm9051_transfer env t w).1.1 = ESP_ERR_TIMEOUT := by
  unfold dm9051_transfer
  rcases hl : dm9051_lock env w with ⟨b, w1⟩
  cases b with
  | false => simp
  | true =>
    rcases hs : spi_device_polling_transmit env t w1 with ⟨r, w2⟩
    cases r <;> simp [hs]

theorem register_write_ret (reg_addr value : Nat) (w : World emac_dm9051_t σ) :
    (dm9051_register_write c env reg_addr value w).1 ≠ ESP_ERR_INVALID_ARG := by
  have h := transfer_ret env { cmd := c.DM9051_SPI_WR, addr := reg_addr, length := 8, tx := [value] } w
  unfold dm9051_register_write
  rcases ht : dm9051_transfer env
    { cmd := c.DM9051_SPI_WR, addr := reg_addr, length := 8, tx := [value] } w with ⟨⟨r, o⟩, w1⟩
  rw [ht] at h
  rcases h with h | h | h <;> simp_all

theorem memory_write_ret (buffer : List Nat) (len : Nat) (w : World emac_dm9051_t σ) :
    (dm9051_memory_write c env buffer len w).1 ≠ ESP_ERR_INVALID_ARG := by
  have h := transfer_ret env
    { cmd := c.DM9051_SPI_WR, addr := c.DM9051_MWCMD, length := len * 8, tx := buffer.take len } w
  unfold dm9051_memory_write
  rcases ht : dm9051_transfer env
    { cmd := c.DM9051_SPI_WR, addr := c.DM9051_MWCMD, length := len * 8, tx := buffer.take len } w with
    ⟨⟨r, o⟩, w1⟩
  rw [ht] at h
  rcases h with h | h | h <;> simp_all

theorem register_read_ret (reg_addr value : Nat) (w : World emac_dm9051_t σ) :
    (dm9051_register_read c env reg_addr value w).1.1 ≠ ESP_ERR_INVALID_ARG := by
  have h := transfer_ret env { cmd := c.DM9051_SPI_RD, addr := reg_addr, length := 8, tx := [] } w
  unfold dm9051_register_read
  rcases ht : dm9051_transfer env
    { cmd := c.DM9051_SPI_RD, addr := reg_addr, length := 8, tx := [] } w with ⟨⟨r, o⟩, w1⟩
  rw [ht] at h
  cases o <;> rcases h with h | h | h <;> simp_all

theorem goto_on_error_ret (x : Fn emac_dm9051_t σ esp_err_t) (w : World emac_dm9051_t σ)
    (hx : (x w).1 ≠ ESP_ERR_INVALID_ARG) :
    (ESP_GOTO_ON_ERROR x w).1 ≠ Except.error ESP_ERR_INVALID_ARG := by
  unfold ESP_GOTO_ON_ERROR
  rcases h : x w with ⟨r, w1⟩
  rw [h] at hx
  cases r <;> simp_all

theorem goto_on_error_out_ret {α : Type} (x : Fn emac_dm9051_t σ (esp_err_t × α))
    (w : World emac_dm9051_t σ) (hx : (x w).1.1 ≠ ESP_ERR_INVALID_ARG) :
    (ESP_GOTO_ON_ERROR_out x w).1 ≠ Except.error ESP_ERR_INVALID_ARG := by
  unfold ESP_GOTO_ON_ERROR_out
  rcases h : x w with ⟨⟨r, a⟩, w1⟩
  rw [h] at hx
  cases r <;> simp_all

/-- A block that does not jump with `ESP_ERR_INVALID_ARG`, followed by blocks that do not,
does not. -/
theorem bind_ret {α β : Type} (m : Blk emac_dm9051_t σ α) (f : α → Blk emac_dm9051_t σ β)
    (w : World emac_dm9051_t σ)
    (hm : (m w).1 ≠ Except.error ESP_ERR_INVALID_ARG)
    (hf : ∀ a w1, (f a w1).1 ≠ Except.error ESP_ERR_INVALID_ARG) :
    (Blk.bind m f w).1 ≠ Except.error ESP_ERR_INVALID_ARG := by
  unfold Blk.bind
  rcases h : m w with ⟨r, w1⟩
  rw [h] at hm
  cases r with
  | error e => simpa using hm
  | ok a => exact hf a w1

theorem transmit_wait_ret (wait_time : Int) : ∀ (fuel tcr : Nat) (w : World emac_dm9051_t σ),
    (emac_dm9051_transmit_wait c env fuel wait_time tcr w).1 ≠ Except.error ESP_ERR_INVALID_ARG := by
  intro fuel
  induction fuel with
  | zero => intro tcr w; simp [emac_dm9051_transmit_wait, Blk.pure]
  | succ n ih =>
    intro tcr w
    simp only [emac_dm9051_transmit_wait, Blk.bind_def]
    apply bind_ret
    · exact goto_on_error_out_ret _ _ (register_read_ret c env _ _ _)
    · intro a w1
      split
      · apply bind_ret
        · simp [call]
        · intro now w2
          split
          · exact ih _ _
          · simp [Blk.pure]
      · simp [Blk.pure]

theorem bind_ret_both {α : Type} (m : Blk emac_dm9051_t σ α)
    (f : α → Blk emac_dm9051_t σ (Option esp_err_t)) (w : World emac_dm9051_t σ)
    (hm : (m w).1 ≠ Except.error ESP_ERR_INVALID_ARG)
    (hf : ∀ a w1, (f a w1).1 ≠ Except.error ESP_ERR_INVALID_ARG ∧
      (f a w1).1 ≠ Except.ok (some ESP_ERR_INVALID_ARG)) :
    (Blk.bind m f w).1 ≠ Except.error ESP_ERR_INVALID_ARG ∧
      (Blk.bind m f w).1 ≠ Except.ok (some ESP_ERR_INVALID_ARG) := by
  unfold Blk.bind
  rcases h : m w with ⟨r, w1⟩
  rw [h] at hm
  cases r with
  | error e => exact ⟨by simpa using hm, by simp⟩
  | ok a => exact hf a w1

/-- With `length ≤ ETH_MAX_PACKET_SIZE`, `emac_dm9051_transmit` does not return
`ESP_ERR_INVALID_ARG`, whatever the environment does. -/
theorem transmit_ret (fuel : Nat) (buf : List Nat) (length : Nat) (w : World emac_dm9051_t σ)
    (hlen : length ≤ ETH_MAX_PACKET_SIZE) :
    (emac_dm9051_transmit c env fuel buf length w).1 ≠ some ESP_ERR_INVALID_ARG := by
  have hbody : (emac_dm9051_transmit_body c env fuel buf length w).1 ≠
        Except.error ESP_ERR_INVALID_ARG ∧
      (emac_dm9051_transmit_body c env fuel buf length w).1 ≠
        Except.ok (some ESP_ERR_INVALID_ARG) := by
    simp only [emac_dm9051_transmit_body, Blk.bind_def]
    apply bind_ret_both
    · simp [ESP_GOTO_ON_FALSE, hlen, Blk.pure]
    · intro _ w1
      apply bind_ret_both
      · simp [call]
      · intro t0 w2
        apply bind_ret_both
        · exact transmit_wait_ret c env t0 fuel 0 w2
        · intro r w3
          cases r with
          | none => simp [Blk.pure]
          | some tcr =>
            simp only []
            split
            · simp [Blk.pure]
            · apply bind_ret_both
              · exact goto_on_error_ret _ _ (register_write_ret c env _ _ _)
              · intro _ w4
                apply bind_ret_both
                · exact goto_on_error_ret _ _ (register_write_ret c env _ _ _)
                · intro _ w5
                  apply bind_ret_both
                  · exact goto_on_error_ret _ _ (memory_write_ret c env _ _ _)
                  · intro _ w6
                    apply bind_ret_both
                    · exact goto_on_error_ret _ _ (register_write_ret c env _ _ _)
                    · intro _ w7
                      simp [Blk.pure]
  unfold emac_dm9051_transmit
  rcases hb : emac_dm9051_transmit_body c env fuel buf length w with ⟨r, w1⟩
  rw [hb] at hbody
  cases r with
  | error e => simpa using hbody.1
  | ok o => simpa using hbody.2

end no_invalid_arg

/-- C8: `emac_dm9051_transmit` returns `ESP_ERR_INVALID_ARG` if and only if
`length > ETH_MAX_PACKET_SIZE`: in that case it makes no call at all (the world is
unchanged), and for `length ≤ ETH_MAX_PACKET_SIZE` it never returns that code, whatever the
environment does. For `length ≤ ETH_MAX_PACKET_SIZE`, TCR reading idle and every bus access
succeeding, it writes `length % 256` to TXPLL and `length / 256` to TXPLH, block-writes the
first `length` bytes of the buffer, writes `TCR_TXREQ` to TCR, in that order, and returns
`ESP_OK`. -/
theorem dm9051_transmit_program (c : dm9051_h) (buf : List Nat) (length fuel : Nat) :
    (∀ (σ : Type) (env : Dm9051Env σ) (w : World emac_dm9051_t σ),
      (ETH_MAX_PACKET_SIZE < length →
        emac_dm9051_transmit c env fuel buf length w = (some ESP_ERR_INVALID_ARG, w)) ∧
      (length ≤ ETH_MAX_PACKET_SIZE →
        (emac_dm9051_transmit c env fuel buf length w).1 ≠ some ESP_ERR_INVALID_ARG)) ∧
    (∀ (w : World emac_dm9051_t Script) (tcr : Nat) (rx1 rx2 rx3 rx4 : List Nat) (t0 : Int)
      (rest : List BusResp) (crest : List Int),
      length ≤ ETH_MAX_PACKET_SIZE → 0 < fuel → tcr < 256 → tcr &&& c.TCR_TXREQ = 0 →
      w.dev.bus = BusResp.ok [tcr] :: BusResp.ok rx1 :: BusResp.ok rx2 :: BusResp.ok rx3 ::
        BusResp.ok rx4 :: rest →
      w.dev.clock = t0 :: crest →
      emac_dm9051_transmit c scriptEnv fuel buf length w =
        (some ESP_OK,
          { w with dev := { w.dev with bus := rest, clock := crest },
                   trace := w.trace ++ [Ev.esp_timer_get_time] ++ ev_register_read c c.DM9051_TCR ++
                     ev_register_write c c.DM9051_TXPLL (length % 256) ++
                     ev_register_write c c.DM9051_TXPLH (length / 256) ++
                     ev_transfer { cmd := c.DM9051_SPI_WR, addr := c.DM9051_MWCMD, length := length * 8,
                                   tx := buf.take length } ++
                     ev_register_write c c.DM9051_TCR c.TCR_TXREQ }) ∧
      length / 256 * 256 + length % 256 = length ∧
      (length ≤ buf.length → (buf.take length).length = length)) := by
  refine ⟨fun σ env w => ⟨?_, fun hlen => transmit_ret c env fuel buf length w hlen⟩, ?_⟩
  · intro hgt
    have hnot : ¬ length ≤ ETH_MAX_PACKET_SIZE := by omega
    simp [emac_dm9051_transmit, emac_dm9051_transmit_body, Blk.bind_def, Blk.bind,
      ESP_GOTO_ON_FALSE, hnot, goto_err]
  · intro w tcr rx1 rx2 rx3 rx4 t0 rest crest hlen hfuel htcr hidle hbus hclock
    refine ⟨?_, by omega, fun h => by simp [h]⟩
    obtain ⟨e, ⟨bus, clock, heap, stack⟩, tr⟩ := w
    simp only at hbus hclock
    subst hbus hclock
    obtain ⟨n, rfl⟩ : ∃ n, fuel = n + 1 := ⟨fuel - 1, by omega⟩
    have hlen2 : length ≤ 1522 := hlen
    have h1 : length / 256 % 256 = length / 256 := by omega
    simp only [emac_dm9051_transmit, emac_dm9051_transmit_body, emac_dm9051_transmit_wait,
      Blk.bind_def, Blk.bind, Blk.pure, ESP_GOTO_ON_FALSE, hlen, decide_True, if_true, call,
      get_time_script, ESP_GOTO_ON_ERROR_out, register_read_ok, List.headD_cons,
      Nat.mod_eq_of_lt htcr, hidle, ne_eq, not_true_eq_false, if_false, ESP_GOTO_ON_ERROR,
      register_write_ok, memory_write_ok, and_255_eq, shr8_eq, h1, List.append_assoc]

/-- C8, witness: a frame of 300 bytes is announced as TXPLL = 44, TXPLH = 1. -/
theorem dm9051_transmit_program_witness :
    emac_dm9051_transmit dm9051_h_sample scriptEnv 1 (List.replicate 300 7) 300
        { emac := emac_dm9051_sample,
          dev := { bus := [BusResp.ok [0], BusResp.ok [], BusResp.ok [], BusResp.ok [], BusResp.ok []],
                   clock := [5], heap := [], stack := [] },
          trace := [] } =
      (some ESP_OK,
        { emac := emac_dm9051_sample, dev := { bus := [], clock := [], heap := [], stack := [] },
          trace := [] ++ [Ev.esp_timer_get_time] ++
            ev_register_read dm9051_h_sample dm9051_h_sample.DM9051_TCR ++
            ev_register_write dm9051_h_sample dm9051_h_sample.DM9051_TXPLL 44 ++
            ev_register_write dm9051_h_sample dm9051_h_sample.DM9051_TXPLH 1 ++
            ev_transfer { cmd := dm9051_h_sample.DM9051_SPI_WR, addr := dm9051_h_sample.DM9051_MWCMD,
                          length := 300 * 8, tx := (List.replicate 300 7).take 300 } ++
            ev_register_write dm9051_h_sample dm9051_h_sample.DM9051_TCR dm9051_h_sample.TCR_TXREQ }) :=
  ((dm9051_transmit_program dm9051_h_sample (List.replicate 300 7) 300 1).2
    { emac := emac_dm9051_sample,
      dev := { bus := [BusResp.ok [0], BusResp.ok [], BusResp.ok [], BusResp.ok [], BusResp.ok []],
               clock := [5], heap := [], stack := [] },
      trace := [] }
    0 [] [] [] [] 5 [] [] (by decide) (by decide) (by decide) (by decide) rfl rfl).1

/-! ## C9 and C10: PHY register access -/

theorem delay_total_repeat (l : List Ev) (n : Nat) :
    delay_total (ev_repeat n (Ev.esp_rom_delay_us 100 :: l)) = n * (100 + delay_total l) := by
  have happ : ∀ (a b : List Ev), delay_total (a ++ b) = delay_total a + delay_total b := by
    intro a b
    induction a with
    | nil => simp [delay_total]
    | cons x t ih => cases x <;> simp [delay_total, ih]; omega
  induction n with
  | zero => simp [ev_repeat, delay_total]
  | succ n ih =>
    rw [ev_repeat_succ, happ, ih]
    simp only [delay_total]
    rw [Nat.succ_mul]
    omega

/-- The polling loop of the DM9051 PHY operations on a script where EPCR reads busy at the
polls of `pre` and reads `last` at the next poll, which is the last one: `last` shows the
flag clear, or the 1000 µs are used up. -/
theorem phy_poll_script (c : dm9051_h) (e : emac_dm9051_t) (cl : List Int) (hp : List Bool)
    (st : List esp_err_t) (last : Nat) (rest : List BusResp) (hlast : last < 256) :
    ∀ (pre : List Nat) (fuel to_ epcr : Nat) (tr : List Ev),
      (∀ p ∈ pre, p < 256 ∧ p &&& c.EPCR_ERRE ≠ 0) →
      pre.length < fuel →
      to_ + 100 * pre.length < 1000 →
      (last &&& c.EPCR_ERRE = 0 ∨ 1000 ≤ to_ + 100 * (pre.length + 1)) →
      emac_dm9051_phy_poll c scriptEnv fuel to_ epcr
          { emac := e,
            dev := { bus := pre.map (fun p => BusResp.ok [p]) ++ BusResp.ok [last] :: rest,
                     clock := cl, heap := hp, stack := st },
            trace := tr } =
        (Except.ok last,
          { emac := e, dev := { bus := rest, clock := cl, heap := hp, stack := st },
            trace := tr ++ ev_repeat (pre.length + 1)
              (Ev.esp_rom_delay_us 100 :: ev_register_read c c.DM9051_EPCR) }) := by
  intro pre
  induction pre with
  | nil =>
    intro fuel to_ epcr tr _ hfuel hto hend
    obtain ⟨n, rfl⟩ : ∃ n, fuel = n + 1 := ⟨fuel - 1, by simp at hfuel; omega⟩
    have hmod : (to_ + 100) % 4294967296 = to_ + 100 := by omega
    have hcond : ¬ (last &&& c.EPCR_ERRE ≠ 0 ∧ to_ + 100 < DM9051_PHY_OPERATION_TIMEOUT_US) := by
      simp only [DM9051_PHY_OPERATION_TIMEOUT_US]
      rcases hend with h | h
      · simp [h]
      · simp at h; omega
    simp only [List.map_nil, List.nil_append, emac_dm9051_phy_poll, Blk.bind_def, Blk.bind, call,
      delay_us_script, ESP_GOTO_ON_ERROR_out, register_read_ok, List.headD_cons,
      Nat.mod_eq_of_lt hlast, hmod, hcond, if_false, Blk.pure]
    simp [ev_repeat]
  | cons p pre ih =>
    intro fuel to_ epcr tr hpre hfuel hto hend
    obtain ⟨n, rfl⟩ : ∃ n, fuel = n + 1 := ⟨fuel - 1, by simp at hfuel; omega⟩
    obtain ⟨h1, h2⟩ := hpre p (List.mem_cons_self p pre)
    simp only [List.length_cons] at hfuel hto hend
    have hmod : (to_ + 100) % 4294967296 = to_ + 100 := by omega
    have hcond : p &&& c.EPCR_ERRE ≠ 0 ∧ to_ + 100 < DM9051_PHY_OPERATION_TIMEOUT_US := by
      refine ⟨h2, ?_⟩
      simp only [DM9051_PHY_OPERATION_TIMEOUT_US]
      omega
    have hrec := ih n (to_ + 100) p
      (tr ++ [Ev.esp_rom_delay_us 100] ++ ev_register_read c c.DM9051_EPCR)
      (fun q hq => hpre q (List.mem_cons_of_mem p hq)) (by omega) (by omega)
      (by rcases hend with h | h
          · exact Or.inl h
          · exact Or.inr (by omega))
    simp only [List.map_cons, List.cons_append, emac_dm9051_phy_poll, Blk.bind_def, Blk.bind, call,
      delay_us_script, ESP_GOTO_ON_ERROR_out, register_read_ok, List.headD_cons,
      Nat.mod_eq_of_lt h1, hmod, hcond.2]
    rw [if_pos (show p &&& c.EPCR_ERRE ≠ 0 ∧ True from ⟨h2, trivial⟩), hrec]
    simp [ev_repeat_succ]

section esp32_script
variable (e : emac_esp32_t) (s : Esp32Script) (tr : List Ev)

theorem mii_busy_script (b : Bool) (busy : List Bool) (pd : List Nat)
    (al : List (Option heap_block × Nat)) (rc : List (Nat × List Nat × Nat × Nat)) (fl : List (Nat × Nat)) :
    emac_ll_is_mii_busy scriptHal
        { emac := e, dev := { mii_busy := b :: busy, phy_data := pd, alloc := al, recv := rc, flush := fl },
          trace := tr } =
      (b, { emac := e, dev := { mii_busy := busy, phy_data := pd, alloc := al, recv := rc, flush := fl },
            trace := tr ++ [Ev.emac_ll_is_mii_busy] }) := by
  simp [emac_ll_is_mii_busy, emit, scriptHal]

theorem esp32_delay_script (us : Nat) :
    esp32_rom_delay_us scriptHal us { emac := e, dev := s, trace := tr } =
      ((), { emac := e, dev := s, trace := tr ++ [Ev.esp_rom_delay_us us] }) := by
  simp [esp32_rom_delay_us, emit, scriptHal]

theorem set_phy_data_script (v : Nat) :
    emac_ll_set_phy_data scriptHal v { emac := e, dev := s, trace := tr } =
      ((), { emac := e, dev := s, trace := tr ++ [Ev.emac_ll_set_phy_data v] }) := by
  simp [emac_ll_set_phy_data, emit, scriptHal]

theorem set_phy_cmd_script (phy_addr phy_reg : Nat) (write : Bool) :
    emac_hal_set_phy_cmd scriptHal phy_addr phy_reg write { emac := e, dev := s, trace := tr } =
      ((), { emac := e, dev := s, trace := tr ++ [Ev.emac_hal_set_phy_cmd phy_addr phy_reg write] }) := by
  simp [emac_hal_set_phy_cmd, emit, scriptHal]

theorem get_phy_data_script (v : Nat) (busy : List Bool) (pd : List Nat)
    (al : List (Option heap_block × Nat)) (rc : List (Nat × List Nat × Nat × Nat)) (fl : List (Nat × Nat)) :
    emac_ll_get_phy_data scriptHal
        { emac := e, dev := { mii_busy := busy, phy_data := v :: pd, alloc := al, recv := rc, flush := fl },
          trace := tr } =
      (v, { emac := e, dev := { mii_busy := busy, phy_data := pd, alloc := al, recv := rc, flush := fl },
            trace := tr ++ [Ev.emac_ll_get_phy_data] }) := by
  simp [emac_ll_get_phy_data, emit, scriptHal]

end esp32_script

/-- The polling loop of the ESP32 PHY operations on a script where the MII busy flag reads
set at `k` polls and reads `last` at the next poll, which is the last one: `last` shows the
flag clear, or the 1000 µs are used up. -/
theorem esp32_phy_poll_script (e : emac_esp32_t) (pd : List Nat) (al : List (Option heap_block × Nat))
    (rc : List (Nat × List Nat × Nat × Nat)) (fl : List (Nat × Nat)) (last : Bool) (rest : List Bool) :
    ∀ (k fuel to_ : Nat) (busy : Bool) (tr : List Ev),
      k < fuel →
      to_ + 100 * k < 1000 →
      (last = false ∨ 1000 ≤ to_ + 100 * (k + 1)) →
      emac_esp32_phy_poll scriptHal fuel to_ busy
          { emac := e,
            dev := { mii_busy := List.replicate k true ++ last :: rest, phy_data := pd, alloc := al,
                     recv := rc, flush := fl },
            trace := tr } =
        (last,
          { emac := e,
            dev := { mii_busy := rest, phy_data := pd, alloc := al, recv := rc, flush := fl },
            trace := tr ++ ev_repeat (k + 1) [Ev.esp_rom_delay_us 100, Ev.emac_ll_is_mii_busy] }) := by
  intro k
  induction k with
  | zero =>
    intro fuel to_ busy tr hfuel hto hend
    obtain ⟨n, rfl⟩ : ∃ n, fuel = n + 1 := ⟨fuel - 1, by omega⟩
    have hmod : (to_ + 100) % 4294967296 = to_ + 100 := by omega
    have hcond : ¬ (last = true ∧ to_ + 100 < PHY_OPERATION_TIMEOUT_US) := by
      simp only [PHY_OPERATION_TIMEOUT_US]
      rcases hend with h | h
      · simp [h]
      · omega
    simp only [List.replicate, List.nil_append, emac_esp32_phy_poll, esp32_delay_script,
      mii_busy_script, hmod, hcond, if_false]
    simp [ev_repeat]
  | succ k ih =>
    intro fuel to_ busy tr hfuel hto hend
    obtain ⟨n, rfl⟩ : ∃ n, fuel = n + 1 := ⟨fuel - 1, by omega⟩
    have hmod : (to_ + 100) % 4294967296 = to_ + 100 := by omega
    have hcond : (True ∧ to_ + 100 < PHY_OPERATION_TIMEOUT_US) := by
      refine ⟨trivial, ?_⟩
      simp only [PHY_OPERATION_TIMEOUT_US]
      omega
    have hrec := ih n (to_ + 100) true
      (tr ++ [Ev.esp_rom_delay_us 100] ++ [Ev.emac_ll_is_mii_busy]) (by omega) (by omega)
      (by rcases hend with h | h
          · exact Or.inl h
          · exact Or.inr (by omega))
    simp only [List.replicate, List.cons_append, emac_esp32_phy_poll, esp32_delay_script,
      mii_busy_script, hmod]
    rw [if_pos hcond, hrec]
    simp [ev_repeat_succ]

/-- C9: for both engines, `write_phy_reg` and `read_phy_reg` called while the PHY busy flag is
set return `ESP_ERR_INVALID_STATE`, and their only call is the read of the flag: no
register is written and nothing is polled. For the DM9051 the flag is bit 0 of the EPCR
value read (`emac_dm9051_read_phy_reg` tests `0x01`, `emac_dm9051_write_phy_reg` tests
`EPCR_ERRE`, taken as bit 0); for the ESP32 it is `emac_ll_is_mii_busy`. A read leaves the
destination as it was. -/
theorem phy_reg_busy_invalid_state (c : dm9051_h) (phy_addr phy_reg reg_value : Nat) :
    (∀ (w : World emac_dm9051_t Script) (epcr : Nat) (rest : List BusResp),
      c.EPCR_ERRE = 1 → epcr < 256 → epcr &&& 1 ≠ 0 → w.dev.bus = BusResp.ok [epcr] :: rest →
      emac_dm9051_write_phy_reg c scriptEnv phy_addr phy_reg reg_value w =
          (ESP_ERR_INVALID_STATE,
            { w with dev := { w.dev with bus := rest },
                     trace := w.trace ++ ev_register_read c c.DM9051_EPCR }) ∧
      emac_dm9051_read_phy_reg c scriptEnv phy_addr phy_reg (some reg_value) w =
          ((ESP_ERR_INVALID_STATE, some reg_value),
            { w with dev := { w.dev with bus := rest },
                     trace := w.trace ++ ev_register_read c c.DM9051_EPCR })) ∧
    (∀ (σ : Type) (hal : Esp32Env σ) (w : World emac_esp32_t σ),
      (hal.emac_ll_is_mii_busy w.dev).1 = true →
      emac_esp32_write_phy_reg hal phy_addr phy_reg reg_value w =
          (ESP_ERR_INVALID_STATE,
            { w with dev := (hal.emac_ll_is_mii_busy w.dev).2,
                     trace := w.trace ++ [Ev.emac_ll_is_mii_busy] }) ∧
      emac_esp32_read_phy_reg hal phy_addr phy_reg (some reg_value) w =
          ((ESP_ERR_INVALID_STATE, some reg_value),
            { w with dev := (hal.emac_ll_is_mii_busy w.dev).2,
                     trace := w.trace ++ [Ev.emac_ll_is_mii_busy] })) := by
  constructor
  · intro w epcr rest hERRE hlt hbusy hbus
    obtain ⟨e, ⟨bus, clock, heap, stack⟩, tr⟩ := w
    simp only at hbus
    subst hbus
    have hbusy2 : ¬ epcr &&& c.EPCR_ERRE = 0 := by rw [hERRE]; exact hbusy
    have hbusy3 : ¬ epcr % 2 = 0 := by
      rw [← Nat.and_one_is_mod]
      exact hbusy
    constructor
    · simp [emac_dm9051_write_phy_reg, Blk.ret, Blk.bind_def, Blk.bind, ESP_GOTO_ON_ERROR_out,
        register_read_ok, Nat.mod_eq_of_lt hlt, ESP_GOTO_ON_FALSE, hbusy2, goto_err]
    · simp [emac_dm9051_read_phy_reg, Blk.bind_def, Blk.bind, Blk.pure, ESP_GOTO_ON_ERROR_out,
        register_read_ok, Nat.mod_eq_of_lt hlt, ESP_GOTO_ON_FALSE, hbusy3, goto_err]
  · intro σ hal w hbusy
    rcases hd : hal.emac_ll_is_mii_busy w.dev with ⟨b, d1⟩
    rw [hd] at hbusy
    simp only at hbusy
    subst hbusy
    constructor
    · simp [emac_esp32_write_phy_reg, Blk.ret, Blk.bind_def, Blk.bind, call, emac_ll_is_mii_busy,
        emit, hd, ESP_GOTO_ON_FALSE, goto_err]
    · simp [emac_esp32_read_phy_reg, Blk.bind_def, Blk.bind, Blk.pure, call, emac_ll_is_mii_busy,
        emit, hd, ESP_GOTO_ON_FALSE, goto_err]

/-- C9, witness: EPCR reads 0x09 (bit 0 set) when a PHY write is requested. -/
theorem phy_reg_busy_invalid_state_witness :
    emac_dm9051_write_phy_reg dm9051_h_sample scriptEnv 1 2 0xBEEF (script_world [BusResp.ok [0x09]] []) =
      (ESP_ERR_INVALID_STATE,
        { script_world [] [] with
          trace := [] ++ ev_register_read dm9051_h_sample dm9051_h_sample.DM9051_EPCR }) :=
  ((phy_reg_busy_invalid_state dm9051_h_sample 1 2 0xBEEF).1 (script_world [BusResp.ok [0x09]] [])
    0x09 [] rfl (by decide) (by decide) rfl).1

/-- C10: for both engines and both PHY operations, once the command has been issued on an
idle PHY and with every bus access succeeding, the busy flag is polled `k + 1` times with
`k ≤ 9`, each poll right after a delay of 100 µs (so the delays add up to at most 1000 µs):
the flag reads set at the first `k` polls, and the poll after them either reads it clear or
is the tenth. The operation returns `ESP_ERR_TIMEOUT` exactly when that last poll is the
tenth and reads the flag set, and `ESP_OK` otherwise; answers of the hardware after the
last poll are not consumed by polling. -/
theorem phy_reg_poll_budget (c : dm9051_h) (phy_addr phy_reg reg_value : Nat) :
    (∀ (w : World emac_dm9051_t Script) (e0 last : Nat) (pre : List Nat) (rx1 rx2 rx3 rx4 : List Nat)
      (rest : List BusResp),
      e0 < 256 → e0 &&& c.EPCR_ERRE = 0 → last < 256 →
      (∀ p ∈ pre, p < 256 ∧ p &&& c.EPCR_ERRE ≠ 0) → pre.length ≤ 9 →
      (last &&& c.EPCR_ERRE = 0 ∨ pre.length = 9) →
      w.dev.bus = BusResp.ok [e0] :: BusResp.ok rx1 :: BusResp.ok rx2 :: BusResp.ok rx3 ::
        BusResp.ok rx4 :: (pre.map (fun p => BusResp.ok [p]) ++ BusResp.ok [last] :: rest) →
      emac_dm9051_write_phy_reg c scriptEnv phy_addr phy_reg reg_value w =
        (if last &&& c.EPCR_ERRE = 0 then ESP_OK else ESP_ERR_TIMEOUT,
          { w with dev := { w.dev with bus := rest },
                   trace := w.trace ++ ev_register_read c c.DM9051_EPCR ++
                     ev_register_write c c.DM9051_EPAR ((((phy_addr <<< 6) &&& 0xFF) ||| phy_reg) % 256) ++
                     ev_register_write c c.DM9051_EPDRL ((reg_value &&& 0xFF) % 256) ++
                     ev_register_write c c.DM9051_EPDRH (((reg_value >>> 8) &&& 0xFF) % 256) ++
                     ev_register_write c c.DM9051_EPCR (c.EPCR_EPOS ||| c.EPCR_ERPRW) ++
                     ev_repeat (pre.length + 1)
                       (Ev.esp_rom_delay_us 100 :: ev_register_read c c.DM9051_EPCR) }) ∧
      delay_total (ev_repeat (pre.length + 1)
        (Ev.esp_rom_delay_us 100 :: ev_register_read c c.DM9051_EPCR)) ≤ 1000) ∧
    (∀ (w : World emac_dm9051_t Script) (e0 last vh vl : Nat) (pre : List Nat) (rx1 rx2 : List Nat)
      (rest : List BusResp),
      e0 < 256 → e0 &&& 0x01 = 0 → last < 256 → vh < 256 → vl < 256 →
      (∀ p ∈ pre, p < 256 ∧ p &&& c.EPCR_ERRE ≠ 0) → pre.length ≤ 9 →
      (last &&& c.EPCR_ERRE = 0 ∨ pre.length = 9) →
      w.dev.bus = BusResp.ok [e0] :: BusResp.ok rx1 :: BusResp.ok rx2 ::
        (pre.map (fun p => BusResp.ok [p]) ++ BusResp.ok [last] ::
          BusResp.ok [vh] :: BusResp.ok [vl] :: rest) →
      emac_dm9051_read_phy_reg c scriptEnv phy_addr phy_reg (some reg_value) w =
        (if last &&& c.EPCR_ERRE = 0 then
          ((ESP_OK, some (256 * vh + vl)),
            { w with dev := { w.dev with bus := rest },
                     trace := w.trace ++ ev_register_read c c.DM9051_EPCR ++
                       ev_register_write c c.DM9051_EPAR ((((phy_addr <<< 6) &&& 0xFF) ||| phy_reg) % 256) ++
                       ev_register_write c c.DM9051_EPCR 0x0C ++
                       ev_repeat (pre.length + 1)
                         (Ev.esp_rom_delay_us 100 :: ev_register_read c c.DM9051_EPCR) ++
                       ev_register_read c c.DM9051_EPDRH ++ ev_register_read c c.DM9051_EPDRL })
        else
          ((ESP_ERR_TIMEOUT, some reg_value),
            { w with dev := { w.dev with bus := BusResp.ok [vh] :: BusResp.ok [vl] :: rest },
                     trace := w.trace ++ ev_register_read c c.DM9051_EPCR ++
                       ev_register_write c c.DM9051_EPAR ((((phy_addr <<< 6) &&& 0xFF) ||| phy_reg) % 256) ++
                       ev_register_write c c.DM9051_EPCR 0x0C ++
                       ev_repeat (pre.length + 1)
                         (Ev.esp_rom_delay_us 100 :: ev_register_read c c.DM9051_EPCR) }))) ∧
    (∀ (w : World emac_esp32_t Esp32Script) (k : Nat) (last : Bool) (rest : List Bool),
      k ≤ 9 → (last = false ∨ k = 9) →
      w.dev.mii_busy = false :: (List.replicate k true ++ last :: rest) →
      emac_esp32_write_phy_reg scriptHal phy_addr phy_reg reg_value w =
        (if last = false then ESP_OK else ESP_ERR_TIMEOUT,
          { w with dev := { w.dev with mii_busy := rest },
                   trace := w.trace ++ [Ev.emac_ll_is_mii_busy, Ev.emac_ll_set_phy_data reg_value,
                       Ev.emac_hal_set_phy_cmd phy_addr phy_reg true] ++
                     ev_repeat (k + 1) [Ev.esp_rom_delay_us 100, Ev.emac_ll_is_mii_busy] }) ∧
      delay_total (ev_repeat (k + 1) [Ev.esp_rom_delay_us 100, Ev.emac_ll_is_mii_busy]) ≤ 1000) ∧
    (∀ (w : World emac_esp32_t Esp32Script) (k v : Nat) (last : Bool) (rest : List Bool)
      (pd : List Nat),
      k ≤ 9 → (last = false ∨ k = 9) →
      w.dev.mii_busy = false :: (List.replicate k true ++ last :: rest) →
      w.dev.phy_data = v :: pd →
      emac_esp32_read_phy_reg scriptHal phy_addr phy_reg (some reg_value) w =
        (if last = false then
          ((ESP_OK, some v),
            { w with dev := { w.dev with mii_busy := rest, phy_data := pd },
                     trace := w.trace ++ [Ev.emac_ll_is_mii_busy,
                         Ev.emac_hal_set_phy_cmd phy_addr phy_reg false] ++
                       ev_repeat (k + 1) [Ev.esp_rom_delay_us 100, Ev.emac_ll_is_mii_busy] ++
                       [Ev.emac_ll_get_phy_data] })
        else
          ((ESP_ERR_TIMEOUT, some reg_value),
            { w with dev := { w.dev with mii_busy := rest },
                     trace := w.trace ++ [Ev.emac_ll_is_mii_busy,
                         Ev.emac_hal_set_phy_cmd phy_addr phy_reg false] ++
                       ev_repeat (k + 1) [Ev.esp_rom_delay_us 100, Ev.emac_ll_is_mii_busy] }))) := by
  refine ⟨?_, ?_, ?_, ?_⟩
  · intro w e0 last pre rx1 rx2 rx3 rx4 rest he0 hidle hlast hpre hlen hend hbus
    refine ⟨?_, ?_⟩
    · obtain ⟨e, ⟨bus, clock, heap, stack⟩, tr⟩ := w
      simp only at hbus
      subst hbus
      have hpoll := phy_poll_script c e clock heap stack last rest hlast pre
        DM9051_PHY_OPERATION_TIMEOUT_US 0 e0
        (tr ++ ev_register_read c c.DM9051_EPCR ++
          ev_register_write c c.DM9051_EPAR ((((phy_addr <<< 6) &&& 0xFF) ||| phy_reg) % 256) ++
          ev_register_write c c.DM9051_EPDRL ((reg_value &&& 0xFF) % 256) ++
          ev_register_write c c.DM9051_EPDRH (((reg_value >>> 8) &&& 0xFF) % 256) ++
          ev_register_write c c.DM9051_EPCR (c.EPCR_EPOS ||| c.EPCR_ERPRW))
        hpre (by simp only [DM9051_PHY_OPERATION_TIMEOUT_US]; omega) (by omega)
        (by rcases hend with h | h
            · exact Or.inl h
            · exact Or.inr (by omega))
      simp only [emac_dm9051_write_phy_reg, Blk.ret, Blk.bind_def, Blk.bind, ESP_GOTO_ON_ERROR_out,
        register_read_ok, List.headD_cons, Nat.mod_eq_of_lt he0, ESP_GOTO_ON_FALSE, ne_eq, hidle,
        not_true_eq_false, not_false_eq_true, decide_True, if_true, Blk.pure, ESP_GOTO_ON_ERROR,
        register_write_ok, hpoll]
      by_cases hl : last &&& c.EPCR_ERRE = 0
      · simp [hl, Blk.pure]
      · simp [hl, goto_err]
    · rw [delay_total_repeat]
      have : delay_total (ev_register_read c c.DM9051_EPCR) = 0 := by
        simp [ev_register_read, ev_transfer, delay_total]
      rw [this]
      omega
  · intro w e0 last vh vl pre rx1 rx2 rest he0 hidle hlast hvh hvl hpre hlen hend hbus
    obtain ⟨e, ⟨bus, clock, heap, stack⟩, tr⟩ := w
    simp only at hbus
    subst hbus
    have hidle2 : e0 % 2 = 0 := by
      rw [← Nat.and_one_is_mod]
      exact hidle
    have hpoll := phy_poll_script c e clock heap stack last
      (BusResp.ok [vh] :: BusResp.ok [vl] :: rest) hlast pre
      DM9051_PHY_OPERATION_TIMEOUT_US 0 e0
      (tr ++ ev_register_read c c.DM9051_EPCR ++
        ev_register_write c c.DM9051_EPAR ((((phy_addr <<< 6) &&& 0xFF) ||| phy_reg) % 256) ++
        ev_register_write c c.DM9051_EPCR 0x0C)
      hpre (by simp only [DM9051_PHY_OPERATION_TIMEOUT_US]; omega) (by omega)
      (by rcases hend with h | h
          · exact Or.inl h
          · exact Or.inr (by omega))
    have hval : (vh <<< 8 ||| vl) % 4294967296 = 256 * vh + vl := by
      rw [shl8_or_eq vh vl hvl]
      omega
    simp only [emac_dm9051_read_phy_reg, Blk.bind_def, Blk.bind, ESP_GOTO_ON_ERROR_out,
      register_read_ok, List.headD_cons, Nat.mod_eq_of_lt he0, ESP_GOTO_ON_FALSE, Option.isSome_some,
      ne_eq, Nat.and_one_is_mod, hidle2, not_true_eq_false, not_false_eq_true, decide_True, if_true,
      Blk.pure, ESP_GOTO_ON_ERROR, register_write_ok, hpoll]
    by_cases hl : last &&& c.EPCR_ERRE = 0
    · simp [hl, Blk.pure, register_read_ok, Nat.mod_eq_of_lt hvh, Nat.mod_eq_of_lt hvl, hval]
    · simp [hl, goto_err]
  · intro w k last rest hk hend hbusy
    refine ⟨?_, ?_⟩
    · obtain ⟨e, ⟨busy, pd, al, rc, fl⟩, tr⟩ := w
      simp only at hbusy
      subst hbusy
      have hpoll := esp32_phy_poll_script e pd al rc fl last rest k PHY_OPERATION_TIMEOUT_US 0 true
        (tr ++ [Ev.emac_ll_is_mii_busy] ++ [Ev.emac_ll_set_phy_data reg_value] ++
          [Ev.emac_hal_set_phy_cmd phy_addr phy_reg true])
        (by simp only [PHY_OPERATION_TIMEOUT_US]; omega) (by omega)
        (by rcases hend with h | h
            · exact Or.inl h
            · exact Or.inr (by omega))
      simp only [emac_esp32_write_phy_reg, Blk.ret, Blk.bind_def, Blk.bind, call, mii_busy_script,
        ESP_GOTO_ON_FALSE, Bool.not_false, if_true, Blk.pure, set_phy_data_script,
        set_phy_cmd_script, hpoll]
      cases last <;> simp [Blk.pure, goto_err]
    · rw [delay_total_repeat]
      simp only [delay_total]
      omega
  · intro w k v last rest pd hk hend hbusy hpd
    obtain ⟨e, ⟨busy, pd0, al, rc, fl⟩, tr⟩ := w
    simp only at hbusy hpd
    subst hbusy hpd
    have hpoll := esp32_phy_poll_script e (v :: pd) al rc fl last rest k PHY_OPERATION_TIMEOUT_US 0 true
      (tr ++ [Ev.emac_ll_is_mii_busy] ++ [Ev.emac_hal_set_phy_cmd phy_addr phy_reg false])
      (by simp only [PHY_OPERATION_TIMEOUT_US]; omega) (by omega)
      (by rcases hend with h | h
          · exact Or.inl h
          · exact Or.inr (by omega))
    simp only [emac_esp32_read_phy_reg, Blk.bind_def, Blk.bind, call, mii_busy_script,
      ESP_GOTO_ON_FALSE, Option.isSome_some, Bool.not_false, if_true, Blk.pure, set_phy_cmd_script,
      hpoll]
    cases last <;> simp [Blk.pure, goto_err, get_phy_data_script]

/-- C10, witness: EPCR reads idle before the write command and busy at each of ten polls:
`emac_dm9051_write_phy_reg` returns `ESP_ERR_TIMEOUT`. -/
theorem phy_reg_poll_budget_witness :
    (emac_dm9051_write_phy_reg dm9051_h_sample scriptEnv 1 2 0xBEEF
        (script_world
          (BusResp.ok [0] :: BusResp.ok [] :: BusResp.ok [] :: BusResp.ok [] :: BusResp.ok [] ::
            ((List.replicate 9 1).map (fun p => BusResp.ok [p]) ++ BusResp.ok [1] :: [])) [])).1 =
      ESP_ERR_TIMEOUT :=
  congrArg Prod.fst
    (((phy_reg_poll_budget dm9051_h_sample 1 2 0xBEEF).1
      (script_world
        (BusResp.ok [0] :: BusResp.ok [] :: BusResp.ok [] :: BusResp.ok [] :: BusResp.ok [] ::
          ((List.replicate 9 1).map (fun p => BusResp.ok [p]) ++ BusResp.ok [1] :: [])) [])
      0 1 (List.replicate 9 1) [] [] [] [] [] (by decide) (by decide) (by decide) (by decide)
      (by decide) (by decide) rfl).1)

/-! ## C11: the programming order of a PHY register write -/

theorem shl6_eq (a : Nat) : a <<< 6 = 64 * a := by
  rw [Nat.shiftLeft_eq]; omega

/-- The byte written to EPAR for a PHY address below 4 and a register index below 64. -/
theorem epar_eq (a r : Nat) (ha : a < 4) (hr : r < 64) :
    (((a <<< 6) &&& 0xFF) ||| r) % 256 = 64 * a + r := by
  have h1 : (a <<< 6) &&& 0xFF = 64 * a := by
    rw [and_255_eq, shl6_eq]
    omega
  have h2 : 64 * a ||| r = 64 * a + r :=
    (Nat.mul_add_lt_is_or (i := 6) (by simpa using hr) a).symm
  rw [h1, h2]
  omega

/-- The two data bytes of a PHY register write hold the low 16 bits of the value. -/
theorem epdr_eq (v : Nat) :
    (((v >>> 8) &&& 0xFF) % 256) * 256 + (v &&& 0xFF) % 256 = v % 65536 := by
  rw [and_255_eq, and_255_eq, shr8_eq]
  omega

/-- C11: on a script where EPCR first reads idle and every bus access succeeds,
`emac_dm9051_write_phy_reg` reads EPCR, then writes EPAR, EPDRL, EPDRH and EPCR in this
order with the bytes `(((phy_addr << 6) & 0xFF) | phy_reg) mod 256`, `reg_value & 0xFF`,
`(reg_value >> 8) & 0xFF` and `EPCR_EPOS | EPCR_ERPRW`, and only then polls EPCR (`k + 1`
polls, `k ≤ 9`). The two data bytes satisfy `EPDRH * 256 + EPDRL = reg_value mod 65536`;
for `phy_addr < 4` and `phy_reg < 32` the EPAR byte is `64 * phy_addr + phy_reg`, so that its
top two bits are `phy_addr` and its low six bits are `phy_reg`, and two such pairs with
the same EPAR byte are equal. -/
theorem dm9051_write_phy_reg_program (c : dm9051_h) (phy_addr phy_reg reg_value : Nat) :
    (∀ (w : World emac_dm9051_t Script) (e0 last : Nat) (pre : List Nat) (rx1 rx2 rx3 rx4 : List Nat)
      (rest : List BusResp),
      e0 < 256 → e0 &&& c.EPCR_ERRE = 0 → last < 256 →
      (∀ p ∈ pre, p < 256 ∧ p &&& c.EPCR_ERRE ≠ 0) → pre.length ≤ 9 →
      (last &&& c.EPCR_ERRE = 0 ∨ pre.length = 9) →
      w.dev.bus = BusResp.ok [e0] :: BusResp.ok rx1 :: BusResp.ok rx2 :: BusResp.ok rx3 ::
        BusResp.ok rx4 :: (pre.map (fun p => BusResp.ok [p]) ++ BusResp.ok [last] :: rest) →
      (emac_dm9051_write_phy_reg c scriptEnv phy_addr phy_reg reg_value w).2.trace =
        w.trace ++ ev_register_read c c.DM9051_EPCR ++
          ev_register_write c c.DM9051_EPAR ((((phy_addr <<< 6) &&& 0xFF) ||| phy_reg) % 256) ++
          ev_register_write c c.DM9051_EPDRL ((reg_value &&& 0xFF) % 256) ++
          ev_register_write c c.DM9051_EPDRH (((reg_value >>> 8) &&& 0xFF) % 256) ++
          ev_register_write c c.DM9051_EPCR (c.EPCR_EPOS ||| c.EPCR_ERPRW) ++
          ev_repeat (pre.length + 1) (Ev.esp_rom_delay_us 100 :: ev_register_read c c.DM9051_EPCR)) ∧
    (((reg_value >>> 8) &&& 0xFF) % 256) * 256 + (reg_value &&& 0xFF) % 256 = reg_value % 65536 ∧
    (phy_addr < 4 → phy_reg < 32 →
      (((phy_addr <<< 6) &&& 0xFF) ||| phy_reg) % 256 = 64 * phy_addr + phy_reg ∧
      (((phy_addr <<< 6) &&& 0xFF) ||| phy_reg) % 256 / 64 = phy_addr ∧
      (((phy_addr <<< 6) &&& 0xFF) ||| phy_reg) % 256 % 64 = phy_reg) ∧
    (∀ a r : Nat, a < 4 → r < 32 → phy_addr < 4 → phy_reg < 32 →
      (((a <<< 6) &&& 0xFF) ||| r) % 256 = (((phy_addr <<< 6) &&& 0xFF) ||| phy_reg) % 256 →
      a = phy_addr ∧ r = phy_reg) := by
  refine ⟨?_, epdr_eq reg_value, ?_, ?_⟩
  · intro w e0 last pre rx1 rx2 rx3 rx4 rest he0 hidle hlast hpre hlen hend hbus
    obtain ⟨e, ⟨bus, clock, heap, stack⟩, tr⟩ := w
    simp only at hbus
    subst hbus
    have hpoll := phy_poll_script c e clock heap stack last rest hlast pre
      DM9051_PHY_OPERATION_TIMEOUT_US 0 e0
      (tr ++ ev_register_read c c.DM9051_EPCR ++
        ev_register_write c c.DM9051_EPAR ((((phy_addr <<< 6) &&& 0xFF) ||| phy_reg) % 256) ++
        ev_register_write c c.DM9051_EPDRL ((reg_value &&& 0xFF) % 256) ++
        ev_register_write c c.DM9051_EPDRH (((reg_value >>> 8) &&& 0xFF) % 256) ++
        ev_register_write c c.DM9051_EPCR (c.EPCR_EPOS ||| c.EPCR_ERPRW))
      hpre (by simp only [DM9051_PHY_OPERATION_TIMEOUT_US]; omega) (by omega)
      (by rcases hend with h | h
          · exact Or.inl h
          · exact Or.inr (by omega))
    simp only [emac_dm9051_write_phy_reg, Blk.ret, Blk.bind_def, Blk.bind, ESP_GOTO_ON_ERROR_out,
      register_read_ok, List.headD_cons, Nat.mod_eq_of_lt he0, ESP_GOTO_ON_FALSE, ne_eq, hidle,
      not_true_eq_false, not_false_eq_true, decide_True, if_true, Blk.pure, ESP_GOTO_ON_ERROR,
      register_write_ok, hpoll]
    by_cases hl : last &&& c.EPCR_ERRE = 0
    · simp [hl, Blk.pure]
    · simp [hl, goto_err]
  · intro ha hr
    have h := epar_eq phy_addr phy_reg ha (by omega)
    rw [h]
    omega
  · intro a r ha hr ha2 hr2 h
    rw [epar_eq a r ha (by omega), epar_eq phy_addr phy_reg ha2 (by omega)] at h
    omega

/-- C11, witness: PHY address 1, register 2, value 0xBEEF, the flag clear at the first poll:
the bytes written are 0x42, 0xEF, 0xBE and 0x0A. -/
theorem dm9051_write_phy_reg_program_witness :
    (emac_dm9051_write_phy_reg dm9051_h_sample scriptEnv 1 2 0xBEEF
        (script_world [BusResp.ok [0], BusResp.ok [], BusResp.ok [], BusResp.ok [], BusResp.ok [],
          BusResp.ok [0]] [])).2.trace =
      [] ++ ev_register_read dm9051_h_sample 0x0B ++
        ev_register_write dm9051_h_sample 0x0C 0x42 ++
        ev_register_write dm9051_h_sample 0x0D 0xEF ++
        ev_register_write dm9051_h_sample 0x0E 0xBE ++
        ev_register_write dm9051_h_sample 0x0B 0x0A ++
        ev_repeat 1 (Ev.esp_rom_delay_us 100 :: ev_register_read dm9051_h_sample 0x0B) ∧
    0xBE * 256 + 0xEF = 0xBEEF % 65536 ∧ 0x42 / 64 = 1 ∧ 0x42 % 64 = 2 :=
  ⟨(dm9051_write_phy_reg_program dm9051_h_sample 1 2 0xBEEF).1
      (script_world [BusResp.ok [0], BusResp.ok [], BusResp.ok [], BusResp.ok [], BusResp.ok [],
        BusResp.ok [0]] [])
      0 0 [] [] [] [] [] [] (by decide) (by decide) (by decide) (by simp) (by decide)
      (Or.inl (by decide)) rfl,
    (dm9051_write_phy_reg_program dm9051_h_sample 1 2 0xBEEF).2.1,
    ((dm9051_write_phy_reg_program dm9051_h_sample 1 2 0xBEEF).2.2.1 (by decide) (by decide)).2⟩

/-! ## C12: PHY register write and read-back -/

section phy_model
variable (c : dm9051_h) (e : emac_dm9051_t) (s : PhyDev) (tr : List Ev)

theorem phy_write_epar (v : Nat) :
    dm9051_register_write c (phyEnv c) c.DM9051_EPAR v { emac := e, dev := s, trace := tr } =
      (ESP_OK, { emac := e, dev := { s with epar := v },
                 trace := tr ++ ev_register_write c c.DM9051_EPAR v }) := by
  simp [dm9051_register_write, dm9051_transfer, dm9051_lock, dm9051_unlock,
    spi_device_polling_transmit, emit, phyEnv, ev_register_write, ev_transfer]

theorem phy_write_epdrl (hc : c.phy_distinct) (v : Nat) :
    dm9051_register_write c (phyEnv c) c.DM9051_EPDRL v { emac := e, dev := s, trace := tr } =
      (ESP_OK, { emac := e, dev := { s with epdrl := v },
                 trace := tr ++ ev_register_write c c.DM9051_EPDRL v }) := by
  obtain ⟨_, h1, _⟩ := hc
  simp [dm9051_register_write, dm9051_transfer, dm9051_lock, dm9051_unlock,
    spi_device_polling_transmit, emit, phyEnv, ev_register_write, ev_transfer, h1]

theorem phy_write_epdrh (hc : c.phy_distinct) (v : Nat) :
    dm9051_register_write c (phyEnv c) c.DM9051_EPDRH v { emac := e, dev := s, trace := tr } =
      (ESP_OK, { emac := e, dev := { s with epdrh := v },
                 trace := tr ++ ev_register_write c c.DM9051_EPDRH v }) := by
  obtain ⟨_, _, h2, h3, _⟩ := hc
  simp [dm9051_register_write, dm9051_transfer, dm9051_lock, dm9051_unlock,
    spi_device_polling_transmit, emit, phyEnv, ev_register_write, ev_transfer, h2, h3]

theorem phy_write_command (hc : c.phy_distinct) :
    dm9051_register_write c (phyEnv c) c.DM9051_EPCR (c.EPCR_EPOS ||| c.EPCR_ERPRW)
        { emac := e, dev := s, trace := tr } =
      (ESP_OK,
        { emac := e,
          dev := { s with phy := fun a => if a = s.epar then (s.epdrl, s.epdrh) else s.phy a },
          trace := tr ++ ev_register_write c c.DM9051_EPCR (c.EPCR_EPOS ||| c.EPCR_ERPRW) }) := by
  obtain ⟨_, _, _, _, h4, h5, h6, _⟩ := hc
  simp [dm9051_register_write, dm9051_transfer, dm9051_lock, dm9051_unlock,
    spi_device_polling_transmit, emit, phyEnv, ev_register_write, ev_transfer, h4, h5, h6]

theorem phy_read_command (hc : c.phy_distinct) :
    dm9051_register_write c (phyEnv c) c.DM9051_EPCR 0x0C { emac := e, dev := s, trace := tr } =
      (ESP_OK,
        { emac := e,
          dev := { s with epdrl := (s.phy s.epar).1, epdrh := (s.phy s.epar).2 },
          trace := tr ++ ev_register_write c c.DM9051_EPCR 0x0C }) := by
  obtain ⟨_, _, _, _, h4, h5, h6, h7⟩ := hc
  simp [dm9051_register_write, dm9051_transfer, dm9051_lock, dm9051_unlock,
    spi_device_polling_transmit, emit, phyEnv, ev_register_write, ev_transfer, h4, h5, h6, h7.symm]

theorem phy_read_epcr (hc : c.phy_distinct) (value : Nat) :
    dm9051_register_read c (phyEnv c) c.DM9051_EPCR value { emac := e, dev := s, trace := tr } =
      ((ESP_OK, 0), { emac := e, dev := s, trace := tr ++ ev_register_read c c.DM9051_EPCR }) := by
  obtain ⟨h0, _, _, _, _, h5, h6, _⟩ := hc
  simp [dm9051_register_read, dm9051_transfer, dm9051_lock, dm9051_unlock,
    spi_device_polling_transmit, emit, phyEnv, ev_register_read, ev_transfer, h0, h5, h6]

theorem phy_read_epdrl (hc : c.phy_distinct) (value : Nat) :
    dm9051_register_read c (phyEnv c) c.DM9051_EPDRL value { emac := e, dev := s, trace := tr } =
      ((ESP_OK, s.epdrl % 256),
        { emac := e, dev := s, trace := tr ++ ev_register_read c c.DM9051_EPDRL }) := by
  obtain ⟨h0, _⟩ := hc
  simp [dm9051_register_read, dm9051_transfer, dm9051_lock, dm9051_unlock,
    spi_device_polling_transmit, emit, phyEnv, ev_register_read, ev_transfer, h0]

theorem phy_read_epdrh (hc : c.phy_distinct) (value : Nat) :
    dm9051_register_read c (phyEnv c) c.DM9051_EPDRH value { emac := e, dev := s, trace := tr } =
      ((ESP_OK, s.epdrh % 256),
        { emac := e, dev := s, trace := tr ++ ev_register_read c c.DM9051_EPDRH }) := by
  obtain ⟨h0, _, _, h3, _⟩ := hc
  simp [dm9051_register_read, dm9051_transfer, dm9051_lock, dm9051_unlock,
    spi_device_polling_transmit, emit, phyEnv, ev_register_read, ev_transfer, h0, h3]

theorem phy_delay (us : Nat) :
    esp_rom_delay_us (phyEnv c) us { emac := e, dev := s, trace := tr } =
      ((), { emac := e, dev := s, trace := tr ++ [Ev.esp_rom_delay_us us] }) := by
  simp [esp_rom_delay_us, emit, phyEnv]

/-- Against the PHY model the first poll of EPCR ends the polling loop. -/
theorem phy_poll_idle (hc : c.phy_distinct) (fuel to_ epcr : Nat) :
    emac_dm9051_phy_poll c (phyEnv c) (fuel + 1) to_ epcr { emac := e, dev := s, trace := tr } =
      (Except.ok 0,
        { emac := e, dev := s,
          trace := tr ++ [Ev.esp_rom_delay_us 100] ++ ev_register_read c c.DM9051_EPCR }) := by
  simp [emac_dm9051_phy_poll, Blk.bind_def, Blk.bind, call, phy_delay,
    ESP_GOTO_ON_ERROR_out, phy_read_epcr c e s _ hc, Blk.pure]

theorem phy_poll_idle_budget (hc : c.phy_distinct) (to_ epcr : Nat) :
    emac_dm9051_phy_poll c (phyEnv c) DM9051_PHY_OPERATION_TIMEOUT_US to_ epcr
        { emac := e, dev := s, trace := tr } =
      (Except.ok 0,
        { emac := e, dev := s,
          trace := tr ++ [Ev.esp_rom_delay_us 100] ++ ev_register_read c c.DM9051_EPCR }) :=
  phy_poll_idle c e s tr hc 999 to_ epcr

/-- The PHY register write against the PHY model: it returns `ESP_OK` and leaves the two
data bytes in the PHY register selected by the address byte. -/
theorem phy_model_write (hc : c.phy_distinct) (phy_addr phy_reg v : Nat) :
    emac_dm9051_write_phy_reg c (phyEnv c) phy_addr phy_reg v { emac := e, dev := s, trace := tr } =
      (ESP_OK,
        { emac := e,
          dev := { epar := (((phy_addr <<< 6) &&& 0xFF) ||| phy_reg) % 256,
                   epdrl := (v &&& 0xFF) % 256,
                   epdrh := ((v >>> 8) &&& 0xFF) % 256,
                   phy := fun a =>
                     if a = (((phy_addr <<< 6) &&& 0xFF) ||| phy_reg) % 256 then
                       ((v &&& 0xFF) % 256, ((v >>> 8) &&& 0xFF) % 256)
                     else s.phy a },
          trace := tr ++ ev_register_read c c.DM9051_EPCR ++
            ev_register_write c c.DM9051_EPAR ((((phy_addr <<< 6) &&& 0xFF) ||| phy_reg) % 256) ++
            ev_register_write c c.DM9051_EPDRL ((v &&& 0xFF) % 256) ++
            ev_register_write c c.DM9051_EPDRH (((v >>> 8) &&& 0xFF) % 256) ++
            ev_register_write c c.DM9051_EPCR (c.EPCR_EPOS ||| c.EPCR_ERPRW) ++
            [Ev.esp_rom_delay_us 100] ++ ev_register_read c c.DM9051_EPCR }) := by
  simp only [emac_dm9051_write_phy_reg, Blk.ret, Blk.bind_def, Blk.bind, ESP_GOTO_ON_ERROR_out,
    phy_read_epcr c _ _ _ hc, ESP_GOTO_ON_FALSE, ne_eq, Nat.zero_and,
    not_true_eq_false, not_false_eq_true, decide_True, if_true, Blk.pure, ESP_GOTO_ON_ERROR,
    phy_write_epar, phy_write_epdrl c _ _ _ hc, phy_write_epdrh c _ _ _ hc,
    phy_write_command c _ _ _ hc, phy_poll_idle_budget c _ _ _ hc]

/-- The PHY register read against the PHY model: it returns `ESP_OK` and the two bytes of
the PHY register selected by the address byte, assembled as `EPDRH * 256 + EPDRL`. -/
theorem phy_model_read (hc : c.phy_distinct) (phy_addr phy_reg out0 : Nat) :
    (emac_dm9051_read_phy_reg c (phyEnv c) phy_addr phy_reg (some out0)
        { emac := e, dev := s, trace := tr }).1 =
      (ESP_OK,
        some ((256 * ((s.phy ((((phy_addr <<< 6) &&& 0xFF) ||| phy_reg) % 256)).2 % 256) +
          (s.phy ((((phy_addr <<< 6) &&& 0xFF) ||| phy_reg) % 256)).1 % 256) % 4294967296)) := by
  simp only [emac_dm9051_read_phy_reg, Blk.bind_def, Blk.bind, ESP_GOTO_ON_ERROR_out,
    phy_read_epcr c _ _ _ hc, ESP_GOTO_ON_FALSE, ne_eq, Nat.zero_and, Option.isSome_some,
    not_true_eq_false, not_false_eq_true, decide_True, if_true, Blk.pure, ESP_GOTO_ON_ERROR,
    phy_write_epar, phy_read_command c _ _ _ hc, phy_poll_idle_budget c _ _ _ hc,
    phy_read_epdrl c _ _ _ hc, phy_read_epdrh c _ _ _ hc]
  rw [shl8_or_eq _ _ (Nat.mod_lt _ (by decide))]

/-- A PHY register write followed by a read of the same register against the PHY model:
both return `ESP_OK`, and the value read is the low 16 bits of the value written. -/
theorem phy_model_write_read (hc : c.phy_distinct) (phy_addr phy_reg v out0 : Nat) :
    (emac_dm9051_write_phy_reg c (phyEnv c) phy_addr phy_reg v
        { emac := e, dev := s, trace := tr }).1 = ESP_OK ∧
    (emac_dm9051_read_phy_reg c (phyEnv c) phy_addr phy_reg (some out0)
        (emac_dm9051_write_phy_reg c (phyEnv c) phy_addr phy_reg v
          { emac := e, dev := s, trace := tr }).2).1 = (ESP_OK, some (v % 65536)) := by
  rw [phy_model_write c e s tr hc]
  refine ⟨rfl, ?_⟩
  simp only []
  rw [phy_model_read c e _ _ hc]
  simp only [if_true, and_255_eq, shr8_eq]
  congr 2
  omega

end phy_model

theorem dm9051_h_sample_phy_distinct : dm9051_h_sample.phy_distinct := by
  simp [dm9051_h.phy_distinct, dm9051_h_sample]

/-- C12, as the code has it: against the PHY model (the data registers are stored when the
write command is issued and loaded when the read command is issued for the same address
byte), for every PHY address, register index and 32-bit value `v`,
`emac_dm9051_write_phy_reg(phy_addr, phy_reg, v)` returns `ESP_OK`, and
`emac_dm9051_read_phy_reg(phy_addr, phy_reg, &out)` after it returns `ESP_OK` with
`out = v mod 65536`: only the low 16 bits of `v` reach the PHY. In particular `out = v` for
every `v < 65536`. -/
theorem dm9051_phy_write_read_back (c : dm9051_h) (w : World emac_dm9051_t PhyDev)
    (phy_addr phy_reg v out0 : Nat) (hc : c.phy_distinct) :
    (emac_dm9051_write_phy_reg c (phyEnv c) phy_addr phy_reg v w).1 = ESP_OK ∧
    (emac_dm9051_read_phy_reg c (phyEnv c) phy_addr phy_reg (some out0)
        (emac_dm9051_write_phy_reg c (phyEnv c) phy_addr phy_reg v w).2).1 =
      (ESP_OK, some (v % 65536)) ∧
    (v < 65536 →
      (emac_dm9051_read_phy_reg c (phyEnv c) phy_addr phy_reg (some out0)
          (emac_dm9051_write_phy_reg c (phyEnv c) phy_addr phy_reg v w).2).1 = (ESP_OK, some v)) := by
  obtain ⟨e, s, tr⟩ := w
  have h := phy_model_write_read c e s tr hc phy_addr phy_reg v out0
  refine ⟨h.1, h.2, fun hv => ?_⟩
  rw [h.2, Nat.mod_eq_of_lt hv]

/-- C12, witness: PHY address 1, register 2, value 0xBEEF, read back into a destination
that held 0. -/
theorem dm9051_phy_write_read_back_witness :
    dm9051_h_sample.phy_distinct ∧
    (emac_dm9051_read_phy_reg dm9051_h_sample (phyEnv dm9051_h_sample) 1 2 (some 0)
        (emac_dm9051_write_phy_reg dm9051_h_sample (phyEnv dm9051_h_sample) 1 2 0xBEEF phy_world).2).1 =
      (ESP_OK, some 0xBEEF) :=
  ⟨dm9051_h_sample_phy_distinct,
    (dm9051_phy_write_read_back dm9051_h_sample phy_world 1 2 0xBEEF 0
      dm9051_h_sample_phy_distinct).2.2 (by decide)⟩

/-- C12, counterexample: the value 0x12345 written to register 2 of PHY 1 reads back as
0x2345. -/
theorem dm9051_phy_write_read_back_counterexample :
    (emac_dm9051_read_phy_reg dm9051_h_sample (phyEnv dm9051_h_sample) 1 2 (some 0)
        (emac_dm9051_write_phy_reg dm9051_h_sample (phyEnv dm9051_h_sample) 1 2 0x12345 phy_world).2).1 =
      (ESP_OK, some 0x2345) ∧
    (emac_dm9051_read_phy_reg dm9051_h_sample (phyEnv dm9051_h_sample) 1 2 (some 0)
        (emac_dm9051_write_phy_reg dm9051_h_sample (phyEnv dm9051_h_sample) 1 2 0x12345 phy_world).2).1 ≠
      (ESP_OK, some 0x12345) := by
  have h : (emac_dm9051_read_phy_reg dm9051_h_sample (phyEnv dm9051_h_sample) 1 2 (some 0)
        (emac_dm9051_write_phy_reg dm9051_h_sample (phyEnv dm9051_h_sample) 1 2 0x12345 phy_world).2).1 =
      (ESP_OK, some 0x2345) :=
    (phy_model_write_read dm9051_h_sample emac_dm9051_sample
      { epar := 0, epdrl := 0, epdrh := 0, phy := fun _ => (0, 0) } []
      dm9051_h_sample_phy_distinct 1 2 0x12345 0).2
  refine ⟨h, ?_⟩
  rw [h]
  decide

/-! ## C13: the output destination of a PHY register read -/

/-- C13: in both engines and in every environment, `read_phy_reg` with a null output
destination returns `ESP_ERR_INVALID_ARG` without a single call into the environment (the
world, trace included, is the one before the call: no busy check, no command, no poll);
and whenever `read_phy_reg` with a non-null destination returns anything but `ESP_OK`,
the destination holds what it held before the call. -/
theorem read_phy_reg_output (phy_addr phy_reg : Nat) :
    (∀ (σ : Type) (c : dm9051_h) (env : Dm9051Env σ) (w : World emac_dm9051_t σ),
      emac_dm9051_read_phy_reg c env phy_addr phy_reg none w = ((ESP_ERR_INVALID_ARG, none), w)) ∧
    (∀ (σ : Type) (hal : Esp32Env σ) (w : World emac_esp32_t σ),
      emac_esp32_read_phy_reg hal phy_addr phy_reg none w = ((ESP_ERR_INVALID_ARG, none), w)) ∧
    (∀ (σ : Type) (c : dm9051_h) (env : Dm9051Env σ) (w : World emac_dm9051_t σ) (out0 : Nat),
      (emac_dm9051_read_phy_reg c env phy_addr phy_reg (some out0) w).1.1 ≠ ESP_OK →
      (emac_dm9051_read_phy_reg c env phy_addr phy_reg (some out0) w).1.2 = some out0) ∧
    (∀ (σ : Type) (hal : Esp32Env σ) (w : World emac_esp32_t σ) (out0 : Nat),
      (emac_esp32_read_phy_reg hal phy_addr phy_reg (some out0) w).1.1 ≠ ESP_OK →
      (emac_esp32_read_phy_reg hal phy_addr phy_reg (some out0) w).1.2 = some out0) := by
  refine ⟨?_, ?_, ?_, ?_⟩
  · intro σ c env w
    simp [emac_dm9051_read_phy_reg, Blk.bind_def, Blk.bind, ESP_GOTO_ON_FALSE, goto_err]
  · intro σ hal w
    simp [emac_esp32_read_phy_reg, Blk.bind_def, Blk.bind, ESP_GOTO_ON_FALSE, goto_err]
  · intro σ c env w out0 h
    unfold emac_dm9051_read_phy_reg at h ⊢
    split at h
    · exact absurd rfl h
    · rfl
  · intro σ hal w out0 h
    unfold emac_esp32_read_phy_reg at h ⊢
    split at h
    · exact absurd rfl h
    · rfl

/-- C13, witness: a DM9051 read of PHY register 2 into a destination holding 7 while EPCR
reads 0x09 (operation in progress) fails and leaves 7 in the destination. -/
theorem read_phy_reg_output_witness :
    (emac_dm9051_read_phy_reg dm9051_h_sample scriptEnv 1 2 (some 7)
        (script_world [BusResp.ok [0x09]] [])).1.1 ≠ ESP_OK ∧
    (emac_dm9051_read_phy_reg dm9051_h_sample scriptEnv 1 2 (some 7)
        (script_world [BusResp.ok [0x09]] [])).1.2 = some 7 :=
  ⟨by decide,
    (read_phy_reg_output 1 2).2.2.1 Script dm9051_h_sample scriptEnv
      (script_world [BusResp.ok [0x09]] []) 7 (by decide)⟩

/-! ## C14 to C17: flow control -/

theorem pause_asserted_append (a b : List Ev) (p : Bool) :
    pause_asserted (a ++ b) p = pause_asserted b (pause_asserted a p) := by
  induction a generalizing p with
  | nil => rfl
  | cons x t ih => cases x <;> simp [pause_asserted, ih]

theorem pause_asserted_of_no_pause (l : List Ev) (p : Bool)
    (h : ∀ b, Ev.emac_ll_pause_frame_enable b ∉ l) : pause_asserted l p = p := by
  induction l generalizing p with
  | nil => rfl
  | cons x t ih =>
    have ht : ∀ b, Ev.emac_ll_pause_frame_enable b ∉ t := fun b hb =>
      h b (List.mem_cons_of_mem x hb)
    cases x <;> simp [pause_asserted, ih _ ht]
    exact absurd (List.mem_cons_self _ t) (h _)

section esp32_worker
variable {σ : Type} (hal : Esp32Env σ) (w : World emac_esp32_t σ)

/-- The part of a round in front of the flow-control check makes no call of
`emac_ll_pause_frame_enable` and leaves the flow-control configuration alone. -/
theorem rx_task_frame_keeps :
    ∃ l, (emac_esp32_rx_task_frame hal w).2.trace = w.trace ++ l ∧
      (∀ b, Ev.emac_ll_pause_frame_enable b ∉ l) ∧
      (emac_esp32_rx_task_frame hal w).2.emac.do_flow_ctrl = w.emac.do_flow_ctrl ∧
      (emac_esp32_rx_task_frame hal w).2.emac.flow_control_low_water_mark =
        w.emac.flow_control_low_water_mark ∧
      (emac_esp32_rx_task_frame hal w).2.emac.flow_control_high_water_mark =
        w.emac.flow_control_high_water_mark := by
  rcases ha : hal.emac_hal_alloc_recv_buf w.dev with ⟨⟨_ | buffer, frame_len⟩, d1⟩
  · by_cases hf : frame_len = 0
    · exact ⟨[Ev.emac_hal_alloc_recv_buf], by
        simp [emac_esp32_rx_task_frame, emac_hal_alloc_recv_buf, emit, ha, hf]⟩
    · exact ⟨[Ev.emac_hal_alloc_recv_buf, Ev.emac_hal_flush_recv_frame], by
        simp [emac_esp32_rx_task_frame, emac_hal_alloc_recv_buf, emac_hal_flush_recv_frame, emit, ha, hf]⟩
  · rcases hr : hal.emac_hal_receive_frame buffer EMAC_HAL_BUF_SIZE_AUTO w.emac.frames_remain
      w.emac.free_rx_descriptor d1 with ⟨⟨recv_len, b, fr, fd⟩, d2⟩
    by_cases h0 : recv_len = 0
    · exact ⟨[Ev.emac_hal_alloc_recv_buf, Ev.emac_hal_receive_frame buffer EMAC_HAL_BUF_SIZE_AUTO,
        Ev.free b, Ev.emac_hal_flush_recv_frame], by
        simp [emac_esp32_rx_task_frame, emac_hal_alloc_recv_buf, emac_hal_receive_frame,
          emac_hal_flush_recv_frame, esp32_free, emit, ha, hr, h0]⟩
    · by_cases h1 : frame_len > recv_len
      · exact ⟨[Ev.emac_hal_alloc_recv_buf, Ev.emac_hal_receive_frame buffer EMAC_HAL_BUF_SIZE_AUTO,
          Ev.free b], by
          simp [emac_esp32_rx_task_frame, emac_hal_alloc_recv_buf, emac_hal_receive_frame,
            esp32_free, emit, ha, hr, h0, h1]⟩
      · exact ⟨[Ev.emac_hal_alloc_recv_buf, Ev.emac_hal_receive_frame buffer EMAC_HAL_BUF_SIZE_AUTO,
          Ev.stack_input b recv_len], by
          simp [emac_esp32_rx_task_frame, emac_hal_alloc_recv_buf, emac_hal_receive_frame,
            esp32_stack_input, emit, ha, hr, h0, h1]⟩

/-- The calls of the flow-control block: at most one, of `emac_ll_pause_frame_enable`. -/
theorem rx_task_flow_ctrl_trace :
    (emac_esp32_rx_task_flow_ctrl hal w).2.trace =
      w.trace ++
        (if w.emac.free_rx_descriptor < w.emac.flow_control_low_water_mark ∧
            w.emac.do_flow_ctrl = true ∧ w.emac.frames_remain ≠ 0 then
          [Ev.emac_ll_pause_frame_enable true]
        else if w.emac.free_rx_descriptor > w.emac.flow_control_high_water_mark ∨
            w.emac.frames_remain = 0 then
          [Ev.emac_ll_pause_frame_enable false]
        else []) ∧
    (emac_esp32_rx_task_flow_ctrl hal w).2.emac = w.emac := by
  unfold emac_esp32_rx_task_flow_ctrl
  by_cases h1 : w.emac.free_rx_descriptor < w.emac.flow_control_low_water_mark ∧
      w.emac.do_flow_ctrl = true ∧ w.emac.frames_remain ≠ 0
  · simp only [if_pos h1]
    simp [emac_ll_pause_frame_enable, emit]
  · simp only [if_neg h1]
    by_cases h2 : w.emac.free_rx_descriptor > w.emac.flow_control_high_water_mark ∨
        w.emac.frames_remain = 0
    · have h2' : w.emac.free_rx_descriptor > w.emac.flow_control_high_water_mark ∨
          ¬ (w.emac.frames_remain ≠ 0) := by simpa using h2
      simp only [if_pos h2, if_pos h2']
      simp [emac_ll_pause_frame_enable, emit]
    · have h2' : ¬ (w.emac.free_rx_descriptor > w.emac.flow_control_high_water_mark ∨
          ¬ (w.emac.frames_remain ≠ 0)) := by simpa using h2
      simp only [if_neg h2, if_neg h2']
      simp

/-- The flow-control block of the worker is the step of the specification. -/
theorem rx_task_flow_ctrl_pause (p0 : Bool) :
    pause_asserted (emac_esp32_rx_task_flow_ctrl hal w).2.trace p0 =
      spec_flow_ctrl_step w.emac.flow_control_low_water_mark w.emac.flow_control_high_water_mark
        (pause_asserted w.trace p0) w.emac.free_rx_descriptor w.emac.frames_remain
        w.emac.do_flow_ctrl := by
  rw [(rx_task_flow_ctrl_trace hal w).1, pause_asserted_append]
  unfold spec_flow_ctrl_step
  split_ifs <;> simp [pause_asserted]

/-- One round of the worker with soft flow control built in is one step of the
specification, on the counters the round leaves in front of the flow-control check. -/
theorem rx_task_round_pause (p0 : Bool) :
    pause_asserted (emac_esp32_rx_task_round hal true w).2.trace p0 =
      spec_flow_ctrl_step w.emac.flow_control_low_water_mark w.emac.flow_control_high_water_mark
        (pause_asserted w.trace p0)
        (emac_esp32_rx_task_frame hal w).2.emac.free_rx_descriptor
        (emac_esp32_rx_task_frame hal w).2.emac.frames_remain
        w.emac.do_flow_ctrl := by
  obtain ⟨l, hl, hno, hd, hlow, hhigh⟩ := rx_task_frame_keeps hal w
  have h := rx_task_flow_ctrl_pause hal (emac_esp32_rx_task_frame hal w).2 p0
  rw [hl, pause_asserted_append, pause_asserted_of_no_pause l _ hno, hd, hlow, hhigh] at h
  simpa [emac_esp32_rx_task_round] using h

end esp32_worker

theorem spec_flow_ctrl_run_append (low high : Nat) (a b : List (Nat × Nat × Bool)) (p : Bool) :
    spec_flow_ctrl_run low high p (a ++ b) =
      spec_flow_ctrl_run low high (spec_flow_ctrl_run low high p a) b := by
  induction a generalizing p with
  | nil => rfl
  | cons x t ih =>
    obtain ⟨free, frames_remain, do_flow_ctrl⟩ := x
    simp [spec_flow_ctrl_run, ih]

theorem spec_flow_ctrl_step_stays (low high free frames_remain : Nat) (do_flow_ctrl : Bool)
    (hf : frames_remain ≠ 0) (hh : free ≤ high) :
    spec_flow_ctrl_step low high true free frames_remain do_flow_ctrl = true := by
  unfold spec_flow_ctrl_step
  split_ifs with h1 h2
  · rfl
  · rcases h2 with h2 | h2
    · omega
    · exact absurd h2 hf
  · rfl

theorem spec_flow_ctrl_run_stays (low high : Nat) (l : List (Nat × Nat × Bool))
    (h : ∀ s ∈ l, s.2.1 ≠ 0 ∧ s.1 ≤ high) : spec_flow_ctrl_run low high true l = true := by
  induction l with
  | nil => rfl
  | cons x t ih =>
    obtain ⟨free, frames_remain, do_flow_ctrl⟩ := x
    have hx := h (free, frames_remain, do_flow_ctrl) (List.mem_cons_self _ t)
    simp only [spec_flow_ctrl_run]
    rw [spec_flow_ctrl_step_stays low high free frames_remain do_flow_ctrl hx.1 hx.2]
    exact ih (fun s hs => h s (List.mem_cons_of_mem _ hs))

theorem spec_flow_ctrl_step_release (low high free frames_remain : Nat) (do_flow_ctrl : Bool)
    (h : spec_flow_ctrl_step low high true free frames_remain do_flow_ctrl = false) :
    free > high ∨ frames_remain = 0 := by
  unfold spec_flow_ctrl_step at h
  split_ifs at h with h1 h2
  exact h2

/-- C14: one round of the DMA worker (soft flow control built in) changes the pause state,
read off the calls of `emac_ll_pause_frame_enable`, exactly as the step of the
specification does on the free-descriptor count and the frame count the round has reached:
true if `free < low`, `do_flow_ctrl` and `frames_remain != 0`; else false if `free > high`
or `frames_remain = 0`; else unchanged. For every sequence of such steps, every start
state and all `i ≤ k`: if pause is asserted after step `i`, and at each of the steps
`i + 1` to `k` frames remain pending and `free ≤ high`, then pause is asserted after step
`k`. A step that de-asserts pause has `free > high` or `frames_remain = 0`. -/
theorem flow_ctrl_pause_monotonic (low high : Nat) :
    (∀ (σ : Type) (hal : Esp32Env σ) (w : World emac_esp32_t σ) (p0 : Bool),
      w.emac.flow_control_low_water_mark = low → w.emac.flow_control_high_water_mark = high →
      pause_asserted (emac_esp32_rx_task_round hal true w).2.trace p0 =
        spec_flow_ctrl_step low high (pause_asserted w.trace p0)
          (emac_esp32_rx_task_frame hal w).2.emac.free_rx_descriptor
          (emac_esp32_rx_task_frame hal w).2.emac.frames_remain
          w.emac.do_flow_ctrl) ∧
    (∀ (steps : List (Nat × Nat × Bool)) (p0 : Bool) (i k : Nat), i ≤ k →
      spec_flow_ctrl_run low high p0 (steps.take i) = true →
      (∀ s ∈ (steps.take k).drop i, s.2.1 ≠ 0 ∧ s.1 ≤ high) →
      spec_flow_ctrl_run low high p0 (steps.take k) = true) ∧
    (∀ (free frames_remain : Nat) (do_flow_ctrl : Bool),
      spec_flow_ctrl_step low high true free frames_remain do_flow_ctrl = false →
      free > high ∨ frames_remain = 0) := by
  refine ⟨?_, ?_, ?_⟩
  · intro σ hal w p0 hlow hhigh
    rw [rx_task_round_pause, hlow, hhigh]
  · intro steps p0 i k hik hi hgood
    have hsplit : steps.take k = steps.take i ++ (steps.take k).drop i := by
      have h := (List.take_append_drop i (steps.take k)).symm
      rwa [List.take_take, Nat.min_eq_left hik] at h
    rw [hsplit, spec_flow_ctrl_run_append, hi]
    exact spec_flow_ctrl_run_stays low high _ hgood
  · intro free frames_remain do_flow_ctrl h
    exact spec_flow_ctrl_step_release low high free frames_remain do_flow_ctrl h

/-- C14, witness: with low = 2 and high = 4, four steps with free counts 1, 3, 4, 5 and
frames pending at each: pause is asserted by the first step and still asserted after the
third. -/
theorem flow_ctrl_pause_monotonic_witness :
    spec_flow_ctrl_run 2 4 false
      ([(1, 3, true), (3, 2, true), (4, 1, true), (5, 1, true)].take 3) = true :=
  (flow_ctrl_pause_monotonic 2 4).2.1 [(1, 3, true), (3, 2, true), (4, 1, true), (5, 1, true)]
    false 1 3 (by decide) (by decide) (by decide)

/-- C15, as the code has it: with low water mark 2, high water mark 4 and flow control in
effect, a round of the DMA worker that leaves the free-descriptor count at 1 while frames
remain pending asserts pause; a round after which no frame remains pending de-asserts
pause, whatever the free-descriptor count is (so pause is not asserted once the only
pending frame has been drained); pause asserted before a round stays asserted when frames
remain pending after it and the free-descriptor count is at most 4; and a round that
de-asserts it has brought the free-descriptor count above 4 or the frame count to 0. -/
theorem esp32_pause_after_drain (σ : Type) (hal : Esp32Env σ) (w : World emac_esp32_t σ) (p0 : Bool)
    (hlow : w.emac.flow_control_low_water_mark = 2) (hhigh : w.emac.flow_control_high_water_mark = 4)
    (hdo : w.emac.do_flow_ctrl = true) :
    ((emac_esp32_rx_task_frame hal w).2.emac.free_rx_descriptor = 1 →
      (emac_esp32_rx_task_frame hal w).2.emac.frames_remain ≠ 0 →
      pause_asserted (emac_esp32_rx_task_round hal true w).2.trace p0 = true) ∧
    ((emac_esp32_rx_task_frame hal w).2.emac.frames_remain = 0 →
      pause_asserted (emac_esp32_rx_task_round hal true w).2.trace p0 = false) ∧
    (pause_asserted w.trace p0 = true →
      (emac_esp32_rx_task_frame hal w).2.emac.frames_remain ≠ 0 →
      (emac_esp32_rx_task_frame hal w).2.emac.free_rx_descriptor ≤ 4 →
      pause_asserted (emac_esp32_rx_task_round hal true w).2.trace p0 = true) ∧
    (pause_asserted w.trace p0 = true →
      pause_asserted (emac_esp32_rx_task_round hal true w).2.trace p0 = false →
      (emac_esp32_rx_task_frame hal w).2.emac.free_rx_descriptor > 4 ∨
        (emac_esp32_rx_task_frame hal w).2.emac.frames_remain = 0) := by
  rw [rx_task_round_pause, hlow, hhigh, hdo]
  refine ⟨?_, ?_, ?_, ?_⟩
  · intro h1 h2
    simp [spec_flow_ctrl_step, h1, h2]
  · intro h
    simp [spec_flow_ctrl_step, h]
  · intro hp h1 h2
    rw [hp]
    exact spec_flow_ctrl_step_stays 2 4 _ _ true h1 h2
  · intro hp h
    rw [hp] at h
    exact spec_flow_ctrl_step_release 2 4 _ _ true h

/-- C15, witness: two frames pending and one free descriptor; after the round that drains
the first frame one frame remains and pause is asserted. -/
theorem esp32_pause_after_drain_witness :
    pause_asserted (emac_esp32_rx_task_round scriptHal true
      (esp32_script_world (emac_esp32_sample 1 2) [(some heap_block_sample, 60)]
        [(60, List.replicate 60 0, 1, 1)] [])).2.trace false = true :=
  (esp32_pause_after_drain Esp32Script scriptHal
    (esp32_script_world (emac_esp32_sample 1 2) [(some heap_block_sample, 60)]
      [(60, List.replicate 60 0, 1, 1)] []) false rfl rfl rfl).1 (by decide) (by decide)

/-- C15, counterexample: low water mark 2, high water mark 4, flow control in effect, one
free descriptor and exactly one frame pending, pause asserted before the round: the round
that drains the frame ends with `emac_ll_pause_frame_enable(false)`. -/
theorem esp32_pause_after_drain_counterexample :
    (emac_esp32_rx_task_round scriptHal true
      (esp32_script_world (emac_esp32_sample 1 1) [(some heap_block_sample, 60)]
        [(60, List.replicate 60 0, 0, 1)] [])).2.trace =
      [Ev.emac_hal_alloc_recv_buf, Ev.emac_hal_receive_frame heap_block_sample 0,
        Ev.stack_input { heap_block_sample with data := List.replicate 60 0 } 60,
        Ev.emac_ll_pause_frame_enable false] ∧
    pause_asserted (emac_esp32_rx_task_round scriptHal true
      (esp32_script_world (emac_esp32_sample 1 1) [(some heap_block_sample, 60)]
        [(60, List.replicate 60 0, 0, 1)] [])).2.trace true = false := by
  decide

/-- C16: a round of the DMA worker (soft flow control built in) that has brought
`frames_remain` to 0 in front of the flow-control check ends with the call
`emac_ll_pause_frame_enable(false)`, in every environment and whatever the
free-descriptor count, the water marks and `do_flow_ctrl` are, so that pause is not asserted
after it. In particular with low = 2, high = 4, five free descriptors and three pending
frames whose delivery fails, the drain loop ends after three rounds, each of them calling
`emac_ll_pause_frame_enable(false)`, with pause not asserted and five free descriptors. -/
theorem esp32_pause_burst_end :
    (∀ (σ : Type) (hal : Esp32Env σ) (w : World emac_esp32_t σ) (p0 : Bool),
      (emac_esp32_rx_task_frame hal w).2.emac.frames_remain = 0 →
      (emac_esp32_rx_task_round hal true w).2.trace =
        (emac_esp32_rx_task_frame hal w).2.trace ++ [Ev.emac_ll_pause_frame_enable false] ∧
      (emac_esp32_rx_task_round hal true w).2.emac.frames_remain = 0 ∧
      pause_asserted (emac_esp32_rx_task_round hal true w).2.trace p0 = false) ∧
    (emac_esp32_rx_task_drain failHal true 3
        (esp32_script_world (emac_esp32_sample 5 3)
          [(some heap_block_sample, 60), (some heap_block_sample, 60), (some heap_block_sample, 60)]
          [(60, [1], 2, 5), (60, [2], 1, 5), (60, [3], 0, 5)] [])).map
      (fun w => (w.trace, pause_asserted w.trace true, w.emac.free_rx_descriptor)) =
      some ([Ev.emac_hal_alloc_recv_buf, Ev.emac_hal_receive_frame heap_block_sample 0,
          Ev.stack_input { heap_block_sample with data := [1] } 60,
          Ev.emac_ll_pause_frame_enable false,
          Ev.emac_hal_alloc_recv_buf, Ev.emac_hal_receive_frame heap_block_sample 0,
          Ev.stack_input { heap_block_sample with data := [2] } 60,
          Ev.emac_ll_pause_frame_enable false,
          Ev.emac_hal_alloc_recv_buf, Ev.emac_hal_receive_frame heap_block_sample 0,
          Ev.stack_input { heap_block_sample with data := [3] } 60,
          Ev.emac_ll_pause_frame_enable false], false, 5) := by
  refine ⟨?_, by decide⟩
  intro σ hal w p0 h0
  have ht := rx_task_flow_ctrl_trace hal (emac_esp32_rx_task_frame hal w).2
  have hround : emac_esp32_rx_task_round hal true w =
      emac_esp32_rx_task_flow_ctrl hal (emac_esp32_rx_task_frame hal w).2 := by
    simp [emac_esp32_rx_task_round]
  have htr : (emac_esp32_rx_task_round hal true w).2.trace =
      (emac_esp32_rx_task_frame hal w).2.trace ++ [Ev.emac_ll_pause_frame_enable false] := by
    rw [hround, ht.1]
    simp [h0]
  refine ⟨htr, ?_, ?_⟩
  · rw [hround, ht.2, h0]
  · rw [htr, pause_asserted_append]
    rfl

/-- C16, witness: one pending frame and one free descriptor, below the low water mark: the
round that drains the frame de-asserts pause. -/
theorem esp32_pause_burst_end_witness :
    pause_asserted (emac_esp32_rx_task_round scriptHal true
      (esp32_script_world (emac_esp32_sample 1 1) [(some heap_block_sample, 60)]
        [(60, [1, 2, 3], 0, 1)] [])).2.trace true = false :=
  (esp32_pause_burst_end.1 Esp32Script scriptHal
    (esp32_script_world (emac_esp32_sample 1 1) [(some heap_block_sample, 60)]
      [(60, [1, 2, 3], 0, 1)] []) true (by decide)).2.2

/-- A round of the DMA worker with `do_flow_ctrl` false makes no call
`emac_ll_pause_frame_enable(true)` and leaves `do_flow_ctrl` false. -/
theorem rx_task_round_no_pause {σ : Type} (hal : Esp32Env σ) (flow : Bool) (w : World emac_esp32_t σ)
    (hdo : w.emac.do_flow_ctrl = false) :
    ∃ l, (emac_esp32_rx_task_round hal flow w).2.trace = w.trace ++ l ∧
      Ev.emac_ll_pause_frame_enable true ∉ l ∧
      (emac_esp32_rx_task_round hal flow w).2.emac.do_flow_ctrl = false := by
  obtain ⟨l, hl, hno, hd, _, _⟩ := rx_task_frame_keeps hal w
  cases flow with
  | false =>
    refine ⟨l, ?_, hno true, ?_⟩
    · simpa [emac_esp32_rx_task_round] using hl
    · simpa [emac_esp32_rx_task_round, hdo] using hd
  | true =>
    have ht := rx_task_flow_ctrl_trace hal (emac_esp32_rx_task_frame hal w).2
    have hround : emac_esp32_rx_task_round hal true w =
        emac_esp32_rx_task_flow_ctrl hal (emac_esp32_rx_task_frame hal w).2 := by
      simp [emac_esp32_rx_task_round]
    have hd' : (emac_esp32_rx_task_frame hal w).2.emac.do_flow_ctrl = false := by rw [hd, hdo]
    have key : ∃ t, (emac_esp32_rx_task_flow_ctrl hal (emac_esp32_rx_task_frame hal w).2).2.trace =
        (emac_esp32_rx_task_frame hal w).2.trace ++ t ∧ Ev.emac_ll_pause_frame_enable true ∉ t :=
      ⟨_, ht.1, by
        simp only [hd', Bool.false_eq_true, false_and, and_false, if_false]
        split_ifs <;> simp⟩
    obtain ⟨t, ht1, hnot⟩ := key
    rw [hround, ht.2]
    refine ⟨l ++ t, ?_, ?_, hd'⟩
    · rw [ht1, hl, List.append_assoc]
    · simp only [List.mem_append]
      rintro (h | h)
      · exact hno true h
      · exact hnot h

/-- The drain loop of the DMA worker with `do_flow_ctrl` false makes no call
`emac_ll_pause_frame_enable(true)`. -/
theorem rx_task_drain_no_pause {σ : Type} (hal : Esp32Env σ) (flow : Bool) :
    ∀ (fuel : Nat) (w w1 : World emac_esp32_t σ), w.emac.do_flow_ctrl = false →
      emac_esp32_rx_task_drain hal flow fuel w = some w1 →
      ∃ l, w1.trace = w.trace ++ l ∧ Ev.emac_ll_pause_frame_enable true ∉ l := by
  intro fuel
  induction fuel with
  | zero =>
    intro w w1 _ h
    simp [emac_esp32_rx_task_drain] at h
  | succ n ih =>
    intro w w1 hdo h
    obtain ⟨l, hl, hno, hd⟩ := rx_task_round_no_pause hal flow w hdo
    simp only [emac_esp32_rx_task_drain] at h
    by_cases hf : (emac_esp32_rx_task_round hal flow w).2.emac.frames_remain ≠ 0
    · rw [if_pos hf] at h
      obtain ⟨l2, hl2, hno2⟩ := ih _ w1 hd h
      refine ⟨l ++ l2, ?_, ?_⟩
      · rw [hl2, hl, List.append_assoc]
      · simp only [List.mem_append]
        rintro (h | h)
        · exact hno h
        · exact hno2 h
    · rw [if_neg hf] at h
      cases h
      exact ⟨l, hl, hno⟩

/-- C17 (as amended): after `enable_flow_ctrl(e)`, which returns `ESP_OK`, the ESP32 engine
`set_peer_pause_ability(a)` returns `ESP_OK` with every HAL, calls
`emac_hal_enable_flow_ctrl` once, with `e && a != 0`, and sets `do_flow_ctrl` to the same
value. The DM9051 engine, every bus access succeeding, returns `ESP_OK` and writes 0x3F to
BPTR, 0x38 to FCTR and `FCR_FLOW_ENABLE` to FCR, in this order, when `e` is true and
`a != 0`, and writes only 0 to FCR otherwise. With `do_flow_ctrl` false the drain loop of the
DMA worker, with or without soft flow control built in, makes no call
`emac_ll_pause_frame_enable(true)`. -/
theorem set_peer_pause_ability_enables (e : Bool) (a : Nat) :
    (∀ (σ : Type) (hal : Esp32Env σ) (w : World emac_esp32_t σ),
      (emac_esp32_enable_flow_ctrl e w).1 = ESP_OK ∧
      emac_esp32_set_peer_pause_ability hal a (emac_esp32_enable_flow_ctrl e w).2 =
        (ESP_OK,
          { emac := { w.emac with flow_ctrl_enabled := e, do_flow_ctrl := (e && decide (a ≠ 0)) },
            dev := hal.emac_hal_enable_flow_ctrl (e && decide (a ≠ 0)) w.dev,
            trace := w.trace ++ [Ev.emac_hal_enable_flow_ctrl (e && decide (a ≠ 0))] })) ∧
    (∀ (σ : Type) (w : World emac_dm9051_t σ),
      emac_dm9051_enable_flow_ctrl e w = (ESP_OK, { w with emac := { w.emac with flow_ctrl_enabled := e } })) ∧
    (∀ (c : dm9051_h) (w : World emac_dm9051_t Script) (rx1 rx2 rx3 : List Nat) (rest : List BusResp),
      e = true → a ≠ 0 →
      w.dev.bus = BusResp.ok rx1 :: BusResp.ok rx2 :: BusResp.ok rx3 :: rest →
      emac_dm9051_set_peer_pause_ability c scriptEnv a (emac_dm9051_enable_flow_ctrl e w).2 =
        (ESP_OK,
          { emac := { w.emac with flow_ctrl_enabled := true },
            dev := { w.dev with bus := rest },
            trace := w.trace ++ ev_register_write c c.DM9051_BPTR 0x3F ++
              ev_register_write c c.DM9051_FCTR 0x38 ++
              ev_register_write c c.DM9051_FCR c.FCR_FLOW_ENABLE })) ∧
    (∀ (c : dm9051_h) (w : World emac_dm9051_t Script) (rx1 : List Nat) (rest : List BusResp),
      ¬ (e = true ∧ a ≠ 0) →
      w.dev.bus = BusResp.ok rx1 :: rest →
      emac_dm9051_set_peer_pause_ability c scriptEnv a (emac_dm9051_enable_flow_ctrl e w).2 =
        (ESP_OK,
          { emac := { w.emac with flow_ctrl_enabled := e },
            dev := { w.dev with bus := rest },
            trace := w.trace ++ ev_register_write c c.DM9051_FCR 0 })) ∧
    (∀ (σ : Type) (hal : Esp32Env σ) (flow : Bool) (fuel : Nat) (w w1 : World emac_esp32_t σ),
      w.emac.do_flow_ctrl = false →
      emac_esp32_rx_task_drain hal flow fuel w = some w1 →
      ∃ l, w1.trace = w.trace ++ l ∧ Ev.emac_ll_pause_frame_enable true ∉ l) := by
  refine ⟨?_, ?_, ?_, ?_, ?_⟩
  · intro σ hal w
    refine ⟨rfl, ?_⟩
    by_cases h : e = true ∧ a ≠ 0
    · obtain ⟨he, ha⟩ := h
      simp [emac_esp32_set_peer_pause_ability, emac_esp32_enable_flow_ctrl, set_do_flow_ctrl,
        emac_hal_enable_flow_ctrl, emit, he, ha]
    · have hv : (e && decide (a ≠ 0)) = false := by
        cases e <;> simp_all
      rw [hv]
      simp only [emac_esp32_set_peer_pause_ability, emac_esp32_enable_flow_ctrl]
      rw [if_neg h]
      simp [set_do_flow_ctrl, emac_hal_enable_flow_ctrl, emit]
  · intro σ w
    rfl
  · intro c w rx1 rx2 rx3 rest he ha hbus
    obtain ⟨em, ⟨bus, clock, heap, stack⟩, tr⟩ := w
    simp only at hbus
    subst hbus
    subst he
    simp only [emac_dm9051_set_peer_pause_ability, emac_dm9051_enable_flow_ctrl]
    rw [if_pos ⟨trivial, ha⟩]
    simp only [dm9051_enable_flow_ctrl, Blk.ret, Blk.bind_def, Blk.bind, ESP_GOTO_ON_ERROR,
      register_write_ok, if_true]
  · intro c w rx1 rest h hbus
    obtain ⟨em, ⟨bus, clock, heap, stack⟩, tr⟩ := w
    simp only at hbus
    subst hbus
    simp only [emac_dm9051_set_peer_pause_ability, emac_dm9051_enable_flow_ctrl]
    rw [if_neg h]
    simp only [dm9051_enable_flow_ctrl, Blk.ret, Blk.bind_def, Blk.bind, ESP_GOTO_ON_ERROR,
      register_write_ok, Bool.false_eq_true, if_false]
  · intro σ hal flow fuel w w1 hdo h
    exact rx_task_drain_no_pause hal flow fuel w w1 hdo h

/-- C17, witness: flow control enabled locally; a peer with pause ability 1 makes the DM9051
engine write 0x3F, 0x38 and `FCR_FLOW_ENABLE` and return `ESP_OK`, and a peer with pause
ability 0 makes it write 0 to FCR and return `ESP_OK`. -/
theorem set_peer_pause_ability_enables_witness :
    emac_dm9051_set_peer_pause_ability dm9051_h_sample scriptEnv 1
        (emac_dm9051_enable_flow_ctrl true
          (script_world [BusResp.ok [], BusResp.ok [], BusResp.ok []] [])).2 =
      (ESP_OK,
        { emac := { emac_dm9051_sample with flow_ctrl_enabled := true },
          dev := { bus := [], clock := [], heap := [], stack := [] },
          trace := [] ++ ev_register_write dm9051_h_sample 0x08 0x3F ++
            ev_register_write dm9051_h_sample 0x09 0x38 ++
            ev_register_write dm9051_h_sample 0x0A 0x39 }) ∧
    emac_dm9051_set_peer_pause_ability dm9051_h_sample scriptEnv 0
        (emac_dm9051_enable_flow_ctrl true (script_world [BusResp.ok []] [])).2 =
      (ESP_OK,
        { emac := { emac_dm9051_sample with flow_ctrl_enabled := true },
          dev := { bus := [], clock := [], heap := [], stack := [] },
          trace := [] ++ ev_register_write dm9051_h_sample 0x0A 0 }) :=
  ⟨(set_peer_pause_ability_enables true 1).2.2.1 dm9051_h_sample
      (script_world [BusResp.ok [], BusResp.ok [], BusResp.ok []] []) [] [] [] [] rfl (by decide) rfl,
    (set_peer_pause_ability_enables true 0).2.2.2.1 dm9051_h_sample
      (script_world [BusResp.ok []] []) [] [] (by decide) rfl⟩

/-- C17, counterexample: flow control enabled locally and a peer with pause ability 1, when
the bus lock cannot be taken: `emac_dm9051_set_peer_pause_ability` makes the one failed take
of the lock and no register write, so `FCR_FLOW_ENABLE` is not written to FCR; likewise,
when the lock cannot be taken for the third access, BPTR and FCTR are written and FCR is
not. -/
theorem set_peer_pause_ability_enables_counterexample :
    (emac_dm9051_set_peer_pause_ability dm9051_h_sample scriptEnv 1
        (emac_dm9051_enable_flow_ctrl true (script_world [BusResp.lock_timeout] [])).2).2.trace =
      [Ev.xSemaphoreTake DM9051_SPI_LOCK_TIMEOUT_MS] ∧
    (emac_dm9051_set_peer_pause_ability dm9051_h_sample scriptEnv 1
        (emac_dm9051_enable_flow_ctrl true
          (script_world [BusResp.ok [], BusResp.ok [], BusResp.lock_timeout] [])).2).2.trace =
      ev_register_write dm9051_h_sample dm9051_h_sample.DM9051_BPTR 0x3F ++
        ev_register_write dm9051_h_sample dm9051_h_sample.DM9051_FCTR 0x38 ++
        [Ev.xSemaphoreTake DM9051_SPI_LOCK_TIMEOUT_MS] := by
  constructor <;> decide

/-! ## C18 to C20: receive buffers in the two workers -/

section emits_lemmas
variable {ε σ : Type} (P : Ev → Bool)

theorem calls_between_refl (w : World ε σ) : calls_between P w w :=
  ⟨[], by simp, by simp⟩

theorem calls_between_trans {w w1 w2 : World ε σ} (h1 : calls_between P w w1)
    (h2 : calls_between P w1 w2) : calls_between P w w2 := by
  obtain ⟨l1, e1, p1⟩ := h1
  obtain ⟨l2, e2, p2⟩ := h2
  refine ⟨l1 ++ l2, by rw [e2, e1, List.append_assoc], ?_⟩
  intro ev hev
  rcases List.mem_append.1 hev with h | h
  · exact p1 ev h
  · exact p2 ev h

theorem emits_emit {α : Type} (ev : Ev) (react : σ → α × σ) (h : P ev = true) :
    emits P (emit ev react : Fn ε σ α) := by
  intro w
  exact ⟨[ev], by simp [emit], by simpa using h⟩

theorem emits_pure {α : Type} (a : α) : emits P (Blk.pure a : Blk ε σ α) :=
  fun w => calls_between_refl P w

theorem emits_goto_err {α : Type} (ret : esp_err_t) : emits P (goto_err ret : Blk ε σ α) :=
  fun w => calls_between_refl P w

theorem emits_bind {α β : Type} (m : Blk ε σ α) (f : α → Blk ε σ β) (hm : emits P m)
    (hf : ∀ a, emits P (f a)) : emits P (Blk.bind m f) := by
  intro w
  have h1 := hm w
  unfold Blk.bind
  rcases h : m w with ⟨r, w1⟩
  rw [h] at h1
  cases r with
  | error e => exact h1
  | ok a => exact calls_between_trans P h1 (hf a w1)

theorem emits_call {α : Type} (f : Fn ε σ α) (hf : emits P f) : emits P (call f) := by
  intro w
  have h1 := hf w
  unfold call
  rcases h : f w with ⟨a, w1⟩
  rw [h] at h1
  exact h1

theorem emits_goto_on_error (x : Fn ε σ esp_err_t) (hx : emits P x) :
    emits P (ESP_GOTO_ON_ERROR x) := by
  intro w
  have h1 := hx w
  unfold ESP_GOTO_ON_ERROR
  rcases h : x w with ⟨r, w1⟩
  rw [h] at h1
  cases r <;> exact h1

theorem emits_goto_on_error_out {α : Type} (x : Fn ε σ (esp_err_t × α)) (hx : emits P x) :
    emits P (ESP_GOTO_ON_ERROR_out x) := by
  intro w
  have h1 := hx w
  unfold ESP_GOTO_ON_ERROR_out
  rcases h : x w with ⟨⟨r, a⟩, w1⟩
  rw [h] at h1
  cases r <;> exact h1

theorem emits_goto_on_false (a : Bool) (err_code : esp_err_t) :
    emits P (ESP_GOTO_ON_FALSE a err_code : Blk ε σ Unit) := by
  intro w
  unfold ESP_GOTO_ON_FALSE
  cases a <;> exact calls_between_refl P w

theorem emits_ret (b : Blk ε σ Unit) (hb : emits P b) : emits P (Blk.ret b) := by
  intro w
  have h1 := hb w
  unfold Blk.ret
  rcases h : b w with ⟨r, w1⟩
  rw [h] at h1
  cases r <;> exact h1

end emits_lemmas

section emits_dm9051
variable {σ : Type} (c : dm9051_h) (env : Dm9051Env σ) (P : Ev → Bool)
  (hP : ∀ ev, Ev.is_bus ev = true → P ev = true)
include hP

theorem emits_transfer (t : spi_transaction_t) : emits P (dm9051_transfer env t) := by
  intro w
  rcases hl : env.xSemaphoreTake w.dev with ⟨_ | _, d1⟩
  · refine ⟨[Ev.xSemaphoreTake DM9051_SPI_LOCK_TIMEOUT_MS], ?_, ?_⟩
    · simp [dm9051_transfer, dm9051_lock, emit, hl]
    · intro ev hev
      simp only [List.mem_singleton] at hev
      subst hev
      exact hP _ rfl
  · refine ⟨[Ev.xSemaphoreTake DM9051_SPI_LOCK_TIMEOUT_MS, Ev.spi_device_polling_transmit t,
      Ev.xSemaphoreGive], ?_, ?_⟩
    · rcases hs : env.spi_device_polling_transmit t d1 with ⟨_ | rx, d2⟩ <;>
        simp [dm9051_transfer, dm9051_lock, dm9051_unlock, spi_device_polling_transmit, emit, hl, hs]
    · intro ev hev
      simp only [List.mem_cons, List.mem_singleton, List.not_mem_nil, or_false] at hev
      rcases hev with h | h | h <;> subst h <;> exact hP _ rfl

theorem emits_register_write (reg_addr value : Nat) :
    emits P (dm9051_register_write c env reg_addr value) := by
  intro w
  have h := emits_transfer env P hP
    { cmd := c.DM9051_SPI_WR, addr := reg_addr, length := 8, tx := [value] } w
  unfold dm9051_register_write
  rcases ht : dm9051_transfer env
    { cmd := c.DM9051_SPI_WR, addr := reg_addr, length := 8, tx := [value] } w with ⟨⟨r, o⟩, w1⟩
  rw [ht] at h
  exact h

theorem emits_register_read (reg_addr value : Nat) :
    emits P (dm9051_register_read c env reg_addr value) := by
  intro w
  have h := emits_transfer env P hP
    { cmd := c.DM9051_SPI_RD, addr := reg_addr, length := 8, tx := [] } w
  unfold dm9051_register_read
  rcases ht : dm9051_transfer env
    { cmd := c.DM9051_SPI_RD, addr := reg_addr, length := 8, tx := [] } w with ⟨⟨r, _ | rx⟩, w1⟩ <;>
  · rw [ht] at h
    exact h

theorem emits_memory_read (buffer : List Nat) (len : Nat) :
    emits P (dm9051_memory_read c env buffer len) := by
  intro w
  have h := emits_transfer env P hP
    { cmd := c.DM9051_SPI_RD, addr := c.DM9051_MRCMD, length := len * 8, tx := [] } w
  unfold dm9051_memory_read
  rcases ht : dm9051_transfer env
    { cmd := c.DM9051_SPI_RD, addr := c.DM9051_MRCMD, length := len * 8, tx := [] } w with
    ⟨⟨r, _ | rx⟩, w1⟩ <;>
  · rw [ht] at h
    exact h

theorem emits_memory_peek (buffer : List Nat) (len : Nat) :
    emits P (dm9051_memory_peek c env buffer len) := by
  intro w
  have h := emits_transfer env P hP
    { cmd := c.DM9051_SPI_RD, addr := c.DM9051_MRCMDX1, length := len * 8, tx := [] } w
  unfold dm9051_memory_peek
  rcases ht : dm9051_transfer env
    { cmd := c.DM9051_SPI_RD, addr := c.DM9051_MRCMDX1, length := len * 8, tx := [] } w with
    ⟨⟨r, _ | rx⟩, w1⟩ <;>
  · rw [ht] at h
    exact h

theorem emits_delay (us : Nat) : emits P (esp_rom_delay_us env us : Fn emac_dm9051_t σ Unit) :=
  emits_emit P _ _ (hP _ rfl)

theorem emits_start : emits P (emac_dm9051_start c env) := by
  unfold emac_dm9051_start
  simp only [Blk.bind_def]
  refine emits_ret P _ (emits_bind P _ _ (emits_goto_on_error P _ (emits_register_write c env P hP _ _))
    fun _ => emits_bind P _ _ (emits_goto_on_error P _ (emits_register_write c env P hP _ _))
    fun _ => emits_bind P _ _ (emits_goto_on_error P _ (emits_register_write c env P hP _ _))
    fun _ => emits_bind P _ _ (emits_goto_on_error_out P _ (emits_register_read c env P hP _ _))
    fun _ => emits_goto_on_error P _ (emits_register_write c env P hP _ _))

theorem emits_stop : emits P (emac_dm9051_stop c env) := by
  unfold emac_dm9051_stop
  simp only [Blk.bind_def]
  refine emits_ret P _ (emits_bind P _ _ (emits_goto_on_error P _ (emits_register_write c env P hP _ _))
    fun _ => emits_bind P _ _ (emits_goto_on_error_out P _ (emits_register_read c env P hP _ _))
    fun _ => emits_goto_on_error P _ (emits_register_write c env P hP _ _))

theorem emits_skip_recv_frame (rx_length : Nat) : emits P (dm9051_skip_recv_frame c env rx_length) := by
  unfold dm9051_skip_recv_frame
  simp only [Blk.bind_def]
  refine emits_ret P _ (emits_bind P _ _ (emits_goto_on_error_out P _ (emits_register_read c env P hP _ _))
    fun _ => emits_bind P _ _ (emits_goto_on_error_out P _ (emits_register_read c env P hP _ _))
    fun _ => emits_bind P _ _ (emits_goto_on_error P _ (emits_register_write c env P hP _ _))
    fun _ => emits_goto_on_error P _ (emits_register_write c env P hP _ _))

theorem emits_get_recv_byte_count_body : emits P (dm9051_get_recv_byte_count_body c env) := by
  unfold dm9051_get_recv_byte_count_body
  simp only [Blk.bind_def, Blk.pure_def]
  refine emits_bind P _ _ (emits_goto_on_error_out P _ (emits_register_read c env P hP _ _))
    fun _ => emits_bind P _ _ (emits_goto_on_error_out P _ (emits_register_read c env P hP _ _))
    fun rxbyte => ?_
  split_ifs
  · exact emits_bind P _ _ (emits_goto_on_error P _ (emits_stop c env P hP))
      fun _ => emits_bind P _ _ (emits_goto_on_error P _ (emits_register_write c env P hP _ _))
      fun _ => emits_bind P _ _ (emits_call P _ (emits_delay env P hP _))
      fun _ => emits_bind P _ _ (emits_goto_on_error P _ (emits_start c env P hP))
      fun _ => emits_goto_err P _
  · refine emits_bind P _ _ (emits_goto_on_error_out P _ (emits_memory_peek c env P hP _ _))
      fun header => ?_
    split_ifs
    · exact emits_bind P _ _ (emits_call P _ (emits_skip_recv_frame c env P hP _))
        fun _ => emits_goto_err P _
    · exact emits_pure P _
  · exact emits_pure P _

theorem emits_get_recv_byte_count : emits P (dm9051_get_recv_byte_count c env) := by
  intro w
  have h := emits_get_recv_byte_count_body c env P hP w
  unfold dm9051_get_recv_byte_count
  rcases hb : dm9051_get_recv_byte_count_body c env w with ⟨_ | _, w1⟩ <;>
  · rw [hb] at h
    exact h

theorem emits_flush_recv_frame : emits P (dm9051_flush_recv_frame c env) := by
  unfold dm9051_flush_recv_frame
  simp only [Blk.bind_def]
  exact emits_ret P _ (emits_bind P _ _
    (emits_goto_on_error_out P _ (emits_get_recv_byte_count c env P hP))
    fun _ => emits_goto_on_error P _ (emits_skip_recv_frame c env P hP _))

theorem emits_memory_read_rx (len : Nat) : emits P (dm9051_memory_read_rx c env len) := by
  intro w
  have h := emits_memory_read c env P hP w.emac.rx_buffer len w
  unfold dm9051_memory_read_rx
  rcases hm : dm9051_memory_read c env w.emac.rx_buffer len w with ⟨⟨ret, b⟩, w1⟩
  rw [hm] at h
  exact h

theorem emits_receive_len (buf : heap_block) (length : Nat) :
    emits P (emac_dm9051_receive_len c env buf length) := by
  unfold emac_dm9051_receive_len
  simp only [Blk.bind_def, Blk.pure_def]
  split_ifs
  · refine emits_bind P _ _ (emits_goto_on_error_out P _ (emits_get_recv_byte_count c env P hP))
      fun byte_count => ?_
    split_ifs <;> exact emits_pure P _
  · exact emits_pure P _

theorem emits_receive (buf : heap_block) (length : Nat) :
    emits P (emac_dm9051_receive c env buf length) := by
  intro w
  unfold emac_dm9051_receive
  have h0 : calls_between P w (set_packets_remain false w).2 :=
    ⟨[], by simp [set_packets_remain], by simp⟩
  rcases hs : set_packets_remain false w with ⟨u, w0⟩
  rw [hs] at h0
  simp only []
  have h1 := emits_receive_len c env P hP buf length w0
  rcases hl : emac_dm9051_receive_len c env buf length w0 with ⟨_ | _ | ⟨copy_len, byte_count⟩, w1⟩
  · rw [hl] at h1
    exact calls_between_trans P h0 h1
  · rw [hl] at h1
    exact calls_between_trans P h0 h1
  · rw [hl] at h1
    have h01 := calls_between_trans P h0 h1
    simp only []
    have h2 := emits_memory_read_rx c env P hP ((byte_count + DM9051_RX_HDR_SIZE) % 65536) w1
    rcases hm : dm9051_memory_read_rx c env ((byte_count + DM9051_RX_HDR_SIZE) % 65536) w1 with ⟨r, w2⟩
    rw [hm] at h2
    have h02 := calls_between_trans P h01 h2
    have h3 := emits_register_read c env P hP c.DM9051_MRCMDX 0 w2
    rcases hr : dm9051_register_read c env c.DM9051_MRCMDX 0 w2 with ⟨⟨r3, rxbyte⟩, w3⟩
    rw [hr] at h3
    have h03 := calls_between_trans P h02 h3
    have h4 := emits_register_read c env P hP c.DM9051_MRCMDX rxbyte w3
    rcases hr4 : dm9051_register_read c env c.DM9051_MRCMDX rxbyte w3 with ⟨⟨r4, rxbyte4⟩, w4⟩
    rw [hr4] at h4
    have h04 := calls_between_trans P h03 h4
    cases r <;> simp only [] <;> try exact h02
    rw [hr]
    cases r3 <;> simp only [] <;> try exact h03
    rw [hr4]
    cases r4 <;> simp only [] <;> exact h04

theorem emits_alloc_recv_buf (hm : ∀ n, P (Ev.malloc n) = true) (length : Nat) :
    emits P (dm9051_alloc_recv_buf c env length) := by
  intro w
  have h1 := emits_get_recv_byte_count c env P hP w
  unfold dm9051_alloc_recv_buf
  rcases hb : dm9051_get_recv_byte_count c env w with ⟨⟨r, byte_count⟩, w1⟩
  rw [hb] at h1
  cases r <;> simp only [] <;> try exact h1
  by_cases h0 : byte_count = 0
  · rw [if_pos h0]
    exact h1
  · rw [if_neg h0]
    generalize ((if (byte_count + 65536 - ETH_CRC_LEN) % 65536 > length then length
      else (byte_count + 65536 - ETH_CRC_LEN) % 65536) % 65536) = copy_len
    by_cases hc : copy_len ≥ ETH_MIN_PACKET_SIZE - ETH_CRC_LEN
    · rw [if_pos hc]
      have h2 : calls_between P w1 (malloc env copy_len w1).2 := emits_emit P _ _ (hm _) w1
      rcases hmal : malloc env copy_len w1 with ⟨_ | _, w2⟩ <;>
      · rw [hmal] at h2
        exact calls_between_trans P h1 h2
    · rw [if_neg hc]
      exact h1

end emits_dm9051

/-- A non-null buffer comes from `dm9051_alloc_recv_buf` only together with `ESP_OK`. -/
theorem alloc_recv_buf_some {σ : Type} (c : dm9051_h) (env : Dm9051Env σ) (length : Nat)
    (w : World emac_dm9051_t σ) (buffer : heap_block)
    (h : (dm9051_alloc_recv_buf c env length w).1.2.1 = some buffer) :
    (dm9051_alloc_recv_buf c env length w).1.1 = ESP_OK := by
  unfold dm9051_alloc_recv_buf at h ⊢
  rcases hb : dm9051_get_recv_byte_count c env w with ⟨⟨r, byte_count⟩, w1⟩
  rw [hb] at h
  cases r with
  | ESP_OK =>
    simp only [] at h ⊢
    by_cases h0 : byte_count = 0
    · rw [if_pos h0]
    · rw [if_neg h0] at h ⊢
      revert h
      generalize ((if (byte_count + 65536 - ETH_CRC_LEN) % 65536 > length then length
        else (byte_count + 65536 - ETH_CRC_LEN) % 65536) % 65536) = copy_len
      intro h
      by_cases hc : copy_len ≥ ETH_MIN_PACKET_SIZE - ETH_CRC_LEN
      · rw [if_pos hc] at h ⊢
        rcases hmal : malloc env copy_len w1 with ⟨_ | _, w2⟩
        · rw [hmal] at h
          simp at h
        · rfl
      · rw [if_neg hc] at h
        simp at h
  | _ => simp at h

/-- What a round of `emac_dm9051_task` does once `dm9051_alloc_recv_buf` has delivered a
buffer, by the outcome of `emac_dm9051_receive`. -/
theorem task_round_with_buffer {σ : Type} (c : dm9051_h) (env : Dm9051Env σ)
    (w w1 w2 : World emac_dm9051_t σ) (buffer b : heap_block) (frame_len buf_len : Nat) (r : esp_err_t)
    (ha : dm9051_alloc_recv_buf c env ETH_MAX_PACKET_SIZE w = ((ESP_OK, some buffer, frame_len), w1))
    (hr : emac_dm9051_receive c env buffer DM9051_ETH_MAC_RX_BUF_SIZE_AUTO w1 = ((r, b, buf_len), w2)) :
    (r = ESP_OK → buf_len = 0 →
      emac_dm9051_task_round c env w = free env b (dm9051_flush_recv_frame c env w2).2) ∧
    (r = ESP_OK → buf_len ≠ 0 → frame_len > buf_len →
      emac_dm9051_task_round c env w = free env b w2) ∧
    (r = ESP_OK → buf_len ≠ 0 → ¬ frame_len > buf_len →
      emac_dm9051_task_round c env w = ((), (stack_input env b buf_len w2).2)) ∧
    (r ≠ ESP_OK →
      emac_dm9051_task_round c env w = free env b (dm9051_flush_recv_frame c env w2).2) := by
  unfold emac_dm9051_task_round
  rw [ha]
  simp only []
  rw [hr]
  cases r <;> simp +contextual

theorem bus_not_handoff (ev : Ev) (h : Ev.is_bus ev = true) : (!Ev.is_handoff ev) = true := by
  cases ev <;> simp [Ev.is_bus, Ev.is_handoff] at h ⊢

theorem free_trace {σ : Type} (env : Dm9051Env σ) (b : heap_block) (w : World emac_dm9051_t σ) :
    (free env b w).2.trace = w.trace ++ [Ev.free b] := by
  simp [free, emit]

theorem stack_input_trace {σ : Type} (env : Dm9051Env σ) (b : heap_block) (len : Nat)
    (w : World emac_dm9051_t σ) :
    (stack_input env b len w).2.trace = w.trace ++ [Ev.stack_input b len] := by
  simp [stack_input, emit]

/-- A round of `emac_dm9051_task` in which `dm9051_alloc_recv_buf` delivers a buffer: the
calls of the round are calls that are neither `free` nor `stack_input`, followed by one
`free` or one `stack_input` of the buffer as `emac_dm9051_receive` left it. -/
theorem task_round_handoff {σ : Type} (c : dm9051_h) (env : Dm9051Env σ)
    (w : World emac_dm9051_t σ) (buffer : heap_block)
    (h : (dm9051_alloc_recv_buf c env ETH_MAX_PACKET_SIZE w).1.2.1 = some buffer) :
    ∃ pre, (∀ ev ∈ pre, Ev.is_handoff ev = false) ∧
      ((emac_dm9051_task_round c env w).2.trace = w.trace ++ pre ++
          [Ev.free (emac_dm9051_receive c env buffer DM9051_ETH_MAC_RX_BUF_SIZE_AUTO
            (dm9051_alloc_recv_buf c env ETH_MAX_PACKET_SIZE w).2).1.2.1] ∨
        ∃ len, (emac_dm9051_task_round c env w).2.trace = w.trace ++ pre ++
          [Ev.stack_input (emac_dm9051_receive c env buffer DM9051_ETH_MAC_RX_BUF_SIZE_AUTO
            (dm9051_alloc_recv_buf c env ETH_MAX_PACKET_SIZE w).2).1.2.1 len]) := by
  have hok := alloc_recv_buf_some c env ETH_MAX_PACKET_SIZE w buffer h
  have hA := emits_alloc_recv_buf c env (fun ev => !Ev.is_handoff ev) bus_not_handoff
    (fun _ => rfl) ETH_MAX_PACKET_SIZE w
  rcases ha : dm9051_alloc_recv_buf c env ETH_MAX_PACKET_SIZE w with ⟨⟨r0, ob, frame_len⟩, w1⟩
  rw [ha] at h hok hA
  simp only at h hok hA
  subst h hok
  have hR := emits_receive c env (fun ev => !Ev.is_handoff ev) bus_not_handoff buffer
    DM9051_ETH_MAC_RX_BUF_SIZE_AUTO w1
  rcases hr : emac_dm9051_receive c env buffer DM9051_ETH_MAC_RX_BUF_SIZE_AUTO w1 with
    ⟨⟨r, b, buf_len⟩, w2⟩
  rw [hr] at hR
  simp only at hR ⊢
  have hF := emits_flush_recv_frame c env (fun ev => !Ev.is_handoff ev) bus_not_handoff w2
  obtain ⟨c1, c2, c3, c4⟩ := task_round_with_buffer c env w w1 w2 buffer b frame_len buf_len r ha hr
  obtain ⟨l2, hl2, hp2⟩ := calls_between_trans _ hA hR
  obtain ⟨l3, hl3, hp3⟩ := calls_between_trans _ (calls_between_trans _ hA hR) hF
  have hp2' : ∀ ev ∈ l2, Ev.is_handoff ev = false := fun ev hev => by simpa using hp2 ev hev
  have hp3' : ∀ ev ∈ l3, Ev.is_handoff ev = false := fun ev hev => by simpa using hp3 ev hev
  by_cases hrok : r = ESP_OK
  · by_cases h0 : buf_len = 0
    · exact ⟨l3, hp3', Or.inl (by rw [c1 hrok h0, free_trace, hl3])⟩
    · by_cases ht : frame_len > buf_len
      · exact ⟨l2, hp2', Or.inl (by rw [c2 hrok h0 ht, free_trace, hl2])⟩
      · exact ⟨l2, hp2', Or.inr ⟨buf_len, by rw [c3 hrok h0 ht]; simp only []; rw [stack_input_trace, hl2]⟩⟩
  · exact ⟨l3, hp3', Or.inl (by rw [c4 hrok, free_trace, hl3])⟩

/-- A round of `emac_esp32_rx_task` in which `emac_hal_alloc_recv_buf` delivers a buffer:
the calls of the round are the allocation, `emac_hal_receive_frame` on the buffer, one
`free` or one `stack_input` of the buffer as the HAL left it, and after that only calls
that take no buffer. -/
theorem rx_task_round_handoff {σ : Type} (hal : Esp32Env σ) (flow : Bool)
    (w : World emac_esp32_t σ) (buffer : heap_block) (frame_len : Nat)
    (h : (hal.emac_hal_alloc_recv_buf w.dev).1 = (some buffer, frame_len)) :
    ∃ post, (∀ ev ∈ post, Ev.buffer ev = none) ∧
      ((emac_esp32_rx_task_round hal flow w).2.trace = w.trace ++
          [Ev.emac_hal_alloc_recv_buf, Ev.emac_hal_receive_frame buffer EMAC_HAL_BUF_SIZE_AUTO] ++
          [Ev.free (hal.emac_hal_receive_frame buffer EMAC_HAL_BUF_SIZE_AUTO w.emac.frames_remain
            w.emac.free_rx_descriptor (hal.emac_hal_alloc_recv_buf w.dev).2).1.2.1] ++ post ∨
        ∃ len, (emac_esp32_rx_task_round hal flow w).2.trace = w.trace ++
          [Ev.emac_hal_alloc_recv_buf, Ev.emac_hal_receive_frame buffer EMAC_HAL_BUF_SIZE_AUTO] ++
          [Ev.stack_input (hal.emac_hal_receive_frame buffer EMAC_HAL_BUF_SIZE_AUTO
            w.emac.frames_remain w.emac.free_rx_descriptor
            (hal.emac_hal_alloc_recv_buf w.dev).2).1.2.1 len] ++ post) := by
  have key : ∃ post0, (∀ ev ∈ post0, Ev.buffer ev = none) ∧
      ((emac_esp32_rx_task_frame hal w).2.trace = w.trace ++
          [Ev.emac_hal_alloc_recv_buf, Ev.emac_hal_receive_frame buffer EMAC_HAL_BUF_SIZE_AUTO] ++
          [Ev.free (hal.emac_hal_receive_frame buffer EMAC_HAL_BUF_SIZE_AUTO w.emac.frames_remain
            w.emac.free_rx_descriptor (hal.emac_hal_alloc_recv_buf w.dev).2).1.2.1] ++ post0 ∨
        ∃ len, (emac_esp32_rx_task_frame hal w).2.trace = w.trace ++
          [Ev.emac_hal_alloc_recv_buf, Ev.emac_hal_receive_frame buffer EMAC_HAL_BUF_SIZE_AUTO] ++
          [Ev.stack_input (hal.emac_hal_receive_frame buffer EMAC_HAL_BUF_SIZE_AUTO
            w.emac.frames_remain w.emac.free_rx_descriptor
            (hal.emac_hal_alloc_recv_buf w.dev).2).1.2.1 len] ++ post0) := by
    rcases ha : hal.emac_hal_alloc_recv_buf w.dev with ⟨⟨ob, fl⟩, d1⟩
    rw [ha] at h
    simp only [Prod.mk.injEq] at h
    obtain ⟨rfl, rfl⟩ := h
    rcases hr : hal.emac_hal_receive_frame buffer EMAC_HAL_BUF_SIZE_AUTO w.emac.frames_remain
      w.emac.free_rx_descriptor d1 with ⟨⟨recv_len, b, fr, fd⟩, d2⟩
    by_cases h0 : recv_len = 0
    · exact ⟨[Ev.emac_hal_flush_recv_frame], by simp [Ev.buffer], Or.inl (by
        simp [emac_esp32_rx_task_frame, emac_hal_alloc_recv_buf, emac_hal_receive_frame,
          emac_hal_flush_recv_frame, esp32_free, emit, ha, hr, h0])⟩
    · by_cases h1 : fl > recv_len
      · exact ⟨[], by simp, Or.inl (by
          simp [emac_esp32_rx_task_frame, emac_hal_alloc_recv_buf, emac_hal_receive_frame,
            esp32_free, emit, ha, hr, h0, h1])⟩
      · exact ⟨[], by simp, Or.inr ⟨recv_len, by
          simp [emac_esp32_rx_task_frame, emac_hal_alloc_recv_buf, emac_hal_receive_frame,
            esp32_stack_input, emit, ha, hr, h0, h1]⟩⟩
  obtain ⟨post0, hpost0, hfr⟩ := key
  cases flow with
  | false =>
    refine ⟨post0, hpost0, ?_⟩
    simpa [emac_esp32_rx_task_round] using hfr
  | true =>
    have ht := (rx_task_flow_ctrl_trace hal (emac_esp32_rx_task_frame hal w).2).1
    have hround : emac_esp32_rx_task_round hal true w =
        emac_esp32_rx_task_flow_ctrl hal (emac_esp32_rx_task_frame hal w).2 := by
      simp [emac_esp32_rx_task_round]
    have hflow : ∃ t, (emac_esp32_rx_task_flow_ctrl hal (emac_esp32_rx_task_frame hal w).2).2.trace =
        (emac_esp32_rx_task_frame hal w).2.trace ++ t ∧ ∀ ev ∈ t, Ev.buffer ev = none :=
      ⟨_, ht, by split_ifs <;> simp [Ev.buffer]⟩
    obtain ⟨t, ht1, ht2⟩ := hflow
    refine ⟨post0 ++ t, ?_, ?_⟩
    · intro ev hev
      rcases List.mem_append.1 hev with h | h
      · exact hpost0 ev h
      · exact ht2 ev h
    · rw [hround, ht1]
      rcases hfr with hf | ⟨len, hf⟩
      · exact Or.inl (by rw [hf]; simp)
      · exact Or.inr ⟨len, by rw [hf]; simp⟩

/-- C18: in every environment, a round of either receive worker in which a non-null
receive buffer was obtained makes exactly one call that ends the driver's ownership of
the buffer, either `free` or `stack_input`, on the buffer as the receive function left it.
In `emac_dm9051_task` every call before it is neither `free` nor `stack_input`, and it is
the last call of the round. In `emac_esp32_rx_task` the calls before it are the allocation
and `emac_hal_receive_frame`, and every call after it takes no buffer (they are
`emac_hal_flush_recv_frame` and `emac_ll_pause_frame_enable`). -/
theorem rx_buffer_single_owner :
    (∀ (σ : Type) (c : dm9051_h) (env : Dm9051Env σ) (w : World emac_dm9051_t σ) (buffer : heap_block),
      (dm9051_alloc_recv_buf c env ETH_MAX_PACKET_SIZE w).1.2.1 = some buffer →
      ∃ pre, (∀ ev ∈ pre, Ev.is_handoff ev = false) ∧
        ((emac_dm9051_task_round c env w).2.trace = w.trace ++ pre ++
            [Ev.free (emac_dm9051_receive c env buffer DM9051_ETH_MAC_RX_BUF_SIZE_AUTO
              (dm9051_alloc_recv_buf c env ETH_MAX_PACKET_SIZE w).2).1.2.1] ∨
          ∃ len, (emac_dm9051_task_round c env w).2.trace = w.trace ++ pre ++
            [Ev.stack_input (emac_dm9051_receive c env buffer DM9051_ETH_MAC_RX_BUF_SIZE_AUTO
              (dm9051_alloc_recv_buf c env ETH_MAX_PACKET_SIZE w).2).1.2.1 len])) ∧
    (∀ (σ : Type) (hal : Esp32Env σ) (flow : Bool) (w : World emac_esp32_t σ) (buffer : heap_block)
      (frame_len : Nat),
      (hal.emac_hal_alloc_recv_buf w.dev).1 = (some buffer, frame_len) →
      ∃ post, (∀ ev ∈ post, Ev.buffer ev = none) ∧
        ((emac_esp32_rx_task_round hal flow w).2.trace = w.trace ++
            [Ev.emac_hal_alloc_recv_buf, Ev.emac_hal_receive_frame buffer EMAC_HAL_BUF_SIZE_AUTO] ++
            [Ev.free (hal.emac_hal_receive_frame buffer EMAC_HAL_BUF_SIZE_AUTO w.emac.frames_remain
              w.emac.free_rx_descriptor (hal.emac_hal_alloc_recv_buf w.dev).2).1.2.1] ++ post ∨
          ∃ len, (emac_esp32_rx_task_round hal flow w).2.trace = w.trace ++
            [Ev.emac_hal_alloc_recv_buf, Ev.emac_hal_receive_frame buffer EMAC_HAL_BUF_SIZE_AUTO] ++
            [Ev.stack_input (hal.emac_hal_receive_frame buffer EMAC_HAL_BUF_SIZE_AUTO
              w.emac.frames_remain w.emac.free_rx_descriptor
              (hal.emac_hal_alloc_recv_buf w.dev).2).1.2.1 len] ++ post)) :=
  ⟨fun _ c env w buffer h => task_round_handoff c env w buffer h,
    fun _ hal flow w buffer frame_len h => rx_task_round_handoff hal flow w buffer frame_len h⟩

/-- C18, witness: a DM9051 round on a pending frame of 64 bytes, for which a buffer of 60
bytes is obtained and whose block read then fails for want of a bus answer. -/
theorem rx_buffer_single_owner_witness :
    (∃ pre, (∀ ev ∈ pre, Ev.is_handoff ev = false) ∧
      ((emac_dm9051_task_round dm9051_h_sample scriptEnv
          (script_world [BusResp.ok [1], BusResp.ok [1], BusResp.ok [1, 0, 64, 0]] [true])).2.trace =
          [] ++ pre ++
            [Ev.free (emac_dm9051_receive dm9051_h_sample scriptEnv
              { size := 60, info := { copy_len := 60, byte_cnt := 64 }, data := [] }
              DM9051_ETH_MAC_RX_BUF_SIZE_AUTO
              (dm9051_alloc_recv_buf dm9051_h_sample scriptEnv ETH_MAX_PACKET_SIZE
                (script_world [BusResp.ok [1], BusResp.ok [1], BusResp.ok [1, 0, 64, 0]] [true])).2).1.2.1] ∨
        ∃ len, (emac_dm9051_task_round dm9051_h_sample scriptEnv
          (script_world [BusResp.ok [1], BusResp.ok [1], BusResp.ok [1, 0, 64, 0]] [true])).2.trace =
          [] ++ pre ++
            [Ev.stack_input (emac_dm9051_receive dm9051_h_sample scriptEnv
              { size := 60, info := { copy_len := 60, byte_cnt := 64 }, data := [] }
              DM9051_ETH_MAC_RX_BUF_SIZE_AUTO
              (dm9051_alloc_recv_buf dm9051_h_sample scriptEnv ETH_MAX_PACKET_SIZE
                (script_world [BusResp.ok [1], BusResp.ok [1], BusResp.ok [1, 0, 64, 0]] [true])).2).1.2.1
              len])) :=
  rx_buffer_single_owner.1 Script dm9051_h_sample scriptEnv
    (script_world [BusResp.ok [1], BusResp.ok [1], BusResp.ok [1, 0, 64, 0]] [true])
    { size := 60, info := { copy_len := 60, byte_cnt := 64 }, data := [] } (by decide)

/-- C19, as the code has it. In `emac_dm9051_task`, once a buffer has been obtained: when
`emac_dm9051_receive` returns `ESP_OK` with length 0, or returns an error, the round runs
`dm9051_flush_recv_frame` and then frees the buffer; when the received length is not 0
and smaller than the frame length the round only frees the buffer; otherwise its last
step is the call of `stack_input`, whose result is not looked at. In `emac_esp32_rx_task`,
once a buffer has been obtained: when `emac_hal_receive_frame` returns 0 the buffer is
freed and `emac_hal_flush_recv_frame` is called; when it returns a length that is not 0
and smaller than the frame length the buffer is only freed; otherwise the buffer goes to
`stack_input` and nothing follows in front of the flow-control check, whatever
`stack_input` returns. -/
theorem rx_worker_undelivered_frame :
    (∀ (σ : Type) (c : dm9051_h) (env : Dm9051Env σ) (w w1 w2 : World emac_dm9051_t σ)
      (buffer b : heap_block) (frame_len buf_len : Nat) (r : esp_err_t),
      dm9051_alloc_recv_buf c env ETH_MAX_PACKET_SIZE w = ((ESP_OK, some buffer, frame_len), w1) →
      emac_dm9051_receive c env buffer DM9051_ETH_MAC_RX_BUF_SIZE_AUTO w1 = ((r, b, buf_len), w2) →
      ((r = ESP_OK ∧ buf_len = 0 ∨ r ≠ ESP_OK) →
        emac_dm9051_task_round c env w = free env b (dm9051_flush_recv_frame c env w2).2) ∧
      (r = ESP_OK → buf_len ≠ 0 → frame_len > buf_len →
        emac_dm9051_task_round c env w = free env b w2) ∧
      (r = ESP_OK → buf_len ≠ 0 → ¬ frame_len > buf_len →
        emac_dm9051_task_round c env w = ((), (stack_input env b buf_len w2).2))) ∧
    (∀ (σ : Type) (hal : Esp32Env σ) (w : World emac_esp32_t σ) (buffer b : heap_block)
      (frame_len recv_len fr fd : Nat) (d1 d2 : σ),
      hal.emac_hal_alloc_recv_buf w.dev = ((some buffer, frame_len), d1) →
      hal.emac_hal_receive_frame buffer EMAC_HAL_BUF_SIZE_AUTO w.emac.frames_remain
        w.emac.free_rx_descriptor d1 = ((recv_len, b, fr, fd), d2) →
      (recv_len = 0 →
        (emac_esp32_rx_task_frame hal w).2.trace = w.trace ++
          [Ev.emac_hal_alloc_recv_buf, Ev.emac_hal_receive_frame buffer EMAC_HAL_BUF_SIZE_AUTO,
            Ev.free b, Ev.emac_hal_flush_recv_frame]) ∧
      (recv_len ≠ 0 → frame_len > recv_len →
        (emac_esp32_rx_task_frame hal w).2.trace = w.trace ++
          [Ev.emac_hal_alloc_recv_buf, Ev.emac_hal_receive_frame buffer EMAC_HAL_BUF_SIZE_AUTO,
            Ev.free b]) ∧
      (recv_len ≠ 0 → ¬ frame_len > recv_len →
        (emac_esp32_rx_task_frame hal w).2.trace = w.trace ++
          [Ev.emac_hal_alloc_recv_buf, Ev.emac_hal_receive_frame buffer EMAC_HAL_BUF_SIZE_AUTO,
            Ev.stack_input b recv_len])) := by
  refine ⟨?_, ?_⟩
  · intro σ c env w w1 w2 buffer b frame_len buf_len r ha hr
    obtain ⟨c1, c2, c3, c4⟩ := task_round_with_buffer c env w w1 w2 buffer b frame_len buf_len r ha hr
    refine ⟨?_, c2, c3⟩
    rintro (⟨h1, h2⟩ | h)
    · exact c1 h1 h2
    · exact c4 h
  · intro σ hal w buffer b frame_len recv_len fr fd d1 d2 ha hr
    refine ⟨?_, ?_, ?_⟩
    · intro h0
      simp [emac_esp32_rx_task_frame, emac_hal_alloc_recv_buf, emac_hal_receive_frame,
        emac_hal_flush_recv_frame, esp32_free, emit, ha, hr, h0]
    · intro h0 h1
      simp [emac_esp32_rx_task_frame, emac_hal_alloc_recv_buf, emac_hal_receive_frame,
        esp32_free, emit, ha, hr, h0, h1]
    · intro h0 h1
      simp [emac_esp32_rx_task_frame, emac_hal_alloc_recv_buf, emac_hal_receive_frame,
        esp32_stack_input, emit, ha, hr, h0, h1]

/-- C19, witness: the HAL copies a frame with length 0 into the buffer; the ESP32 worker
frees the buffer and flushes the frame. -/
theorem rx_worker_undelivered_frame_witness :
    (emac_esp32_rx_task_frame scriptHal
      (esp32_script_world (emac_esp32_sample 5 1) [(some heap_block_sample, 60)]
        [(0, [], 1, 5)] [(0, 5)])).2.trace =
      [] ++ [Ev.emac_hal_alloc_recv_buf, Ev.emac_hal_receive_frame heap_block_sample EMAC_HAL_BUF_SIZE_AUTO,
        Ev.free heap_block_sample, Ev.emac_hal_flush_recv_frame] :=
  (rx_worker_undelivered_frame.2 Esp32Script scriptHal
    (esp32_script_world (emac_esp32_sample 5 1) [(some heap_block_sample, 60)]
      [(0, [], 1, 5)] [(0, 5)])
    heap_block_sample heap_block_sample 60 0 1 5
    { mii_busy := [], phy_data := [], alloc := [], recv := [(0, [], 1, 5)], flush := [(0, 5)] }
    { mii_busy := [], phy_data := [], alloc := [], recv := [], flush := [(0, 5)] }
    rfl rfl).1 rfl

/-- C19, counterexample: an ESP32 round on a frame of 100 bytes of which the HAL copies 50
frees the buffer and makes no call of `emac_hal_flush_recv_frame`; a DM9051 round on a frame
of 60 bytes whose `stack_input` returns `ESP_FAIL` ends with that call: the buffer is not
freed and the read pointer is not written. -/
theorem rx_worker_undelivered_frame_counterexample :
    (emac_esp32_rx_task_round scriptHal false
      (esp32_script_world (emac_esp32_sample 5 1) [(some heap_block_sample, 100)]
        [(50, [9], 0, 5)] [(0, 5)])).2.trace =
      [Ev.emac_hal_alloc_recv_buf, Ev.emac_hal_receive_frame heap_block_sample 0,
        Ev.free { heap_block_sample with data := [9] }] ∧
    (emac_dm9051_task_round dm9051_h_sample scriptEnv
      { emac := emac_dm9051_sample,
        dev := { bus := [BusResp.ok [1], BusResp.ok [1], BusResp.ok [1, 0, 64, 0],
                   BusResp.ok ([1, 0, 64, 0] ++ List.replicate 64 7), BusResp.ok [0], BusResp.ok [0]],
                 clock := [], heap := [true], stack := [ESP_FAIL] },
        trace := [] }).2.trace =
      ev_register_read dm9051_h_sample 0x70 ++ ev_register_read dm9051_h_sample 0x70 ++
        ev_memory_peek dm9051_h_sample 4 ++ [Ev.malloc 60] ++
        ev_memory_read dm9051_h_sample 68 ++
        ev_register_read dm9051_h_sample 0x70 ++ ev_register_read dm9051_h_sample 0x70 ++
        [Ev.stack_input { size := 60, info := { copy_len := 60, byte_cnt := 64 },
                          data := List.replicate 60 7 } 60] ∧
    (emac_dm9051_task_round dm9051_h_sample scriptEnv
      { emac := emac_dm9051_sample,
        dev := { bus := [BusResp.ok [1], BusResp.ok [1], BusResp.ok [1, 0, 64, 0],
                   BusResp.ok ([1, 0, 64, 0] ++ List.replicate 64 7), BusResp.ok [0], BusResp.ok [0]],
                 clock := [], heap := [true], stack := [ESP_FAIL] },
        trace := [] }).2.dev = { bus := [], clock := [], heap := [], stack := [] } := by
  refine ⟨?_, ?_, ?_⟩
  · decide
  · decide
  · decide

/-! ### C20: a frame that is too short stays pending -/

/-- Allocation for a pending frame of `4 ≤ B < 64` bytes with status clear: no buffer,
`ESP_ERR_INVALID_SIZE`, and three read transactions on the bus. -/
theorem alloc_recv_buf_invalid_size (c : dm9051_h) (e : emac_dm9051_t) (tail : List BusResp)
    (cl : List Int) (hp : List Bool) (stk : List esp_err_t) (tr : List Ev)
    (ra : List Nat) (fl st lo hi : Nat)
    (hfl : fl < 256) (hst : st < 256) (hlo : lo < 256) (hhi : hi < 256)
    (hstatus : st &&& 0xBF = 0) (h4 : 4 ≤ lo + 256 * hi) (h64 : lo + 256 * hi < 64) :
    dm9051_alloc_recv_buf c scriptEnv ETH_MAX_PACKET_SIZE
        { emac := e,
          dev := { bus := BusResp.ok ra :: BusResp.ok [1] :: BusResp.ok [fl, st, lo, hi] :: tail,
                   clock := cl, heap := hp, stack := stk },
          trace := tr } =
      ((ESP_ERR_INVALID_SIZE, none, lo + 256 * hi - 4),
        { emac := e, dev := { bus := tail, clock := cl, heap := hp, stack := stk },
          trace := tr ++ ev_register_read c c.DM9051_MRCMDX ++ ev_register_read c c.DM9051_MRCMDX ++
            ev_memory_peek c 4 }) := by
  have h0 : ¬ lo + 256 * hi = 0 := by omega
  have h1 : (lo + 256 * hi + 65532) % 65536 = lo + 256 * hi - 4 := by omega
  have h2 : (if 1522 < lo + 256 * hi - 4 then 1522 else lo + 256 * hi - 4) % 65536 =
      lo + 256 * hi - 4 := by
    split <;> omega
  have h3 : ¬ 60 ≤ lo + 256 * hi - 4 := by omega
  simp only [dm9051_alloc_recv_buf, get_recv_byte_count_valid c e tail cl hp stk tr ra fl st lo hi
    hfl hst hlo hhi hstatus, ETH_MAX_PACKET_SIZE, ETH_MIN_PACKET_SIZE, ETH_CRC_LEN]
  simp only [h0, if_false, show lo + 256 * hi + 65536 - 4 = lo + 256 * hi + 65532 by omega, h1, gt_iff_lt,
    h2, ge_iff_le, show 64 - 4 = 60 by rfl, h3]

/-- A round of `emac_dm9051_task` on a pending frame of `4 ≤ B < 64` bytes makes the three
read transactions of the allocation and nothing else. -/
theorem task_round_invalid_size (c : dm9051_h) (e : emac_dm9051_t) (tail : List BusResp)
    (cl : List Int) (hp : List Bool) (stk : List esp_err_t) (tr : List Ev)
    (ra : List Nat) (fl st lo hi : Nat)
    (hfl : fl < 256) (hst : st < 256) (hlo : lo < 256) (hhi : hi < 256)
    (hstatus : st &&& 0xBF = 0) (h4 : 4 ≤ lo + 256 * hi) (h64 : lo + 256 * hi < 64) :
    emac_dm9051_task_round c scriptEnv
        { emac := e,
          dev := { bus := BusResp.ok ra :: BusResp.ok [1] :: BusResp.ok [fl, st, lo, hi] :: tail,
                   clock := cl, heap := hp, stack := stk },
          trace := tr } =
      ((), { emac := e, dev := { bus := tail, clock := cl, heap := hp, stack := stk },
             trace := tr ++ ev_register_read c c.DM9051_MRCMDX ++ ev_register_read c c.DM9051_MRCMDX ++
               ev_memory_peek c 4 }) := by
  simp only [emac_dm9051_task_round, alloc_recv_buf_invalid_size c e tail cl hp stk tr ra fl st lo hi
    hfl hst hlo hhi hstatus h4 h64]

/-- C20, the code at the failing input: for a pending frame whose header has the status clear
and a length `4 ≤ B < 64`, every bus access succeeding, a round of `emac_dm9051_task` consists
of the two MRCMDX reads and the header peek of `dm9051_alloc_recv_buf`, which returns
`ESP_ERR_INVALID_SIZE`: the round writes no register (neither MRRH and MRRL nor the reset
of the RX pointer), so the read pointer stays on the frame. With `packets_remain` set and a
controller that goes on answering with the same header, the drain loop examines the same
frame in every round and is not over after `n` rounds, for every `n`. -/
theorem rx_task_invalid_size_not_flushed (c : dm9051_h) (e : emac_dm9051_t)
    (cl : List Int) (hp : List Bool) (stk : List esp_err_t) (ra : List Nat) (fl st lo hi : Nat)
    (hfl : fl < 256) (hst : st < 256) (hlo : lo < 256) (hhi : hi < 256)
    (hstatus : st &&& 0xBF = 0) (h4 : 4 ≤ lo + 256 * hi) (h64 : lo + 256 * hi < 64) :
    (∀ (tail : List BusResp) (tr : List Ev),
      (dm9051_alloc_recv_buf c scriptEnv ETH_MAX_PACKET_SIZE
        { emac := e,
          dev := { bus := BusResp.ok ra :: BusResp.ok [1] :: BusResp.ok [fl, st, lo, hi] :: tail,
                   clock := cl, heap := hp, stack := stk },
          trace := tr }).1 = (ESP_ERR_INVALID_SIZE, none, lo + 256 * hi - 4) ∧
      emac_dm9051_task_round c scriptEnv
        { emac := e,
          dev := { bus := BusResp.ok ra :: BusResp.ok [1] :: BusResp.ok [fl, st, lo, hi] :: tail,
                   clock := cl, heap := hp, stack := stk },
          trace := tr } =
        ((), { emac := e, dev := { bus := tail, clock := cl, heap := hp, stack := stk },
               trace := tr ++ ev_register_read c c.DM9051_MRCMDX ++
                 ev_register_read c c.DM9051_MRCMDX ++ ev_memory_peek c 4 })) ∧
    (e.packets_remain = true →
      ∀ (n : Nat) (tail : List BusResp) (tr : List Ev),
        emac_dm9051_task_drain c scriptEnv n
          { emac := e,
            dev := { bus := bus_repeat n [BusResp.ok ra, BusResp.ok [1], BusResp.ok [fl, st, lo, hi]] ++ tail,
                     clock := cl, heap := hp, stack := stk },
            trace := tr } = none) := by
  refine ⟨fun tail tr => ⟨?_, ?_⟩, ?_⟩
  · rw [alloc_recv_buf_invalid_size c e tail cl hp stk tr ra fl st lo hi hfl hst hlo hhi hstatus h4 h64]
  · exact task_round_invalid_size c e tail cl hp stk tr ra fl st lo hi hfl hst hlo hhi hstatus h4 h64
  · intro hrem n
    induction n with
    | zero =>
      intro tail tr
      simp [emac_dm9051_task_drain]
    | succ n ih =>
      intro tail tr
      have hbus : bus_repeat (n + 1) [BusResp.ok ra, BusResp.ok [1], BusResp.ok [fl, st, lo, hi]] ++ tail =
          BusResp.ok ra :: BusResp.ok [1] :: BusResp.ok [fl, st, lo, hi] ::
            (bus_repeat n [BusResp.ok ra, BusResp.ok [1], BusResp.ok [fl, st, lo, hi]] ++ tail) := by
        simp [bus_repeat]
      rw [hbus]
      simp only [emac_dm9051_task_drain,
        task_round_invalid_size c e _ cl hp stk tr ra fl st lo hi hfl hst hlo hhi hstatus h4 h64]
      rw [if_pos hrem]
      exact ih tail _

/-- C20, witness: a pending frame whose header reports 40 bytes; the round reads MRCMDX twice
and peeks the header, and leaves the bus answers that follow untouched. -/
theorem rx_task_invalid_size_not_flushed_witness :
    (dm9051_alloc_recv_buf dm9051_h_sample scriptEnv ETH_MAX_PACKET_SIZE
      (script_world [BusResp.ok [1], BusResp.ok [1], BusResp.ok [1, 0, 40, 0]] [])).1 =
      (ESP_ERR_INVALID_SIZE, none, 36) ∧
    emac_dm9051_task_round dm9051_h_sample scriptEnv
      (script_world [BusResp.ok [1], BusResp.ok [1], BusResp.ok [1, 0, 40, 0]] []) =
      ((), { script_world [] [] with
             trace := [] ++ ev_register_read dm9051_h_sample 0x70 ++
               ev_register_read dm9051_h_sample 0x70 ++ ev_memory_peek dm9051_h_sample 4 }) :=
  (rx_task_invalid_size_not_flushed dm9051_h_sample emac_dm9051_sample [] [] [] [1] 1 0 40 0
    (by decide) (by decide) (by decide) (by decide) (by decide) (by decide) (by decide)).1 [] []

/-! ## C30: the choice between the two OTA-select entries -/

/-- C30: `bootloader_common_select_otadata` returns -1 when one of the two pointers is null
or no entry is valid, the index of the valid entry when exactly one is valid, and with both
valid the index of the entry with the larger `ota_seq` for `max` true and with the smaller
`ota_seq` for `max` false, which is 0 when the two sequence numbers are equal. The result is
-1, 0 or 1, and a result 0 or 1 is the index of an entry whose validity flag is true. -/
theorem select_otadata_result (a b : esp_ota_select_entry_t) (va vb max : Bool)
    (t : Option (esp_ota_select_entry_t × esp_ota_select_entry_t)) (v : Option (Bool × Bool)) :
    bootloader_common_select_otadata none v max = -1 ∧
    bootloader_common_select_otadata t none max = -1 ∧
    bootloader_common_select_otadata (some (a, b)) (some (false, false)) max = -1 ∧
    bootloader_common_select_otadata (some (a, b)) (some (true, false)) max = 0 ∧
    bootloader_common_select_otadata (some (a, b)) (some (false, true)) max = 1 ∧
    bootloader_common_select_otadata (some (a, b)) (some (true, true)) true =
      (if a.ota_seq ≥ b.ota_seq then 0 else 1) ∧
    bootloader_common_select_otadata (some (a, b)) (some (true, true)) false =
      (if a.ota_seq ≤ b.ota_seq then 0 else 1) ∧
    (bootloader_common_select_otadata t v max = -1 ∨
      bootloader_common_select_otadata t v max = 0 ∨
      bootloader_common_select_otadata t v max = 1) ∧
    (bootloader_common_select_otadata (some (a, b)) (some (va, vb)) max = 0 → va = true) ∧
    (bootloader_common_select_otadata (some (a, b)) (some (va, vb)) max = 1 → vb = true) := by
  have hmax : (if MAX a.ota_seq b.ota_seq = a.ota_seq then (0 : Int) else 1) =
      if a.ota_seq ≥ b.ota_seq then 0 else 1 := by
    unfold MAX
    split_ifs <;> first | rfl | omega
  have hmin : (if MIN a.ota_seq b.ota_seq = a.ota_seq then (0 : Int) else 1) =
      if a.ota_seq ≤ b.ota_seq then 0 else 1 := by
    unfold MIN
    split_ifs <;> first | rfl | omega
  refine ⟨?_, ?_, ?_, ?_, ?_, ?_, ?_, ?_, ?_, ?_⟩
  · cases v <;> rfl
  · cases t <;> rfl
  · simp [bootloader_common_select_otadata, bootloader_common_select_otadata_loop, elem2]
  · simp [bootloader_common_select_otadata, bootloader_common_select_otadata_loop, elem2]
  · simp [bootloader_common_select_otadata, bootloader_common_select_otadata_loop, elem2]
  · simpa [bootloader_common_select_otadata] using hmax
  · simpa [bootloader_common_select_otadata] using hmin
  · rcases t with _ | ⟨x, y⟩
    · exact Or.inl (by cases v <;> rfl)
    · rcases v with _ | ⟨p, q⟩
      · exact Or.inl rfl
      · cases p <;> cases q <;> cases max <;>
          simp [bootloader_common_select_otadata, bootloader_common_select_otadata_loop, elem2] <;>
          exact Or.inr (em _)
  · cases va <;> cases vb <;>
      simp [bootloader_common_select_otadata, bootloader_common_select_otadata_loop, elem2]
  · cases va <;> cases vb <;> cases max <;>
      simp [bootloader_common_select_otadata, bootloader_common_select_otadata_loop, elem2]

/-- C30, witness: sequence numbers 7 and 9, only the first entry valid: the result is 0, and
the first validity flag is true. -/
theorem select_otadata_result_witness :
    bootloader_common_select_otadata
        (some ({ ota_seq := 7, ota_state := 0, crc := 0 }, { ota_seq := 9, ota_state := 0, crc := 0 }))
        (some (true, false)) true = 0 ∧
    true = true :=
  ⟨by decide,
    (select_otadata_result { ota_seq := 7, ota_state := 0, crc := 0 }
      { ota_seq := 9, ota_state := 0, crc := 0 } true false true none none).2.2.2.2.2.2.2.2.1
      (by decide)⟩

/-! ## C28: the read pointer after a skipped frame -/

/-- C28, the code at the failing input: with the four bus accesses succeeding,
`dm9051_skip_recv_frame(L)` reads the pointer `p = 256 * MRRH + MRRL` and writes back
`q div 256` to MRRH and `q mod 256` to MRRL, where for `3072 ≤ p ≤ 16383` and `L ≤ 1526` the
address `q` is `3072 + ((p - 3072 + L + 4) mod 13312)`, inside the ring, whenever
`p + L + 4` differs from 16384; for `p + L + 4 = 16384` it is 16384, one past the last
byte of the ring, and not 3072: the test is `addr > 16384`. -/
theorem rx_skip_pointer_ring (c : dm9051_h) (w : World emac_dm9051_t Script)
    (mh ml L : Nat) (rx1 rx2 : List Nat) (rest : List BusResp)
    (hmh : mh < 256) (hml : ml < 256)
    (hlo : 3072 ≤ 256 * mh + ml) (hhi : 256 * mh + ml ≤ 16383) (hL : L ≤ 1526)
    (hbus : w.dev.bus = BusResp.ok [mh] :: BusResp.ok [ml] :: BusResp.ok rx1 :: BusResp.ok rx2 :: rest) :
    dm9051_skip_recv_frame c scriptEnv L w =
      (ESP_OK,
        { w with dev := { w.dev with bus := rest },
                 trace := w.trace ++ ev_register_read c c.DM9051_MRRH ++
                   ev_register_read c c.DM9051_MRRL ++
                   ev_register_write c c.DM9051_MRRH (dm9051_skip_addr mh ml L / 256) ++
                   ev_register_write c c.DM9051_MRRL (dm9051_skip_addr mh ml L % 256) }) ∧
    (256 * mh + ml + L + 4 ≠ 16384 →
      dm9051_skip_addr mh ml L = 3072 + (256 * mh + ml - 3072 + L + 4) % 13312 ∧
      3072 ≤ dm9051_skip_addr mh ml L ∧ dm9051_skip_addr mh ml L ≤ 16383) ∧
    (256 * mh + ml + L + 4 = 16384 →
      dm9051_skip_addr mh ml L = 16384 ∧
      3072 + (256 * mh + ml - 3072 + L + 4) % 13312 = 3072) := by
  have haddr := skip_addr_eq mh ml L hmh hml (by omega)
  refine ⟨?_, ?_, ?_⟩
  · obtain ⟨e, ⟨bus, clock, heap, stack⟩, tr⟩ := w
    simp only at hbus
    subst hbus
    rw [skip_recv_frame_ok c e rest clock heap stack tr L mh ml rx1 rx2 hmh hml, shr8_eq,
      and_255_eq]
  · intro hne
    rw [haddr]
    split_ifs <;> omega
  · intro heq
    rw [haddr]
    split_ifs <;> omega

/-- C28, witness: the read pointer at 0x3E80 = 16000 and a frame of 380 bytes, so that
`p + L + 4 = 16384`: the pointer written back is 0x4000 = 16384, MRRH = 0x40 and
MRRL = 0x00. -/
theorem rx_skip_pointer_ring_witness :
    dm9051_skip_recv_frame dm9051_h_sample scriptEnv 380
        (script_world [BusResp.ok [0x3E], BusResp.ok [0x80], BusResp.ok [], BusResp.ok []] []) =
      (ESP_OK,
        { script_world [] [] with
          trace := [] ++ ev_register_read dm9051_h_sample 0x75 ++ ev_register_read dm9051_h_sample 0x74 ++
            ev_register_write dm9051_h_sample 0x75 0x40 ++
            ev_register_write dm9051_h_sample 0x74 0x00 }) ∧
    dm9051_skip_addr 0x3E 0x80 380 = 16384 :=
  ⟨(rx_skip_pointer_ring dm9051_h_sample
      (script_world [BusResp.ok [0x3E], BusResp.ok [0x80], BusResp.ok [], BusResp.ok []] [])
      0x3E 0x80 380 [] [] [] (by decide) (by decide) (by decide) (by decide) (by decide) rfl).1,
    ((rx_skip_pointer_ring dm9051_h_sample
      (script_world [BusResp.ok [0x3E], BusResp.ok [0x80], BusResp.ok [], BusResp.ok []] [])
      0x3E 0x80 380 [] [] [] (by decide) (by decide) (by decide) (by decide) (by decide) rfl).2.2
      (by decide)).1⟩

/-! ## C26: the lock around the bus primitives -/

section bus_lock
variable {σ : Type} (env : Dm9051Env σ) (w : World emac_dm9051_t σ)

/-- The shared body of the bus primitives when the lock is not obtained: `ESP_ERR_TIMEOUT`
after the one call of `xSemaphoreTake`. -/
theorem transfer_lock_timeout (t : spi_transaction_t) (h : (env.xSemaphoreTake w.dev).1 = false) :
    dm9051_transfer env t w =
      ((ESP_ERR_TIMEOUT, none),
        { w with dev := (env.xSemaphoreTake w.dev).2,
                 trace := w.trace ++ [Ev.xSemaphoreTake DM9051_SPI_LOCK_TIMEOUT_MS] }) := by
  rcases hl : env.xSemaphoreTake w.dev with ⟨b, d1⟩
  rw [hl] at h
  simp only at h
  subst h
  simp [dm9051_transfer, dm9051_lock, emit, hl]

/-- The shared body of the bus primitives when the lock is obtained: one transfer, then one
`xSemaphoreGive`, and `ESP_OK` or `ESP_FAIL` by the outcome of the transfer. -/
theorem transfer_locked (t : spi_transaction_t) (h : (env.xSemaphoreTake w.dev).1 = true) :
    dm9051_transfer env t w =
      ((if (env.spi_device_polling_transmit t (env.xSemaphoreTake w.dev).2).1.isSome then ESP_OK
          else ESP_FAIL,
        (env.spi_device_polling_transmit t (env.xSemaphoreTake w.dev).2).1),
        { w with dev := env.xSemaphoreGive
                   (env.spi_device_polling_transmit t (env.xSemaphoreTake w.dev).2).2,
                 trace := w.trace ++ [Ev.xSemaphoreTake DM9051_SPI_LOCK_TIMEOUT_MS,
                   Ev.spi_device_polling_transmit t, Ev.xSemaphoreGive] }) := by
  rcases hl : env.xSemaphoreTake w.dev with ⟨b, d1⟩
  rw [hl] at h
  simp only at h
  subst h
  rcases hs : env.spi_device_polling_transmit t d1 with ⟨_ | rx, d2⟩ <;>
    simp [dm9051_transfer, dm9051_lock, dm9051_unlock, spi_device_polling_transmit, emit, hl, hs]

end bus_lock

/-- C26: in every environment, each of the five bus primitives that does not obtain the lock
returns `ESP_ERR_TIMEOUT` after the one call of `xSemaphoreTake` (no SPI transaction, no
`xSemaphoreGive`), a register read leaving its output byte and a memory read or peek leaving
its buffer as they were; each primitive that obtains the lock makes one SPI transaction
and then exactly one call of `xSemaphoreGive`, and returns `ESP_OK` when the transaction
succeeds and `ESP_FAIL` when it fails. -/
theorem bus_primitive_lock (σ : Type) (c : dm9051_h) (env : Dm9051Env σ) (w : World emac_dm9051_t σ)
    (reg_addr value len : Nat) (buffer : List Nat) :
    ((env.xSemaphoreTake w.dev).1 = false →
      dm9051_register_read c env reg_addr value w =
        ((ESP_ERR_TIMEOUT, value),
          { w with dev := (env.xSemaphoreTake w.dev).2,
                   trace := w.trace ++ [Ev.xSemaphoreTake DM9051_SPI_LOCK_TIMEOUT_MS] }) ∧
      dm9051_register_write c env reg_addr value w =
        (ESP_ERR_TIMEOUT,
          { w with dev := (env.xSemaphoreTake w.dev).2,
                   trace := w.trace ++ [Ev.xSemaphoreTake DM9051_SPI_LOCK_TIMEOUT_MS] }) ∧
      dm9051_memory_read c env buffer len w =
        ((ESP_ERR_TIMEOUT, buffer),
          { w with dev := (env.xSemaphoreTake w.dev).2,
                   trace := w.trace ++ [Ev.xSemaphoreTake DM9051_SPI_LOCK_TIMEOUT_MS] }) ∧
      dm9051_memory_write c env buffer len w =
        (ESP_ERR_TIMEOUT,
          { w with dev := (env.xSemaphoreTake w.dev).2,
                   trace := w.trace ++ [Ev.xSemaphoreTake DM9051_SPI_LOCK_TIMEOUT_MS] }) ∧
      dm9051_memory_peek c env buffer len w =
        ((ESP_ERR_TIMEOUT, buffer),
          { w with dev := (env.xSemaphoreTake w.dev).2,
                   trace := w.trace ++ [Ev.xSemaphoreTake DM9051_SPI_LOCK_TIMEOUT_MS] })) ∧
    ((env.xSemaphoreTake w.dev).1 = true →
      ((dm9051_register_read c env reg_addr value w).2.trace =
          w.trace ++ [Ev.xSemaphoreTake DM9051_SPI_LOCK_TIMEOUT_MS,
            Ev.spi_device_polling_transmit
              { cmd := c.DM9051_SPI_RD, addr := reg_addr, length := 8, tx := [] },
            Ev.xSemaphoreGive] ∧
        (dm9051_register_read c env reg_addr value w).1.1 =
          if (env.spi_device_polling_transmit
              { cmd := c.DM9051_SPI_RD, addr := reg_addr, length := 8, tx := [] }
              (env.xSemaphoreTake w.dev).2).1.isSome then ESP_OK else ESP_FAIL) ∧
      ((dm9051_register_write c env reg_addr value w).2.trace =
          w.trace ++ [Ev.xSemaphoreTake DM9051_SPI_LOCK_TIMEOUT_MS,
            Ev.spi_device_polling_transmit
              { cmd := c.DM9051_SPI_WR, addr := reg_addr, length := 8, tx := [value] },
            Ev.xSemaphoreGive] ∧
        (dm9051_register_write c env reg_addr value w).1 =
          if (env.spi_device_polling_transmit
              { cmd := c.DM9051_SPI_WR, addr := reg_addr, length := 8, tx := [value] }
              (env.xSemaphoreTake w.dev).2).1.isSome then ESP_OK else ESP_FAIL) ∧
      ((dm9051_memory_read c env buffer len w).2.trace =
          w.trace ++ [Ev.xSemaphoreTake DM9051_SPI_LOCK_TIMEOUT_MS,
            Ev.spi_device_polling_transmit
              { cmd := c.DM9051_SPI_RD, addr := c.DM9051_MRCMD, length := len * 8, tx := [] },
            Ev.xSemaphoreGive] ∧
        (dm9051_memory_read c env buffer len w).1.1 =
          if (env.spi_device_polling_transmit
              { cmd := c.DM9051_SPI_RD, addr := c.DM9051_MRCMD, length := len * 8, tx := [] }
              (env.xSemaphoreTake w.dev).2).1.isSome then ESP_OK else ESP_FAIL) ∧
      ((dm9051_memory_write c env buffer len w).2.trace =
          w.trace ++ [Ev.xSemaphoreTake DM9051_SPI_LOCK_TIMEOUT_MS,
            Ev.spi_device_polling_transmit
              { cmd := c.DM9051_SPI_WR, addr := c.DM9051_MWCMD, length := len * 8,
                tx := buffer.take len },
            Ev.xSemaphoreGive] ∧
        (dm9051_memory_write c env buffer len w).1 =
          if (env.spi_device_polling_transmit
              { cmd := c.DM9051_SPI_WR, addr := c.DM9051_MWCMD, length := len * 8,
                tx := buffer.take len }
              (env.xSemaphoreTake w.dev).2).1.isSome then ESP_OK else ESP_FAIL) ∧
      ((dm9051_memory_peek c env buffer len w).2.trace =
          w.trace ++ [Ev.xSemaphoreTake DM9051_SPI_LOCK_TIMEOUT_MS,
            Ev.spi_device_polling_transmit
              { cmd := c.DM9051_SPI_RD, addr := c.DM9051_MRCMDX1, length := len * 8, tx := [] },
            Ev.xSemaphoreGive] ∧
        (dm9051_memory_peek c env buffer len w).1.1 =
          if (env.spi_device_polling_transmit
              { cmd := c.DM9051_SPI_RD, addr := c.DM9051_MRCMDX1, length := len * 8, tx := [] }
              (env.xSemaphoreTake w.dev).2).1.isSome then ESP_OK else ESP_FAIL)) := by
  refine ⟨fun h => ?_, fun h => ?_⟩
  · simp [dm9051_register_read, dm9051_register_write, dm9051_memory_read, dm9051_memory_write,
      dm9051_memory_peek, transfer_lock_timeout env w _ h]
  · simp only [dm9051_register_read, dm9051_register_write, dm9051_memory_read, dm9051_memory_write,
      dm9051_memory_peek, transfer_locked env w _ h]
    refine ⟨?_, ?_, ?_, ?_, ?_⟩
    · cases (env.spi_device_polling_transmit
        { cmd := c.DM9051_SPI_RD, addr := reg_addr, length := 8, tx := [] }
        (env.xSemaphoreTake w.dev).2).1 <;> simp
    · simp
    · cases (env.spi_device_polling_transmit
        { cmd := c.DM9051_SPI_RD, addr := c.DM9051_MRCMD, length := len * 8, tx := [] }
        (env.xSemaphoreTake w.dev).2).1 <;> simp
    · simp
    · cases (env.spi_device_polling_transmit
        { cmd := c.DM9051_SPI_RD, addr := c.DM9051_MRCMDX1, length := len * 8, tx := [] }
        (env.xSemaphoreTake w.dev).2).1 <;> simp

/-- C26, witness: the lock is not obtained for a read of register 0x05 into a byte holding
7: `ESP_ERR_TIMEOUT`, the byte still 7, and `xSemaphoreTake` as the only call. -/
theorem bus_primitive_lock_witness :
    (scriptEnv.xSemaphoreTake (script_world [BusResp.lock_timeout] []).dev).1 = false ∧
    dm9051_register_read dm9051_h_sample scriptEnv 0x05 7 (script_world [BusResp.lock_timeout] []) =
      ((ESP_ERR_TIMEOUT, 7),
        { script_world [] [] with trace := [] ++ [Ev.xSemaphoreTake DM9051_SPI_LOCK_TIMEOUT_MS] }) :=
  ⟨by decide,
    ((bus_primitive_lock Script dm9051_h_sample scriptEnv (script_world [BusResp.lock_timeout] [])
      0x05 7 4 [1, 2, 3, 4]).1 (by decide)).1⟩

/-! ## C27: the lengths of `emac_esp32_receive` -/

/-- C27, the code at the failing input: in every environment, `emac_esp32_receive` with a
null `length` dereferences it (`expected_len = *length` comes first), whatever `buf` is,
and so does not return `ESP_ERR_INVALID_ARG`. With a non-null `length` holding `c`: a null
`buf` gives `ESP_ERR_INVALID_ARG` without a call of the HAL and with `*length = c`; a non-null
`buf` gives, for `r` the length `emac_hal_receive_frame` returns, `ESP_OK` with `*length = r`
when `r ≤ c` and `ESP_ERR_INVALID_SIZE` with `*length = c` when `r > c`; so `*length = c` on
every failing return and `*length ≤ c` on success. -/
theorem esp32_receive_lengths (σ : Type) (hal : Esp32Env σ) (w : World emac_esp32_t σ)
    (buf : Option heap_block) (b : heap_block) (c : Nat) :
    emac_esp32_receive hal buf none w = none ∧
    emac_esp32_receive hal none (some c) w = some ((ESP_ERR_INVALID_ARG, none, c), w) ∧
    emac_esp32_receive hal (some b) (some c) w =
      some ((if c ≥ (emac_hal_receive_frame hal b c w).1.1 then ESP_OK else ESP_ERR_INVALID_SIZE,
          some (emac_hal_receive_frame hal b c w).1.2,
          if c ≥ (emac_hal_receive_frame hal b c w).1.1 then (emac_hal_receive_frame hal b c w).1.1
          else c),
        (emac_hal_receive_frame hal b c w).2) ∧
    (emac_hal_receive_frame hal b c w).2.trace = w.trace ++ [Ev.emac_hal_receive_frame b c] ∧
    (∀ r, emac_esp32_receive hal buf (some c) w = some r →
      (r.1.1 ≠ ESP_OK → r.1.2.2 = c) ∧ (r.1.1 = ESP_OK → r.1.2.2 ≤ c)) := by
  refine ⟨rfl, rfl, ?_, ?_, ?_⟩
  · unfold emac_esp32_receive
    simp only []
    rcases emac_hal_receive_frame hal b c w with ⟨⟨receive_len, b1⟩, w1⟩
    simp only []
    split_ifs <;> rfl
  · simp [emac_hal_receive_frame]
  · intro r hr
    cases buf with
    | none =>
      simp only [emac_esp32_receive, Option.some.injEq] at hr
      subst hr
      simp
    | some b0 =>
      unfold emac_esp32_receive at hr
      simp only [] at hr
      rcases emac_hal_receive_frame hal b0 c w with ⟨⟨receive_len, b1⟩, w1⟩
      split_ifs at hr with h <;> simp only [Option.some.injEq] at hr <;> subst hr <;> simp
      exact h

/-- C27, witness: a capacity of 100 bytes and a frame of 150 bytes: `ESP_ERR_INVALID_SIZE`,
and `*length` is still 100. -/
theorem esp32_receive_lengths_witness :
    emac_esp32_receive scriptHal (some heap_block_sample) (some 100)
        (esp32_script_world (emac_esp32_sample 5 1) [] [(150, [1], 0, 5)] []) =
      some ((ESP_ERR_INVALID_SIZE, some { heap_block_sample with data := [1] }, 100),
        { emac := emac_esp32_sample 5 0,
          dev := { mii_busy := [], phy_data := [], alloc := [], recv := [], flush := [] },
          trace := [Ev.emac_hal_receive_frame heap_block_sample 100] }) ∧
    (100 : Nat) = 100 :=
  ⟨rfl,
    ((esp32_receive_lengths Esp32Script scriptHal
      (esp32_script_world (emac_esp32_sample 5 1) [] [(150, [1], 0, 5)] [])
      (some heap_block_sample) heap_block_sample 100).2.2.2.2
      ((ESP_ERR_INVALID_SIZE, some { heap_block_sample with data := [1] }, 100),
        { emac := emac_esp32_sample 5 0,
          dev := { mii_busy := [], phy_data := [], alloc := [], recv := [], flush := [] },
          trace := [Ev.emac_hal_receive_frame heap_block_sample 100] }) rfl).1 (by decide)⟩

/-! ## C29: the size of the block read into the scratch buffer -/

/-- The receive function on a buffer in explicit-length mode, for a pending frame of
`1 ≤ B ≤ 65531` bytes with status clear and every bus access succeeding: its calls and
the length it reports. -/
theorem receive_explicit_script (c : dm9051_h) (e : emac_dm9051_t) (rest : List BusResp)
    (cl : List Int) (hp : List Bool) (stk : List esp_err_t) (tr : List Ev) (buf : heap_block)
    (cap : Nat) (ra rb1 rx : List Nat) (fl st lo hi rb : Nat)
    (hfl : fl < 256) (hst : st < 256) (hlo : lo < 256) (hhi : hi < 256) (hrb : rb < 256)
    (hstatus : st &&& 0xBF = 0) (hB1 : 1 ≤ lo + 256 * hi) (hB16 : lo + 256 * hi ≤ 65531)
    (hcap : cap ≠ 0) :
    (emac_dm9051_receive c scriptEnv buf cap
        { emac := e,
          dev := { bus := BusResp.ok ra :: BusResp.ok [1] :: BusResp.ok [fl, st, lo, hi] ::
                     BusResp.ok rx :: BusResp.ok rb1 :: BusResp.ok [rb] :: rest,
                   clock := cl, heap := hp, stack := stk },
          trace := tr }).2.trace =
      tr ++ ev_register_read c c.DM9051_MRCMDX ++ ev_register_read c c.DM9051_MRCMDX ++
        ev_memory_peek c 4 ++ ev_memory_read c (lo + 256 * hi + 4) ++
        ev_register_read c c.DM9051_MRCMDX ++ ev_register_read c c.DM9051_MRCMDX ∧
    (emac_dm9051_receive c scriptEnv buf cap
        { emac := e,
          dev := { bus := BusResp.ok ra :: BusResp.ok [1] :: BusResp.ok [fl, st, lo, hi] ::
                     BusResp.ok rx :: BusResp.ok rb1 :: BusResp.ok [rb] :: rest,
                   clock := cl, heap := hp, stack := stk },
          trace := tr }).1.1 = ESP_OK ∧
    (emac_dm9051_receive c scriptEnv buf cap
        { emac := e,
          dev := { bus := BusResp.ok ra :: BusResp.ok [1] :: BusResp.ok [fl, st, lo, hi] ::
                     BusResp.ok rx :: BusResp.ok rb1 :: BusResp.ok [rb] :: rest,
                   clock := cl, heap := hp, stack := stk },
          trace := tr }).1.2.2 =
      (if (lo + 256 * hi + 65532) % 65536 > cap then cap else (lo + 256 * hi + 65532) % 65536) %
        65536 := by
  have h0 : ¬ lo + 256 * hi = 0 := by omega
  have h3 : (lo + 256 * hi + 4) % 65536 = lo + 256 * hi + 4 := by omega
  have hcount := get_recv_byte_count_valid c
    { e with packets_remain := false }
    (BusResp.ok rx :: BusResp.ok rb1 :: BusResp.ok [rb] :: rest) cl hp stk tr ra fl st lo hi
    hfl hst hlo hhi hstatus
  simp only [emac_dm9051_receive, emac_dm9051_receive_len, set_packets_remain,
    DM9051_ETH_MAC_RX_BUF_SIZE_AUTO, ne_eq, hcap, not_false_eq_true, if_true, Blk.bind_def, Blk.bind,
    ESP_GOTO_ON_ERROR_out, hcount, h0, if_false, Blk.pure_def, Blk.pure, ETH_CRC_LEN,
    DM9051_RX_HDR_SIZE, show lo + 256 * hi + 65536 - 4 = lo + 256 * hi + 65532 by omega, h3,
    memory_read_rx_ok, register_read_ok, List.headD_cons, Nat.mod_eq_of_lt hrb]
  exact ⟨trivial, trivial, trivial⟩

/-- The receive function in automatic-length mode, every bus access succeeding: its calls
and the length it reports, for the two numbers found at the start of the buffer. -/
theorem receive_auto_script (c : dm9051_h) (e : emac_dm9051_t) (rest : List BusResp)
    (cl : List Int) (hp : List Bool) (stk : List esp_err_t) (tr : List Ev) (buf : heap_block)
    (rb1 rx : List Nat) (rb : Nat) (hrb : rb < 256) :
    (emac_dm9051_receive c scriptEnv buf DM9051_ETH_MAC_RX_BUF_SIZE_AUTO
        { emac := e,
          dev := { bus := BusResp.ok rx :: BusResp.ok rb1 :: BusResp.ok [rb] :: rest,
                   clock := cl, heap := hp, stack := stk },
          trace := tr }).2.trace =
      tr ++ ev_memory_read c ((buf.info.byte_cnt % 65536 + 4) % 65536) ++
        ev_register_read c c.DM9051_MRCMDX ++ ev_register_read c c.DM9051_MRCMDX ∧
    (emac_dm9051_receive c scriptEnv buf DM9051_ETH_MAC_RX_BUF_SIZE_AUTO
        { emac := e,
          dev := { bus := BusResp.ok rx :: BusResp.ok rb1 :: BusResp.ok [rb] :: rest,
                   clock := cl, heap := hp, stack := stk },
          trace := tr }).1.1 = ESP_OK ∧
    (emac_dm9051_receive c scriptEnv buf DM9051_ETH_MAC_RX_BUF_SIZE_AUTO
        { emac := e,
          dev := { bus := BusResp.ok rx :: BusResp.ok rb1 :: BusResp.ok [rb] :: rest,
                   clock := cl, heap := hp, stack := stk },
          trace := tr }).1.2.2 = buf.info.copy_len % 65536 := by
  simp only [emac_dm9051_receive, emac_dm9051_receive_len, set_packets_remain,
    DM9051_ETH_MAC_RX_BUF_SIZE_AUTO, ne_eq, not_true_eq_false, if_false, Blk.pure_def, Blk.pure,
    DM9051_RX_HDR_SIZE, memory_read_rx_ok, register_read_ok, List.headD_cons, Nat.mod_eq_of_lt hrb]
  exact ⟨trivial, trivial, trivial⟩

/-- C29, the code at the failing input: for a pending frame whose header reports
`4 ≤ B ≤ 65531` bytes with status clear, every bus access succeeding, `emac_dm9051_receive`
in explicit-length mode (capacity `cap`) reads the header and then makes a block read of
`B + 4` bytes into `rx_buffer`, reporting `min(B - 4, cap)` bytes copied; in automatic-length
mode, on the buffer `dm9051_alloc_recv_buf` prepares for this frame (`copy_len = min(B - 4, 1522)`,
`byte_cnt = B`), its first call is a block read of `B + 4` bytes, and it reports
`min(B - 4, 1522)` bytes copied. The request is not cut down to the
`ETH_MAX_PACKET_SIZE + DM9051_RX_HDR_SIZE = 1526` bytes of `rx_buffer`: it exceeds them
whenever `B > 1522`. -/
theorem rx_block_read_size (c : dm9051_h) (e : emac_dm9051_t) (rest : List BusResp)
    (cl : List Int) (hp : List Bool) (stk : List esp_err_t) (tr : List Ev) (buf : heap_block)
    (cap : Nat) (ra rb1 rx : List Nat) (fl st lo hi rb : Nat)
    (hfl : fl < 256) (hst : st < 256) (hlo : lo < 256) (hhi : hi < 256) (hrb : rb < 256)
    (hstatus : st &&& 0xBF = 0) (hB4 : 4 ≤ lo + 256 * hi) (hB16 : lo + 256 * hi ≤ 65531)
    (hcap : cap ≠ 0) :
    ((emac_dm9051_receive c scriptEnv buf cap
        { emac := e,
          dev := { bus := BusResp.ok ra :: BusResp.ok [1] :: BusResp.ok [fl, st, lo, hi] ::
                     BusResp.ok rx :: BusResp.ok rb1 :: BusResp.ok [rb] :: rest,
                   clock := cl, heap := hp, stack := stk },
          trace := tr }).2.trace =
        tr ++ ev_register_read c c.DM9051_MRCMDX ++ ev_register_read c c.DM9051_MRCMDX ++
          ev_memory_peek c 4 ++ ev_memory_read c (lo + 256 * hi + 4) ++
          ev_register_read c c.DM9051_MRCMDX ++ ev_register_read c c.DM9051_MRCMDX ∧
      (emac_dm9051_receive c scriptEnv buf cap
        { emac := e,
          dev := { bus := BusResp.ok ra :: BusResp.ok [1] :: BusResp.ok [fl, st, lo, hi] ::
                     BusResp.ok rx :: BusResp.ok rb1 :: BusResp.ok [rb] :: rest,
                   clock := cl, heap := hp, stack := stk },
          trace := tr }).1.2.2 = min (lo + 256 * hi - 4) cap) ∧
    ((emac_dm9051_receive c scriptEnv
        { buf with info := { copy_len := min (lo + 256 * hi - 4) 1522, byte_cnt := lo + 256 * hi } }
        DM9051_ETH_MAC_RX_BUF_SIZE_AUTO
        { emac := e,
          dev := { bus := BusResp.ok rx :: BusResp.ok rb1 :: BusResp.ok [rb] :: rest,
                   clock := cl, heap := hp, stack := stk },
          trace := tr }).2.trace =
        tr ++ ev_memory_read c (lo + 256 * hi + 4) ++
          ev_register_read c c.DM9051_MRCMDX ++ ev_register_read c c.DM9051_MRCMDX ∧
      (emac_dm9051_receive c scriptEnv
        { buf with info := { copy_len := min (lo + 256 * hi - 4) 1522, byte_cnt := lo + 256 * hi } }
        DM9051_ETH_MAC_RX_BUF_SIZE_AUTO
        { emac := e,
          dev := { bus := BusResp.ok rx :: BusResp.ok rb1 :: BusResp.ok [rb] :: rest,
                   clock := cl, heap := hp, stack := stk },
          trace := tr }).1.2.2 = min (lo + 256 * hi - 4) 1522) ∧
    (1522 < lo + 256 * hi → ETH_MAX_PACKET_SIZE + DM9051_RX_HDR_SIZE < lo + 256 * hi + 4) := by
  have hex := receive_explicit_script c e rest cl hp stk tr buf cap ra rb1 rx fl st lo hi rb
    hfl hst hlo hhi hrb hstatus (by omega) hB16 hcap
  have hauto := receive_auto_script c e rest cl hp stk tr
    { buf with info := { copy_len := min (lo + 256 * hi - 4) 1522, byte_cnt := lo + 256 * hi } }
    rb1 rx rb hrb
  refine ⟨⟨hex.1, ?_⟩, ⟨?_, ?_⟩, ?_⟩
  · rw [hex.2.2]
    have h1 : (lo + 256 * hi + 65532) % 65536 = lo + 256 * hi - 4 := by omega
    rw [h1]
    split_ifs <;> omega
  · rw [hauto.1]
    have h2 : ((lo + 256 * hi) % 65536 + 4) % 65536 = lo + 256 * hi + 4 := by omega
    simp only [h2]
  · rw [hauto.2.2]
    simp only []
    omega
  · intro h
    simp only [ETH_MAX_PACKET_SIZE, DM9051_RX_HDR_SIZE]
    omega

/-- C29, witness: a header that reports 3000 bytes and a caller capacity of 1522 bytes: the
block read into the 1526-byte scratch buffer asks for 3004 bytes, and 1522 bytes are
reported as copied. -/
theorem rx_block_read_size_witness :
    (emac_dm9051_receive dm9051_h_sample scriptEnv heap_block_sample 1522
        (script_world [BusResp.ok [1], BusResp.ok [1], BusResp.ok [1, 0, 0xB8, 0x0B],
          BusResp.ok [], BusResp.ok [0], BusResp.ok [0]] [])).2.trace =
      [] ++ ev_register_read dm9051_h_sample 0x70 ++ ev_register_read dm9051_h_sample 0x70 ++
        ev_memory_peek dm9051_h_sample 4 ++ ev_memory_read dm9051_h_sample 3004 ++
        ev_register_read dm9051_h_sample 0x70 ++ ev_register_read dm9051_h_sample 0x70 ∧
    ETH_MAX_PACKET_SIZE + DM9051_RX_HDR_SIZE < 3004 :=
  ⟨(rx_block_read_size dm9051_h_sample emac_dm9051_sample [] [] [] [] [] heap_block_sample 1522
      [1] [0] [] 1 0 0xB8 0x0B 0 (by decide) (by decide) (by decide) (by decide) (by decide)
      (by decide) (by decide) (by decide) (by decide)).1.1,
    (rx_block_read_size dm9051_h_sample emac_dm9051_sample [] [] [] [] [] heap_block_sample 1522
      [1] [0] [] 1 0 0xB8 0x0B 0 (by decide) (by decide) (by decide) (by decide) (by decide)
      (by decide) (by decide) (by decide) (by decide)).2.2 (by decide)⟩

/-! ## C23 to C25: initialisation of the DM9051 -/

/-- A block that starts with `ESP_GOTO_ON_ERROR(x)`: the rest runs when `x` returns `ESP_OK`,
and the block jumps to `err` with the result of `x` otherwise. -/
theorem goto_on_error_bind {ε σ α : Type} (x : Fn ε σ esp_err_t) (f : Unit → Blk ε σ α)
    (w : World ε σ) :
    Blk.bind (ESP_GOTO_ON_ERROR x) f w =
      if (x w).1 = ESP_OK then f () (x w).2 else (Except.error (x w).1, (x w).2) := by
  unfold Blk.bind ESP_GOTO_ON_ERROR
  rcases hx : x w with ⟨r, w1⟩
  cases r <;> simp

/-- The last statement `ESP_GOTO_ON_ERROR(x)` of a block. -/
theorem goto_on_error_last {ε σ : Type} (x : Fn ε σ esp_err_t) (w : World ε σ) :
    ESP_GOTO_ON_ERROR x w =
      if (x w).1 = ESP_OK then (Except.ok (), (x w).2) else (Except.error (x w).1, (x w).2) := by
  unfold ESP_GOTO_ON_ERROR
  rcases hx : x w with ⟨r, w1⟩
  cases r <;> simp

/-- The chip-ID check on a script: two reads when the vendor ID is wrong, four otherwise. -/
theorem verify_id_script (c : dm9051_h) (e : emac_dm9051_t) (cl : List Int) (hp : List Bool)
    (stk : List esp_err_t) (tr : List Ev) (vidl vidh : Nat) (hvl : vidl < 256) (hvh : vidh < 256) :
    (∀ rest, ¬ (0x0A = vidh ∧ 0x46 = vidl) →
      dm9051_verify_id c scriptEnv
          { emac := e,
            dev := { bus := BusResp.ok [vidl] :: BusResp.ok [vidh] :: rest,
                     clock := cl, heap := hp, stack := stk },
            trace := tr } =
        (ESP_ERR_INVALID_VERSION,
          { emac := e, dev := { bus := rest, clock := cl, heap := hp, stack := stk },
            trace := tr ++ ev_register_read c c.DM9051_VIDL ++ ev_register_read c c.DM9051_VIDH })) ∧
    (∀ rest pidl pidh, pidl < 256 → pidh < 256 → (0x0A = vidh ∧ 0x46 = vidl) →
      dm9051_verify_id c scriptEnv
          { emac := e,
            dev := { bus := BusResp.ok [vidl] :: BusResp.ok [vidh] :: BusResp.ok [pidl] ::
                       BusResp.ok [pidh] :: rest,
                     clock := cl, heap := hp, stack := stk },
            trace := tr } =
        (if 0x90 = pidh ∧ 0x51 = pidl then ESP_OK else ESP_ERR_INVALID_VERSION,
          { emac := e, dev := { bus := rest, clock := cl, heap := hp, stack := stk },
            trace := tr ++ ev_register_read c c.DM9051_VIDL ++ ev_register_read c c.DM9051_VIDH ++
              ev_register_read c c.DM9051_PIDL ++ ev_register_read c c.DM9051_PIDH })) := by
  refine ⟨?_, ?_⟩
  · intro rest hne
    simp only [dm9051_verify_id, Blk.ret, Blk.bind_def, Blk.bind, ESP_GOTO_ON_ERROR_out,
      register_read_ok, List.headD_cons, Nat.mod_eq_of_lt hvl, Nat.mod_eq_of_lt hvh,
      ESP_GOTO_ON_FALSE, hne, decide_False, Bool.false_eq_true, if_false, goto_err]
  · intro rest pidl pidh hpl hph heq
    simp only [dm9051_verify_id, Blk.ret, Blk.bind_def, Blk.bind, ESP_GOTO_ON_ERROR_out,
      register_read_ok, List.headD_cons, Nat.mod_eq_of_lt hvl, Nat.mod_eq_of_lt hvh,
      Nat.mod_eq_of_lt hpl, Nat.mod_eq_of_lt hph,
      ESP_GOTO_ON_FALSE, heq, and_self, decide_True, if_true, Blk.pure]
    by_cases hp : 0x90 = pidh ∧ 0x51 = pidl
    · simp [hp, Blk.pure]
    · simp [hp, goto_err]

theorem emits_run_until_error {ε σ : Type} (P : Ev → Bool) (xs : List (Fn ε σ esp_err_t))
    (h : ∀ x ∈ xs, emits P x) : emits P (run_until_error xs) := by
  induction xs with
  | nil => intro w; exact calls_between_refl P w
  | cons x xs ih =>
    intro w
    have hx := h x (List.mem_cons_self _ _) w
    have hxs := ih (fun y hy => h y (List.mem_cons_of_mem _ hy))
    unfold run_until_error
    by_cases hr : (x w).1 = ESP_OK
    · simp only [hr, if_true]
      exact calls_between_trans P hx (hxs _)
    · simp only [hr, if_false]
      exact hx

/-- The initialisation is the registration of the interrupt GPIO, then the steps in order up
to the first failure, then the statements under `err` when a step failed. -/
theorem init_eq_run_until_error {σ : Type} (c : dm9051_h) (env : Dm9051Env σ)
    (w : World emac_dm9051_t σ) :
    emac_dm9051_init c env w =
      if (run_until_error (emac_dm9051_init_steps c env) (emac_dm9051_init_gpio env w).2).1 = ESP_OK
      then (ESP_OK, (run_until_error (emac_dm9051_init_steps c env) (emac_dm9051_init_gpio env w).2).2)
      else ((run_until_error (emac_dm9051_init_steps c env) (emac_dm9051_init_gpio env w).2).1,
        (emac_dm9051_init_err env
          (run_until_error (emac_dm9051_init_steps c env) (emac_dm9051_init_gpio env w).2).2).2) := by
  simp only [emac_dm9051_init, emac_dm9051_init_body, Blk.bind_def, goto_on_error_bind,
    goto_on_error_last, emac_dm9051_init_steps, emac_dm9051_init_chip_steps, run_until_error]
  split_ifs <;> simp_all

section emits_init
variable {σ : Type} (c : dm9051_h) (env : Dm9051Env σ) (P : Ev → Bool)
  (hP : ∀ ev, Ev.is_bus ev = true → P ev = true)

theorem emits_effect (ev : Ev) (h : P ev = true) : emits P (effect env ev) :=
  emits_emit P _ _ h

theorem emits_silent {ε α : Type} (f : World ε σ → α × World ε σ) (h : ∀ w, (f w).2.trace = w.trace) :
    emits P f :=
  fun w => ⟨[], by simp [h w], by simp⟩

include hP

theorem emits_get_mac_addr_loop (fuel i : Nat) : emits P (dm9051_get_mac_addr_loop c env fuel i) := by
  induction fuel generalizing i with
  | zero => exact emits_pure P _
  | succ n ih =>
    unfold dm9051_get_mac_addr_loop
    split_ifs
    · simp only [Blk.bind_def]
      refine emits_bind P _ _ (emits_goto_on_error_out P _ ?_) fun _ =>
        emits_bind P _ _ (emits_call P _ (emits_silent P _ fun _ => rfl)) fun _ => ih _
      intro w
      exact emits_register_read c env P hP _ _ w
    · exact emits_pure P _

theorem emits_get_mac_addr : emits P (dm9051_get_mac_addr c env) :=
  emits_ret P _ (emits_get_mac_addr_loop c env P hP _ _)

theorem emits_set_mac_addr_loop (fuel i : Nat) : emits P (dm9051_set_mac_addr_loop c env fuel i) := by
  induction fuel generalizing i with
  | zero => exact emits_pure P _
  | succ n ih =>
    unfold dm9051_set_mac_addr_loop
    split_ifs
    · simp only [Blk.bind_def]
      refine emits_bind P _ _ (emits_goto_on_error P _ ?_) fun _ => ih _
      intro w
      exact emits_register_write c env P hP _ _ w
    · exact emits_pure P _

theorem emits_set_mac_addr : emits P (dm9051_set_mac_addr c env) :=
  emits_ret P _ (emits_set_mac_addr_loop c env P hP _ _)

theorem emits_clear_multicast_table_loop (fuel i : Nat) :
    emits P (dm9051_clear_multicast_table_loop c env fuel i) := by
  induction fuel generalizing i with
  | zero => exact emits_pure P _
  | succ n ih =>
    unfold dm9051_clear_multicast_table_loop
    split_ifs
    · simp only [Blk.bind_def]
      exact emits_bind P _ _ (emits_goto_on_error P _ (emits_register_write c env P hP _ _))
        fun _ => ih _
    · exact emits_pure P _

theorem emits_clear_multicast_table : emits P (dm9051_clear_multicast_table c env) := by
  unfold dm9051_clear_multicast_table
  simp only [Blk.bind_def]
  exact emits_ret P _ (emits_bind P _ _ (emits_goto_on_error P _ (emits_register_write c env P hP _ _))
    fun _ => emits_bind P _ _ (emits_clear_multicast_table_loop c env P hP _ _)
    fun _ => emits_goto_on_error P _ (emits_register_write c env P hP _ _))

theorem emits_verify_id : emits P (dm9051_verify_id c env) := by
  unfold dm9051_verify_id
  simp only [Blk.bind_def]
  exact emits_ret P _ (emits_bind P _ _ (emits_goto_on_error_out P _ (emits_register_read c env P hP _ _))
    fun _ => emits_bind P _ _ (emits_goto_on_error_out P _ (emits_register_read c env P hP _ _))
    fun _ => emits_bind P _ _ (emits_goto_on_false P _ _)
    fun _ => emits_bind P _ _ (emits_goto_on_error_out P _ (emits_register_read c env P hP _ _))
    fun _ => emits_bind P _ _ (emits_goto_on_error_out P _ (emits_register_read c env P hP _ _))
    fun _ => emits_goto_on_false P _ _)

theorem emits_setup_default : emits P (dm9051_setup_default c env) := by
  unfold dm9051_setup_default
  simp only [Blk.bind_def]
  have hw := fun r v => emits_goto_on_error P _ (emits_register_write c env P hP r v)
  exact emits_ret P _ (emits_bind P _ _ (hw _ _)
    fun _ => emits_bind P _ _ (hw _ _)
    fun _ => emits_bind P _ _ (hw _ _)
    fun _ => emits_bind P _ _ (hw _ _)
    fun _ => emits_bind P _ _ (hw _ _)
    fun _ => emits_bind P _ _ (hw _ _)
    fun _ => emits_bind P _ _ (hw _ _)
    fun _ => emits_bind P _ _ (hw _ _)
    fun _ => emits_bind P _ _ (hw _ _)
    fun _ => emits_bind P _ _ (hw _ _)
    fun _ => emits_bind P _ _ (hw _ _)
    fun _ => emits_bind P _ _ (hw _ _)
    fun _ => hw _ _)

variable (hD : ∀ ms, P (Ev.vTaskDelay ms) = true)
include hD

theorem emits_reset_wait (limit fuel to_ ncr : Nat) :
    emits P (dm9051_reset_wait c env limit fuel to_ ncr) := by
  induction fuel generalizing to_ ncr with
  | zero => exact emits_pure P _
  | succ n ih =>
    unfold dm9051_reset_wait
    split_ifs
    · simp only [Blk.bind_def]
      refine emits_bind P _ _ (emits_goto_on_error_out P _ (emits_register_read c env P hP _ _))
        fun ncr => ?_
      split_ifs
      · exact emits_bind P _ _ (emits_call P _ (emits_effect env P _ (hD _))) fun _ => ih _ _
      · exact emits_pure P _
    · exact emits_pure P _

theorem emits_reset : emits P (dm9051_reset c env) := by
  intro w
  have h : emits P (Blk.ret (do
      ESP_GOTO_ON_ERROR (dm9051_register_write c env c.DM9051_GPR 0x00)
      call (effect env (Ev.vTaskDelay 10))
      let ncr := c.NCR_RST % 256
      ESP_GOTO_ON_ERROR (dm9051_register_write c env c.DM9051_NCR ncr)
      let to_ ← dm9051_reset_wait c env (w.emac.sw_reset_timeout_ms / 10)
        (w.emac.sw_reset_timeout_ms / 10 + 1) 0 ncr
      ESP_GOTO_ON_FALSE (decide (to_ < w.emac.sw_reset_timeout_ms / 10)) ESP_ERR_TIMEOUT)) := by
    simp only [Blk.bind_def]
    exact emits_ret P _ (emits_bind P _ _ (emits_goto_on_error P _ (emits_register_write c env P hP _ _))
      fun _ => emits_bind P _ _ (emits_call P _ (emits_effect env P _ (hD _)))
      fun _ => emits_bind P _ _ (emits_goto_on_error P _ (emits_register_write c env P hP _ _))
      fun _ => emits_bind P _ _ (emits_reset_wait c env P hP hD _ _ _ _)
      fun _ => emits_goto_on_false P _ _)
  exact h w

end emits_init

/-- The station-address read on a script: six reads of `PAR + i`, whose bytes make the
cached address. -/
theorem get_mac_addr_script (c : dm9051_h) (e : emac_dm9051_t) (cl : List Int) (hp : List Bool)
    (stk : List esp_err_t) (tr : List Ev) (rest : List BusResp) (b0 b1 b2 b3 b4 b5 : Nat)
    (he : e.addr.length = 6)
    (h0 : b0 < 256) (h1 : b1 < 256) (h2 : b2 < 256) (h3 : b3 < 256) (h4 : b4 < 256) (h5 : b5 < 256) :
    dm9051_get_mac_addr c scriptEnv
        { emac := e,
          dev := { bus := BusResp.ok [b0] :: BusResp.ok [b1] :: BusResp.ok [b2] :: BusResp.ok [b3] ::
                     BusResp.ok [b4] :: BusResp.ok [b5] :: rest,
                   clock := cl, heap := hp, stack := stk },
          trace := tr } =
      (ESP_OK,
        { emac := { e with addr := [b0, b1, b2, b3, b4, b5] },
          dev := { bus := rest, clock := cl, heap := hp, stack := stk },
          trace := tr ++ ev_register_read c ((c.DM9051_PAR + 0) % 256) ++
            ev_register_read c ((c.DM9051_PAR + 1) % 256) ++
            ev_register_read c ((c.DM9051_PAR + 2) % 256) ++
            ev_register_read c ((c.DM9051_PAR + 3) % 256) ++
            ev_register_read c ((c.DM9051_PAR + 4) % 256) ++
            ev_register_read c ((c.DM9051_PAR + 5) % 256) }) := by
  obtain ⟨a, ha⟩ : ∃ a, e.addr = a := ⟨_, rfl⟩
  rw [ha] at he
  match a, he with
  | [a0, a1, a2, a3, a4, a5], _ =>
    simp [dm9051_get_mac_addr, dm9051_get_mac_addr_loop, Blk.ret, Blk.bind_def, Blk.bind,
      ESP_GOTO_ON_ERROR_out, register_read_ok, call, set_addr_byte, Blk.pure, ha,
      Nat.mod_eq_of_lt h0, Nat.mod_eq_of_lt h1, Nat.mod_eq_of_lt h2, Nat.mod_eq_of_lt h3,
      Nat.mod_eq_of_lt h4, Nat.mod_eq_of_lt h5]

theorem init_gpio_trace {σ : Type} (env : Dm9051Env σ) (w : World emac_dm9051_t σ) :
    (emac_dm9051_init_gpio env w).2.trace =
      w.trace ++ [Ev.esp_rom_gpio_pad_select_gpio w.emac.int_gpio_num,
        Ev.gpio_set_direction w.emac.int_gpio_num gpio_mode_t.GPIO_MODE_INPUT,
        Ev.gpio_set_pull_mode w.emac.int_gpio_num, Ev.gpio_set_intr_type w.emac.int_gpio_num,
        Ev.gpio_intr_enable w.emac.int_gpio_num, Ev.gpio_isr_handler_add w.emac.int_gpio_num] := by
  simp [emac_dm9051_init_gpio, effect, emit]

theorem init_err_trace {σ : Type} (env : Dm9051Env σ) (w : World emac_dm9051_t σ) :
    (emac_dm9051_init_err env w).2.trace =
      w.trace ++ [Ev.gpio_isr_handler_remove w.emac.int_gpio_num,
        Ev.gpio_reset_pin w.emac.int_gpio_num,
        Ev.on_state_changed esp_eth_state_t.ETH_STATE_DEINIT] := by
  simp [emac_dm9051_init_err, effect, on_state_changed, emit]

theorem init_steps_trace {σ : Type} (c : dm9051_h) (env : Dm9051Env σ)
    (w : World emac_dm9051_t σ) :
    ∃ l, (run_until_error (emac_dm9051_init_steps c env) w).2.trace =
        w.trace ++ Ev.on_state_changed esp_eth_state_t.ETH_STATE_LLINIT :: l ∧
      ∀ ev ∈ l, Ev.is_bus_or_delay ev = true := by
  have hP : ∀ ev, Ev.is_bus ev = true → Ev.is_bus_or_delay ev = true := by
    intro ev h
    cases ev <;> simp_all [Ev.is_bus_or_delay, Ev.is_bus]
  have hD : ∀ ms, Ev.is_bus_or_delay (Ev.vTaskDelay ms) = true := fun _ => rfl
  have hchip : emits Ev.is_bus_or_delay (run_until_error (emac_dm9051_init_chip_steps c env)) := by
    apply emits_run_until_error
    intro x hx
    simp only [emac_dm9051_init_chip_steps, List.mem_cons, List.mem_singleton,
      List.not_mem_nil, or_false] at hx
    rcases hx with h | h | h | h | h <;> subst h
    · exact emits_reset c env _ hP hD
    · exact emits_verify_id c env _ hP
    · exact emits_setup_default c env _ hP
    · exact emits_clear_multicast_table c env _ hP
    · exact emits_get_mac_addr c env _ hP
  have h1 : (on_state_changed env esp_eth_state_t.ETH_STATE_LLINIT w).2.trace =
      w.trace ++ [Ev.on_state_changed esp_eth_state_t.ETH_STATE_LLINIT] := by
    simp [on_state_changed, emit]
  unfold emac_dm9051_init_steps run_until_error
  by_cases hr : (on_state_changed env esp_eth_state_t.ETH_STATE_LLINIT w).1 = ESP_OK
  · simp only [hr, if_true]
    obtain ⟨l, hl, hl2⟩ := hchip (on_state_changed env esp_eth_state_t.ETH_STATE_LLINIT w).2
    exact ⟨l, by rw [hl, h1]; simp, hl2⟩
  · simp only [hr, if_false]
    exact ⟨[], by rw [h1], by simp⟩

/-- C24: with the reads succeeding on a script, `dm9051_verify_id` reads VIDL and VIDH; when
they are not 0x46 and 0x0A it returns `ESP_ERR_INVALID_VERSION` without reading PIDL and
PIDH; otherwise it reads PIDL and PIDH and returns `ESP_OK` exactly when they are 0x51 and
0x90, `ESP_ERR_INVALID_VERSION` otherwise. In every environment, when the notification and
the reset succeeded and `dm9051_verify_id` returns `ESP_ERR_INVALID_VERSION`,
`emac_dm9051_init` returns `ESP_ERR_INVALID_VERSION`. -/
theorem verify_id_result (c : dm9051_h) (e : emac_dm9051_t) (cl : List Int) (hp : List Bool)
    (stk : List esp_err_t) (tr : List Ev) (vidl vidh : Nat) (hvl : vidl < 256) (hvh : vidh < 256) :
    (∀ rest, ¬ (vidl = 0x46 ∧ vidh = 0x0A) →
      dm9051_verify_id c scriptEnv
          { emac := e,
            dev := { bus := BusResp.ok [vidl] :: BusResp.ok [vidh] :: rest,
                     clock := cl, heap := hp, stack := stk },
            trace := tr } =
        (ESP_ERR_INVALID_VERSION,
          { emac := e, dev := { bus := rest, clock := cl, heap := hp, stack := stk },
            trace := tr ++ ev_register_read c c.DM9051_VIDL ++ ev_register_read c c.DM9051_VIDH })) ∧
    (∀ rest pidl pidh, pidl < 256 → pidh < 256 → (vidl = 0x46 ∧ vidh = 0x0A) →
      dm9051_verify_id c scriptEnv
          { emac := e,
            dev := { bus := BusResp.ok [vidl] :: BusResp.ok [vidh] :: BusResp.ok [pidl] ::
                       BusResp.ok [pidh] :: rest,
                     clock := cl, heap := hp, stack := stk },
            trace := tr } =
        (if pidl = 0x51 ∧ pidh = 0x90 then ESP_OK else ESP_ERR_INVALID_VERSION,
          { emac := e, dev := { bus := rest, clock := cl, heap := hp, stack := stk },
            trace := tr ++ ev_register_read c c.DM9051_VIDL ++ ev_register_read c c.DM9051_VIDH ++
              ev_register_read c c.DM9051_PIDL ++ ev_register_read c c.DM9051_PIDH })) ∧
    (∀ (σ : Type) (env : Dm9051Env σ) (w : World emac_dm9051_t σ),
      (on_state_changed env esp_eth_state_t.ETH_STATE_LLINIT (emac_dm9051_init_gpio env w).2).1 = ESP_OK →
      (dm9051_reset c env
        (on_state_changed env esp_eth_state_t.ETH_STATE_LLINIT (emac_dm9051_init_gpio env w).2).2).1 = ESP_OK →
      (dm9051_verify_id c env (dm9051_reset c env
        (on_state_changed env esp_eth_state_t.ETH_STATE_LLINIT (emac_dm9051_init_gpio env w).2).2).2).1 =
          ESP_ERR_INVALID_VERSION →
      (emac_dm9051_init c env w).1 = ESP_ERR_INVALID_VERSION) := by
  obtain ⟨h1, h2⟩ := verify_id_script c e cl hp stk tr vidl vidh hvl hvh
  refine ⟨?_, ?_, ?_⟩
  · intro rest hne
    exact h1 rest (fun h => hne ⟨h.2.symm, h.1.symm⟩)
  · intro rest pidl pidh hpl hph heq
    rw [h2 rest pidl pidh hpl hph ⟨heq.2.symm, heq.1.symm⟩]
    by_cases hpid : pidl = 0x51 ∧ pidh = 0x90
    · rw [if_pos hpid, if_pos ⟨hpid.2.symm, hpid.1.symm⟩]
    · rw [if_neg hpid, if_neg (fun h => hpid ⟨h.2.symm, h.1.symm⟩)]
  · intro σ env w hn hr hv
    rw [init_eq_run_until_error]
    simp [emac_dm9051_init_steps, emac_dm9051_init_chip_steps, run_until_error, hn, hr, hv]

theorem verify_id_result_witness :
    dm9051_verify_id dm9051_h_sample scriptEnv
        { emac := emac_dm9051_sample,
          dev := { bus := [BusResp.ok [0x46], BusResp.ok [0x0B], BusResp.ok [0x51], BusResp.ok [0x90]],
                   clock := [], heap := [], stack := [] },
          trace := [] } =
      (ESP_ERR_INVALID_VERSION,
        { emac := emac_dm9051_sample,
          dev := { bus := [BusResp.ok [0x51], BusResp.ok [0x90]], clock := [], heap := [], stack := [] },
          trace := [] ++ ev_register_read dm9051_h_sample dm9051_h_sample.DM9051_VIDL ++
            ev_register_read dm9051_h_sample dm9051_h_sample.DM9051_VIDH }) ∧
    (emac_dm9051_init dm9051_h_sample scriptEnv
        (script_world [BusResp.ok [], BusResp.ok [], BusResp.ok [0x00],
          BusResp.ok [0x46], BusResp.ok [0x0B]] [])).1 = ESP_ERR_INVALID_VERSION :=
  ⟨(verify_id_result dm9051_h_sample emac_dm9051_sample [] [] [] [] 0x46 0x0B (by decide)
      (by decide)).1 [BusResp.ok [0x51], BusResp.ok [0x90]] (by decide),
   (verify_id_result dm9051_h_sample emac_dm9051_sample [] [] [] [] 0x46 0x0B (by decide)
      (by decide)).2.2 Script scriptEnv
      (script_world [BusResp.ok [], BusResp.ok [], BusResp.ok [0x00],
          BusResp.ok [0x46], BusResp.ok [0x0B]] []) (by decide) (by decide) (by decide)⟩

theorem effect_script (ev : Ev) (e : emac_dm9051_t) (d : Script) (tr : List Ev) :
    effect scriptEnv ev { emac := e, dev := d, trace := tr } =
      ((), { emac := e, dev := d, trace := tr ++ [ev] }) := by
  simp [effect, emit, scriptEnv]

theorem on_state_changed_script (state : esp_eth_state_t) (e : emac_dm9051_t) (d : Script)
    (tr : List Ev) :
    on_state_changed scriptEnv state { emac := e, dev := d, trace := tr } =
      (ESP_OK, { emac := e, dev := d, trace := tr ++ [Ev.on_state_changed state] }) := by
  simp [on_state_changed, emit, scriptEnv]

/-- Script answers for polls of NCR that find the reset still running. -/
theorem reset_wait_script (c : dm9051_h) (e : emac_dm9051_t) (cl : List Int) (hp : List Bool)
    (stk : List esp_err_t) (limit : Nat) (hlim : limit < 4294967296) (busy : List Nat)
    (hbusy : ∀ b ∈ busy, b < 256 ∧ b &&& c.NCR_RST ≠ 0) :
    ∀ (fuel to_ ncr : Nat) (tr : List Ev) (tail : List BusResp), busy.length ≤ fuel →
      to_ + busy.length ≤ limit →
      dm9051_reset_wait c scriptEnv limit fuel to_ ncr
          { emac := e,
            dev := { bus := busy.map (fun b => BusResp.ok [b]) ++ tail,
                     clock := cl, heap := hp, stack := stk },
            trace := tr } =
        dm9051_reset_wait c scriptEnv limit (fuel - busy.length) (to_ + busy.length)
          (busy.getLastD ncr)
          { emac := e, dev := { bus := tail, clock := cl, heap := hp, stack := stk },
            trace := tr ++ dm9051_reset_poll_trace c busy.length } := by
  induction busy with
  | nil => intro fuel to_ ncr tr tail _ _; simp [dm9051_reset_poll_trace]
  | cons b bs ih =>
    intro fuel to_ ncr tr tail hf ht
    obtain ⟨hb, hb2⟩ := hbusy b (List.mem_cons_self _ _)
    simp only [List.length_cons] at hf ht
    obtain ⟨n, rfl⟩ : ∃ n, fuel = n + 1 := ⟨fuel - 1, by omega⟩
    have hlt : to_ < limit := by omega
    have hmod : (to_ + 1) % 4294967296 = to_ + 1 := Nat.mod_eq_of_lt (by omega)
    rw [dm9051_reset_wait]
    simp only [hlt, if_true, Blk.bind_def, Blk.bind, ESP_GOTO_ON_ERROR_out, List.map_cons,
      List.cons_append, register_read_ok, List.headD_cons, Nat.mod_eq_of_lt hb, hb2,
      not_true_eq_false, if_false, call, effect_script, hmod, ne_eq, not_false_eq_true]
    have := ih (fun x hx => hbusy x (List.mem_cons_of_mem _ hx)) n (to_ + 1) b
      (tr ++ ev_register_read c c.DM9051_NCR ++ [Ev.vTaskDelay 10]) tail (by omega) (by omega)
    rw [this]
    have h1 : n + 1 - (bs.length + 1) = n - bs.length := by omega
    have h2 : to_ + 1 + bs.length = to_ + (bs.length + 1) := by omega
    have h3 : bs.getLastD b = (b :: bs).getLastD ncr := by
      cases bs <;> simp [List.getLastD]
    simp only [List.length_cons]
    rw [h1, h2, h3]
    simp [dm9051_reset_poll_trace, List.append_assoc]

theorem reset_wait_at_limit {σ : Type} (c : dm9051_h) (env : Dm9051Env σ) (limit fuel ncr : Nat)
    (w : World emac_dm9051_t σ) :
    dm9051_reset_wait c env limit fuel limit ncr w = (Except.ok limit, w) := by
  cases fuel <;> simp [dm9051_reset_wait, Blk.pure]

/-- The software reset of the DM9051 on a script, for `k` polls that find the reset still
running: with `k` below `sw_reset_timeout_ms / 10` and a next poll that finds it complete the
result is `ESP_OK`; with `k` equal to `sw_reset_timeout_ms / 10` the result is
`ESP_ERR_TIMEOUT` after exactly `k` polls. -/
theorem reset_script (c : dm9051_h) (e : emac_dm9051_t) (cl : List Int) (hp : List Bool)
    (stk : List esp_err_t) (tr : List Ev) (g1 g2 : List Nat) (busy : List Nat)
    (hT : e.sw_reset_timeout_ms < 4294967296)
    (hbusy : ∀ b ∈ busy, b < 256 ∧ b &&& c.NCR_RST ≠ 0) :
    (∀ rest d, busy.length < e.sw_reset_timeout_ms / 10 → d < 256 → d &&& c.NCR_RST = 0 →
      dm9051_reset c scriptEnv
          { emac := e,
            dev := { bus := BusResp.ok g1 :: BusResp.ok g2 ::
                       (busy.map (fun b => BusResp.ok [b]) ++ BusResp.ok [d] :: rest),
                     clock := cl, heap := hp, stack := stk },
            trace := tr } =
        (ESP_OK,
          { emac := e, dev := { bus := rest, clock := cl, heap := hp, stack := stk },
            trace := tr ++ ev_register_write c c.DM9051_GPR 0x00 ++ [Ev.vTaskDelay 10] ++
              ev_register_write c c.DM9051_NCR (c.NCR_RST % 256) ++
              dm9051_reset_poll_trace c busy.length ++ ev_register_read c c.DM9051_NCR })) ∧
    (∀ rest, busy.length = e.sw_reset_timeout_ms / 10 →
      dm9051_reset c scriptEnv
          { emac := e,
            dev := { bus := BusResp.ok g1 :: BusResp.ok g2 ::
                       (busy.map (fun b => BusResp.ok [b]) ++ rest),
                     clock := cl, heap := hp, stack := stk },
            trace := tr } =
        (ESP_ERR_TIMEOUT,
          { emac := e, dev := { bus := rest, clock := cl, heap := hp, stack := stk },
            trace := tr ++ ev_register_write c c.DM9051_GPR 0x00 ++ [Ev.vTaskDelay 10] ++
              ev_register_write c c.DM9051_NCR (c.NCR_RST % 256) ++
              dm9051_reset_poll_trace c busy.length })) := by
  have hlim : e.sw_reset_timeout_ms / 10 < 4294967296 := by omega
  have hws := fun (h1 : busy.length ≤ e.sw_reset_timeout_ms / 10 + 1)
      (h2 : 0 + busy.length ≤ e.sw_reset_timeout_ms / 10) ncr tr tail =>
    reset_wait_script c e cl hp stk _ hlim busy hbusy (e.sw_reset_timeout_ms / 10 + 1) 0 ncr tr tail
      h1 h2
  refine ⟨?_, ?_⟩
  · intro rest d hk hd hd2
    obtain ⟨m, hm⟩ : ∃ m, e.sw_reset_timeout_ms / 10 + 1 - busy.length = m + 1 :=
      ⟨e.sw_reset_timeout_ms / 10 - busy.length, by omega⟩
    simp only [dm9051_reset, Blk.ret, Blk.bind_def, Blk.bind, ESP_GOTO_ON_ERROR,
      register_write_ok, call, effect_script,
      hws (by omega) (by omega), hm, Nat.zero_add]
    rw [dm9051_reset_wait]
    simp [hk, Blk.bind_def, Blk.bind, ESP_GOTO_ON_ERROR_out, register_read_ok,
      Nat.mod_eq_of_lt hd, hd2, Blk.pure, ESP_GOTO_ON_FALSE, List.append_assoc]
  · intro rest hk
    simp only [dm9051_reset, Blk.ret, Blk.bind_def, Blk.bind, ESP_GOTO_ON_ERROR,
      register_write_ok, call, effect_script,
      hws (by omega) (by omega), Nat.zero_add, hk, reset_wait_at_limit]
    simp [ESP_GOTO_ON_FALSE, goto_err]

section esp32_init_script
variable (e : emac_esp32_t) (s : Esp32InitScript) (tr : List Ev)

theorem esp32_effect_script (ev : Ev) :
    esp32_effect scriptSys ev { emac := e, dev := s, trace := tr } =
      ((), { emac := e, dev := s, trace := tr ++ [ev] }) := by
  simp [esp32_effect, emit, scriptSys]

theorem is_reset_done_script (b : Bool) (rd : List Bool) (nt : List esp_err_t) (f : Nat)
    (mac : esp_err_t × List Nat) :
    emac_ll_is_reset_done scriptSys
        { emac := e, dev := { reset_done := b :: rd, notify := nt, apb_freq := f, mac := mac },
          trace := tr } =
      (b, { emac := e, dev := { reset_done := rd, notify := nt, apb_freq := f, mac := mac },
            trace := tr ++ [Ev.emac_ll_is_reset_done] }) := by
  simp [emac_ll_is_reset_done, emit, scriptSys]

theorem smi_gpio_script :
    emac_esp32_init_smi_gpio scriptSys { emac := e, dev := s, trace := tr } =
      ((), { emac := e, dev := s,
             trace := (emac_esp32_init_smi_gpio scriptSys { emac := e, dev := s, trace := tr }).2.trace }) := by
  unfold emac_esp32_init_smi_gpio
  by_cases h1 : e.smi_mdc_gpio_num ≥ 0 <;> by_cases h2 : e.smi_mdio_gpio_num ≥ 0 <;>
    simp [h1, h2, esp32_effect_script]

theorem esp32_reset_wait_at_limit {σ : Type} (sys : Esp32InitEnv σ) (limit fuel : Nat)
    (w : World emac_esp32_t σ) :
    emac_esp32_reset_wait sys limit fuel limit w = (limit, w) := by
  cases fuel <;> simp [emac_esp32_reset_wait]

theorem esp32_reset_wait_script (limit : Nat) (hlim : limit < 4294967296) (nt : List esp_err_t)
    (f : Nat) (mac : esp_err_t × List Nat) (tail : List Bool) :
    ∀ (k fuel to_ : Nat) (tr : List Ev), k ≤ fuel → to_ + k ≤ limit →
      emac_esp32_reset_wait scriptSys limit fuel to_
          { emac := e,
            dev := { reset_done := List.replicate k false ++ tail, notify := nt, apb_freq := f,
                     mac := mac },
            trace := tr } =
        emac_esp32_reset_wait scriptSys limit (fuel - k) (to_ + k)
          { emac := e, dev := { reset_done := tail, notify := nt, apb_freq := f, mac := mac },
            trace := tr ++ emac_esp32_reset_poll_trace k } := by
  intro k
  induction k with
  | zero => intro fuel to_ tr _ _; simp [emac_esp32_reset_poll_trace]
  | succ k ih =>
    intro fuel to_ tr hf ht
    obtain ⟨n, rfl⟩ : ∃ n, fuel = n + 1 := ⟨fuel - 1, by omega⟩
    have hlt : to_ < limit := by omega
    have hmod : (to_ + 1) % 4294967296 = to_ + 1 := Nat.mod_eq_of_lt (by omega)
    rw [emac_esp32_reset_wait]
    simp only [hlt, if_true, List.replicate_succ, List.cons_append, is_reset_done_script,
      esp32_effect_script, hmod]
    rw [ih n (to_ + 1) _ (by omega) (by omega)]
    have h1 : n + 1 - (k + 1) = n - k := by omega
    have h2 : to_ + 1 + k = to_ + (k + 1) := by omega
    rw [h1, h2]
    simp [emac_esp32_reset_poll_trace, List.append_assoc]

end esp32_init_script

/-- The initialisation of the ESP32 EMAC on a script, for `k` polls that find the reset
still running. -/
theorem esp32_init_script (pm : Bool) (e : emac_esp32_t) (tr : List Ev) (k : Nat) (rd : List Bool)
    (f : Nat) (mac : esp_err_t × List Nat) (hT : e.sw_reset_timeout_ms < 4294967296) :
    (k < e.sw_reset_timeout_ms / 10 → mac.1 = ESP_OK →
      emac_esp32_init scriptSys pm
          { emac := e,
            dev := { reset_done := List.replicate k false ++ true :: rd, notify := [],
                     apb_freq := f, mac := mac },
            trace := tr } =
        (ESP_OK,
          { emac := { e with addr := mac.2 },
            dev := { reset_done := rd, notify := [], apb_freq := f, mac := mac },
            trace := (emac_esp32_init_smi_gpio scriptSys
                { emac := e,
                  dev := { reset_done := List.replicate k false ++ true :: rd, notify := [],
                           apb_freq := f, mac := mac },
                  trace := tr }).2.trace ++
              [Ev.on_state_changed esp_eth_state_t.ETH_STATE_LLINIT, Ev.emac_ll_reset] ++
              emac_esp32_reset_poll_trace k ++
              [Ev.emac_ll_is_reset_done, Ev.esp_clk_apb_freq, Ev.emac_hal_set_csr_clock_range f,
               Ev.emac_hal_init_mac_default, Ev.emac_hal_init_dma_default, Ev.esp_read_mac,
               Ev.emac_hal_set_address mac.2] ++
              (if pm = true then [Ev.esp_pm_lock_acquire] else []) })) ∧
    (k = e.sw_reset_timeout_ms / 10 →
      emac_esp32_init scriptSys pm
          { emac := e,
            dev := { reset_done := List.replicate k false ++ rd, notify := [],
                     apb_freq := f, mac := mac },
            trace := tr } =
        (ESP_ERR_TIMEOUT,
          { emac := e,
            dev := { reset_done := rd, notify := [], apb_freq := f, mac := mac },
            trace := (emac_esp32_init_smi_gpio scriptSys
                { emac := e,
                  dev := { reset_done := List.replicate k false ++ rd, notify := [],
                           apb_freq := f, mac := mac },
                  trace := tr }).2.trace ++
              [Ev.on_state_changed esp_eth_state_t.ETH_STATE_LLINIT, Ev.emac_ll_reset] ++
              emac_esp32_reset_poll_trace k ++
              [Ev.on_state_changed esp_eth_state_t.ETH_STATE_DEINIT, Ev.periph_module_disable] })) := by
  have hlim : e.sw_reset_timeout_ms / 10 < 4294967296 := by omega
  have hn : ∀ (st : esp_eth_state_t) (s : Esp32InitScript) (t : List Ev), s.notify = [] →
      esp32_on_state_changed scriptSys st { emac := e, dev := s, trace := t } =
        (ESP_OK, { emac := e, dev := s, trace := t ++ [Ev.on_state_changed st] }) := by
    intro st s t h
    simp [esp32_on_state_changed, emit, scriptSys, h]
  have hf : ∀ (s : Esp32InitScript) (t : List Ev),
      esp_clk_apb_freq scriptSys { emac := e, dev := s, trace := t } =
        (s.apb_freq, { emac := e, dev := s, trace := t ++ [Ev.esp_clk_apb_freq] }) := by
    intro s t
    simp [esp_clk_apb_freq, emit, scriptSys]
  have hr : ∀ (s : Esp32InitScript) (t : List Ev),
      esp_read_mac scriptSys { emac := e, dev := s, trace := t } =
        (s.mac.1, { emac := { e with addr := s.mac.2 }, dev := s, trace := t ++ [Ev.esp_read_mac] }) := by
    intro s t
    simp [esp_read_mac, emit, scriptSys]
  refine ⟨?_, ?_⟩
  · intro hk hm
    obtain ⟨m, hm1⟩ : ∃ m, e.sw_reset_timeout_ms / 10 + 1 - k = m + 1 :=
      ⟨e.sw_reset_timeout_ms / 10 - k, by omega⟩
    obtain ⟨r, a⟩ := mac
    simp only at hm
    subst hm
    rw [emac_esp32_init, smi_gpio_script]
    generalize (emac_esp32_init_smi_gpio scriptSys _).2.trace = t0
    simp only [emac_esp32_init_body, Blk.bind_def, Blk.bind, ESP_GOTO_ON_ERROR, hn, call,
      esp32_effect_script,
      esp32_reset_wait_script e _ hlim [] f (ESP_OK, a) (true :: rd) k
        (e.sw_reset_timeout_ms / 10 + 1) 0 _ (by omega) (by omega),
      hm1, Nat.zero_add]
    rw [emac_esp32_reset_wait]
    cases pm <;>
      simp [hk, is_reset_done_script, ESP_GOTO_ON_FALSE, Blk.pure, hf, hr, call,
        esp32_effect_script, Blk.bind, ESP_GOTO_ON_ERROR, List.append_assoc]
  · intro hk
    subst hk
    rw [emac_esp32_init, smi_gpio_script]
    generalize (emac_esp32_init_smi_gpio scriptSys _).2.trace = t0
    simp only [emac_esp32_init_body, Blk.bind_def, Blk.bind, ESP_GOTO_ON_ERROR, hn, call,
      esp32_effect_script,
      esp32_reset_wait_script e _ hlim [] f mac rd (e.sw_reset_timeout_ms / 10)
        (e.sw_reset_timeout_ms / 10 + 1) 0 _ (by omega) (by omega),
      Nat.zero_add, esp32_reset_wait_at_limit]
    simp [ESP_GOTO_ON_FALSE, goto_err, hn, esp32_effect_script, List.append_assoc]

/-- C25: the software-reset wait of both engines, for `sw_reset_timeout_ms = T` and
`N = T / 10`, on scripts without bus errors. `dm9051_reset` after `k` polls of NCR that find
the reset bit set, each followed by a wait of 10 ms: when `k < N` and the next poll finds the
bit clear it returns `ESP_OK` after `k + 1` polls; when `k = N` it returns
`ESP_ERR_TIMEOUT` after exactly `N` polls, which for `N = 0` is without any poll.
`emac_esp32_init` after `k` polls of `emac_ll_is_reset_done` that answer false, each followed
by a wait of 10 ms: when `k < N` and the next poll answers true the initialisation goes on
and returns `ESP_OK`; when `k = N` it returns `ESP_ERR_TIMEOUT` after exactly `N` polls,
notifies Deinit and disables the peripheral module. -/
theorem sw_reset_wait_polls (c : dm9051_h) (e : emac_dm9051_t) (cl : List Int) (hp : List Bool)
    (stk : List esp_err_t) (tr : List Ev) (g1 g2 : List Nat) (busy : List Nat)
    (pm : Bool) (e32 : emac_esp32_t) (tr32 : List Ev) (k : Nat) (rd : List Bool)
    (f : Nat) (mac : esp_err_t × List Nat)
    (hT : e.sw_reset_timeout_ms < 4294967296)
    (hbusy : ∀ b ∈ busy, b < 256 ∧ b &&& c.NCR_RST ≠ 0)
    (hT32 : e32.sw_reset_timeout_ms < 4294967296) :
    (∀ rest d, busy.length < e.sw_reset_timeout_ms / 10 → d < 256 → d &&& c.NCR_RST = 0 →
      dm9051_reset c scriptEnv
          { emac := e,
            dev := { bus := BusResp.ok g1 :: BusResp.ok g2 ::
                       (busy.map (fun b => BusResp.ok [b]) ++ BusResp.ok [d] :: rest),
                     clock := cl, heap := hp, stack := stk },
            trace := tr } =
        (ESP_OK,
          { emac := e, dev := { bus := rest, clock := cl, heap := hp, stack := stk },
            trace := tr ++ ev_register_write c c.DM9051_GPR 0x00 ++ [Ev.vTaskDelay 10] ++
              ev_register_write c c.DM9051_NCR (c.NCR_RST % 256) ++
              dm9051_reset_poll_trace c busy.length ++ ev_register_read c c.DM9051_NCR })) ∧
    (∀ rest, busy.length = e.sw_reset_timeout_ms / 10 →
      dm9051_reset c scriptEnv
          { emac := e,
            dev := { bus := BusResp.ok g1 :: BusResp.ok g2 ::
                       (busy.map (fun b => BusResp.ok [b]) ++ rest),
                     clock := cl, heap := hp, stack := stk },
            trace := tr } =
        (ESP_ERR_TIMEOUT,
          { emac := e, dev := { bus := rest, clock := cl, heap := hp, stack := stk },
            trace := tr ++ ev_register_write c c.DM9051_GPR 0x00 ++ [Ev.vTaskDelay 10] ++
              ev_register_write c c.DM9051_NCR (c.NCR_RST % 256) ++
              dm9051_reset_poll_trace c busy.length })) ∧
    (k < e32.sw_reset_timeout_ms / 10 → mac.1 = ESP_OK →
      emac_esp32_init scriptSys pm
          { emac := e32,
            dev := { reset_done := List.replicate k false ++ true :: rd, notify := [],
                     apb_freq := f, mac := mac },
            trace := tr32 } =
        (ESP_OK,
          { emac := { e32 with addr := mac.2 },
            dev := { reset_done := rd, notify := [], apb_freq := f, mac := mac },
            trace := (emac_esp32_init_smi_gpio scriptSys
                { emac := e32,
                  dev := { reset_done := List.replicate k false ++ true :: rd, notify := [],
                           apb_freq := f, mac := mac },
                  trace := tr32 }).2.trace ++
              [Ev.on_state_changed esp_eth_state_t.ETH_STATE_LLINIT, Ev.emac_ll_reset] ++
              emac_esp32_reset_poll_trace k ++
              [Ev.emac_ll_is_reset_done, Ev.esp_clk_apb_freq, Ev.emac_hal_set_csr_clock_range f,
               Ev.emac_hal_init_mac_default, Ev.emac_hal_init_dma_default, Ev.esp_read_mac,
               Ev.emac_hal_set_address mac.2] ++
              (if pm = true then [Ev.esp_pm_lock_acquire] else []) })) ∧
    (k = e32.sw_reset_timeout_ms / 10 →
      emac_esp32_init scriptSys pm
          { emac := e32,
            dev := { reset_done := List.replicate k false ++ rd, notify := [],
                     apb_freq := f, mac := mac },
            trace := tr32 } =
        (ESP_ERR_TIMEOUT,
          { emac := e32,
            dev := { reset_done := rd, notify := [], apb_freq := f, mac := mac },
            trace := (emac_esp32_init_smi_gpio scriptSys
                { emac := e32,
                  dev := { reset_done := List.replicate k false ++ rd, notify := [],
                           apb_freq := f, mac := mac },
                  trace := tr32 }).2.trace ++
              [Ev.on_state_changed esp_eth_state_t.ETH_STATE_LLINIT, Ev.emac_ll_reset] ++
              emac_esp32_reset_poll_trace k ++
              [Ev.on_state_changed esp_eth_state_t.ETH_STATE_DEINIT, Ev.periph_module_disable] })) :=
  ⟨(reset_script c e cl hp stk tr g1 g2 busy hT hbusy).1,
   (reset_script c e cl hp stk tr g1 g2 busy hT hbusy).2,
   (esp32_init_script pm e32 tr32 k rd f mac hT32).1,
   (esp32_init_script pm e32 tr32 k rd f mac hT32).2⟩

/-- With a timeout of 5 ms the DM9051 reset reports a timeout without reading NCR; with
20 ms and two busy polls the ESP32 initialisation reports a timeout after two polls. -/
theorem sw_reset_wait_polls_witness :
    dm9051_reset dm9051_h_sample scriptEnv
        { emac := { emac_dm9051_sample with sw_reset_timeout_ms := 5 },
          dev := { bus := [BusResp.ok [], BusResp.ok [], BusResp.ok [0]],
                   clock := [], heap := [], stack := [] },
          trace := [] } =
      (ESP_ERR_TIMEOUT,
        { emac := { emac_dm9051_sample with sw_reset_timeout_ms := 5 },
          dev := { bus := [BusResp.ok [0]], clock := [], heap := [], stack := [] },
          trace := [] ++ ev_register_write dm9051_h_sample dm9051_h_sample.DM9051_GPR 0x00 ++
            [Ev.vTaskDelay 10] ++
            ev_register_write dm9051_h_sample dm9051_h_sample.DM9051_NCR (dm9051_h_sample.NCR_RST % 256) ++
            dm9051_reset_poll_trace dm9051_h_sample 0 }) ∧
    (emac_esp32_init scriptSys false
        { emac := { emac_esp32_sample 1 1 with sw_reset_timeout_ms := 20 },
          dev := { reset_done := [false, false, true], notify := [], apb_freq := 80000000,
                   mac := (ESP_OK, [1, 2, 3, 4, 5, 6]) },
          trace := [] }).1 = ESP_ERR_TIMEOUT :=
  ⟨(sw_reset_wait_polls dm9051_h_sample { emac_dm9051_sample with sw_reset_timeout_ms := 5 }
      [] [] [] [] [] [] [] false { emac_esp32_sample 1 1 with sw_reset_timeout_ms := 20 } [] 2
      [true] 80000000 (ESP_OK, [1, 2, 3, 4, 5, 6]) (by decide) (by simp) (by decide)).2.1
      [BusResp.ok [0]] (by decide),
   congrArg Prod.fst
    ((sw_reset_wait_polls dm9051_h_sample { emac_dm9051_sample with sw_reset_timeout_ms := 5 }
      [] [] [] [] [] [] [] false { emac_esp32_sample 1 1 with sw_reset_timeout_ms := 20 } [] 2
      [true] 80000000 (ESP_OK, [1, 2, 3, 4, 5, 6]) (by decide) (by simp) (by decide)).2.2.2
      (by decide))⟩

/-! ## C22: the constructor of the ESP32 EMAC and its resources -/

section res_lemmas
variable (h : emac_esp32_h) (l : esp_emac_locals) (rest : List Bool) (n : Nat) (a r : List Nat)
  (en di : Nat) (x : rtc_xtal_freq_t) (tr : List Ev)

theorem heap_caps_calloc_res (size : Nat) :
    heap_caps_calloc resEnv size
        { emac := l,
          dev := { script := true :: rest, next := n, acquired := a, released := r, enabled := en,
                   disabled := di, xtal := x },
          trace := tr } =
      (some n,
        { emac := l,
          dev := { script := rest, next := n + 1, acquired := a ++ [n], released := r,
                   enabled := en, disabled := di, xtal := x },
          trace := tr ++ [Ev.new_esp32 (NewEv.heap_caps_calloc size)] }) := by
  simp [heap_caps_calloc, emit, resEnv, Res.acquire]

theorem calloc_res (size : Nat) :
    calloc resEnv size
        { emac := l,
          dev := { script := true :: rest, next := n, acquired := a, released := r, enabled := en,
                   disabled := di, xtal := x },
          trace := tr } =
      (some n,
        { emac := l,
          dev := { script := rest, next := n + 1, acquired := a ++ [n], released := r,
                   enabled := en, disabled := di, xtal := x },
          trace := tr ++ [Ev.new_esp32 (NewEv.calloc size)] }) := by
  simp [calloc, emit, resEnv, Res.acquire]

theorem free_ptr_res (s : Res) (p : Nat) :
    free_ptr resEnv (some p) { emac := l, dev := s, trace := tr } =
      ((), { emac := l, dev := { s with released := s.released ++ [p] },
             trace := tr ++ [Ev.new_esp32 (NewEv.free_ptr (some p))] }) := by
  simp [free_ptr, emit, resEnv, Res.release]

/-- The loop that allocates the RX buffers, when the next attempts all succeed. -/
theorem alloc_rx_bufs_res (em : emac_esp32_obj) (d : Option Nat) :
    ∀ (m fuel : Nat) (pre : List (Option Nat)) (n : Nat) (a : List Nat) (tr : List Ev),
      m < fuel → pre.length + m = h.CONFIG_ETH_DMA_RX_BUFFER_NUM →
      esp_emac_alloc_rx_bufs h resEnv fuel pre.length
          { emac := { emac := some { em with rx_buf := pre ++ List.replicate m none },
                      descriptors := d },
            dev := { script := List.replicate m true ++ rest, next := n, acquired := a,
                     released := r, enabled := en, disabled := di, xtal := x },
            trace := tr } =
        (Except.ok (),
          { emac := { emac := some { em with rx_buf := pre ++ (List.range' n m).map some },
                      descriptors := d },
            dev := { script := rest, next := n + m, acquired := a ++ List.range' n m,
                     released := r, enabled := en, disabled := di, xtal := x },
            trace := tr ++ List.replicate m
              (Ev.new_esp32 (NewEv.heap_caps_calloc h.CONFIG_ETH_DMA_BUFFER_SIZE)) }) := by
  intro m
  induction m with
  | zero =>
    intro fuel pre n a tr hf hl
    obtain ⟨f, rfl⟩ : ∃ f, fuel = f + 1 := ⟨fuel - 1, by omega⟩
    have : ¬ pre.length < h.CONFIG_ETH_DMA_RX_BUFFER_NUM := by omega
    simp [esp_emac_alloc_rx_bufs, this, Blk.pure]
  | succ m ih =>
    intro fuel pre n a tr hf hl
    obtain ⟨f, rfl⟩ : ∃ f, fuel = f + 1 := ⟨fuel - 1, by omega⟩
    have hlt : pre.length < h.CONFIG_ETH_DMA_RX_BUFFER_NUM := by omega
    rw [esp_emac_alloc_rx_bufs]
    simp only [hlt, if_true, Blk.bind_def, Blk.bind, call, List.replicate_succ, List.cons_append,
      heap_caps_calloc_res, set_emac, Option.map_some', ESP_GOTO_ON_FALSE, Option.isSome_some,
      Blk.pure]
    have hset : (pre ++ none :: List.replicate m none).set pre.length (some n) =
        (pre ++ [some n]) ++ List.replicate m none := by
      simp [List.set_append]
    simp only [hset]
    have := ih f (pre ++ [some n]) (n + 1) (a ++ [n])
      (tr ++ [Ev.new_esp32 (NewEv.heap_caps_calloc h.CONFIG_ETH_DMA_BUFFER_SIZE)])
      (by omega) (by simp; omega)
    simp only [List.length_append, List.length_singleton] at this
    rw [this]
    simp [List.range'_succ, List.append_assoc, Nat.add_assoc, Nat.add_comm 1 m]

/-- The loop that allocates the TX buffers, when the next attempts all succeed. -/
theorem alloc_tx_bufs_res (em : emac_esp32_obj) (d : Option Nat) :
    ∀ (m fuel : Nat) (pre : List (Option Nat)) (n : Nat) (a : List Nat) (tr : List Ev),
      m < fuel → pre.length + m = h.CONFIG_ETH_DMA_TX_BUFFER_NUM →
      esp_emac_alloc_tx_bufs h resEnv fuel pre.length
          { emac := { emac := some { em with tx_buf := pre ++ List.replicate m none },
                      descriptors := d },
            dev := { script := List.replicate m true ++ rest, next := n, acquired := a,
                     released := r, enabled := en, disabled := di, xtal := x },
            trace := tr } =
        (Except.ok (),
          { emac := { emac := some { em with tx_buf := pre ++ (List.range' n m).map some },
                      descriptors := d },
            dev := { script := rest, next := n + m, acquired := a ++ List.range' n m,
                     released := r, enabled := en, disabled := di, xtal := x },
            trace := tr ++ List.replicate m
              (Ev.new_esp32 (NewEv.heap_caps_calloc h.CONFIG_ETH_DMA_BUFFER_SIZE)) }) := by
  intro m
  induction m with
  | zero =>
    intro fuel pre n a tr hf hl
    obtain ⟨f, rfl⟩ : ∃ f, fuel = f + 1 := ⟨fuel - 1, by omega⟩
    have : ¬ pre.length < h.CONFIG_ETH_DMA_TX_BUFFER_NUM := by omega
    simp [esp_emac_alloc_tx_bufs, this, Blk.pure]
  | succ m ih =>
    intro fuel pre n a tr hf hl
    obtain ⟨f, rfl⟩ : ∃ f, fuel = f + 1 := ⟨fuel - 1, by omega⟩
    have hlt : pre.length < h.CONFIG_ETH_DMA_TX_BUFFER_NUM := by omega
    rw [esp_emac_alloc_tx_bufs]
    simp only [hlt, if_true, Blk.bind_def, Blk.bind, call, List.replicate_succ, List.cons_append,
      heap_caps_calloc_res, set_emac, Option.map_some', ESP_GOTO_ON_FALSE, Option.isSome_some,
      Blk.pure]
    have hset : (pre ++ none :: List.replicate m none).set pre.length (some n) =
        (pre ++ [some n]) ++ List.replicate m none := by
      simp [List.set_append]
    simp only [hset]
    have := ih f (pre ++ [some n]) (n + 1) (a ++ [n])
      (tr ++ [Ev.new_esp32 (NewEv.heap_caps_calloc h.CONFIG_ETH_DMA_BUFFER_SIZE)])
      (by omega) (by simp; omega)
    simp only [List.length_append, List.length_singleton] at this
    rw [this]
    simp [List.range'_succ, List.append_assoc, Nat.add_assoc, Nat.add_comm 1 m]

/-- The loop that frees the buffers of an array, all of them allocated. -/
theorem free_bufs_res (cnt : Nat) :
    ∀ (ids : List Nat) (fuel : Nat) (pre : List (Option Nat)) (s : Res) (tr : List Ev),
      ids.length < fuel → pre.length + ids.length = cnt →
      esp_emac_free_bufs resEnv cnt (pre ++ ids.map some) fuel pre.length
          { emac := l, dev := s, trace := tr } =
        ((), { emac := l, dev := { s with released := s.released ++ ids },
               trace := tr ++ ids.map (fun p => Ev.new_esp32 (NewEv.free_ptr (some p))) }) := by
  intro ids
  induction ids with
  | nil =>
    intro fuel pre s tr hf hl
    obtain ⟨f, rfl⟩ : ∃ f, fuel = f + 1 := ⟨fuel - 1, by omega⟩
    simp only [List.length_nil, Nat.add_zero] at hl
    simp [esp_emac_free_bufs, hl]
  | cons p ids ih =>
    intro fuel pre s tr hf hl
    obtain ⟨f, rfl⟩ : ∃ f, fuel = f + 1 := ⟨fuel - 1, by simp at hf; omega⟩
    simp only [List.length_cons] at hf hl
    have hlt : pre.length < cnt := by omega
    rw [esp_emac_free_bufs]
    have hget : (pre ++ List.map some (p :: ids)).getD pre.length none = some p := by
      rw [List.getD_eq_getElem?_getD, List.getElem?_append_right (le_refl _)]
      simp
    simp only [hlt, if_true, hget, free_ptr_res]
    have hb : pre ++ List.map some (p :: ids) = (pre ++ [some p]) ++ List.map some ids := by simp
    have := ih f (pre ++ [some p]) { s with released := s.released ++ [p] }
      (tr ++ [Ev.new_esp32 (NewEv.free_ptr (some p))]) (by omega) (by simp; omega)
    simp only [List.length_append, List.length_singleton] at this
    rw [hb, this]
    simp [List.append_assoc]

end res_lemmas

section res_new
variable (h : emac_esp32_h) (rest : List Bool) (n : Nat) (a r : List Nat)
  (en di : Nat) (x : rtc_xtal_freq_t) (tr : List Ev)

theorem alloc_rx_bufs_res0 (em : emac_esp32_obj) (d : Option Nat)
    (hem : em.rx_buf = List.replicate h.CONFIG_ETH_DMA_RX_BUFFER_NUM none) :
    esp_emac_alloc_rx_bufs h resEnv (h.CONFIG_ETH_DMA_RX_BUFFER_NUM + 1) 0
        { emac := { emac := some em, descriptors := d },
          dev := { script := List.replicate h.CONFIG_ETH_DMA_RX_BUFFER_NUM true ++ rest, next := n,
                   acquired := a, released := r, enabled := en, disabled := di, xtal := x },
          trace := tr } =
      (Except.ok (),
        { emac := { emac := some { em with
                      rx_buf := (List.range' n h.CONFIG_ETH_DMA_RX_BUFFER_NUM).map some },
                    descriptors := d },
          dev := { script := rest, next := n + h.CONFIG_ETH_DMA_RX_BUFFER_NUM,
                   acquired := a ++ List.range' n h.CONFIG_ETH_DMA_RX_BUFFER_NUM,
                   released := r, enabled := en, disabled := di, xtal := x },
          trace := tr ++ List.replicate h.CONFIG_ETH_DMA_RX_BUFFER_NUM
            (Ev.new_esp32 (NewEv.heap_caps_calloc h.CONFIG_ETH_DMA_BUFFER_SIZE)) }) := by
  have := alloc_rx_bufs_res h rest r en di x em d h.CONFIG_ETH_DMA_RX_BUFFER_NUM
    (h.CONFIG_ETH_DMA_RX_BUFFER_NUM + 1) [] n a tr (by omega) (by simp)
  simp only [List.nil_append, List.length_nil] at this
  rw [← hem] at this
  exact this

theorem alloc_tx_bufs_res0 (em : emac_esp32_obj) (d : Option Nat)
    (hem : em.tx_buf = List.replicate h.CONFIG_ETH_DMA_TX_BUFFER_NUM none) :
    esp_emac_alloc_tx_bufs h resEnv (h.CONFIG_ETH_DMA_TX_BUFFER_NUM + 1) 0
        { emac := { emac := some em, descriptors := d },
          dev := { script := List.replicate h.CONFIG_ETH_DMA_TX_BUFFER_NUM true ++ rest, next := n,
                   acquired := a, released := r, enabled := en, disabled := di, xtal := x },
          trace := tr } =
      (Except.ok (),
        { emac := { emac := some { em with
                      tx_buf := (List.range' n h.CONFIG_ETH_DMA_TX_BUFFER_NUM).map some },
                    descriptors := d },
          dev := { script := rest, next := n + h.CONFIG_ETH_DMA_TX_BUFFER_NUM,
                   acquired := a ++ List.range' n h.CONFIG_ETH_DMA_TX_BUFFER_NUM,
                   released := r, enabled := en, disabled := di, xtal := x },
          trace := tr ++ List.replicate h.CONFIG_ETH_DMA_TX_BUFFER_NUM
            (Ev.new_esp32 (NewEv.heap_caps_calloc h.CONFIG_ETH_DMA_BUFFER_SIZE)) }) := by
  have := alloc_tx_bufs_res h rest r en di x em d h.CONFIG_ETH_DMA_TX_BUFFER_NUM
    (h.CONFIG_ETH_DMA_TX_BUFFER_NUM + 1) [] n a tr (by omega) (by simp)
  simp only [List.nil_append, List.length_nil] at this
  rw [← hem] at this
  exact this

theorem free_bufs_res0 (l : esp_emac_locals) (cnt : Nat) (ids : List Nat) (s : Res)
    (hl : ids.length = cnt) :
    esp_emac_free_bufs resEnv cnt (ids.map some) (cnt + 1) 0 { emac := l, dev := s, trace := tr } =
      ((), { emac := l, dev := { s with released := s.released ++ ids },
             trace := tr ++ ids.map (fun p => Ev.new_esp32 (NewEv.free_ptr (some p))) }) := by
  have := free_bufs_res l cnt ids (cnt + 1) [] s tr (by omega) (by simpa using hl)
  simpa using this

end res_new

section res_alloc
variable (h : emac_esp32_h) (rest : List Bool) (n : Nat) (a r : List Nat)
  (en di : Nat) (x : rtc_xtal_freq_t) (tr : List Ev)

theorem alloc_script_eq (tail : List Bool) :
    List.replicate (esp_emac_alloc_count h) true ++ tail =
      true :: true :: (List.replicate h.CONFIG_ETH_DMA_RX_BUFFER_NUM true ++
        (List.replicate h.CONFIG_ETH_DMA_TX_BUFFER_NUM true ++
          ((if h.CONFIG_PM_ENABLE = true then [true] else []) ++ true :: tail))) := by
  unfold esp_emac_alloc_count
  cases h.CONFIG_PM_ENABLE
  · have e : (2 + h.CONFIG_ETH_DMA_RX_BUFFER_NUM + h.CONFIG_ETH_DMA_TX_BUFFER_NUM +
        if false = true then 1 else 0) + 1 =
        1 + (1 + (h.CONFIG_ETH_DMA_RX_BUFFER_NUM + (h.CONFIG_ETH_DMA_TX_BUFFER_NUM + 1))) := by
      simp only [Bool.false_eq_true, if_false]; omega
    rw [e, List.replicate_add, List.replicate_add, List.replicate_add, List.replicate_add]
    simp
  · have e : (2 + h.CONFIG_ETH_DMA_RX_BUFFER_NUM + h.CONFIG_ETH_DMA_TX_BUFFER_NUM +
        if true = true then 1 else 0) + 1 =
        1 + (1 + (h.CONFIG_ETH_DMA_RX_BUFFER_NUM + (h.CONFIG_ETH_DMA_TX_BUFFER_NUM + (1 + 1)))) := by
      simp only [if_true]; omega
    rw [e, List.replicate_add, List.replicate_add, List.replicate_add, List.replicate_add,
      List.replicate_add]
    simp

/-- The allocation of the driver object when every attempt succeeds. -/
theorem alloc_driver_obj_res (config : eth_mac_config_t) (l : esp_emac_locals)
    (out_e : Option emac_esp32_obj) (out_d : Option Nat) :
    ∃ t, esp_emac_alloc_driver_obj h resEnv config out_e out_d
        { emac := l,
          dev := { script := List.replicate (esp_emac_alloc_count h) true ++ rest, next := n,
                   acquired := a, released := r, enabled := en, disabled := di, xtal := x },
          trace := tr } =
      ((ESP_OK, some (esp_emac_allocated_obj h n), some (n + 1)),
        { emac := l,
          dev := { script := rest, next := esp_emac_task_id h n + 1,
                   acquired := a ++ [n, n + 1] ++ esp_emac_rx_ids h n ++ esp_emac_tx_ids h n ++
                     esp_emac_pm_ids h n ++ [esp_emac_task_id h n],
                   released := r, enabled := en, disabled := di, xtal := x },
          trace := t }) := by
  rw [alloc_script_eq]
  cases hpm : h.CONFIG_PM_ENABLE <;>
  by_cases hcore : config.flags &&& h.ETH_MAC_FLAG_PIN_TO_CORE ≠ 0 <;>
  by_cases hflag : config.flags &&& h.ETH_MAC_FLAG_WORK_WITH_CACHE_DISABLE ≠ 0 <;>
  · apply Exists.intro
    simp only [esp_emac_alloc_driver_obj, esp_emac_alloc_driver_obj_body, Blk.bind_def, Blk.bind,
      call, hflag, ne_eq, if_true, if_false, not_false_eq_true, not_true_eq_false,
      Option.map_some', ESP_GOTO_ON_FALSE, Option.isSome_some,
      Blk.pure, heap_caps_calloc_res, calloc_res]
    rw [alloc_rx_bufs_res0 h _ _ _ _ _ _ _ _ _ _ (by simp [emac_esp32_obj_zero])]
    simp only []
    rw [alloc_tx_bufs_res0 h _ _ _ _ _ _ _ _ _ _ (by simp [emac_esp32_obj_zero])]
    simp [hcore, Blk.pure, Blk.bind, call, xTaskCreatePinnedToCore, cpu_hal_get_core_id, emit,
      esp_pm_lock_create, ESP_GOTO_ON_ERROR, ESP_GOTO_ON_FALSE,
      resEnv, Res.acquire, set_emac, esp_emac_allocated_obj, emac_esp32_obj_zero,
      esp_emac_rx_ids, esp_emac_tx_ids, esp_emac_pm_ids, esp_emac_task_id, hpm, Nat.add_assoc]
    rfl

end res_alloc

section res_new_esp32
variable (h : emac_esp32_h) (rest : List Bool) (n : Nat) (a r : List Nat)
  (en di : Nat) (x : rtc_xtal_freq_t) (tr : List Ev)

/-- The release of a driver object whose resources were all taken. -/
theorem free_driver_obj_res (l : esp_emac_locals) (s : Res) (intr : Option Nat) :
    (esp_emac_free_driver_obj h resEnv (some { esp_emac_allocated_obj h n with intr_hdl := intr })
        (some (n + 1)) { emac := l, dev := s, trace := tr }).2.dev =
      { s with released := s.released ++ [esp_emac_task_id h n] ++ intr.toList ++
          esp_emac_tx_ids h n ++ esp_emac_rx_ids h n ++ esp_emac_pm_ids h n ++ [n, n + 1] } := by
  have htx : (esp_emac_tx_ids h n).length = h.CONFIG_ETH_DMA_TX_BUFFER_NUM := by
    simp [esp_emac_tx_ids]
  have hrx : (esp_emac_rx_ids h n).length = h.CONFIG_ETH_DMA_RX_BUFFER_NUM := by
    simp [esp_emac_rx_ids]
  have hv : ∀ (p : Nat) (l : esp_emac_locals) (s : Res) (tr : List Ev),
      vTaskDelete resEnv p { emac := l, dev := s, trace := tr } =
        ((), { emac := l, dev := { s with released := s.released ++ [p] },
               trace := tr ++ [Ev.new_esp32 (NewEv.vTaskDelete p)] }) := by
    intro p l s tr
    simp [vTaskDelete, emit, resEnv, Res.release]
  have hi : ∀ (p : Nat) (l : esp_emac_locals) (s : Res) (tr : List Ev),
      esp_intr_free resEnv p { emac := l, dev := s, trace := tr } =
        ((), { emac := l, dev := { s with released := s.released ++ [p] },
               trace := tr ++ [Ev.new_esp32 (NewEv.esp_intr_free p)] }) := by
    intro p l s tr
    simp [esp_intr_free, emit, resEnv, Res.release]
  have hd : ∀ (p : Nat) (l : esp_emac_locals) (s : Res) (tr : List Ev),
      esp_pm_lock_delete resEnv p { emac := l, dev := s, trace := tr } =
        ((), { emac := l, dev := { s with released := s.released ++ [p] },
               trace := tr ++ [Ev.new_esp32 (NewEv.esp_pm_lock_delete p)] }) := by
    intro p l s tr
    simp [esp_pm_lock_delete, emit, resEnv, Res.release]
  cases hpm : h.CONFIG_PM_ENABLE <;> cases intr <;>
    simp [esp_emac_free_driver_obj, esp_emac_allocated_obj, hv, hi, hd,
      free_bufs_res0 _ _ _ _ _ htx, free_bufs_res0 _ _ _ _ _ hrx, free_ptr_res, hpm,
      esp_emac_pm_ids, emac_esp32_obj_zero, List.append_assoc]

end res_new_esp32

/-- C22: `esp_eth_mac_new_esp32` on the environment that records the resources, from a state
in which every attempt of `esp_emac_alloc_driver_obj` succeeds. When `esp_intr_alloc` then
fails the result is `NULL`, the driver object, the descriptors, the RX and TX buffers, the
PM lock and the worker task are each released once, and the peripheral module, enabled
once, is not disabled: the jump goes to `err`, past `periph_module_disable`. When
`esp_intr_alloc` succeeds and the data interface of the configuration is neither MII nor
RMII the result is `NULL`, the interrupt is released as well, and the module is disabled
once. -/
theorem new_esp32_intr_alloc_failure (h : emac_esp32_h) (config : eth_mac_config_t)
    (l : esp_emac_locals) (rest : List Bool) (n : Nat) (a r : List Nat) (en di : Nat)
    (x : rtc_xtal_freq_t) (tr : List Ev) :
    ((esp_eth_mac_new_esp32 h resEnv (some config)
        { emac := l,
          dev := { script := List.replicate (esp_emac_alloc_count h) true ++ false :: rest,
                   next := n, acquired := a, released := r, enabled := en, disabled := di,
                   xtal := x },
          trace := tr }).1 = none ∧
     (esp_eth_mac_new_esp32 h resEnv (some config)
        { emac := l,
          dev := { script := List.replicate (esp_emac_alloc_count h) true ++ false :: rest,
                   next := n, acquired := a, released := r, enabled := en, disabled := di,
                   xtal := x },
          trace := tr }).2.dev =
      { script := rest, next := esp_emac_task_id h n + 1,
        acquired := a ++ [n, n + 1] ++ esp_emac_rx_ids h n ++ esp_emac_tx_ids h n ++
          esp_emac_pm_ids h n ++ [esp_emac_task_id h n],
        released := r ++ [esp_emac_task_id h n] ++ esp_emac_tx_ids h n ++ esp_emac_rx_ids h n ++
          esp_emac_pm_ids h n ++ [n, n + 1],
        enabled := en + 1, disabled := di, xtal := x }) ∧
    (∀ v, config.interface = eth_data_interface_t.unknown v →
     (esp_eth_mac_new_esp32 h resEnv (some config)
        { emac := l,
          dev := { script := List.replicate (esp_emac_alloc_count h) true ++ true :: rest,
                   next := n, acquired := a, released := r, enabled := en, disabled := di,
                   xtal := x },
          trace := tr }).1 = none ∧
     (esp_eth_mac_new_esp32 h resEnv (some config)
        { emac := l,
          dev := { script := List.replicate (esp_emac_alloc_count h) true ++ true :: rest,
                   next := n, acquired := a, released := r, enabled := en, disabled := di,
                   xtal := x },
          trace := tr }).2.dev =
      { script := rest, next := esp_emac_task_id h n + 2,
        acquired := a ++ [n, n + 1] ++ esp_emac_rx_ids h n ++ esp_emac_tx_ids h n ++
          esp_emac_pm_ids h n ++ [esp_emac_task_id h n] ++ [esp_emac_task_id h n + 1],
        released := r ++ [esp_emac_task_id h n] ++ [esp_emac_task_id h n + 1] ++
          esp_emac_tx_ids h n ++ esp_emac_rx_ids h n ++ esp_emac_pm_ids h n ++ [n, n + 1],
        enabled := en + 1, disabled := di + 1, xtal := x }) := by
  have hen : ∀ (l : esp_emac_locals) (s : Res) (tr : List Ev),
      new_effect resEnv (Ev.new_esp32 NewEv.periph_module_enable) { emac := l, dev := s, trace := tr } =
        ((), { emac := l, dev := { s with enabled := s.enabled + 1 },
               trace := tr ++ [Ev.new_esp32 NewEv.periph_module_enable] }) := by
    intro l s tr
    simp [new_effect, emit, resEnv]
  have hdis : ∀ (l : esp_emac_locals) (s : Res) (tr : List Ev),
      new_effect resEnv Ev.periph_module_disable { emac := l, dev := s, trace := tr } =
        ((), { emac := l, dev := { s with disabled := s.disabled + 1 },
               trace := tr ++ [Ev.periph_module_disable] }) := by
    intro l s tr
    simp [new_effect, emit, resEnv]
  have hhal : ∀ (d : Option Nat) (rx tx : List (Option Nat)) (l : esp_emac_locals) (s : Res)
      (tr : List Ev),
      new_effect resEnv (Ev.new_esp32 (NewEv.emac_hal_init d rx tx))
          { emac := l, dev := s, trace := tr } =
        ((), { emac := l, dev := s, trace := tr ++ [Ev.new_esp32 (NewEv.emac_hal_init d rx tx)] }) := by
    intro d rx tx l s tr
    simp [new_effect, emit, resEnv]
  have hintr_fail : ∀ (b : Bool) (em : emac_esp32_obj) (d : Option Nat) (sc : List Bool)
      (n : Nat) (a r : List Nat) (en di : Nat) (tr : List Ev), em.intr_hdl = none →
      esp_intr_alloc resEnv b
          { emac := { emac := some em, descriptors := d },
            dev := { script := false :: sc, next := n, acquired := a, released := r,
                     enabled := en, disabled := di, xtal := x },
            trace := tr } =
        (ESP_ERR_NO_MEM,
          { emac := { emac := some em, descriptors := d },
            dev := { script := sc, next := n, acquired := a, released := r,
                     enabled := en, disabled := di, xtal := x },
            trace := tr ++ [Ev.new_esp32 (NewEv.esp_intr_alloc b)] }) := by
    intro b em d sc n a r en di tr hem
    simp [esp_intr_alloc, emit, resEnv, Res.acquire, set_emac, hem]
    rw [← hem]
  have hintr_ok : ∀ (b : Bool) (em : emac_esp32_obj) (d : Option Nat) (sc : List Bool)
      (n : Nat) (a r : List Nat) (en di : Nat) (tr : List Ev),
      esp_intr_alloc resEnv b
          { emac := { emac := some em, descriptors := d },
            dev := { script := true :: sc, next := n, acquired := a, released := r,
                     enabled := en, disabled := di, xtal := x },
            trace := tr } =
        (ESP_OK,
          { emac := { emac := some { em with intr_hdl := some n }, descriptors := d },
            dev := { script := sc, next := n + 1, acquired := a ++ [n], released := r,
                     enabled := en, disabled := di, xtal := x },
            trace := tr ++ [Ev.new_esp32 (NewEv.esp_intr_alloc b)] }) := by
    intro b em d sc n a r en di tr
    simp [esp_intr_alloc, emit, resEnv, Res.acquire, set_emac]
  have hfree := fun l s intr tr => free_driver_obj_res h n tr l s intr
  refine ⟨?_, ?_⟩
  · obtain ⟨t, ht⟩ := alloc_driver_obj_res h (false :: rest) n a r en di x tr config
      { emac := none, descriptors := none } none none
    simp only [esp_eth_mac_new_esp32, ht, ne_eq, not_true_eq_false, if_false, hen, hhal,
      Option.map_some', Option.getD_some]
    rw [hintr_fail _ _ _ _ _ _ _ _ _ _ (by simp [esp_emac_allocated_obj, emac_esp32_obj_zero])]
    simp only [reduceCtorEq, not_false_eq_true, if_true, esp_eth_mac_new_esp32_err]
    have h0 : ({ esp_emac_allocated_obj h n with intr_hdl := none } : emac_esp32_obj) =
        esp_emac_allocated_obj h n := rfl
    have hf := hfree
      { emac := some (esp_emac_allocated_obj h n), descriptors := some (n + 1) }
      { script := rest, next := esp_emac_task_id h n + 1,
        acquired := a ++ [n, n + 1] ++ esp_emac_rx_ids h n ++ esp_emac_tx_ids h n ++
          esp_emac_pm_ids h n ++ [esp_emac_task_id h n],
        released := r, enabled := en + 1, disabled := di, xtal := x } none
    rw [h0] at hf
    rw [hf]
    simp
  · intro v hv
    obtain ⟨t, ht⟩ := alloc_driver_obj_res h (true :: rest) n a r en di x tr config
      { emac := none, descriptors := none } none none
    have hcfg : ∀ w : World esp_emac_locals Res,
        esp_emac_config_data_interface h resEnv config w = (ESP_ERR_INVALID_ARG, w) := by
      intro w
      simp [esp_emac_config_data_interface, hv, Blk.ret, ESP_GOTO_ON_FALSE, goto_err]
    simp only [esp_eth_mac_new_esp32, ht, ne_eq, not_true_eq_false, if_false, hen, hhal,
      Option.map_some', Option.getD_some, hintr_ok, hcfg, reduceCtorEq, not_false_eq_true, if_true,
      esp_eth_mac_new_esp32_err_interf, esp_eth_mac_new_esp32_err, hdis]
    have hf := hfree
      { emac := some { esp_emac_allocated_obj h n with intr_hdl := some (esp_emac_task_id h n + 1) },
        descriptors := some (n + 1) }
      { script := rest, next := esp_emac_task_id h n + 1 + 1,
        acquired := a ++ [n, n + 1] ++ esp_emac_rx_ids h n ++ esp_emac_tx_ids h n ++
          esp_emac_pm_ids h n ++ [esp_emac_task_id h n] ++ [esp_emac_task_id h n + 1],
        released := r, enabled := en + 1, disabled := di + 1, xtal := x }
      (some (esp_emac_task_id h n + 1))
    rw [hf]
    simp

/-- With the default configuration, 23 attempts that succeed and a failing `esp_intr_alloc`:
the result is `NULL`, the 23 resources are released, the module stays enabled. -/
theorem new_esp32_intr_alloc_failure_witness :
    (esp_eth_mac_new_esp32 emac_esp32_h_sample resEnv (some eth_mac_config_sample)
        (res_world (List.replicate 23 true ++ [false]))).1 = none ∧
    (esp_eth_mac_new_esp32 emac_esp32_h_sample resEnv (some eth_mac_config_sample)
        (res_world (List.replicate 23 true ++ [false]))).2.dev =
      { script := [], next := 24,
        acquired := [1, 2, 3, 4, 5, 6, 7, 8, 9, 10, 11, 12, 13, 14, 15, 16, 17, 18, 19, 20, 21,
          22, 23],
        released := [23, 13, 14, 15, 16, 17, 18, 19, 20, 21, 22, 3, 4, 5, 6, 7, 8, 9, 10, 11, 12,
          1, 2],
        enabled := 1, disabled := 0, xtal := rtc_xtal_freq_t.RTC_XTAL_FREQ_40M } := by
  have e1 : res_world (List.replicate 23 true ++ [false]) =
      { emac := { emac := none, descriptors := none },
        dev := { script := List.replicate (esp_emac_alloc_count emac_esp32_h_sample) true ++
                   false :: [],
                 next := 1, acquired := [], released := [], enabled := 0, disabled := 0,
                 xtal := rtc_xtal_freq_t.RTC_XTAL_FREQ_40M },
        trace := [] } := rfl
  rw [e1]
  exact ⟨(new_esp32_intr_alloc_failure emac_esp32_h_sample eth_mac_config_sample
      { emac := none, descriptors := none } [] 1 [] [] 0 0
      rtc_xtal_freq_t.RTC_XTAL_FREQ_40M []).1.1,
    (new_esp32_intr_alloc_failure emac_esp32_h_sample eth_mac_config_sample
      { emac := none, descriptors := none } [] 1 [] [] 0 0
      rtc_xtal_freq_t.RTC_XTAL_FREQ_40M []).1.2.trans (by decide)⟩

/-! ## C21: the errors of the bus accesses -/

section stops_lemmas
variable {ε σ : Type} (R : esp_err_t → esp_err_t → Prop)

theorem stops_mono {β : Type} (R2 : esp_err_t → esp_err_t → Prop) (hR : ∀ e s, R e s → R2 e s)
    (status : β → esp_err_t)
    (f : World ε (σ × List esp_err_t) → β × World ε (σ × List esp_err_t))
    (hf : stops_at_failure R status f) : stops_at_failure R2 status f := by
  intro w
  obtain ⟨l, hl, hs⟩ := hf w
  refine ⟨l, hl, ?_⟩
  rcases hs with hs | ⟨l0, e, h1, h2, h3, h4⟩
  · exact Or.inl hs
  · exact Or.inr ⟨l0, e, h1, h2, h3, hR _ _ h4⟩

variable (hR : ∀ e, e ≠ ESP_OK → ¬ R e ESP_OK)
include hR

end stops_lemmas

section stops_dm9051
variable {σ : Type} (c : dm9051_h) (env : Dm9051Env σ)

end stops_dm9051

section stops_ops
variable {σ : Type} (c : dm9051_h) (env : Dm9051Env σ)

end stops_ops

section stops_ops2
variable {σ : Type} (c : dm9051_h) (env : Dm9051Env σ)

end stops_ops2

section stops_ops3
variable {σ : Type} (c : dm9051_h) (env : Dm9051Env σ)

end stops_ops3

section stops_receive
variable {σ : Type} (c : dm9051_h) (env : Dm9051Env σ)

end stops_receive

section bus_error_lemmas
variable {ε σ : Type}

end bus_error_lemmas

section bus_error_dm9051
variable {σ : Type} (c : dm9051_h) (env : Dm9051Env σ)

end bus_error_dm9051

section skip_failed
variable {σ : Type} (c : dm9051_h) (env : Dm9051Env σ)

end skip_failed

theorem setup_default_script (c : dm9051_h) (e : emac_dm9051_t) (cl : List Int) (hp : List Bool)
    (stk : List esp_err_t) (tr : List Ev) (rest : List BusResp) :
    ∃ t, dm9051_setup_default c scriptEnv
        { emac := e,
          dev := { bus := List.replicate 13 (BusResp.ok []) ++ rest, clock := cl, heap := hp,
                   stack := stk },
          trace := tr } =
      (ESP_OK, { emac := e, dev := { bus := rest, clock := cl, heap := hp, stack := stk },
                 trace := t }) := by
  apply Exists.intro
  simp only [dm9051_setup_default, List.replicate, List.cons_append, List.nil_append, Blk.ret,
    Blk.bind_def, Blk.bind, ESP_GOTO_ON_ERROR, register_write_ok]
  rfl

theorem clear_multicast_table_script (c : dm9051_h) (e : emac_dm9051_t) (cl : List Int)
    (hp : List Bool) (stk : List esp_err_t) (tr : List Ev) (rest : List BusResp) :
    ∃ t, dm9051_clear_multicast_table c scriptEnv
        { emac := e,
          dev := { bus := List.replicate 9 (BusResp.ok []) ++ rest, clock := cl, heap := hp,
                   stack := stk },
          trace := tr } =
      (ESP_OK, { emac := e, dev := { bus := rest, clock := cl, heap := hp, stack := stk },
                 trace := t }) := by
  apply Exists.intro
  simp only [dm9051_clear_multicast_table, dm9051_clear_multicast_table_loop, List.replicate,
    List.cons_append, List.nil_append, Blk.ret, Blk.bind_def, Blk.bind, ESP_GOTO_ON_ERROR,
    register_write_ok, Blk.pure, Nat.lt_irrefl, if_false, if_true, Nat.reduceLT, Nat.reduceAdd]
  rfl

/-- The initialisation on a script on which every step succeeds: the result is `ESP_OK` and
the cached station address is made of the six bytes read from the PAR registers. -/
theorem init_script_success (c : dm9051_h) (e : emac_dm9051_t) (cl : List Int) (hp : List Bool)
    (stk : List esp_err_t) (tr : List Ev) (rest : List BusResp) (busy : List Nat) (d : Nat)
    (b0 b1 b2 b3 b4 b5 : Nat) (he : e.addr.length = 6)
    (hT : e.sw_reset_timeout_ms < 4294967296)
    (hbusy : ∀ b ∈ busy, b < 256 ∧ b &&& c.NCR_RST ≠ 0)
    (hk : busy.length < e.sw_reset_timeout_ms / 10) (hd : d < 256) (hd2 : d &&& c.NCR_RST = 0)
    (h0 : b0 < 256) (h1 : b1 < 256) (h2 : b2 < 256) (h3 : b3 < 256) (h4 : b4 < 256) (h5 : b5 < 256) :
    ∃ t, emac_dm9051_init c scriptEnv
        { emac := e,
          dev := { bus := BusResp.ok [] :: BusResp.ok [] ::
                     (busy.map (fun b => BusResp.ok [b]) ++ BusResp.ok [d] ::
                       (BusResp.ok [0x46] :: BusResp.ok [0x0A] :: BusResp.ok [0x51] ::
                         BusResp.ok [0x90] ::
                         (List.replicate 13 (BusResp.ok []) ++ (List.replicate 9 (BusResp.ok []) ++
                           (BusResp.ok [b0] :: BusResp.ok [b1] :: BusResp.ok [b2] ::
                             BusResp.ok [b3] :: BusResp.ok [b4] :: BusResp.ok [b5] :: rest))))),
                   clock := cl, heap := hp, stack := stk },
          trace := tr } =
      (ESP_OK,
        { emac := { e with addr := [b0, b1, b2, b3, b4, b5] },
          dev := { bus := rest, clock := cl, heap := hp, stack := stk },
          trace := t }) := by
  have hg : ∀ (d : Script) (tr : List Ev), ∃ t,
      emac_dm9051_init_gpio scriptEnv { emac := e, dev := d, trace := tr } =
        ((), { emac := e, dev := d, trace := t }) := by
    intro d tr
    apply Exists.intro
    simp only [emac_dm9051_init_gpio, effect_script]
    rfl
  obtain ⟨t0, ht0⟩ := hg
    { bus := BusResp.ok [] :: BusResp.ok [] ::
        (busy.map (fun b => BusResp.ok [b]) ++ BusResp.ok [d] ::
          (BusResp.ok [0x46] :: BusResp.ok [0x0A] :: BusResp.ok [0x51] :: BusResp.ok [0x90] ::
            (List.replicate 13 (BusResp.ok []) ++ (List.replicate 9 (BusResp.ok []) ++
              (BusResp.ok [b0] :: BusResp.ok [b1] :: BusResp.ok [b2] ::
                BusResp.ok [b3] :: BusResp.ok [b4] :: BusResp.ok [b5] :: rest))))),
      clock := cl, heap := hp, stack := stk } tr
  rw [init_eq_run_until_error, ht0]
  simp only [emac_dm9051_init_steps, emac_dm9051_init_chip_steps, run_until_error,
    on_state_changed_script, if_true]
  rw [(reset_script c e cl hp stk _ [] [] busy hT hbusy).1 _ d hk hd hd2]
  simp only [if_true]
  rw [(verify_id_script c e cl hp stk _ 0x46 0x0A (by decide) (by decide)).2 _ 0x51 0x90
    (by decide) (by decide) ⟨rfl, rfl⟩]
  simp only [and_self, if_true]
  obtain ⟨t1, ht1⟩ := setup_default_script c e cl hp stk
    (t0 ++ [Ev.on_state_changed esp_eth_state_t.ETH_STATE_LLINIT] ++
      ev_register_write c c.DM9051_GPR 0x00 ++ [Ev.vTaskDelay 10] ++
      ev_register_write c c.DM9051_NCR (c.NCR_RST % 256) ++
      dm9051_reset_poll_trace c busy.length ++ ev_register_read c c.DM9051_NCR ++
      ev_register_read c c.DM9051_VIDL ++ ev_register_read c c.DM9051_VIDH ++
      ev_register_read c c.DM9051_PIDL ++ ev_register_read c c.DM9051_PIDH)
    (List.replicate 9 (BusResp.ok []) ++
      (BusResp.ok [b0] :: BusResp.ok [b1] :: BusResp.ok [b2] ::
        BusResp.ok [b3] :: BusResp.ok [b4] :: BusResp.ok [b5] :: rest))
  rw [ht1]
  simp only [if_true]
  obtain ⟨t2, ht2⟩ := clear_multicast_table_script c e cl hp stk t1
    (BusResp.ok [b0] :: BusResp.ok [b1] :: BusResp.ok [b2] ::
        BusResp.ok [b3] :: BusResp.ok [b4] :: BusResp.ok [b5] :: rest)
  rw [ht2]
  simp only [if_true]
  rw [get_mac_addr_script c e cl hp stk t2 rest b0 b1 b2 b3 b4 b5 he h0 h1 h2 h3 h4 h5]
  exact ⟨_, rfl⟩

/-- C23: `emac_dm9051_init` registers the interrupt GPIO (six calls of the GPIO driver), then
runs, in this order, the LowLevelInit notification, the software reset, the chip-ID check,
the default register setup, the multicast-table clear and the station-address read, up to the
first step that fails. When a step failed no later step runs, the statements under `err`
remove the interrupt handler, reset the pin and notify Deinit, and the result is that step's
error; when every step succeeded the result is `ESP_OK` and nothing under `err` runs. The
chip steps make only bus calls and task delays, so Deinit is notified exactly once on
failure and never on success. On a script on which every step succeeds the result is
`ESP_OK` and the cached station address is made of the six bytes read from the PAR
registers. -/
theorem init_step_order {σ : Type} (c : dm9051_h) (env : Dm9051Env σ)
    (w : World emac_dm9051_t σ) :
    (emac_dm9051_init_gpio env w).2.trace =
      w.trace ++ [Ev.esp_rom_gpio_pad_select_gpio w.emac.int_gpio_num,
        Ev.gpio_set_direction w.emac.int_gpio_num gpio_mode_t.GPIO_MODE_INPUT,
        Ev.gpio_set_pull_mode w.emac.int_gpio_num, Ev.gpio_set_intr_type w.emac.int_gpio_num,
        Ev.gpio_intr_enable w.emac.int_gpio_num, Ev.gpio_isr_handler_add w.emac.int_gpio_num] ∧
    emac_dm9051_init c env w =
      (if (run_until_error (emac_dm9051_init_steps c env) (emac_dm9051_init_gpio env w).2).1 = ESP_OK
      then (ESP_OK, (run_until_error (emac_dm9051_init_steps c env) (emac_dm9051_init_gpio env w).2).2)
      else ((run_until_error (emac_dm9051_init_steps c env) (emac_dm9051_init_gpio env w).2).1,
        (emac_dm9051_init_err env
          (run_until_error (emac_dm9051_init_steps c env) (emac_dm9051_init_gpio env w).2).2).2)) ∧
    (∃ l, (run_until_error (emac_dm9051_init_steps c env) (emac_dm9051_init_gpio env w).2).2.trace =
        (emac_dm9051_init_gpio env w).2.trace ++
          Ev.on_state_changed esp_eth_state_t.ETH_STATE_LLINIT :: l ∧
      ∀ ev ∈ l, Ev.is_bus_or_delay ev = true) ∧
    (∀ w1 : World emac_dm9051_t σ, (emac_dm9051_init_err env w1).2.trace =
      w1.trace ++ [Ev.gpio_isr_handler_remove w1.emac.int_gpio_num,
        Ev.gpio_reset_pin w1.emac.int_gpio_num,
        Ev.on_state_changed esp_eth_state_t.ETH_STATE_DEINIT]) ∧
    (emac_dm9051_init c env w).2.trace.count (Ev.on_state_changed esp_eth_state_t.ETH_STATE_DEINIT) =
      w.trace.count (Ev.on_state_changed esp_eth_state_t.ETH_STATE_DEINIT) +
        (if (emac_dm9051_init c env w).1 = ESP_OK then 0 else 1) ∧
    (∀ (e : emac_dm9051_t) (cl : List Int) (hp : List Bool) (stk : List esp_err_t) (tr : List Ev)
      (rest : List BusResp) (busy : List Nat) (d b0 b1 b2 b3 b4 b5 : Nat), e.addr.length = 6 →
      e.sw_reset_timeout_ms < 4294967296 → (∀ b ∈ busy, b < 256 ∧ b &&& c.NCR_RST ≠ 0) →
      busy.length < e.sw_reset_timeout_ms / 10 → d < 256 → d &&& c.NCR_RST = 0 →
      b0 < 256 → b1 < 256 → b2 < 256 → b3 < 256 → b4 < 256 → b5 < 256 →
      ((emac_dm9051_init c scriptEnv
          (init_script_world e cl hp stk tr busy d [b0, b1, b2, b3, b4, b5] rest)).1 = ESP_OK ∧
       (emac_dm9051_init c scriptEnv
          (init_script_world e cl hp stk tr busy d [b0, b1, b2, b3, b4, b5] rest)).2.emac.addr =
         [b0, b1, b2, b3, b4, b5] ∧
       (emac_dm9051_init c scriptEnv
          (init_script_world e cl hp stk tr busy d [b0, b1, b2, b3, b4, b5] rest)).2.dev.bus =
         rest)) := by
  refine ⟨init_gpio_trace env w, init_eq_run_until_error c env w, init_steps_trace c env _,
    init_err_trace env, ?_, ?_⟩
  · obtain ⟨l, hl, hl2⟩ := init_steps_trace c env (emac_dm9051_init_gpio env w).2
    have hc : l.count (Ev.on_state_changed esp_eth_state_t.ETH_STATE_DEINIT) = 0 := by
      apply List.count_eq_zero_of_not_mem
      intro hm
      exact absurd (hl2 _ hm) (by decide)
    rw [init_eq_run_until_error]
    by_cases hr : (run_until_error (emac_dm9051_init_steps c env)
        (emac_dm9051_init_gpio env w).2).1 = ESP_OK
    · simp only [hr, if_true]
      rw [hl, init_gpio_trace]
      simp [List.count_append, List.count_cons, hc]
    · simp only [hr, if_false]
      rw [init_err_trace, hl, init_gpio_trace]
      simp [List.count_append, List.count_cons, hc]
  · intro e cl hp stk tr rest busy d b0 b1 b2 b3 b4 b5 he hT hbusy hk hd hd2 h0 h1 h2 h3 h4 h5
    obtain ⟨t, ht⟩ := init_script_success c e cl hp stk tr rest busy d b0 b1 b2 b3 b4 b5 he hT
      hbusy hk hd hd2 h0 h1 h2 h3 h4 h5
    have hw : init_script_world e cl hp stk tr busy d [b0, b1, b2, b3, b4, b5] rest =
        { emac := e,
          dev := { bus := BusResp.ok [] :: BusResp.ok [] ::
                     (busy.map (fun b => BusResp.ok [b]) ++ BusResp.ok [d] ::
                       (BusResp.ok [0x46] :: BusResp.ok [0x0A] :: BusResp.ok [0x51] ::
                         BusResp.ok [0x90] ::
                         (List.replicate 13 (BusResp.ok []) ++ (List.replicate 9 (BusResp.ok []) ++
                           (BusResp.ok [b0] :: BusResp.ok [b1] :: BusResp.ok [b2] ::
                             BusResp.ok [b3] :: BusResp.ok [b4] :: BusResp.ok [b5] :: rest))))),
                   clock := cl, heap := hp, stack := stk },
          trace := tr } := by
      simp [init_script_world]
    rw [hw, ht]
    exact ⟨rfl, rfl, rfl⟩

/-- A chip that is busy at the first poll of the reset and whose PAR registers hold
00:60:6E:90:51:EE: the initialisation returns `ESP_OK` with this address cached. -/
theorem init_step_order_witness :
    (emac_dm9051_init dm9051_h_sample scriptEnv
        (init_script_world emac_dm9051_sample [] [] [] [] [1] 0
          [0x00, 0x60, 0x6E, 0x90, 0x51, 0xEE] [])).1 = ESP_OK ∧
    (emac_dm9051_init dm9051_h_sample scriptEnv
        (init_script_world emac_dm9051_sample [] [] [] [] [1] 0
          [0x00, 0x60, 0x6E, 0x90, 0x51, 0xEE] [])).2.emac.addr =
      [0x00, 0x60, 0x6E, 0x90, 0x51, 0xEE] ∧
    (emac_dm9051_init dm9051_h_sample scriptEnv
        (init_script_world emac_dm9051_sample [] [] [] [] [1] 0
          [0x00, 0x60, 0x6E, 0x90, 0x51, 0xEE] [])).2.dev.bus = [] :=
  (init_step_order dm9051_h_sample scriptEnv
    { emac := emac_dm9051_sample, dev := { bus := [], clock := [], heap := [], stack := [] },
      trace := [] }).2.2.2.2.2
    emac_dm9051_sample [] [] [] [] [] [1] 0 0x00 0x60 0x6E 0x90 0x51 0xEE (by decide)
    (by decide) (by decide) (by decide) (by decide) (by decide)
    (by decide) (by decide) (by decide) (by decide) (by decide) (by decide)

